import Mathlib

/-!
# Windows sandbox broker: policy derivation

A shallow embedding of `sandbox/win/src/sandboxbroker/sandboxBroker.cpp`.

The broker drives an external policy object (`sandbox::TargetPolicy`).  The
policy object is a collaborator: the broker only calls its operations and
looks at the result codes.  It is embedded as a recording object: every call
is appended to a log together with the result code the collaborator gave, and
the collaborator's answer is an arbitrary function of the call and of the
number of calls made before it.  Fatal assertions (`MOZ_RELEASE_ASSERT`, and `MOZ_ASSERT` in debug
builds) end a run with `Outcome.crashed`; the policy reached at that point is
kept, so that what had been applied before the crash can be inspected.
-/

namespace mozilla

/-! ## Enumerations of `security_level.h` and `sandbox_policy.h` -/

/-- Modelled from the spec: the enumeration `sandbox::JobLevel` of
`security_level.h`, which is not among the sources; the constructors are in
declaration order, the most restrictive first. -/
inductive JobLevel where
  | JOB_LOCKDOWN
  | JOB_RESTRICTED
  | JOB_LIMITED_USER
  | JOB_INTERACTIVE
  | JOB_UNPROTECTED
  | JOB_NONE
  deriving DecidableEq, Repr

/-- Modelled from the spec: the enumeration `sandbox::TokenLevel` of
`security_level.h`, which is not among the sources, in the order the
specification gives (`USER_LOCKDOWN` the smallest). -/
inductive TokenLevel where
  | USER_LOCKDOWN
  | USER_RESTRICTED
  | USER_LIMITED
  | USER_INTERACTIVE
  | USER_NON_ADMIN
  | USER_RESTRICTED_SAME_ACCESS
  | USER_UNPROTECTED
  deriving DecidableEq, Repr

/-- Modelled from the spec: the enumeration `sandbox::IntegrityLevel` of
`security_level.h`, which is not among the sources, in the order the
specification gives (`INTEGRITY_LEVEL_SYSTEM` the smallest). -/
inductive IntegrityLevel where
  | INTEGRITY_LEVEL_SYSTEM
  | INTEGRITY_LEVEL_HIGH
  | INTEGRITY_LEVEL_MEDIUM
  | INTEGRITY_LEVEL_MEDIUM_LOW
  | INTEGRITY_LEVEL_LOW
  | INTEGRITY_LEVEL_BELOW_LOW
  | INTEGRITY_LEVEL_UNTRUSTED
  deriving DecidableEq, Repr

/-- The integer value of a job level. -/
def JobLevel.val : JobLevel → Nat
  | JOB_LOCKDOWN => 0
  | JOB_RESTRICTED => 1
  | JOB_LIMITED_USER => 2
  | JOB_INTERACTIVE => 3
  | JOB_UNPROTECTED => 4
  | JOB_NONE => 5

/-- The integer value of a token level. -/
def TokenLevel.val : TokenLevel → Nat
  | USER_LOCKDOWN => 0
  | USER_RESTRICTED => 1
  | USER_LIMITED => 2
  | USER_INTERACTIVE => 3
  | USER_NON_ADMIN => 4
  | USER_RESTRICTED_SAME_ACCESS => 5
  | USER_UNPROTECTED => 6

/-- The integer value of an integrity level. -/
def IntegrityLevel.val : IntegrityLevel → Nat
  | INTEGRITY_LEVEL_SYSTEM => 0
  | INTEGRITY_LEVEL_HIGH => 1
  | INTEGRITY_LEVEL_MEDIUM => 2
  | INTEGRITY_LEVEL_MEDIUM_LOW => 3
  | INTEGRITY_LEVEL_LOW => 4
  | INTEGRITY_LEVEL_BELOW_LOW => 5
  | INTEGRITY_LEVEL_UNTRUSTED => 6

instance : LT TokenLevel := ⟨fun a b => a.val < b.val⟩

instance : LE TokenLevel := ⟨fun a b => a.val ≤ b.val⟩

instance (a b : TokenLevel) : Decidable (a < b) := inferInstanceAs (Decidable (a.val < b.val))

instance (a b : TokenLevel) : Decidable (a ≤ b) := inferInstanceAs (Decidable (a.val ≤ b.val))

instance : LT IntegrityLevel := ⟨fun a b => a.val < b.val⟩

instance : LE IntegrityLevel := ⟨fun a b => a.val ≤ b.val⟩

instance (a b : IntegrityLevel) : Decidable (a < b) := inferInstanceAs (Decidable (a.val < b.val))

instance (a b : IntegrityLevel) : Decidable (a ≤ b) := inferInstanceAs (Decidable (a.val ≤ b.val))

instance : LT JobLevel := ⟨fun a b => a.val < b.val⟩

instance : LE JobLevel := ⟨fun a b => a.val ≤ b.val⟩

instance (a b : JobLevel) : Decidable (a < b) := inferInstanceAs (Decidable (a.val < b.val))

instance (a b : JobLevel) : Decidable (a ≤ b) := inferInstanceAs (Decidable (a.val ≤ b.val))

/-- The single-bit mitigation flags of `security_level.h` that the broker
names.  A `sandbox::MitigationFlags` word is embedded as the set of the flags
whose bit is set: `|` is union and `flags & F` is membership of `F`. -/
inductive Mitigation where
  | MITIGATION_DEP
  | MITIGATION_DEP_NO_ATL_THUNK
  | MITIGATION_SEHOP
  | MITIGATION_HEAP_TERMINATE
  | MITIGATION_BOTTOM_UP_ASLR
  | MITIGATION_STRICT_HANDLE_CHECKS
  | MITIGATION_WIN32K_DISABLE
  | MITIGATION_EXTENSION_POINT_DISABLE
  | MITIGATION_DYNAMIC_CODE_DISABLE
  | MITIGATION_NONSYSTEM_FONT_DISABLE
  | MITIGATION_FORCE_MS_SIGNED_BINS
  | MITIGATION_IMAGE_LOAD_NO_REMOTE
  | MITIGATION_IMAGE_LOAD_NO_LOW_LABEL
  | MITIGATION_IMAGE_LOAD_PREFER_SYS32
  | MITIGATION_DLL_SEARCH_ORDER
  | MITIGATION_HARDEN_TOKEN_IL_POLICY
  | MITIGATION_CONTROL_FLOW_GUARD_DISABLE
  deriving DecidableEq, Repr

/-- A word of mitigation flags, as the set of flags that are set. -/
abbrev MitigationFlags := Finset Mitigation

/-- The subsystems of `sandbox::TargetPolicy::SubSystem` the broker uses. -/
inductive SubSystem where
  | SUBSYS_FILES
  | SUBSYS_NAMED_PIPES
  | SUBSYS_PROCESS
  | SUBSYS_REGISTRY
  | SUBSYS_SYNC
  | SUBSYS_HANDLES
  | SUBSYS_WIN32K_LOCKDOWN
  deriving DecidableEq, Repr

/-- The access kinds of `sandbox::TargetPolicy::Semantics` the broker uses. -/
inductive Semantics where
  | FILES_ALLOW_ANY
  | FILES_ALLOW_READONLY
  | FILES_ALLOW_QUERY
  | FILES_ALLOW_DIR_ANY
  | HANDLES_DUP_ANY
  | HANDLES_DUP_BROKER
  | NAMEDPIPES_ALLOW_ANY
  | PROCESS_MIN_EXEC
  | EVENTS_ALLOW_ANY
  | EVENTS_ALLOW_READONLY
  | REG_ALLOW_READONLY
  | REG_ALLOW_ANY
  | FAKE_USER_GDI_INIT
  | IMPLEMENT_OPM_APIS
  deriving DecidableEq, Repr

/-- A result code of the sandbox engine; only `SBOX_ALL_OK` is told apart. -/
abbrev ResultCode := Nat

/-- The success code. -/
def SBOX_ALL_OK : ResultCode := 0

/-- A string of the broker (`nsString`, `std::wstring`, a wide literal): the
sequence of its characters. -/
abbrev nsString := List Char

/-- The UI exception `JOB_OBJECT_UILIMIT_HANDLES` of the Windows headers. -/
def JOB_OBJECT_UILIMIT_HANDLES : Nat := 1

/-! ## The policy object -/

/-- One call on the policy object, with its arguments.  The pattern of
`AddRule` is `none` for a null pointer. -/
inductive PolicyCall where
  | SetJobLevel (aJobLevel : JobLevel) (aUiExceptions : Nat)
  | SetTokenLevel (initial : TokenLevel) (lockdown : TokenLevel)
  | SetIntegrityLevel (level : IntegrityLevel)
  | SetDelayedIntegrityLevel (level : IntegrityLevel)
  | SetLockdownDefaultDacl
  | AddRestrictingRandomSid
  | SetAlternateDesktop (alternateWinstation : Bool)
  | SetProcessMitigations (flags : MitigationFlags)
  | SetDelayedProcessMitigations (flags : MitigationFlags)
  | AddRule (subsystem : SubSystem) (semantics : Semantics) (pattern : Option nsString)
  | SetEnableOPMRedirection
  | SetDoNotUseRestrictingSIDs
  | SetStdoutHandle
  | SetStderrHandle
  deriving DecidableEq

/-- A call that was made, with the result code it returned (calls without a
result are recorded with `SBOX_ALL_OK`). -/
structure LoggedCall where
  call : PolicyCall
  result : ResultCode
  deriving DecidableEq

/-- Modelled from the spec: the policy object `sandbox::TargetPolicy`, an
external collaborator with setters that return a result code and `AddRule`.
`respond n c` is the collaborator's answer to the call `c` when `n` calls were
made before it; `log` holds every call made, oldest first; `mitigations` is
what `GetProcessMitigations` returns, the flags last accepted by
`SetProcessMitigations`. -/
structure TargetPolicy where
  respond : Nat → PolicyCall → ResultCode
  log : List LoggedCall
  mitigations : MitigationFlags

/-- How a run of a broker procedure ends: it returns a value, or a fatal
assertion stops the process. -/
inductive Outcome (α : Type) where
  | returned (a : α)
  | crashed
  deriving DecidableEq, Repr

/-- A broker procedure: from the policy object before the run, how the run
ends and the policy object after it. -/
def Broker (α : Type) : Type := TargetPolicy → Outcome α × TargetPolicy

/-- Sequencing: a crash stops the run. -/
def Broker.bind {α β : Type} (x : Broker α) (f : α → Broker β) : Broker β :=
  fun p => match x p with
    | (Outcome.returned a, q) => f a q
    | (Outcome.crashed, q) => (Outcome.crashed, q)

instance : Monad Broker where
  pure a := fun p => (Outcome.returned a, p)
  bind := Broker.bind

/-- A call with a result code: the collaborator answers, the call is logged. -/
def TargetPolicy.invoke (c : PolicyCall) : Broker ResultCode :=
  fun p => (Outcome.returned (p.respond p.log.length c),
    { p with log := p.log ++ [⟨c, p.respond p.log.length c⟩] })

/-- A call without a result. -/
def TargetPolicy.invokeVoid (c : PolicyCall) : Broker Unit :=
  fun p => (Outcome.returned (), { p with log := p.log ++ [⟨c, SBOX_ALL_OK⟩] })

/-- The getter `GetProcessMitigations`. -/
def TargetPolicy.GetProcessMitigations : Broker MitigationFlags :=
  fun p => (Outcome.returned p.mitigations, p)

/-- The setter `SetProcessMitigations`: an accepted word becomes the one
`GetProcessMitigations` returns. -/
def TargetPolicy.SetProcessMitigations (flags : MitigationFlags) : Broker ResultCode :=
  fun p =>
    let r := p.respond p.log.length (PolicyCall.SetProcessMitigations flags)
    (Outcome.returned r,
      { p with log := p.log ++ [⟨PolicyCall.SetProcessMitigations flags, r⟩],
               mitigations := if r = SBOX_ALL_OK then flags else p.mitigations })

/-- The rules the policy object accepted, oldest first. -/
def TargetPolicy.rules (p : TargetPolicy) : List (SubSystem × Semantics × Option nsString) :=
  p.log.filterMap fun e =>
    match e.call with
    | PolicyCall.AddRule s a pat => if e.result = SBOX_ALL_OK then some (s, a, pat) else none
    | _ => none

/-- `MOZ_RELEASE_ASSERT` of `mozilla/Assertions.h`: a false condition stops
the process in every build. -/
def MOZ_RELEASE_ASSERT (cond : Bool) : Broker Unit :=
  fun p => if cond then (Outcome.returned (), p) else (Outcome.crashed, p)

/-! ## The host: build configuration, environment facts and static state -/

/-- What the procedures read from outside their arguments: the build
configuration (`DEBUG`, `_M_ARM64`, `ENABLE_SYSTEM_EXTENSION_DIRS`), the
Windows version predicates, the static preferences, and the static variables
of the file. -/
structure Host where
  DEBUG : Bool
  M_ARM64 : Bool
  ENABLE_SYSTEM_EXTENSION_DIRS : Bool
  IsWin8OrLater : Bool
  IsWin10OrLater : Bool
  IsWin10Sep2018UpdateOrLater : Bool
  security_sandbox_content_win32k_disable : Bool
  security_sandbox_rdd_win32k_disable : Bool
  security_sandbox_socket_win32k_disable : Bool
  security_sandbox_gmp_win32k_disable : Bool
  sCanUseJob : Bool
  sRunningFromNetworkDrive : Bool
  sBinDir : Option nsString
  sProfileDir : Option nsString
  sContentTempDir : Option nsString
  sPluginTempDir : Option nsString
  sRoamingAppDataDir : Option nsString
  sLocalAppDataDir : Option nsString
  sUserExtensionsDevDir : Option nsString
  sUserExtensionsDir : Option nsString

/-- `MOZ_ASSERT` of `mozilla/Assertions.h`: a false condition stops the
process in a debug build (`DEBUG`), and the check is compiled out otherwise,
which is why `SANDBOX_ENSURE_SUCCESS` follows it with a `return false`. -/
def MOZ_ASSERT (h : Host) (cond : Bool) : Broker Unit :=
  fun p => if h.DEBUG && !cond then (Outcome.crashed, p) else (Outcome.returned (), p)

open Mitigation SubSystem Semantics JobLevel TokenLevel IntegrityLevel

/-! ## Helpers of the file -/

/-- `AddWin32kLockdownPolicy`: sets `MITIGATION_WIN32K_DISABLE` and then adds
the `SUBSYS_WIN32K_LOCKDOWN` rule. -/
def AddWin32kLockdownPolicy (h : Host) (aEnableOpm : Bool) : Broker ResultCode := do
  if !h.IsWin8OrLater then
    return SBOX_ALL_OK
  let flags ← TargetPolicy.GetProcessMitigations
  MOZ_ASSERT h (!(decide (MITIGATION_WIN32K_DISABLE ∈ flags)))
  let flags := flags ∪ {MITIGATION_WIN32K_DISABLE}
  let result ← TargetPolicy.SetProcessMitigations flags
  if result != SBOX_ALL_OK then
    return result
  let result ← TargetPolicy.invoke
    (PolicyCall.AddRule SUBSYS_WIN32K_LOCKDOWN
      (if aEnableOpm then IMPLEMENT_OPM_APIS else FAKE_USER_GDI_INIT) none)
  if result != SBOX_ALL_OK then
    return result
  (if aEnableOpm then
      TargetPolicy.invokeVoid PolicyCall.SetEnableOPMRedirection
    else pure ())
  return result

/-- `Substring(str, aStartPos, aLength)`: at most `aLength` characters of
`str` from position `aStartPos`. -/
def Substring (str : nsString) (aStartPos aLength : Nat) : nsString :=
  (str.drop aStartPos).take aLength

/-- `InsertLiteral(literal, aPos)` on `str`: the literal goes in at position
`aPos`. -/
def InsertLiteral (str : nsString) (literal : nsString) (aPos : Nat) : nsString :=
  str.take aPos ++ literal ++ str.drop aPos

/-- `CacheDirAndAutoClear`: `dirToCache` is the path of the directory the
directory service gave for the key (`none` when the lookup failed; `GetPath`
is under `MOZ_ALWAYS_SUCCEEDS`), `cacheVar` the cache variable before the
call; the result is the cache variable after it. -/
def CacheDirAndAutoClear (dirToCache : Option nsString) (cacheVar : Option nsString) :
    Option nsString :=
  match dirToCache with
  | none => cacheVar
  | some path =>
    if Substring path 0 2 = "\\\\".toList then
      some (InsertLiteral path "??\\UNC".toList 1)
    else
      some path

/-- `AddCachedDirRule`: adds a file rule for a path below a cached directory,
and only logs when the directory was not cached. -/
def AddCachedDirRule (aAccess : Semantics) (aBaseDir : Option nsString)
    (aRelativePath : nsString) : Broker Unit := do
  match aBaseDir with
  | none => return ()
  | some baseDir =>
    let rulePath := baseDir ++ aRelativePath
    let _result ← TargetPolicy.invoke (PolicyCall.AddRule SUBSYS_FILES aAccess (some rulePath))
    return ()

/-- `SetJobLevel`: the requested job level when a job object can be used, and
no job otherwise. -/
def SetJobLevel (h : Host) (aJobLevel : JobLevel) (aUiExceptions : Nat) : Broker ResultCode :=
  if h.sCanUseJob then
    TargetPolicy.invoke (PolicyCall.SetJobLevel aJobLevel aUiExceptions)
  else
    TargetPolicy.invoke (PolicyCall.SetJobLevel JOB_NONE 0)

/-! ## The broker object and the policy calls it makes -/

/-- A member function of `SandboxBroker`: it runs on the member `mPolicy`,
which is `none` when the broker was built without broker services. -/
def Member (α : Type) : Type := Option TargetPolicy → Outcome α × Option TargetPolicy

/-- The opening `MOZ_RELEASE_ASSERT(mPolicy, ...)` of a member function,
followed by its body on the policy object. -/
def Member.releaseAssertPolicy {α : Type} (body : Broker α) : Member α :=
  fun mPolicy => match mPolicy with
    | none => (Outcome.crashed, none)
    | some p => ((body p).1, some (body p).2)

/-- The opening `if (!mPolicy) return false;` of a member function, followed
by its body on the policy object. -/
def Member.falseWithoutPolicy (body : Broker Bool) : Member Bool :=
  fun mPolicy => match mPolicy with
    | none => (Outcome.returned false, none)
    | some p => ((body p).1, some (body p).2)

/-- The call `SetTokenLevel(initial, lockdown)`. -/
def TargetPolicy.SetTokenLevel (initial lockdown : TokenLevel) : Broker ResultCode :=
  TargetPolicy.invoke (PolicyCall.SetTokenLevel initial lockdown)

/-- The call `SetIntegrityLevel(level)`. -/
def TargetPolicy.SetIntegrityLevel (level : IntegrityLevel) : Broker ResultCode :=
  TargetPolicy.invoke (PolicyCall.SetIntegrityLevel level)

/-- The call `SetDelayedIntegrityLevel(level)`. -/
def TargetPolicy.SetDelayedIntegrityLevel (level : IntegrityLevel) : Broker ResultCode :=
  TargetPolicy.invoke (PolicyCall.SetDelayedIntegrityLevel level)

/-- The call `SetAlternateDesktop(alternateWinstation)`.  Its callers hand the
result to `NS_WARN_IF` and `LOG_W` only; the warning and the log line make no
call on the policy object and are left out of the procedures below, which bind
the result to `_result`. -/
def TargetPolicy.SetAlternateDesktop (alternateWinstation : Bool) : Broker ResultCode :=
  TargetPolicy.invoke (PolicyCall.SetAlternateDesktop alternateWinstation)

/-- The call `SetDelayedProcessMitigations(flags)`. -/
def TargetPolicy.SetDelayedProcessMitigations (flags : MitigationFlags) : Broker ResultCode :=
  TargetPolicy.invoke (PolicyCall.SetDelayedProcessMitigations flags)

/-- The call `AddRule(subsystem, semantics, pattern)` with a pattern. -/
def TargetPolicy.AddRule (subsystem : SubSystem) (semantics : Semantics) (pattern : nsString) :
    Broker ResultCode :=
  TargetPolicy.invoke (PolicyCall.AddRule subsystem semantics (some pattern))

/-- The call `SetLockdownDefaultDacl()`. -/
def TargetPolicy.SetLockdownDefaultDacl : Broker Unit :=
  TargetPolicy.invokeVoid PolicyCall.SetLockdownDefaultDacl

/-- The call `AddRestrictingRandomSid()`. -/
def TargetPolicy.AddRestrictingRandomSid : Broker Unit :=
  TargetPolicy.invokeVoid PolicyCall.AddRestrictingRandomSid

/-! ## Content process -/

/-- The four level variables a `SetSecurityLevelFor...Process` procedure
declares before its level chain. -/
structure Levels where
  jobLevel : JobLevel
  accessTokenLevel : TokenLevel
  initialIntegrityLevel : IntegrityLevel
  delayedIntegrityLevel : IntegrityLevel
  deriving DecidableEq, Repr

/-- The level chain of `SetSecurityLevelForContentProcess` (the `if` / `else
if` chain on `aSandboxLevel`, with the `MOZ_ASSERT` of its last branch). -/
def ContentProcessLevels (h : Host) (aSandboxLevel : Int) : Broker Levels :=
  if aSandboxLevel ≥ 20 then
    pure ⟨JOB_LOCKDOWN, USER_LOCKDOWN, INTEGRITY_LEVEL_LOW, INTEGRITY_LEVEL_UNTRUSTED⟩
  else if aSandboxLevel ≥ 4 then
    pure ⟨JOB_LOCKDOWN, USER_LIMITED, INTEGRITY_LEVEL_LOW, INTEGRITY_LEVEL_LOW⟩
  else if aSandboxLevel ≥ 3 then
    pure ⟨JOB_RESTRICTED, USER_LIMITED, INTEGRITY_LEVEL_LOW, INTEGRITY_LEVEL_LOW⟩
  else if aSandboxLevel = 2 then
    pure ⟨JOB_INTERACTIVE, USER_INTERACTIVE, INTEGRITY_LEVEL_LOW, INTEGRITY_LEVEL_LOW⟩
  else do
    MOZ_ASSERT h (decide (aSandboxLevel = 1))
    pure ⟨JOB_NONE, USER_NON_ADMIN, INTEGRITY_LEVEL_LOW, INTEGRITY_LEVEL_LOW⟩

/-- The body of `if (aIsFileProcess)` in `SetSecurityLevelForContentProcess`,
on the two variables it assigns: the access token level and the delayed
integrity level. -/
def fileProcessClamp (levels : TokenLevel × IntegrityLevel) : TokenLevel × IntegrityLevel :=
  let accessTokenLevel :=
    if levels.1 < USER_NON_ADMIN then USER_NON_ADMIN else levels.1
  let delayedIntegrityLevel :=
    if levels.2 > INTEGRITY_LEVEL_LOW then INTEGRITY_LEVEL_LOW else levels.2
  (accessTokenLevel, delayedIntegrityLevel)

/-- The initial access token level that `SetSecurityLevelForContentProcess`
and `SetSecurityLevelForGPUProcess` derive from the delayed one. -/
def initialAccessTokenLevel (accessTokenLevel : TokenLevel) : TokenLevel :=
  if accessTokenLevel = USER_UNPROTECTED ∨ accessTokenLevel = USER_NON_ADMIN then
    USER_UNPROTECTED
  else
    USER_RESTRICTED_SAME_ACCESS

/-- The word `mitigations` that `SetSecurityLevelForContentProcess` builds for
`SetProcessMitigations`: the fixed flags, the `_M_ARM64` block, and the
image-load flags of `if (aSandboxLevel > 3)`. -/
def ContentProcessMitigations (h : Host) (aSandboxLevel : Int) : MitigationFlags :=
  let mitigations : MitigationFlags :=
    {MITIGATION_BOTTOM_UP_ASLR, MITIGATION_HEAP_TERMINATE, MITIGATION_SEHOP,
      MITIGATION_DEP_NO_ATL_THUNK, MITIGATION_DEP, MITIGATION_EXTENSION_POINT_DISABLE,
      MITIGATION_IMAGE_LOAD_PREFER_SYS32}
  let mitigations :=
    if h.M_ARM64 && !h.IsWin10Sep2018UpdateOrLater then
      mitigations ∪ {MITIGATION_CONTROL_FLOW_GUARD_DISABLE}
    else mitigations
  let mitigations :=
    if aSandboxLevel > 3 then
      if !h.sRunningFromNetworkDrive then
        mitigations ∪ {MITIGATION_IMAGE_LOAD_NO_REMOTE, MITIGATION_IMAGE_LOAD_NO_LOW_LABEL}
      else mitigations
    else mitigations
  mitigations

/-- `SandboxBroker::SetSecurityLevelForContentProcess`. -/
def SetSecurityLevelForContentProcess (h : Host) (aSandboxLevel : Int)
    (aIsFileProcess : Bool) : Member Unit :=
  Member.releaseAssertPolicy do
    MOZ_RELEASE_ASSERT (decide (aSandboxLevel ≥ 1))
    let levels ← ContentProcessLevels h aSandboxLevel
    let jobLevel := levels.jobLevel
    let initialIntegrityLevel := levels.initialIntegrityLevel
    let clamped :=
      if aIsFileProcess then
        fileProcessClamp (levels.accessTokenLevel, levels.delayedIntegrityLevel)
      else
        (levels.accessTokenLevel, levels.delayedIntegrityLevel)
    let accessTokenLevel := clamped.1
    let delayedIntegrityLevel := clamped.2
    let uiExceptions := if h.DEBUG then JOB_OBJECT_UILIMIT_HANDLES else 0
    let result ← SetJobLevel h jobLevel uiExceptions
    MOZ_RELEASE_ASSERT (SBOX_ALL_OK == result)
    let result ← TargetPolicy.SetTokenLevel (initialAccessTokenLevel accessTokenLevel)
      accessTokenLevel
    MOZ_RELEASE_ASSERT (SBOX_ALL_OK == result)
    let result ← TargetPolicy.SetIntegrityLevel initialIntegrityLevel
    MOZ_RELEASE_ASSERT (SBOX_ALL_OK == result)
    let result ← TargetPolicy.SetDelayedIntegrityLevel delayedIntegrityLevel
    MOZ_RELEASE_ASSERT (SBOX_ALL_OK == result)
    (if aSandboxLevel > 5 then do
        TargetPolicy.SetLockdownDefaultDacl
        TargetPolicy.AddRestrictingRandomSid
      else pure ())
    (if aSandboxLevel > 4 then do
        let _result ← TargetPolicy.SetAlternateDesktop false
        pure ()
      else pure ())
    let mitigations := ContentProcessMitigations h aSandboxLevel
    let result ← TargetPolicy.SetProcessMitigations mitigations
    MOZ_RELEASE_ASSERT (SBOX_ALL_OK == result)
    (if h.security_sandbox_content_win32k_disable then do
        let result ← AddWin32kLockdownPolicy h false
        MOZ_RELEASE_ASSERT (result == SBOX_ALL_OK)
      else pure ())
    let mitigations : MitigationFlags :=
      {MITIGATION_STRICT_HANDLE_CHECKS, MITIGATION_DLL_SEARCH_ORDER}
    let result ← TargetPolicy.SetDelayedProcessMitigations mitigations
    MOZ_RELEASE_ASSERT (SBOX_ALL_OK == result)
    AddCachedDirRule FILES_ALLOW_ANY h.sContentTempDir "\\*".toList
    (if aSandboxLevel = 1 ∨ aIsFileProcess then do
        let result ← TargetPolicy.AddRule SUBSYS_FILES FILES_ALLOW_READONLY "*".toList
        MOZ_RELEASE_ASSERT (SBOX_ALL_OK == result)
      else do
        AddCachedDirRule FILES_ALLOW_READONLY h.sLocalAppDataDir
          "\\Microsoft\\Windows\\Fonts\\*".toList
        AddCachedDirRule FILES_ALLOW_READONLY h.sBinDir "\\*".toList
        AddCachedDirRule FILES_ALLOW_READONLY h.sProfileDir "\\chrome\\*".toList
        AddCachedDirRule FILES_ALLOW_READONLY h.sProfileDir "\\extensions\\*".toList
        AddCachedDirRule FILES_ALLOW_READONLY h.sUserExtensionsDevDir "\\*".toList
        if h.ENABLE_SYSTEM_EXTENSION_DIRS then
          AddCachedDirRule FILES_ALLOW_READONLY h.sUserExtensionsDir "\\*".toList)
    let result ← TargetPolicy.AddRule SUBSYS_FILES FILES_ALLOW_ANY "\\??\\pipe\\chrome.*".toList
    MOZ_RELEASE_ASSERT (SBOX_ALL_OK == result)
    let result ← TargetPolicy.AddRule SUBSYS_FILES FILES_ALLOW_ANY
      "\\??\\pipe\\gecko-crash-server-pipe.*".toList
    MOZ_RELEASE_ASSERT (SBOX_ALL_OK == result)
    let result ← TargetPolicy.AddRule SUBSYS_HANDLES HANDLES_DUP_BROKER "File".toList
    MOZ_RELEASE_ASSERT (SBOX_ALL_OK == result)
    let result ← TargetPolicy.AddRule SUBSYS_HANDLES HANDLES_DUP_ANY "File".toList
    MOZ_RELEASE_ASSERT (SBOX_ALL_OK == result)
    let result ← TargetPolicy.AddRule SUBSYS_HANDLES HANDLES_DUP_BROKER "Section".toList
    MOZ_RELEASE_ASSERT (SBOX_ALL_OK == result)
    let result ← TargetPolicy.AddRule SUBSYS_HANDLES HANDLES_DUP_ANY "Section".toList
    MOZ_RELEASE_ASSERT (SBOX_ALL_OK == result)
    let result ← TargetPolicy.AddRule SUBSYS_HANDLES HANDLES_DUP_BROKER "Semaphore".toList
    MOZ_RELEASE_ASSERT (SBOX_ALL_OK == result)
    let result ← TargetPolicy.AddRule SUBSYS_HANDLES HANDLES_DUP_ANY "Semaphore".toList
    MOZ_RELEASE_ASSERT (SBOX_ALL_OK == result)

/-! ## GPU process -/

/-- The level chain of `SetSecurityLevelForGPUProcess`, with the
`MOZ_RELEASE_ASSERT` of its last branch. -/
def GPUProcessLevels (aSandboxLevel : Int) : Broker Levels :=
  if aSandboxLevel ≥ 2 then
    pure ⟨JOB_NONE, USER_LIMITED, INTEGRITY_LEVEL_LOW, INTEGRITY_LEVEL_LOW⟩
  else do
    MOZ_RELEASE_ASSERT (decide (aSandboxLevel ≥ 1))
    pure ⟨JOB_NONE, USER_NON_ADMIN, INTEGRITY_LEVEL_LOW, INTEGRITY_LEVEL_LOW⟩

/-- The lambda of `SetSecurityLevelForGPUProcess` that adds the two shader
cache rules; `getPath` is what `aProfileDir->GetPath` gives (`none` when it
fails). -/
def addShaderCacheRules (getPath : Option nsString) : Broker Bool := do
  match getPath with
  | none => return false
  | some path =>
    if path.isEmpty then
      return false
    let shaderCacheRulePath :=
      if Substring path 0 2 = "\\\\".toList then InsertLiteral path "??\\UNC".toList 1
      else path
    let shaderCacheRulePath := shaderCacheRulePath ++ "\\shader-cache".toList
    let result ← TargetPolicy.AddRule SUBSYS_FILES FILES_ALLOW_DIR_ANY shaderCacheRulePath
    if result != SBOX_ALL_OK then
      return false
    let shaderCacheRulePath := shaderCacheRulePath ++ "\\*".toList
    let result ← TargetPolicy.AddRule SUBSYS_FILES FILES_ALLOW_ANY shaderCacheRulePath
    if result != SBOX_ALL_OK then
      return false
    return true

/-- `SandboxBroker::SetSecurityLevelForGPUProcess`; `aProfileDir` is `none`
for a null pointer and otherwise holds what `GetPath` gives. -/
def SetSecurityLevelForGPUProcess (h : Host) (aSandboxLevel : Int)
    (aProfileDir : Option (Option nsString)) : Member Unit :=
  Member.releaseAssertPolicy do
    let levels ← GPUProcessLevels aSandboxLevel
    let jobLevel := levels.jobLevel
    let accessTokenLevel := levels.accessTokenLevel
    let initialIntegrityLevel := levels.initialIntegrityLevel
    let delayedIntegrityLevel := levels.delayedIntegrityLevel
    let result ← SetJobLevel h jobLevel 0
    MOZ_RELEASE_ASSERT (SBOX_ALL_OK == result)
    let result ← TargetPolicy.SetTokenLevel (initialAccessTokenLevel accessTokenLevel)
      accessTokenLevel
    MOZ_RELEASE_ASSERT (SBOX_ALL_OK == result)
    let result ← TargetPolicy.SetIntegrityLevel initialIntegrityLevel
    MOZ_RELEASE_ASSERT (SBOX_ALL_OK == result)
    let result ← TargetPolicy.SetDelayedIntegrityLevel delayedIntegrityLevel
    MOZ_RELEASE_ASSERT (SBOX_ALL_OK == result)
    TargetPolicy.SetLockdownDefaultDacl
    TargetPolicy.AddRestrictingRandomSid
    let mitigations : MitigationFlags :=
      {MITIGATION_BOTTOM_UP_ASLR, MITIGATION_HEAP_TERMINATE, MITIGATION_SEHOP,
        MITIGATION_DEP_NO_ATL_THUNK, MITIGATION_DEP}
    let result ← TargetPolicy.SetProcessMitigations mitigations
    MOZ_RELEASE_ASSERT (SBOX_ALL_OK == result)
    let mitigations : MitigationFlags :=
      {MITIGATION_STRICT_HANDLE_CHECKS, MITIGATION_DLL_SEARCH_ORDER}
    let result ← TargetPolicy.SetDelayedProcessMitigations mitigations
    MOZ_RELEASE_ASSERT (SBOX_ALL_OK == result)
    let result ← TargetPolicy.AddRule SUBSYS_FILES FILES_ALLOW_ANY "\\??\\pipe\\chrome.*".toList
    MOZ_RELEASE_ASSERT (SBOX_ALL_OK == result)
    let result ← TargetPolicy.AddRule SUBSYS_FILES FILES_ALLOW_ANY
      "\\??\\pipe\\gecko-crash-server-pipe.*".toList
    MOZ_RELEASE_ASSERT (SBOX_ALL_OK == result)
    (match aProfileDir with
      | none => pure ()
      | some getPath => do
        let _added ← addShaderCacheRules getPath
        pure ())
    let result ← TargetPolicy.AddRule SUBSYS_HANDLES HANDLES_DUP_BROKER "Section".toList
    MOZ_RELEASE_ASSERT (SBOX_ALL_OK == result)
    let result ← TargetPolicy.AddRule SUBSYS_HANDLES HANDLES_DUP_ANY "Section".toList
    MOZ_RELEASE_ASSERT (SBOX_ALL_OK == result)

/-! ## Plugin process -/

/-- The level chain of `SetSecurityLevelForPluginProcess`. -/
def PluginProcessLevels (aSandboxLevel : Int) : Levels :=
  if aSandboxLevel > 2 then
    ⟨JOB_UNPROTECTED, USER_LIMITED, INTEGRITY_LEVEL_LOW, INTEGRITY_LEVEL_LOW⟩
  else if aSandboxLevel = 2 then
    ⟨JOB_UNPROTECTED, USER_INTERACTIVE, INTEGRITY_LEVEL_LOW, INTEGRITY_LEVEL_LOW⟩
  else
    ⟨JOB_NONE, USER_NON_ADMIN, INTEGRITY_LEVEL_MEDIUM, INTEGRITY_LEVEL_MEDIUM⟩

/-- The word `mitigations` that `SetSecurityLevelForPluginProcess` builds for
`SetProcessMitigations`. -/
def PluginProcessMitigations (h : Host) : MitigationFlags :=
  let mitigations : MitigationFlags :=
    {MITIGATION_BOTTOM_UP_ASLR, MITIGATION_HEAP_TERMINATE, MITIGATION_SEHOP,
      MITIGATION_DEP_NO_ATL_THUNK, MITIGATION_DEP, MITIGATION_HARDEN_TOKEN_IL_POLICY,
      MITIGATION_EXTENSION_POINT_DISABLE, MITIGATION_NONSYSTEM_FONT_DISABLE,
      MITIGATION_IMAGE_LOAD_PREFER_SYS32}
  let mitigations :=
    if !h.sRunningFromNetworkDrive then
      mitigations ∪ {MITIGATION_IMAGE_LOAD_NO_REMOTE, MITIGATION_IMAGE_LOAD_NO_LOW_LABEL}
    else mitigations
  mitigations

/-- `SandboxBroker::SetSecurityLevelForPluginProcess`.  Each use of
`SANDBOX_ENSURE_SUCCESS(result, message)` is expanded to its two statements:
the `MOZ_ASSERT` and the early `return false`. -/
def SetSecurityLevelForPluginProcess (h : Host) (aSandboxLevel : Int) : Member Bool :=
  Member.falseWithoutPolicy do
    let levels := PluginProcessLevels aSandboxLevel
    let jobLevel := levels.jobLevel
    let accessTokenLevel := levels.accessTokenLevel
    let initialIntegrityLevel := levels.initialIntegrityLevel
    let delayedIntegrityLevel := levels.delayedIntegrityLevel
    let result ← SetJobLevel h jobLevel 0
    MOZ_ASSERT h (SBOX_ALL_OK == result)
    if SBOX_ALL_OK != result then return false
    let result ← TargetPolicy.SetTokenLevel USER_RESTRICTED_SAME_ACCESS accessTokenLevel
    MOZ_ASSERT h (SBOX_ALL_OK == result)
    if SBOX_ALL_OK != result then return false
    let result ← TargetPolicy.SetIntegrityLevel initialIntegrityLevel
    MOZ_ASSERT h (SBOX_ALL_OK == result)
    if SBOX_ALL_OK != result then return false
    let result ← TargetPolicy.SetDelayedIntegrityLevel delayedIntegrityLevel
    MOZ_ASSERT h (SBOX_ALL_OK == result)
    if SBOX_ALL_OK != result then return false
    TargetPolicy.SetLockdownDefaultDacl
    TargetPolicy.AddRestrictingRandomSid
    let mitigations := PluginProcessMitigations h
    let result ← TargetPolicy.SetProcessMitigations mitigations
    MOZ_ASSERT h (SBOX_ALL_OK == result)
    if SBOX_ALL_OK != result then return false
    let delayedMitigations : MitigationFlags := {MITIGATION_DLL_SEARCH_ORDER}
    let result ← TargetPolicy.SetDelayedProcessMitigations delayedMitigations
    MOZ_ASSERT h (SBOX_ALL_OK == result)
    if SBOX_ALL_OK != result then return false
    AddCachedDirRule FILES_ALLOW_ANY h.sPluginTempDir "\\*".toList
    (if aSandboxLevel ≥ 2 then do
        AddCachedDirRule FILES_ALLOW_ANY h.sRoamingAppDataDir
          "\\Macromedia\\Flash Player\\*".toList
        AddCachedDirRule FILES_ALLOW_ANY h.sLocalAppDataDir
          "\\Macromedia\\Flash Player\\*".toList
        AddCachedDirRule FILES_ALLOW_ANY h.sRoamingAppDataDir "\\Adobe\\Flash Player\\*".toList
        AddCachedDirRule FILES_ALLOW_DIR_ANY h.sRoamingAppDataDir "\\Macromedia".toList
        AddCachedDirRule FILES_ALLOW_QUERY h.sRoamingAppDataDir "\\Macromedia\\".toList
        AddCachedDirRule FILES_ALLOW_DIR_ANY h.sRoamingAppDataDir
          "\\Macromedia\\Flash Player".toList
        AddCachedDirRule FILES_ALLOW_DIR_ANY h.sLocalAppDataDir "\\Macromedia".toList
        AddCachedDirRule FILES_ALLOW_DIR_ANY h.sLocalAppDataDir
          "\\Macromedia\\Flash Player".toList
        AddCachedDirRule FILES_ALLOW_DIR_ANY h.sRoamingAppDataDir "\\Adobe".toList
        AddCachedDirRule FILES_ALLOW_DIR_ANY h.sRoamingAppDataDir "\\Adobe\\Flash Player".toList
      else pure ())
    let result ← TargetPolicy.AddRule SUBSYS_FILES FILES_ALLOW_ANY "\\??\\pipe\\chrome.*".toList
    MOZ_ASSERT h (SBOX_ALL_OK == result)
    if SBOX_ALL_OK != result then return false
    let result ← TargetPolicy.AddRule SUBSYS_FILES FILES_ALLOW_ANY
      "\\??\\pipe\\gecko-crash-server-pipe.*".toList
    MOZ_ASSERT h (SBOX_ALL_OK == result)
    if SBOX_ALL_OK != result then return false
    let result ← TargetPolicy.AddRule SUBSYS_HANDLES HANDLES_DUP_ANY "Section".toList
    MOZ_ASSERT h (SBOX_ALL_OK == result)
    if SBOX_ALL_OK != result then return false
    let result ← TargetPolicy.AddRule SUBSYS_HANDLES HANDLES_DUP_BROKER "Section".toList
    MOZ_ASSERT h (SBOX_ALL_OK == result)
    if SBOX_ALL_OK != result then return false
    let result ← TargetPolicy.AddRule SUBSYS_REGISTRY REG_ALLOW_ANY
      ("HKEY_CURRENT_USER\\Software\\Microsoft\\Windows\\CurrentVersion\\Explorer" ++
        "\\ComDlg32\\OpenSavePidlMRU\\*").toList
    MOZ_ASSERT h (SBOX_ALL_OK == result)
    if SBOX_ALL_OK != result then return false
    let result ← TargetPolicy.AddRule SUBSYS_REGISTRY REG_ALLOW_ANY
      ("HKEY_CURRENT_USER\\Software\\Microsoft\\Windows\\CurrentVersion\\Explorer" ++
        "\\ComDlg32\\LastVisitedPidlMRULegacy\\*").toList
    MOZ_ASSERT h (SBOX_ALL_OK == result)
    if SBOX_ALL_OK != result then return false
    return true

/-! ## RDD, socket and GMP processes -/

/-- `SandboxBroker::SetSecurityLevelForRDDProcess`, with each `SANDBOX_ENSURE_SUCCESS`
expanded to its `MOZ_ASSERT` and its early `return false`.  The conditional
win32k block yields its result code (`SBOX_ALL_OK` when it is skipped) and the
early return of its `SANDBOX_ENSURE_SUCCESS` follows the block. -/
def SetSecurityLevelForRDDProcess (h : Host) : Member Bool :=
  Member.falseWithoutPolicy do
    let result ← SetJobLevel h JOB_LOCKDOWN 0
    MOZ_ASSERT h (SBOX_ALL_OK == result)
    if SBOX_ALL_OK != result then return false
    let result ← TargetPolicy.SetTokenLevel USER_RESTRICTED_SAME_ACCESS USER_LOCKDOWN
    MOZ_ASSERT h (SBOX_ALL_OK == result)
    if SBOX_ALL_OK != result then return false
    let _result ← TargetPolicy.SetAlternateDesktop true
    let result ← TargetPolicy.SetIntegrityLevel INTEGRITY_LEVEL_LOW
    MOZ_ASSERT h (SBOX_ALL_OK == result)
    if SBOX_ALL_OK != result then return false
    let result ← TargetPolicy.SetDelayedIntegrityLevel INTEGRITY_LEVEL_UNTRUSTED
    MOZ_ASSERT h (SBOX_ALL_OK == result)
    if SBOX_ALL_OK != result then return false
    TargetPolicy.SetLockdownDefaultDacl
    TargetPolicy.AddRestrictingRandomSid
    let mitigations : MitigationFlags :=
      {MITIGATION_BOTTOM_UP_ASLR, MITIGATION_HEAP_TERMINATE, MITIGATION_SEHOP,
        MITIGATION_EXTENSION_POINT_DISABLE, MITIGATION_DEP_NO_ATL_THUNK, MITIGATION_DEP,
        MITIGATION_IMAGE_LOAD_PREFER_SYS32}
    let result ← TargetPolicy.SetProcessMitigations mitigations
    MOZ_ASSERT h (SBOX_ALL_OK == result)
    if SBOX_ALL_OK != result then return false
    let win32k ←
      (if h.security_sandbox_rdd_win32k_disable then do
          let result ← AddWin32kLockdownPolicy h false
          MOZ_ASSERT h (SBOX_ALL_OK == result)
          pure result
        else pure SBOX_ALL_OK)
    if SBOX_ALL_OK != win32k then return false
    let mitigations : MitigationFlags :=
      {MITIGATION_STRICT_HANDLE_CHECKS, MITIGATION_DYNAMIC_CODE_DISABLE,
        MITIGATION_DLL_SEARCH_ORDER, MITIGATION_FORCE_MS_SIGNED_BINS}
    let result ← TargetPolicy.SetDelayedProcessMitigations mitigations
    MOZ_ASSERT h (SBOX_ALL_OK == result)
    if SBOX_ALL_OK != result then return false
    let result ← TargetPolicy.AddRule SUBSYS_FILES FILES_ALLOW_ANY
      "\\??\\pipe\\chrome.*".toList
    MOZ_ASSERT h (SBOX_ALL_OK == result)
    if SBOX_ALL_OK != result then return false
    let result ← TargetPolicy.AddRule SUBSYS_FILES FILES_ALLOW_ANY
      "\\??\\pipe\\gecko-crash-server-pipe.*".toList
    MOZ_ASSERT h (SBOX_ALL_OK == result)
    if SBOX_ALL_OK != result then return false
    let result ← TargetPolicy.AddRule SUBSYS_HANDLES HANDLES_DUP_ANY
      "Section".toList
    MOZ_ASSERT h (SBOX_ALL_OK == result)
    if SBOX_ALL_OK != result then return false
    let result ← TargetPolicy.AddRule SUBSYS_HANDLES HANDLES_DUP_BROKER
      "Section".toList
    MOZ_ASSERT h (SBOX_ALL_OK == result)
    if SBOX_ALL_OK != result then return false
    return true

/-- `SandboxBroker::SetSecurityLevelForSocketProcess`, with each `SANDBOX_ENSURE_SUCCESS`
expanded to its `MOZ_ASSERT` and its early `return false`.  The conditional
win32k block yields its result code (`SBOX_ALL_OK` when it is skipped) and the
early return of its `SANDBOX_ENSURE_SUCCESS` follows the block. -/
def SetSecurityLevelForSocketProcess (h : Host) : Member Bool :=
  Member.falseWithoutPolicy do
    let result ← SetJobLevel h JOB_LOCKDOWN 0
    MOZ_ASSERT h (SBOX_ALL_OK == result)
    if SBOX_ALL_OK != result then return false
    let result ← TargetPolicy.SetTokenLevel USER_RESTRICTED_SAME_ACCESS USER_LIMITED
    MOZ_ASSERT h (SBOX_ALL_OK == result)
    if SBOX_ALL_OK != result then return false
    let _result ← TargetPolicy.SetAlternateDesktop true
    let result ← TargetPolicy.SetIntegrityLevel INTEGRITY_LEVEL_LOW
    MOZ_ASSERT h (SBOX_ALL_OK == result)
    if SBOX_ALL_OK != result then return false
    let result ← TargetPolicy.SetDelayedIntegrityLevel INTEGRITY_LEVEL_UNTRUSTED
    MOZ_ASSERT h (SBOX_ALL_OK == result)
    if SBOX_ALL_OK != result then return false
    TargetPolicy.SetLockdownDefaultDacl
    TargetPolicy.AddRestrictingRandomSid
    let mitigations : MitigationFlags :=
      {MITIGATION_BOTTOM_UP_ASLR, MITIGATION_HEAP_TERMINATE, MITIGATION_SEHOP,
        MITIGATION_EXTENSION_POINT_DISABLE, MITIGATION_DEP_NO_ATL_THUNK, MITIGATION_DEP,
        MITIGATION_IMAGE_LOAD_PREFER_SYS32}
    let result ← TargetPolicy.SetProcessMitigations mitigations
    MOZ_ASSERT h (SBOX_ALL_OK == result)
    if SBOX_ALL_OK != result then return false
    let win32k ←
      (if h.security_sandbox_socket_win32k_disable then do
          let result ← AddWin32kLockdownPolicy h false
          MOZ_ASSERT h (SBOX_ALL_OK == result)
          pure result
        else pure SBOX_ALL_OK)
    if SBOX_ALL_OK != win32k then return false
    let mitigations : MitigationFlags :=
      {MITIGATION_STRICT_HANDLE_CHECKS, MITIGATION_DYNAMIC_CODE_DISABLE,
        MITIGATION_DLL_SEARCH_ORDER, MITIGATION_FORCE_MS_SIGNED_BINS}
    let result ← TargetPolicy.SetDelayedProcessMitigations mitigations
    MOZ_ASSERT h (SBOX_ALL_OK == result)
    if SBOX_ALL_OK != result then return false
    let result ← TargetPolicy.AddRule SUBSYS_FILES FILES_ALLOW_ANY
      "\\??\\pipe\\chrome.*".toList
    MOZ_ASSERT h (SBOX_ALL_OK == result)
    if SBOX_ALL_OK != result then return false
    let result ← TargetPolicy.AddRule SUBSYS_FILES FILES_ALLOW_ANY
      "\\??\\pipe\\gecko-crash-server-pipe.*".toList
    MOZ_ASSERT h (SBOX_ALL_OK == result)
    if SBOX_ALL_OK != result then return false
    let result ← TargetPolicy.AddRule SUBSYS_HANDLES HANDLES_DUP_BROKER
      "Section".toList
    MOZ_ASSERT h (SBOX_ALL_OK == result)
    if SBOX_ALL_OK != result then return false
    return true

/-- Modelled from the spec: the enumeration `SandboxLevel` of
`sandboxBroker.h`, which is not among the sources: the two levels of a GMP
sandbox. -/
inductive SandboxLevel where
  | LockDown
  | Restricted
  deriving DecidableEq, Repr

/-- `SandboxBroker::SetSecurityLevelForGMPlugin`, with each
`SANDBOX_ENSURE_SUCCESS` expanded to its `MOZ_ASSERT` and its early
`return false`.  The conditional win32k block and the `#ifdef DEBUG` rule
yield their result code (`SBOX_ALL_OK` when skipped) and the early return of
their `SANDBOX_ENSURE_SUCCESS` follows the block. -/
def SetSecurityLevelForGMPlugin (h : Host) (aLevel : SandboxLevel) (aIsRemoteLaunch : Bool) :
    Member Bool :=
  Member.falseWithoutPolicy do
    let result ← SetJobLevel h JOB_LOCKDOWN 0
    MOZ_ASSERT h (SBOX_ALL_OK == result)
    if SBOX_ALL_OK != result then return false
    let level := if aLevel = SandboxLevel.Restricted then USER_RESTRICTED else USER_LOCKDOWN
    let result ← TargetPolicy.SetTokenLevel USER_RESTRICTED_SAME_ACCESS level
    MOZ_ASSERT h (SBOX_ALL_OK == result)
    if SBOX_ALL_OK != result then return false
    let _result ← TargetPolicy.SetAlternateDesktop true
    let result ← TargetPolicy.SetIntegrityLevel INTEGRITY_LEVEL_LOW
    MOZ_ASSERT h (SBOX_ALL_OK == result)
    let result ← TargetPolicy.SetDelayedIntegrityLevel INTEGRITY_LEVEL_UNTRUSTED
    MOZ_ASSERT h (SBOX_ALL_OK == result)
    if SBOX_ALL_OK != result then return false
    TargetPolicy.SetLockdownDefaultDacl
    TargetPolicy.AddRestrictingRandomSid
    let mitigations : MitigationFlags :=
      {MITIGATION_BOTTOM_UP_ASLR, MITIGATION_HEAP_TERMINATE, MITIGATION_SEHOP,
        MITIGATION_EXTENSION_POINT_DISABLE, MITIGATION_DEP_NO_ATL_THUNK, MITIGATION_DEP}
    let result ← TargetPolicy.SetProcessMitigations mitigations
    MOZ_ASSERT h (SBOX_ALL_OK == result)
    if SBOX_ALL_OK != result then return false
    let win32k ←
      (if h.security_sandbox_gmp_win32k_disable && h.IsWin10OrLater then do
          let result ← AddWin32kLockdownPolicy h true
          MOZ_ASSERT h (SBOX_ALL_OK == result)
          pure result
        else pure SBOX_ALL_OK)
    if SBOX_ALL_OK != win32k then return false
    let mitigations : MitigationFlags :=
      {MITIGATION_STRICT_HANDLE_CHECKS, MITIGATION_DLL_SEARCH_ORDER}
    let result ← TargetPolicy.SetDelayedProcessMitigations mitigations
    MOZ_ASSERT h (SBOX_ALL_OK == result)
    if SBOX_ALL_OK != result then return false
    let result ← TargetPolicy.AddRule SUBSYS_FILES FILES_ALLOW_ANY
      "\\??\\pipe\\chrome.*".toList
    MOZ_ASSERT h (SBOX_ALL_OK == result)
    if SBOX_ALL_OK != result then return false
    let result ← TargetPolicy.AddRule SUBSYS_FILES FILES_ALLOW_ANY
      "\\??\\pipe\\gecko-crash-server-pipe.*".toList
    MOZ_ASSERT h (SBOX_ALL_OK == result)
    if SBOX_ALL_OK != result then return false
    let debugRule ←
      (if h.DEBUG then do
          let result ← TargetPolicy.AddRule SUBSYS_SYNC EVENTS_ALLOW_ANY "ChromeIPCLog.*".toList
          MOZ_ASSERT h (SBOX_ALL_OK == result)
          pure result
        else pure SBOX_ALL_OK)
    if SBOX_ALL_OK != debugRule then return false
    let result ← TargetPolicy.AddRule SUBSYS_REGISTRY REG_ALLOW_READONLY
      "HKEY_CURRENT_USER".toList
    MOZ_ASSERT h (SBOX_ALL_OK == result)
    if SBOX_ALL_OK != result then return false
    let result ← TargetPolicy.AddRule SUBSYS_REGISTRY REG_ALLOW_READONLY
      "HKEY_CURRENT_USER\\Control Panel\\Desktop".toList
    MOZ_ASSERT h (SBOX_ALL_OK == result)
    if SBOX_ALL_OK != result then return false
    let result ← TargetPolicy.AddRule SUBSYS_REGISTRY REG_ALLOW_READONLY
      "HKEY_CURRENT_USER\\Control Panel\\Desktop\\LanguageConfiguration".toList
    MOZ_ASSERT h (SBOX_ALL_OK == result)
    if SBOX_ALL_OK != result then return false
    let result ← TargetPolicy.AddRule SUBSYS_REGISTRY REG_ALLOW_READONLY
      "HKEY_LOCAL_MACHINE\\SOFTWARE\\Microsoft\\Windows\\CurrentVersion\\SideBySide".toList
    MOZ_ASSERT h (SBOX_ALL_OK == result)
    if SBOX_ALL_OK != result then return false
    let result ← TargetPolicy.AddRule SUBSYS_REGISTRY REG_ALLOW_READONLY
      "HKEY_LOCAL_MACHINE\\SOFTWARE\\Policies\\Microsoft\\MUI\\Settings".toList
    MOZ_ASSERT h (SBOX_ALL_OK == result)
    if SBOX_ALL_OK != result then return false
    let result ← TargetPolicy.AddRule SUBSYS_REGISTRY REG_ALLOW_READONLY
      "HKEY_CURRENT_USER\\Software\\Policies\\Microsoft\\Control Panel\\Desktop".toList
    MOZ_ASSERT h (SBOX_ALL_OK == result)
    if SBOX_ALL_OK != result then return false
    let result ← TargetPolicy.AddRule SUBSYS_REGISTRY REG_ALLOW_READONLY
      "HKEY_CURRENT_USER\\Control Panel\\Desktop\\PreferredUILanguages".toList
    MOZ_ASSERT h (SBOX_ALL_OK == result)
    if SBOX_ALL_OK != result then return false
    let result ← TargetPolicy.AddRule SUBSYS_REGISTRY REG_ALLOW_READONLY
      ("HKEY_LOCAL_MACHINE\\SOFTWARE\\Microsoft\\Windows\\CurrentVersion\\SideBySide" ++
        "\\PreferExternalManifest").toList
    MOZ_ASSERT h (SBOX_ALL_OK == result)
    if SBOX_ALL_OK != result then return false
    let result ← TargetPolicy.AddRule SUBSYS_FILES FILES_ALLOW_READONLY
      "\\Device\\SrpDevice".toList
    MOZ_ASSERT h (SBOX_ALL_OK == result)
    if SBOX_ALL_OK != result then return false
    let result ← TargetPolicy.AddRule SUBSYS_REGISTRY REG_ALLOW_READONLY
      "HKEY_LOCAL_MACHINE\\System\\CurrentControlSet\\Control\\Srp\\GP\\".toList
    MOZ_ASSERT h (SBOX_ALL_OK == result)
    if SBOX_ALL_OK != result then return false
    let result ← TargetPolicy.AddRule SUBSYS_REGISTRY REG_ALLOW_READONLY
      "HKEY_LOCAL_MACHINE\\System\\CurrentControlSet\\Control\\Srp\\\\GP\\".toList
    MOZ_ASSERT h (SBOX_ALL_OK == result)
    if SBOX_ALL_OK != result then return false
    let result ← TargetPolicy.AddRule SUBSYS_HANDLES
      (if aIsRemoteLaunch then HANDLES_DUP_ANY else HANDLES_DUP_BROKER) "Section".toList
    MOZ_ASSERT h (SBOX_ALL_OK == result)
    if SBOX_ALL_OK != result then return false
    return true

/-! ## Launching a target -/

/-- The first position at which `pat` occurs in a string
(`std::wstring::find`); `none` is `npos`. -/
def wstring_find (pat : nsString) : nsString → Option Nat
  | [] => if pat = [] then some 0 else none
  | c :: s => if pat.isPrefixOf (c :: s) then some 0 else (wstring_find pat s).map (· + 1)

/-- The last position in a string of a character of `chars`
(`std::wstring::find_last_of`); `none` is `npos`. -/
def wstring_find_last_of (chars : nsString) : nsString → Option Nat
  | [] => none
  | c :: s =>
    match wstring_find_last_of chars s with
    | some i => some (i + 1)
    | none => if c ∈ chars then some 0 else none

/-- The string after `s.replace(pos, len, str)` of `std::wstring`. -/
def wstring_replace (s : nsString) (pos len : Nat) (str : nsString) : nsString :=
  s.take pos ++ str ++ s.drop (pos + len)

/-- What `LaunchApp` reads from outside its arguments: the host of the
procedures, the build flag `MOZ_LAUNCHER_PROCESS`, whether the static
`sBrokerService` is set, the two `XRE_` functions of the process type (the
second as the test `== BinPathType::Self`), the two literals of
`mozilla/Logging.h`, and `NSPRLogModulesParser` as the sequence of
`(aName, aLevel, aValue)` it hands to its callback. -/
structure LaunchHost where
  host : Host
  MOZ_LAUNCHER_PROCESS : Bool
  sBrokerService : Bool
  XRE_GeckoProcessTypeToString : Nat → nsString
  XRE_GetChildProcBinPathType_isSelf : Nat → Bool
  MOZ_LOG_FILE_EXTENSION : nsString
  MOZ_LOG_PID_TOKEN : nsString
  NSPRLogModulesParser : nsString → List (nsString × Nat × Int)

/-- What `SpawnTarget` gives back: its result code, the last warning, the
last OS error, and the two handles of `targetInfo`. -/
structure SpawnResult where
  result : ResultCode
  last_warning : ResultCode
  last_error : Nat
  hProcess : Nat
  hThread : Nat

/-- The arguments of one call of `LaunchApp` that the code reads, and what
the operating system and the collaborators answer during the call:
`getenv("MOZ_LOG")`, the path `GetTempPathW` writes (empty when it returns
0), the outcome of `SpawnTarget`, whether `InitDllBlocklistOOP` returns an
error, whether `LoadLibraryExW` returns a module, whether the result of
`nt::GetProcessExeModule` is ok and the base it then holds (0 for a null
base), whether the `nt::PEHeaders` built on the module are valid, and whether
`RestoreImportDirectory` returns an error. -/
structure LaunchCall where
  aEnvironment : List (nsString × nsString)
  aProcessType : Nat
  aEnableLogging : Bool
  getenv_MOZ_LOG : Option nsString
  GetTempPathW : nsString
  SpawnTarget : SpawnResult
  InitDllBlocklistOOP_isErr : Bool
  LoadLibraryExW : Bool
  GetProcessExeModule_isOk : Bool
  GetProcessExeModule_unwrap : Nat
  PEHeaders_valid : Bool
  RestoreImportDirectory_isErr : Bool

/-- What a launch does outside the policy object. -/
inductive LaunchEffect where
  | SpawnTarget
  | Accumulate (key : nsString) (sample : ResultCode)
  | LOG_E (message : String)
  | LOG_W (message : String)
  | InitDllBlocklistOOP
  | LoadLibraryExW
  | GetProcessExeModule
  | RestoreImportDirectory
  | TerminateProcess (hProcess : Nat) (uExitCode : Nat)
  | CloseHandle (hObject : Nat)
  | DisableDueToFailure
  | ResumeThread (hThread : Nat)
  deriving DecidableEq

/-- What a launch works on: the member `mPolicy`, the static `sLaunchErrors`
(`none` until it is created, otherwise the keys it holds), everything done
outside the policy object so far, oldest first, and what was stored through
`aProcessHandle` (`none` while nothing was stored). -/
structure LaunchState where
  mPolicy : Option TargetPolicy
  sLaunchErrors : Option (List nsString)
  effects : List LaunchEffect
  aProcessHandle : Option Nat

/-- A step of a launch: how it ends and the state after it. -/
def Launch (α : Type) : Type := LaunchState → Outcome α × LaunchState

/-- Sequencing: a crash stops the launch. -/
def Launch.bind {α β : Type} (x : Launch α) (f : α → Launch β) : Launch β :=
  fun s => match x s with
    | (Outcome.returned a, t) => f a t
    | (Outcome.crashed, t) => (Outcome.crashed, t)

instance : Monad Launch where
  pure a := fun s => (Outcome.returned a, s)
  bind := Launch.bind

/-- The test `!mPolicy`. -/
def Launch.mPolicy_isNull : Launch Bool :=
  fun s => (Outcome.returned s.mPolicy.isNone, s)

/-- A use of `mPolicy`: the step runs on the policy object (a null pointer
stops the process). -/
def Launch.onPolicy {α : Type} (x : Broker α) : Launch α :=
  fun s => match s.mPolicy with
    | none => (Outcome.crashed, s)
    | some p => ((x p).1, { s with mPolicy := some (x p).2 })

/-- Something done outside the policy object. -/
def Launch.effect (e : LaunchEffect) : Launch Unit :=
  fun s => (Outcome.returned (), { s with effects := s.effects ++ [e] })

/-- The test `if (sLaunchErrors)`. -/
def Launch.sLaunchErrors_isSet : Launch Bool :=
  fun s => (Outcome.returned s.sLaunchErrors.isSome, s)

/-- `sLaunchErrors->Contains(key)` (a null pointer stops the process). -/
def Launch.Contains (key : nsString) : Launch Bool :=
  fun s => match s.sLaunchErrors with
    | none => (Outcome.crashed, s)
    | some keys => (Outcome.returned (decide (key ∈ keys)), s)

/-- `sLaunchErrors->PutEntry(key)` (a null pointer stops the process). -/
def Launch.PutEntry (key : nsString) : Launch Unit :=
  fun s => match s.sLaunchErrors with
    | none => (Outcome.crashed, s)
    | some keys =>
      (Outcome.returned (),
        { s with sLaunchErrors := some (if key ∈ keys then keys else keys ++ [key]) })

/-- The store `*aProcessHandle = hProcess`. -/
def Launch.storeProcessHandle (hProcess : Nat) : Launch Unit :=
  fun s => (Outcome.returned (), { s with aProcessHandle := some hProcess })

/-- `ApplyLoggingPolicy`: five placeholder rules, results unused. -/
def ApplyLoggingPolicy (h : Host) : Broker Unit := do
  MOZ_ASSERT h true
  let _ ← TargetPolicy.AddRule SUBSYS_NAMED_PIPES NAMEDPIPES_ALLOW_ANY "dummy".toList
  let _ ← TargetPolicy.AddRule SUBSYS_PROCESS PROCESS_MIN_EXEC "dummy".toList
  let _ ← TargetPolicy.AddRule SUBSYS_REGISTRY REG_ALLOW_READONLY
    "HKEY_CURRENT_USER\\dummy".toList
  let _ ← TargetPolicy.AddRule SUBSYS_SYNC EVENTS_ALLOW_READONLY "dummy".toList
  let _ ← TargetPolicy.AddRule SUBSYS_HANDLES HANDLES_DUP_BROKER "dummy".toList
  pure ()

/-- `AddMozLogRulesToPolicy`: when the child environment names a log file
(`MOZ_LOG_FILE`, else `NSPR_LOG_FILE`) and `MOZ_LOG` is set, one
`FILES_ALLOW_ANY` rule for the log file name; nothing otherwise. -/
def AddMozLogRulesToPolicy (h : LaunchHost) (aEnvironment : List (nsString × nsString))
    (getenv_MOZ_LOG : Option nsString) : Broker Unit :=
  match (aEnvironment.lookup "MOZ_LOG_FILE".toList).orElse
      (fun _ => aEnvironment.lookup "NSPR_LOG_FILE".toList), getenv_MOZ_LOG with
  | some second, some logFileModules =>
    let logFileName := second ++ h.MOZ_LOG_FILE_EXTENSION
    let rotate := (h.NSPRLogModulesParser logFileModules).foldl
      (fun rotate entry =>
        if entry.1 = "rotate".toList then decide (entry.2.2 > 0) else rotate) false
    let logFileName := if rotate then logFileName ++ ".?".toList else logFileName
    let pidPos := wstring_find h.MOZ_LOG_PID_TOKEN logFileName
    let lastSlash := wstring_find_last_of "/\\".toList logFileName
    let logFileName :=
      match pidPos, lastSlash with
      | some pid, none => wstring_replace logFileName pid h.MOZ_LOG_PID_TOKEN.length "*".toList
      | some pid, some slash =>
        if slash < pid then
          wstring_replace logFileName pid h.MOZ_LOG_PID_TOKEN.length "*".toList
        else logFileName
      | none, _ => logFileName
    do
      let _ ← TargetPolicy.AddRule SUBSYS_FILES FILES_ALLOW_ANY logFileName
      pure ()
  | _, _ => pure ()

/-- `SandboxBroker::LaunchApp`: sets up logging rules on the policy object,
spawns the target suspended, records a failed spawn in telemetry once per
key, fixes up the new process and resumes its thread.  The `else if` on the
warning follows a branch that returns, so it stands here as the next
statement. -/
def LaunchApp (h : LaunchHost) (c : LaunchCall) : Launch Bool := do
  if !h.sBrokerService || (← Launch.mPolicy_isNull) then
    return false
  let _ ← Launch.onPolicy (TargetPolicy.invoke PolicyCall.SetStdoutHandle)
  let _ ← Launch.onPolicy (TargetPolicy.invoke PolicyCall.SetStderrHandle)
  (if c.aEnableLogging then Launch.onPolicy (ApplyLoggingPolicy h.host) else pure ())
  (if h.host.DEBUG && decide (c.GetTempPathW.length > 0) then
    Launch.onPolicy (do
      let _ ← TargetPolicy.AddRule SUBSYS_FILES FILES_ALLOW_ANY (c.GetTempPathW ++ "*".toList)
      pure ())
   else pure ())
  Launch.onPolicy (AddMozLogRulesToPolicy h c.aEnvironment c.getenv_MOZ_LOG)
  Launch.effect LaunchEffect.SpawnTarget
  let targetInfo := c.SpawnTarget
  let result := targetInfo.result
  let last_warning := targetInfo.last_warning
  let last_error := targetInfo.last_error
  if SBOX_ALL_OK != result then
    let key := h.XRE_GeckoProcessTypeToString c.aProcessType ++ "/0x".toList
      ++ Nat.toDigits 16 (last_error % 2 ^ 32)
    (do
      if (← Launch.sLaunchErrors_isSet) then
        if !(← Launch.Contains key) then
          Launch.effect (LaunchEffect.Accumulate key result)
          Launch.PutEntry key
      else
        Launch.effect (LaunchEffect.Accumulate key result))
    Launch.effect (LaunchEffect.LOG_E "Failed to SpawnTarget")
    return false
  (if SBOX_ALL_OK != last_warning then
    Launch.effect (LaunchEffect.LOG_W "Warning on SpawnTarget") else pure ())
  if h.XRE_GetChildProcBinPathType_isSelf c.aProcessType then
    Launch.effect LaunchEffect.InitDllBlocklistOOP
    if c.InitDllBlocklistOOP_isErr then
      Launch.effect (LaunchEffect.LOG_E "InitDllBlocklistOOP failed")
      Launch.effect (LaunchEffect.TerminateProcess targetInfo.hProcess 1)
      Launch.effect (LaunchEffect.CloseHandle targetInfo.hThread)
      Launch.effect (LaunchEffect.CloseHandle targetInfo.hProcess)
      (if h.MOZ_LAUNCHER_PROCESS then Launch.effect LaunchEffect.DisableDueToFailure
       else pure ())
      return false
  else
    Launch.effect LaunchEffect.LoadLibraryExW
    Launch.effect LaunchEffect.GetProcessExeModule
    let realBase := if c.GetProcessExeModule_isOk then c.GetProcessExeModule_unwrap else 0
    (if c.GetProcessExeModule_isOk then pure ()
     else Launch.effect (LaunchEffect.LOG_E "nt::GetProcessExeModule failed"))
    if c.LoadLibraryExW && realBase != 0 then
      if c.PEHeaders_valid then
        Launch.effect LaunchEffect.RestoreImportDirectory
        if c.RestoreImportDirectory_isErr then
          Launch.effect (LaunchEffect.LOG_E "Failed to restore import directory")
          Launch.effect (LaunchEffect.TerminateProcess targetInfo.hProcess 1)
          Launch.effect (LaunchEffect.CloseHandle targetInfo.hThread)
          Launch.effect (LaunchEffect.CloseHandle targetInfo.hProcess)
          return false
  Launch.effect (LaunchEffect.ResumeThread targetInfo.hThread)
  Launch.effect (LaunchEffect.CloseHandle targetInfo.hThread)
  Launch.storeProcessHandle targetInfo.hProcess
  return true

/-- The bands of the content level table in the words of the specification:
`t >= 20`, `4 <= t <= 19`, `t = 3`, `t = 2`, `t = 1`. -/
inductive ContentBand where
  | atLeast20
  | from4to19
  | exactly3
  | exactly2
  | exactly1
  deriving DecidableEq, Repr

/-- The condition of a content band, as a predicate on the trust level. -/
def ContentBand.cond : ContentBand → Int → Prop
  | atLeast20, t => t ≥ 20
  | from4to19, t => 4 ≤ t ∧ t ≤ 19
  | exactly3, t => t = 3
  | exactly2, t => t = 2
  | exactly1, t => t = 1

instance (b : ContentBand) (t : Int) : Decidable (b.cond t) := by
  cases b <;> unfold ContentBand.cond <;> infer_instance

/-- The levels a content band supplies: those of the branch of the level chain
of `SetSecurityLevelForContentProcess` that the band names. -/
def ContentBand.levels : ContentBand → Levels
  | atLeast20 => ⟨JOB_LOCKDOWN, USER_LOCKDOWN, INTEGRITY_LEVEL_LOW, INTEGRITY_LEVEL_UNTRUSTED⟩
  | from4to19 => ⟨JOB_LOCKDOWN, USER_LIMITED, INTEGRITY_LEVEL_LOW, INTEGRITY_LEVEL_LOW⟩
  | exactly3 => ⟨JOB_RESTRICTED, USER_LIMITED, INTEGRITY_LEVEL_LOW, INTEGRITY_LEVEL_LOW⟩
  | exactly2 => ⟨JOB_INTERACTIVE, USER_INTERACTIVE, INTEGRITY_LEVEL_LOW, INTEGRITY_LEVEL_LOW⟩
  | exactly1 => ⟨JOB_NONE, USER_NON_ADMIN, INTEGRITY_LEVEL_LOW, INTEGRITY_LEVEL_LOW⟩

/-- The bands of the GPU level table in the words of the specification:
`t >= 2`, `t = 1`. -/
inductive GpuBand where
  | atLeast2
  | exactly1
  deriving DecidableEq, Repr

/-- The condition of a GPU band, as a predicate on the trust level. -/
def GpuBand.cond : GpuBand → Int → Prop
  | atLeast2, t => t ≥ 2
  | exactly1, t => t = 1

instance (b : GpuBand) (t : Int) : Decidable (b.cond t) := by
  cases b <;> unfold GpuBand.cond <;> infer_instance

/-- The levels a GPU band supplies: those of the branch of the level chain of
`SetSecurityLevelForGPUProcess` that the band names. -/
def GpuBand.levels : GpuBand → Levels
  | atLeast2 => ⟨JOB_NONE, USER_LIMITED, INTEGRITY_LEVEL_LOW, INTEGRITY_LEVEL_LOW⟩
  | exactly1 => ⟨JOB_NONE, USER_NON_ADMIN, INTEGRITY_LEVEL_LOW, INTEGRITY_LEVEL_LOW⟩

/-- The bands of the plugin level table in the words of the specification:
`t > 2`, `t = 2`, `t = 1`. -/
inductive PluginBand where
  | above2
  | exactly2
  | exactly1
  deriving DecidableEq, Repr

/-- The condition of a plugin band, as a predicate on the trust level. -/
def PluginBand.cond : PluginBand → Int → Prop
  | above2, t => t > 2
  | exactly2, t => t = 2
  | exactly1, t => t = 1

instance (b : PluginBand) (t : Int) : Decidable (b.cond t) := by
  cases b <;> unfold PluginBand.cond <;> infer_instance

/-- The levels a plugin band supplies: those of the branch of the level chain
of `SetSecurityLevelForPluginProcess` that the band names. -/
def PluginBand.levels : PluginBand → Levels
  | above2 => ⟨JOB_UNPROTECTED, USER_LIMITED, INTEGRITY_LEVEL_LOW, INTEGRITY_LEVEL_LOW⟩
  | exactly2 => ⟨JOB_UNPROTECTED, USER_INTERACTIVE, INTEGRITY_LEVEL_LOW, INTEGRITY_LEVEL_LOW⟩
  | exactly1 => ⟨JOB_NONE, USER_NON_ADMIN, INTEGRITY_LEVEL_MEDIUM, INTEGRITY_LEVEL_MEDIUM⟩

/-! ## Sample hosts and policy objects -/

/-- A policy object that accepts every call, before any call was made. -/
def acceptingPolicy : TargetPolicy :=
  { respond := fun _ _ => SBOX_ALL_OK, log := [], mitigations := ∅ }

/-- A release build on Windows 10 that can use a job object, runs from a local
drive, has the win32k lockdown preferences off and has every directory
cached. -/
def releaseHost : Host :=
  { DEBUG := false
    M_ARM64 := false
    ENABLE_SYSTEM_EXTENSION_DIRS := false
    IsWin8OrLater := true
    IsWin10OrLater := true
    IsWin10Sep2018UpdateOrLater := true
    security_sandbox_content_win32k_disable := false
    security_sandbox_rdd_win32k_disable := false
    security_sandbox_socket_win32k_disable := false
    security_sandbox_gmp_win32k_disable := false
    sCanUseJob := true
    sRunningFromNetworkDrive := false
    sBinDir := some "C:\\Program Files\\Firefox".toList
    sProfileDir := some "C:\\Users\\u\\Profile".toList
    sContentTempDir := some "C:\\Users\\u\\Temp\\content".toList
    sPluginTempDir := some "C:\\Users\\u\\Temp\\plugin".toList
    sRoamingAppDataDir := some "C:\\Users\\u\\AppData\\Roaming".toList
    sLocalAppDataDir := some "C:\\Users\\u\\AppData\\Local".toList
    sUserExtensionsDevDir := some "C:\\Users\\u\\ext-dev".toList
    sUserExtensionsDir := none }

/-- The sample host in a debug build. -/
def debugHost : Host := { releaseHost with DEBUG := true }

/-- A policy object that accepts every call and already holds
`MITIGATION_WIN32K_DISABLE` in its process mitigations. -/
def lockedDownPolicy : TargetPolicy :=
  { respond := fun _ _ => SBOX_ALL_OK, log := [], mitigations := {MITIGATION_WIN32K_DISABLE} }

/-- A broker with broker services in a build with the launcher process:
process type 2 is named `tab` and runs the broker's own binary, every other
one is named `rdd` and runs a binary of its own. -/
def sampleLaunchHost : LaunchHost :=
  { host := releaseHost
    MOZ_LAUNCHER_PROCESS := true
    sBrokerService := true
    XRE_GeckoProcessTypeToString := fun t => if t = 2 then "tab".toList else "rdd".toList
    XRE_GetChildProcBinPathType_isSelf := fun t => decide (t = 2)
    MOZ_LOG_FILE_EXTENSION := ".moz_log".toList
    MOZ_LOG_PID_TOKEN := "%PID".toList
    NSPRLogModulesParser := fun _ => [] }

/-- A launch of a `tab` process without logging in which every collaborator
succeeds; the spawn gives the process handle 100 and the thread handle 101. -/
def sampleLaunch : LaunchCall :=
  { aEnvironment := []
    aProcessType := 2
    aEnableLogging := false
    getenv_MOZ_LOG := none
    GetTempPathW := "C:\\Temp\\".toList
    SpawnTarget := { result := SBOX_ALL_OK, last_warning := SBOX_ALL_OK, last_error := 0,
                     hProcess := 100, hThread := 101 }
    InitDllBlocklistOOP_isErr := false
    LoadLibraryExW := true
    GetProcessExeModule_isOk := true
    GetProcessExeModule_unwrap := 4194304
    PEHeaders_valid := true
    RestoreImportDirectory_isErr := false }

/-- A broker object with an accepting policy before anything was launched and
before `GeckoDependentInitialize` has run. -/
def startState : LaunchState :=
  { mPolicy := some acceptingPolicy, sLaunchErrors := none, effects := [], aProcessHandle := none }

/-- The sample release host when the broker runs from a network drive. -/
def networkDriveHost : Host := { releaseHost with sRunningFromNetworkDrive := true }

/-- A policy object that answers result code 1 to the calls `rejected` selects
and accepts every other call, before any call was made. -/
def rejectingPolicy (rejected : PolicyCall → Bool) : TargetPolicy :=
  { respond := fun _ c => if rejected c then 1 else SBOX_ALL_OK, log := [], mitigations := ∅ }

/-- The calls `SetTokenLevel`. -/
def PolicyCall.isSetTokenLevel : PolicyCall → Bool
  | PolicyCall.SetTokenLevel _ _ => true
  | _ => false

/-- The calls `SetIntegrityLevel`. -/
def PolicyCall.isSetIntegrityLevel : PolicyCall → Bool
  | PolicyCall.SetIntegrityLevel _ => true
  | _ => false

/-- The calls `SetAlternateDesktop`. -/
def PolicyCall.isSetAlternateDesktop : PolicyCall → Bool
  | PolicyCall.SetAlternateDesktop _ => true
  | _ => false

/-! ## Observing runs -/

/-- The calls made on the policy object between `p` and the later `q`. -/
def TargetPolicy.callsSince (p q : TargetPolicy) : List LoggedCall :=
  q.log.drop p.log.length

/-- The calls logged on the policy object a member function leaves behind
(none when the broker has no policy object). -/
def loggedCalls {α : Type} (run : Outcome α × Option TargetPolicy) : List LoggedCall :=
  match run.2 with
  | some q => q.log
  | none => []

/-- The condition `Q` holds of the value and policy a run returns, and `C`
holds if the run crashes. -/
def Broker.post {α : Type} (C : Prop) (Q : α → TargetPolicy → Prop) (x : Broker α)
    (p : TargetPolicy) : Prop :=
  match x p with
  | (Outcome.returned a, q) => Q a q
  | (Outcome.crashed, _) => C

/-- The policy `p` after the calls `es` were logged, with `m` the word of
mitigation flags it then holds. -/
def TargetPolicy.extended (p : TargetPolicy) (es : List LoggedCall) (m : MitigationFlags) :
    TargetPolicy :=
  { respond := p.respond, log := p.log ++ es, mitigations := m }

/-- What `AddCachedDirRule` logs when the policy object answers `r`: nothing
without a base directory, and otherwise the one `AddRule` call. -/
def cachedDirLog (aAccess : Semantics) (aBaseDir : Option nsString) (aRelativePath : nsString)
    (r : ResultCode) : List LoggedCall :=
  match aBaseDir with
  | none => []
  | some baseDir =>
    [⟨PolicyCall.AddRule SUBSYS_FILES aAccess (some (baseDir ++ aRelativePath)), r⟩]

/-- What was done outside the policy object between the state `s` and the
later state `t`. -/
def LaunchState.effectsSince (s t : LaunchState) : List LaunchEffect :=
  t.effects.drop s.effects.length

/-- The key `LaunchApp` builds for a failed spawn: the name of the process
type, `/0x`, and the OS error in hexadecimal. -/
def launchErrorKey (h : LaunchHost) (c : LaunchCall) : nsString :=
  h.XRE_GeckoProcessTypeToString c.aProcessType ++ "/0x".toList
    ++ Nat.toDigits 16 (c.SpawnTarget.last_error % 2 ^ 32)

/-- The condition `Q` holds of the value and state a step of a launch
returns, and the step does not crash. -/
def Launch.post {α : Type} (Q : α → LaunchState → Prop) (x : Launch α) (s : LaunchState) : Prop :=
  match x s with
  | (Outcome.returned a, t) => Q a t
  | (Outcome.crashed, _) => False

/-- What `LaunchApp` logs about the warning of a spawn that succeeded. -/
def warningLog (c : LaunchCall) : List LaunchEffect :=
  if SBOX_ALL_OK != c.SpawnTarget.last_warning then
    [LaunchEffect.LOG_W "Warning on SpawnTarget"]
  else []

/-- Whether the fix-up of a spawned target ends in an error: for a target
that runs the broker's own binary, `InitDllBlocklistOOP` returns one; for
another binary, the import directory could be inspected and
`RestoreImportDirectory` returns one. -/
def fixupFails (h : LaunchHost) (c : LaunchCall) : Bool :=
  if h.XRE_GetChildProcBinPathType_isSelf c.aProcessType then c.InitDllBlocklistOOP_isErr
  else
    (c.LoadLibraryExW
      && (if c.GetProcessExeModule_isOk then c.GetProcessExeModule_unwrap else 0) != 0)
    && c.PEHeaders_valid && c.RestoreImportDirectory_isErr

/-- What taking down a target whose fix-up failed does. -/
def takeDown (c : LaunchCall) : List LaunchEffect :=
  [LaunchEffect.TerminateProcess c.SpawnTarget.hProcess 1,
   LaunchEffect.CloseHandle c.SpawnTarget.hThread,
   LaunchEffect.CloseHandle c.SpawnTarget.hProcess]

/-- What the fix-up of a spawned target does outside the policy object, up
to the point where `LaunchApp` either returns false or goes on to resume the
thread. -/
def fixupEffects (h : LaunchHost) (c : LaunchCall) : List LaunchEffect :=
  if h.XRE_GetChildProcBinPathType_isSelf c.aProcessType then
    LaunchEffect.InitDllBlocklistOOP ::
      (if c.InitDllBlocklistOOP_isErr then
        LaunchEffect.LOG_E "InitDllBlocklistOOP failed" :: takeDown c
          ++ (if h.MOZ_LAUNCHER_PROCESS then [LaunchEffect.DisableDueToFailure] else [])
       else [])
  else
    [LaunchEffect.LoadLibraryExW, LaunchEffect.GetProcessExeModule]
      ++ (if c.GetProcessExeModule_isOk then []
          else [LaunchEffect.LOG_E "nt::GetProcessExeModule failed"])
      ++ (if ((c.LoadLibraryExW
              && (if c.GetProcessExeModule_isOk then c.GetProcessExeModule_unwrap else 0) != 0)
              && c.PEHeaders_valid) then
            LaunchEffect.RestoreImportDirectory ::
              (if c.RestoreImportDirectory_isErr then
                LaunchEffect.LOG_E "Failed to restore import directory" :: takeDown c
               else [])
          else [])

/-- The launch `c` with `w` as the warning code of its spawn. -/
def LaunchCall.withWarning (c : LaunchCall) (w : ResultCode) : LaunchCall :=
  { c with SpawnTarget := { c.SpawnTarget with last_warning := w } }

/-- Whatever the policy object answers and however the run `x` ends, when it
starts on a policy object that holds the word `m`: the run only adds calls to
the log, every call it adds satisfies `P`, and `Q` holds of the value it
returns and of the word the policy object holds then. -/
def Broker.calls {α : Type} (P : LoggedCall → Prop) (Q : α → MitigationFlags → Prop)
    (x : Broker α) (m : MitigationFlags) : Prop :=
  ∀ p : TargetPolicy, p.mitigations = m →
    (x p).2.respond = p.respond ∧
    (∃ es, (x p).2.log = p.log ++ es ∧ ∀ e ∈ es, P e) ∧
    ∀ a, (x p).1 = Outcome.returned a → Q a (x p).2.mitigations

/-- The five mitigation flags that every kind of process gets. -/
def baselineMitigations : MitigationFlags :=
  {MITIGATION_BOTTOM_UP_ASLR, MITIGATION_HEAP_TERMINATE, MITIGATION_SEHOP,
    MITIGATION_DEP_NO_ATL_THUNK, MITIGATION_DEP}

/-- Of a call `SetProcessMitigations(flags)`: the word holds the five baseline
flags, and when the broker runs from a network drive it holds neither
`MITIGATION_IMAGE_LOAD_NO_REMOTE` nor `MITIGATION_IMAGE_LOAD_NO_LOW_LABEL`.
Of any other call: nothing. -/
def mitigationCallOk (h : Host) (e : LoggedCall) : Prop :=
  match e.call with
  | PolicyCall.SetProcessMitigations flags =>
    baselineMitigations ⊆ flags ∧
      (h.sRunningFromNetworkDrive = true →
        MITIGATION_IMAGE_LOAD_NO_REMOTE ∉ flags ∧ MITIGATION_IMAGE_LOAD_NO_LOW_LABEL ∉ flags)
  | _ => True

/-- Of a call `SetTokenLevel(initial, lockdown)`: the delayed level is at
least `USER_NON_ADMIN`.  Of a call `SetDelayedIntegrityLevel(level)`: the
level is at most `INTEGRITY_LEVEL_LOW`.  Of any other call: nothing. -/
def fileProcessCallOk (e : LoggedCall) : Prop :=
  match e.call with
  | PolicyCall.SetTokenLevel _ lockdown => USER_NON_ADMIN ≤ lockdown
  | PolicyCall.SetDelayedIntegrityLevel level => level ≤ INTEGRITY_LEVEL_LOW
  | _ => True

/-- A rule as `AddRule` gets it: subsystem, access kind and pattern. -/
abbrev Rule := SubSystem × Semantics × Option nsString

/-- The rule for the client side of the IPC pipes. -/
def chromePipeRule : Rule :=
  (SUBSYS_FILES, FILES_ALLOW_ANY, some "\\??\\pipe\\chrome.*".toList)

/-- The rule for the client side of the crash server pipe. -/
def crashPipeRule : Rule :=
  (SUBSYS_FILES, FILES_ALLOW_ANY, some "\\??\\pipe\\gecko-crash-server-pipe.*".toList)

/-- The rule a call of `AddCachedDirRule` asks for: none when the directory is
not cached. -/
def cachedDirRule (aAccess : Semantics) (aBaseDir : Option nsString)
    (aRelativePath : nsString) : List Rule :=
  match aBaseDir with
  | none => []
  | some baseDir => [(SUBSYS_FILES, aAccess, some (baseDir ++ aRelativePath))]

/-- The rule a win32k lockdown block asks for when its preference `enabled`
is on: none before Windows 8. -/
def win32kRule (h : Host) (enabled : Bool) (aEnableOpm : Bool) : List Rule :=
  if enabled && h.IsWin8OrLater then
    [(SUBSYS_WIN32K_LOCKDOWN,
      if aEnableOpm then IMPLEMENT_OPM_APIS else FAKE_USER_GDI_INIT, none)]
  else []

/-- The rules `SetSecurityLevelForContentProcess` asks for, in order. -/
def contentRuleList (h : Host) (aSandboxLevel : Int) (aIsFileProcess : Bool) : List Rule :=
  win32kRule h h.security_sandbox_content_win32k_disable false
  ++ cachedDirRule FILES_ALLOW_ANY h.sContentTempDir "\\*".toList
  ++ (if aSandboxLevel = 1 ∨ aIsFileProcess then
        [(SUBSYS_FILES, FILES_ALLOW_READONLY, some "*".toList)]
      else
        cachedDirRule FILES_ALLOW_READONLY h.sLocalAppDataDir
          "\\Microsoft\\Windows\\Fonts\\*".toList
        ++ cachedDirRule FILES_ALLOW_READONLY h.sBinDir "\\*".toList
        ++ cachedDirRule FILES_ALLOW_READONLY h.sProfileDir "\\chrome\\*".toList
        ++ cachedDirRule FILES_ALLOW_READONLY h.sProfileDir "\\extensions\\*".toList
        ++ cachedDirRule FILES_ALLOW_READONLY h.sUserExtensionsDevDir "\\*".toList
        ++ (if h.ENABLE_SYSTEM_EXTENSION_DIRS then
              cachedDirRule FILES_ALLOW_READONLY h.sUserExtensionsDir "\\*".toList
            else []))
  ++ [chromePipeRule, crashPipeRule,
      (SUBSYS_HANDLES, HANDLES_DUP_BROKER, some "File".toList),
      (SUBSYS_HANDLES, HANDLES_DUP_ANY, some "File".toList),
      (SUBSYS_HANDLES, HANDLES_DUP_BROKER, some "Section".toList),
      (SUBSYS_HANDLES, HANDLES_DUP_ANY, some "Section".toList),
      (SUBSYS_HANDLES, HANDLES_DUP_BROKER, some "Semaphore".toList),
      (SUBSYS_HANDLES, HANDLES_DUP_ANY, some "Semaphore".toList)]

/-- The path the shader cache rules of the GPU procedure start from: the
profile path, with a leading double backslash turned into `\??\UNC\`. -/
def shaderCacheBase (path : nsString) : nsString :=
  (if Substring path 0 2 = "\\\\".toList then InsertLiteral path "??\\UNC".toList 1 else path)
    ++ "\\shader-cache".toList

/-- The two shader cache rules of the GPU procedure: none without a profile
directory, when `GetPath` fails or when the path is empty. -/
def shaderCacheRuleList (aProfileDir : Option (Option nsString)) : List Rule :=
  match aProfileDir with
  | some (some path) =>
    if path.isEmpty then []
    else
      [(SUBSYS_FILES, FILES_ALLOW_DIR_ANY, some (shaderCacheBase path)),
       (SUBSYS_FILES, FILES_ALLOW_ANY, some (shaderCacheBase path ++ "\\*".toList))]
  | _ => []

/-- The rules `SetSecurityLevelForGPUProcess` asks for, in order. -/
def gpuRuleList (aProfileDir : Option (Option nsString)) : List Rule :=
  [chromePipeRule, crashPipeRule]
  ++ shaderCacheRuleList aProfileDir
  ++ [(SUBSYS_HANDLES, HANDLES_DUP_BROKER, some "Section".toList),
      (SUBSYS_HANDLES, HANDLES_DUP_ANY, some "Section".toList)]

/-- The rules `SetSecurityLevelForPluginProcess` asks for, in order. -/
def pluginRuleList (h : Host) (aSandboxLevel : Int) : List Rule :=
  cachedDirRule FILES_ALLOW_ANY h.sPluginTempDir "\\*".toList
  ++ (if aSandboxLevel ≥ 2 then
        cachedDirRule FILES_ALLOW_ANY h.sRoamingAppDataDir
          "\\Macromedia\\Flash Player\\*".toList
        ++ cachedDirRule FILES_ALLOW_ANY h.sLocalAppDataDir
          "\\Macromedia\\Flash Player\\*".toList
        ++ cachedDirRule FILES_ALLOW_ANY h.sRoamingAppDataDir "\\Adobe\\Flash Player\\*".toList
        ++ cachedDirRule FILES_ALLOW_DIR_ANY h.sRoamingAppDataDir "\\Macromedia".toList
        ++ cachedDirRule FILES_ALLOW_QUERY h.sRoamingAppDataDir "\\Macromedia\\".toList
        ++ cachedDirRule FILES_ALLOW_DIR_ANY h.sRoamingAppDataDir
          "\\Macromedia\\Flash Player".toList
        ++ cachedDirRule FILES_ALLOW_DIR_ANY h.sLocalAppDataDir "\\Macromedia".toList
        ++ cachedDirRule FILES_ALLOW_DIR_ANY h.sLocalAppDataDir
          "\\Macromedia\\Flash Player".toList
        ++ cachedDirRule FILES_ALLOW_DIR_ANY h.sRoamingAppDataDir "\\Adobe".toList
        ++ cachedDirRule FILES_ALLOW_DIR_ANY h.sRoamingAppDataDir "\\Adobe\\Flash Player".toList
      else [])
  ++ [chromePipeRule, crashPipeRule,
      (SUBSYS_HANDLES, HANDLES_DUP_ANY, some "Section".toList),
      (SUBSYS_HANDLES, HANDLES_DUP_BROKER, some "Section".toList),
      (SUBSYS_REGISTRY, REG_ALLOW_ANY,
        some ("HKEY_CURRENT_USER\\Software\\Microsoft\\Windows\\CurrentVersion\\Explorer" ++
          "\\ComDlg32\\OpenSavePidlMRU\\*").toList),
      (SUBSYS_REGISTRY, REG_ALLOW_ANY,
        some ("HKEY_CURRENT_USER\\Software\\Microsoft\\Windows\\CurrentVersion\\Explorer" ++
          "\\ComDlg32\\LastVisitedPidlMRULegacy\\*").toList)]

/-- The rules `SetSecurityLevelForRDDProcess` asks for, in order. -/
def rddRuleList (h : Host) : List Rule :=
  win32kRule h h.security_sandbox_rdd_win32k_disable false
  ++ [chromePipeRule, crashPipeRule,
      (SUBSYS_HANDLES, HANDLES_DUP_ANY, some "Section".toList),
      (SUBSYS_HANDLES, HANDLES_DUP_BROKER, some "Section".toList)]

/-- The rules `SetSecurityLevelForSocketProcess` asks for, in order. -/
def socketRuleList (h : Host) : List Rule :=
  win32kRule h h.security_sandbox_socket_win32k_disable false
  ++ [chromePipeRule, crashPipeRule,
      (SUBSYS_HANDLES, HANDLES_DUP_BROKER, some "Section".toList)]

/-- The registry patterns of `SetSecurityLevelForGMPlugin`, in the order in
which it adds them. -/
def gmpRegistryPatterns : List nsString :=
  ["HKEY_CURRENT_USER".toList,
   "HKEY_CURRENT_USER\\Control Panel\\Desktop".toList,
   "HKEY_CURRENT_USER\\Control Panel\\Desktop\\LanguageConfiguration".toList,
   "HKEY_LOCAL_MACHINE\\SOFTWARE\\Microsoft\\Windows\\CurrentVersion\\SideBySide".toList,
   "HKEY_LOCAL_MACHINE\\SOFTWARE\\Policies\\Microsoft\\MUI\\Settings".toList,
   "HKEY_CURRENT_USER\\Software\\Policies\\Microsoft\\Control Panel\\Desktop".toList,
   "HKEY_CURRENT_USER\\Control Panel\\Desktop\\PreferredUILanguages".toList,
   ("HKEY_LOCAL_MACHINE\\SOFTWARE\\Microsoft\\Windows\\CurrentVersion\\SideBySide" ++
     "\\PreferExternalManifest").toList,
   "HKEY_LOCAL_MACHINE\\System\\CurrentControlSet\\Control\\Srp\\GP\\".toList,
   "HKEY_LOCAL_MACHINE\\System\\CurrentControlSet\\Control\\Srp\\\\GP\\".toList]

/-- The rules `SetSecurityLevelForGMPlugin` asks for, in order. -/
def gmpRuleList (h : Host) (aIsRemoteLaunch : Bool) : List Rule :=
  win32kRule h (h.security_sandbox_gmp_win32k_disable && h.IsWin10OrLater) true
  ++ [chromePipeRule, crashPipeRule]
  ++ (if h.DEBUG then [(SUBSYS_SYNC, EVENTS_ALLOW_ANY, some "ChromeIPCLog.*".toList)] else [])
  ++ (gmpRegistryPatterns.take 8).map (fun pat => (SUBSYS_REGISTRY, REG_ALLOW_READONLY, some pat))
  ++ [(SUBSYS_FILES, FILES_ALLOW_READONLY, some "\\Device\\SrpDevice".toList)]
  ++ (gmpRegistryPatterns.drop 8).map (fun pat => (SUBSYS_REGISTRY, REG_ALLOW_READONLY, some pat))
  ++ [(SUBSYS_HANDLES, if aIsRemoteLaunch then HANDLES_DUP_ANY else HANDLES_DUP_BROKER,
        some "Section".toList)]

/-- Of a call `AddRule`: its subsystem, access kind and pattern are among
`rules`.  Of any other call: nothing. -/
def ruleCallIn (rules : List Rule) (e : LoggedCall) : Prop :=
  match e.call with
  | PolicyCall.AddRule s a pat => (s, a, pat) ∈ rules
  | _ => True

/-- The levels the chain of `SetSecurityLevelForContentProcess` assigns (the
chain of `ContentProcessLevels` without its assertion). -/
def contentLevelsOf (aSandboxLevel : Int) : Levels :=
  if aSandboxLevel ≥ 20 then
    ⟨JOB_LOCKDOWN, USER_LOCKDOWN, INTEGRITY_LEVEL_LOW, INTEGRITY_LEVEL_UNTRUSTED⟩
  else if aSandboxLevel ≥ 4 then
    ⟨JOB_LOCKDOWN, USER_LIMITED, INTEGRITY_LEVEL_LOW, INTEGRITY_LEVEL_LOW⟩
  else if aSandboxLevel ≥ 3 then
    ⟨JOB_RESTRICTED, USER_LIMITED, INTEGRITY_LEVEL_LOW, INTEGRITY_LEVEL_LOW⟩
  else if aSandboxLevel = 2 then
    ⟨JOB_INTERACTIVE, USER_INTERACTIVE, INTEGRITY_LEVEL_LOW, INTEGRITY_LEVEL_LOW⟩
  else
    ⟨JOB_NONE, USER_NON_ADMIN, INTEGRITY_LEVEL_LOW, INTEGRITY_LEVEL_LOW⟩

/-- The levels the chain of `SetSecurityLevelForGPUProcess` assigns (the chain
of `GPUProcessLevels` without its assertion). -/
def gpuLevelsOf (aSandboxLevel : Int) : Levels :=
  if aSandboxLevel ≥ 2 then
    ⟨JOB_NONE, USER_LIMITED, INTEGRITY_LEVEL_LOW, INTEGRITY_LEVEL_LOW⟩
  else
    ⟨JOB_NONE, USER_NON_ADMIN, INTEGRITY_LEVEL_LOW, INTEGRITY_LEVEL_LOW⟩

/-- What a procedure with a level passes to the policy object for its job
level, its token levels, its integrity levels and its first mitigation
word. -/
structure DerivedLevels where
  jobLevel : JobLevel
  initialTokenLevel : TokenLevel
  delayedTokenLevel : TokenLevel
  initialIntegrityLevel : IntegrityLevel
  delayedIntegrityLevel : IntegrityLevel
  mitigations : MitigationFlags

/-- What `SetSecurityLevelForContentProcess` derives from its arguments. -/
def contentDerived (h : Host) (aSandboxLevel : Int) (aIsFileProcess : Bool) : DerivedLevels :=
  let levels := contentLevelsOf aSandboxLevel
  let clamped :=
    if aIsFileProcess then
      fileProcessClamp (levels.accessTokenLevel, levels.delayedIntegrityLevel)
    else
      (levels.accessTokenLevel, levels.delayedIntegrityLevel)
  { jobLevel := if h.sCanUseJob then levels.jobLevel else JOB_NONE
    initialTokenLevel := initialAccessTokenLevel clamped.1
    delayedTokenLevel := clamped.1
    initialIntegrityLevel := levels.initialIntegrityLevel
    delayedIntegrityLevel := clamped.2
    mitigations := ContentProcessMitigations h aSandboxLevel }

/-- What `SetSecurityLevelForGPUProcess` derives from its level. -/
def gpuDerived (h : Host) (aSandboxLevel : Int) : DerivedLevels :=
  let levels := gpuLevelsOf aSandboxLevel
  { jobLevel := if h.sCanUseJob then levels.jobLevel else JOB_NONE
    initialTokenLevel := initialAccessTokenLevel levels.accessTokenLevel
    delayedTokenLevel := levels.accessTokenLevel
    initialIntegrityLevel := levels.initialIntegrityLevel
    delayedIntegrityLevel := levels.delayedIntegrityLevel
    mitigations := baselineMitigations }

/-- What `SetSecurityLevelForPluginProcess` derives from its level. -/
def pluginDerived (h : Host) (aSandboxLevel : Int) : DerivedLevels :=
  let levels := PluginProcessLevels aSandboxLevel
  { jobLevel := if h.sCanUseJob then levels.jobLevel else JOB_NONE
    initialTokenLevel := USER_RESTRICTED_SAME_ACCESS
    delayedTokenLevel := levels.accessTokenLevel
    initialIntegrityLevel := levels.initialIntegrityLevel
    delayedIntegrityLevel := levels.delayedIntegrityLevel
    mitigations := PluginProcessMitigations h }

/-- Of a call that sets the job level, the token levels, an integrity level or
the mitigation word: its arguments are the ones of `d` (for the mitigation
word also with `MITIGATION_WIN32K_DISABLE` added, as the win32k lockdown
passes it).  Of any other call: nothing. -/
def levelCallFrom (d : DerivedLevels) (e : LoggedCall) : Prop :=
  match e.call with
  | PolicyCall.SetJobLevel j _ => j = d.jobLevel
  | PolicyCall.SetTokenLevel initial lockdown =>
    initial = d.initialTokenLevel ∧ lockdown = d.delayedTokenLevel
  | PolicyCall.SetIntegrityLevel level => level = d.initialIntegrityLevel
  | PolicyCall.SetDelayedIntegrityLevel level => level = d.delayedIntegrityLevel
  | PolicyCall.SetProcessMitigations flags =>
    flags = d.mitigations ∨ flags = d.mitigations ∪ {MITIGATION_WIN32K_DISABLE}
  | _ => True

/-- The level `b` is at least as restrictive as `a`: job level and token
levels at most those of `a`, integrity levels at least those of `a`, and a
mitigation word that holds the one of `a`. -/
def DerivedLevels.atLeastAsRestrictiveAs (b a : DerivedLevels) : Prop :=
  b.jobLevel ≤ a.jobLevel ∧ b.initialTokenLevel ≤ a.initialTokenLevel ∧
  b.delayedTokenLevel ≤ a.delayedTokenLevel ∧
  a.initialIntegrityLevel ≤ b.initialIntegrityLevel ∧
  a.delayedIntegrityLevel ≤ b.delayedIntegrityLevel ∧ a.mitigations ⊆ b.mitigations

/-- Of a call `AddRule` for `SUBSYS_HANDLES`: the access kind is
`HANDLES_DUP_BROKER` or `HANDLES_DUP_ANY` and the pattern is one of
`patterns`.  Of any other call: nothing. -/
def handleRuleOk (patterns : List nsString) (e : LoggedCall) : Prop :=
  match e.call with
  | PolicyCall.AddRule s a pat =>
    s = SUBSYS_HANDLES →
      (a = HANDLES_DUP_BROKER ∨ a = HANDLES_DUP_ANY) ∧ ∃ x ∈ patterns, pat = some x
  | _ => True

/-- A logged call with the result code of a `SetAlternateDesktop` call left
out. -/
def LoggedCall.withoutDesktopResult (e : LoggedCall) : LoggedCall :=
  if e.call.isSetAlternateDesktop then ⟨e.call, SBOX_ALL_OK⟩ else e

/-- Two policy objects that differ at most in what `SetAlternateDesktop`
returns: they answer every other call alike, the calls logged on them are the
same, in order and with the same results but for those of
`SetAlternateDesktop`, and they hold the same mitigation word. -/
def TargetPolicy.sameExceptDesktop (p p' : TargetPolicy) : Prop :=
  (∀ n c, c.isSetAlternateDesktop = false → p.respond n c = p'.respond n c) ∧
  p.log.map LoggedCall.withoutDesktopResult = p'.log.map LoggedCall.withoutDesktopResult ∧
  p.mitigations = p'.mitigations

/-- Two runs of a member function that end alike and leave policy objects
that differ at most in what `SetAlternateDesktop` returned. -/
def sameRunExceptDesktop {α : Type} (run run' : Outcome α × Option TargetPolicy) : Prop :=
  run.1 = run'.1 ∧
  match run.2, run'.2 with
  | some q, some q' => q.sameExceptDesktop q'
  | none, none => True
  | _, _ => False

/-- The procedure `x` does not use what `SetAlternateDesktop` returns: on two
policy objects that differ at most there, it ends alike and leaves two such
policy objects. -/
def Broker.ignoresDesktopResult {α : Type} (x : Broker α) : Prop :=
  ∀ p p' : TargetPolicy, p.sameExceptDesktop p' →
    (x p).1 = (x p').1 ∧ (x p).2.sameExceptDesktop (x p').2

/-- The rules with a fixed pattern that the six `SetSecurityLevelFor*`
procedures write out (the rules for cached directories and for the shader
cache are built at run time and are not among them). -/
def staticRules : List Rule :=
  [(SUBSYS_WIN32K_LOCKDOWN, FAKE_USER_GDI_INIT, none),
   (SUBSYS_WIN32K_LOCKDOWN, IMPLEMENT_OPM_APIS, none),
   (SUBSYS_FILES, FILES_ALLOW_READONLY, some "*".toList),
   chromePipeRule, crashPipeRule,
   (SUBSYS_HANDLES, HANDLES_DUP_BROKER, some "File".toList),
   (SUBSYS_HANDLES, HANDLES_DUP_ANY, some "File".toList),
   (SUBSYS_HANDLES, HANDLES_DUP_BROKER, some "Section".toList),
   (SUBSYS_HANDLES, HANDLES_DUP_ANY, some "Section".toList),
   (SUBSYS_HANDLES, HANDLES_DUP_BROKER, some "Semaphore".toList),
   (SUBSYS_HANDLES, HANDLES_DUP_ANY, some "Semaphore".toList),
   (SUBSYS_REGISTRY, REG_ALLOW_ANY,
     some ("HKEY_CURRENT_USER\\Software\\Microsoft\\Windows\\CurrentVersion\\Explorer" ++
       "\\ComDlg32\\OpenSavePidlMRU\\*").toList),
   (SUBSYS_REGISTRY, REG_ALLOW_ANY,
     some ("HKEY_CURRENT_USER\\Software\\Microsoft\\Windows\\CurrentVersion\\Explorer" ++
       "\\ComDlg32\\LastVisitedPidlMRULegacy\\*").toList),
   (SUBSYS_SYNC, EVENTS_ALLOW_ANY, some "ChromeIPCLog.*".toList),
   (SUBSYS_FILES, FILES_ALLOW_READONLY, some "\\Device\\SrpDevice".toList)]
  ++ gmpRegistryPatterns.map (fun pat => (SUBSYS_REGISTRY, REG_ALLOW_READONLY, some pat))

/-- The two registry rules of `SetSecurityLevelForPluginProcess`, in the order
in which it adds them. -/
def pluginRegistryRules : List Rule :=
  [(SUBSYS_REGISTRY, REG_ALLOW_ANY,
     some ("HKEY_CURRENT_USER\\Software\\Microsoft\\Windows\\CurrentVersion\\Explorer" ++
       "\\ComDlg32\\OpenSavePidlMRU\\*").toList),
   (SUBSYS_REGISTRY, REG_ALLOW_ANY,
     some ("HKEY_CURRENT_USER\\Software\\Microsoft\\Windows\\CurrentVersion\\Explorer" ++
       "\\ComDlg32\\LastVisitedPidlMRULegacy\\*").toList)]

/-- The calls whose rejection is looked at: those that set the
token levels, the mitigation word or the delayed mitigation word, and the
`AddRule` calls for a rule with a fixed pattern. -/
def checkedCall : PolicyCall → Bool
  | PolicyCall.SetTokenLevel _ _ => true
  | PolicyCall.SetProcessMitigations _ => true
  | PolicyCall.SetDelayedProcessMitigations _ => true
  | PolicyCall.AddRule s a pat => decide ((s, a, pat) ∈ staticRules)
  | _ => false

/-- The policy object accepted every one of the calls `es` that is a
`checkedCall`. -/
def allAccepted (es : List LoggedCall) : Prop :=
  ∀ e ∈ es, checkedCall e.call = true → e.result = SBOX_ALL_OK

/-- The rule a logged `AddRule` call asks for. -/
def LoggedCall.rule (e : LoggedCall) : Option Rule :=
  match e.call with
  | PolicyCall.AddRule s a pat => some (s, a, pat)
  | _ => none

/-- The rules the calls `es` ask for, in order. -/
def requestedRules (es : List LoggedCall) : List Rule :=
  es.filterMap LoggedCall.rule

/-- The rule is one of the two pipe rules, a registry rule or a handle rule. -/
def isTrackedRule (r : Rule) : Bool :=
  decide (r = chromePipeRule ∨ r = crashPipeRule ∨ r.1 = SUBSYS_REGISTRY ∨
    r.1 = SUBSYS_HANDLES)

/-- The pipe, registry and handle rules the calls `es` ask for, in order. -/
def trackedRules (es : List LoggedCall) : List Rule :=
  (requestedRules es).filter isTrackedRule

/-- The pipe, registry and handle rules of `SetSecurityLevelForContentProcess`,
in the order in which it adds them. -/
def contentTrackedRules : List Rule :=
  [chromePipeRule, crashPipeRule,
   (SUBSYS_HANDLES, HANDLES_DUP_BROKER, some "File".toList),
   (SUBSYS_HANDLES, HANDLES_DUP_ANY, some "File".toList),
   (SUBSYS_HANDLES, HANDLES_DUP_BROKER, some "Section".toList),
   (SUBSYS_HANDLES, HANDLES_DUP_ANY, some "Section".toList),
   (SUBSYS_HANDLES, HANDLES_DUP_BROKER, some "Semaphore".toList),
   (SUBSYS_HANDLES, HANDLES_DUP_ANY, some "Semaphore".toList)]

/-- The pipe, registry and handle rules of `SetSecurityLevelForGPUProcess`, in
the order in which it adds them. -/
def gpuTrackedRules : List Rule :=
  [chromePipeRule, crashPipeRule,
   (SUBSYS_HANDLES, HANDLES_DUP_BROKER, some "Section".toList),
   (SUBSYS_HANDLES, HANDLES_DUP_ANY, some "Section".toList)]

/-- The pipe, registry and handle rules of `SetSecurityLevelForPluginProcess`,
in the order in which it adds them. -/
def pluginTrackedRules : List Rule :=
  [chromePipeRule, crashPipeRule,
   (SUBSYS_HANDLES, HANDLES_DUP_ANY, some "Section".toList),
   (SUBSYS_HANDLES, HANDLES_DUP_BROKER, some "Section".toList)] ++ pluginRegistryRules

/-- The pipe, registry and handle rules of `SetSecurityLevelForRDDProcess`, in
the order in which it adds them. -/
def rddTrackedRules : List Rule :=
  [chromePipeRule, crashPipeRule,
   (SUBSYS_HANDLES, HANDLES_DUP_ANY, some "Section".toList),
   (SUBSYS_HANDLES, HANDLES_DUP_BROKER, some "Section".toList)]

/-- The pipe, registry and handle rules of `SetSecurityLevelForSocketProcess`,
in the order in which it adds them. -/
def socketTrackedRules : List Rule :=
  [chromePipeRule, crashPipeRule,
   (SUBSYS_HANDLES, HANDLES_DUP_BROKER, some "Section".toList)]

/-- The pipe, registry and handle rules of `SetSecurityLevelForGMPlugin`, in
the order in which it adds them. -/
def gmpTrackedRules (aIsRemoteLaunch : Bool) : List Rule :=
  [chromePipeRule, crashPipeRule] ++
    gmpRegistryPatterns.map (fun pat => (SUBSYS_REGISTRY, REG_ALLOW_READONLY, some pat)) ++
    [(SUBSYS_HANDLES, if aIsRemoteLaunch then HANDLES_DUP_ANY else HANDLES_DUP_BROKER,
      some "Section".toList)]

/-- No file rule with a fixed pattern has a pattern that ends in `rel`. -/
def notSuffixOfStatic (rel : nsString) : Bool :=
  staticRules.all fun r =>
    r.1 != SUBSYS_FILES ||
      match r.2.2 with
      | some lit => !(rel.isSuffixOf lit)
      | none => true

/-- Whatever the policy object holds before the run and however the run ends,
`Q` holds of the value the run returns, of the pipe, registry and handle rules it asked
for, and of whether every checked call it made was accepted. -/
def Broker.audit {α : Type} (Q : α → List Rule → Prop → Prop) (x : Broker α) : Prop :=
  ∀ p : TargetPolicy, ∃ es, (x p).2.log = p.log ++ es ∧
    ∀ a, (x p).1 = Outcome.returned a → Q a (trackedRules es) (allAccepted es)

/-- On a policy object that accepts every call and holds the mitigation word
`m`, the run of `x` returns `v`, adds the rules `rs` to those the policy object
accepted and leaves the mitigation word `m'`. -/
def Broker.acceptedRun {α : Type} (x : Broker α) (m : MitigationFlags) (v : α)
    (rs : List Rule) (m' : MitigationFlags) : Prop :=
  ∀ p : TargetPolicy, (∀ n c, p.respond n c = SBOX_ALL_OK) → p.mitigations = m →
    (x p).1 = Outcome.returned v ∧ (x p).2.respond = p.respond ∧
    (x p).2.rules = p.rules ++ rs ∧ (x p).2.mitigations = m'

/-- The cached directories, by the logical names the specification gives
them. -/
inductive CachedDir where
  | Binary
  | Profile
  | ContentTemp
  | PluginTemp
  | RoamingAppData
  | LocalAppData
  | UserExtensionsDev
  | UserExtensionsOptional
  deriving DecidableEq, Repr

/-- The cache variable of a directory. -/
def Host.dir (h : Host) : CachedDir → Option nsString
  | CachedDir.Binary => h.sBinDir
  | CachedDir.Profile => h.sProfileDir
  | CachedDir.ContentTemp => h.sContentTempDir
  | CachedDir.PluginTemp => h.sPluginTempDir
  | CachedDir.RoamingAppData => h.sRoamingAppDataDir
  | CachedDir.LocalAppData => h.sLocalAppDataDir
  | CachedDir.UserExtensionsDev => h.sUserExtensionsDevDir
  | CachedDir.UserExtensionsOptional => h.sUserExtensionsDir

/-- The host when the directories `absent` selects could not be resolved:
their cache variables are empty, everything else is as in `h`. -/
def Host.without (h : Host) (absent : CachedDir → Bool) : Host :=
  { h with
    sBinDir := if absent CachedDir.Binary then none else h.sBinDir
    sProfileDir := if absent CachedDir.Profile then none else h.sProfileDir
    sContentTempDir := if absent CachedDir.ContentTemp then none else h.sContentTempDir
    sPluginTempDir := if absent CachedDir.PluginTemp then none else h.sPluginTempDir
    sRoamingAppDataDir :=
      if absent CachedDir.RoamingAppData then none else h.sRoamingAppDataDir
    sLocalAppDataDir := if absent CachedDir.LocalAppData then none else h.sLocalAppDataDir
    sUserExtensionsDevDir :=
      if absent CachedDir.UserExtensionsDev then none else h.sUserExtensionsDevDir
    sUserExtensionsDir :=
      if absent CachedDir.UserExtensionsOptional then none else h.sUserExtensionsDir }

/-- A rule with the cached directory its pattern is built from (`none` for a
rule that is not keyed on a directory). -/
abbrev KeyedRule := Option CachedDir × Rule

/-- The rule a call of `AddCachedDirRule` for the directory `key` asks for,
with its key. -/
def keyedDirRule (h : Host) (key : CachedDir) (aAccess : Semantics)
    (aRelativePath : nsString) : List KeyedRule :=
  (cachedDirRule aAccess (h.dir key) aRelativePath).map fun r => (some key, r)

/-- Rules that are not keyed on a directory. -/
def unkeyed (rules : List Rule) : List KeyedRule :=
  rules.map fun r => (none, r)

/-- The rules `SetSecurityLevelForContentProcess` asks for, in order, each with
the directory it is keyed on. -/
def contentKeyedRuleList (h : Host) (aSandboxLevel : Int) (aIsFileProcess : Bool) :
    List KeyedRule :=
  unkeyed (win32kRule h h.security_sandbox_content_win32k_disable false)
  ++ keyedDirRule h CachedDir.ContentTemp FILES_ALLOW_ANY "\\*".toList
  ++ (if aSandboxLevel = 1 ∨ aIsFileProcess then
        unkeyed [(SUBSYS_FILES, FILES_ALLOW_READONLY, some "*".toList)]
      else
        keyedDirRule h CachedDir.LocalAppData FILES_ALLOW_READONLY
          "\\Microsoft\\Windows\\Fonts\\*".toList
        ++ keyedDirRule h CachedDir.Binary FILES_ALLOW_READONLY "\\*".toList
        ++ keyedDirRule h CachedDir.Profile FILES_ALLOW_READONLY "\\chrome\\*".toList
        ++ keyedDirRule h CachedDir.Profile FILES_ALLOW_READONLY "\\extensions\\*".toList
        ++ keyedDirRule h CachedDir.UserExtensionsDev FILES_ALLOW_READONLY "\\*".toList
        ++ (if h.ENABLE_SYSTEM_EXTENSION_DIRS then
              keyedDirRule h CachedDir.UserExtensionsOptional FILES_ALLOW_READONLY "\\*".toList
            else []))
  ++ unkeyed [chromePipeRule, crashPipeRule,
      (SUBSYS_HANDLES, HANDLES_DUP_BROKER, some "File".toList),
      (SUBSYS_HANDLES, HANDLES_DUP_ANY, some "File".toList),
      (SUBSYS_HANDLES, HANDLES_DUP_BROKER, some "Section".toList),
      (SUBSYS_HANDLES, HANDLES_DUP_ANY, some "Section".toList),
      (SUBSYS_HANDLES, HANDLES_DUP_BROKER, some "Semaphore".toList),
      (SUBSYS_HANDLES, HANDLES_DUP_ANY, some "Semaphore".toList)]

/-- The rules `SetSecurityLevelForPluginProcess` asks for, in order, each with
the directory it is keyed on. -/
def pluginKeyedRuleList (h : Host) (aSandboxLevel : Int) : List KeyedRule :=
  keyedDirRule h CachedDir.PluginTemp FILES_ALLOW_ANY "\\*".toList
  ++ (if aSandboxLevel ≥ 2 then
        keyedDirRule h CachedDir.RoamingAppData FILES_ALLOW_ANY
          "\\Macromedia\\Flash Player\\*".toList
        ++ keyedDirRule h CachedDir.LocalAppData FILES_ALLOW_ANY
          "\\Macromedia\\Flash Player\\*".toList
        ++ keyedDirRule h CachedDir.RoamingAppData FILES_ALLOW_ANY
          "\\Adobe\\Flash Player\\*".toList
        ++ keyedDirRule h CachedDir.RoamingAppData FILES_ALLOW_DIR_ANY "\\Macromedia".toList
        ++ keyedDirRule h CachedDir.RoamingAppData FILES_ALLOW_QUERY "\\Macromedia\\".toList
        ++ keyedDirRule h CachedDir.RoamingAppData FILES_ALLOW_DIR_ANY
          "\\Macromedia\\Flash Player".toList
        ++ keyedDirRule h CachedDir.LocalAppData FILES_ALLOW_DIR_ANY "\\Macromedia".toList
        ++ keyedDirRule h CachedDir.LocalAppData FILES_ALLOW_DIR_ANY
          "\\Macromedia\\Flash Player".toList
        ++ keyedDirRule h CachedDir.RoamingAppData FILES_ALLOW_DIR_ANY "\\Adobe".toList
        ++ keyedDirRule h CachedDir.RoamingAppData FILES_ALLOW_DIR_ANY
          "\\Adobe\\Flash Player".toList
      else [])
  ++ unkeyed ([chromePipeRule, crashPipeRule,
      (SUBSYS_HANDLES, HANDLES_DUP_ANY, some "Section".toList),
      (SUBSYS_HANDLES, HANDLES_DUP_BROKER, some "Section".toList)] ++ pluginRegistryRules)

/-- The rule is keyed on none of the directories `absent` selects. -/
def KeyedRule.stays (absent : CachedDir → Bool) (kr : KeyedRule) : Bool :=
  match kr.1 with
  | some key => !(absent key)
  | none => true

/-- The rules of a keyed list, in order, without those keyed on a directory
`absent` selects. -/
def withoutAbsent (absent : CachedDir → Bool) (rules : List KeyedRule) : List Rule :=
  (rules.filter (KeyedRule.stays absent)).map Prod.snd

/-- The rule is a registry rule. -/
def isRegistryRule (r : Rule) : Bool :=
  decide (r.1 = SUBSYS_REGISTRY)

/-! ## Job objects -/

/-- The limit flag `JOB_OBJECT_LIMIT_BREAKAWAY_OK` of the Windows headers. -/
def JOB_OBJECT_LIMIT_BREAKAWAY_OK : Nat := 0x800

/-- What `CanUseJob` asks the operating system: `IsWin8OrLater()`, whether
`IsProcessInJob` succeeds and the `inJob` it then stores, whether
`QueryInformationJobObject` succeeds and the `LimitFlags` it then stores, and
`GetSystemMetrics(SM_REMOTESESSION)`. -/
structure JobQueries where
  IsWin8OrLater : Bool
  IsProcessInJob : Bool
  inJob : Bool
  QueryInformationJobObject : Bool
  LimitFlags : Nat
  SM_REMOTESESSION : Int

/-- `CanUseJob`: the value it returns and the calls of `Telemetry::ScalarSet`
on `SANDBOX_NO_JOB` it makes, each with its key and its value. -/
def CanUseJob (os : JobQueries) : Bool × List (nsString × Bool) :=
  if os.IsWin8OrLater then (true, [])
  else if !os.IsProcessInJob then (true, [])
  else if !os.inJob then (true, [])
  else if !os.QueryInformationJobObject then (true, [])
  else if os.LimitFlags &&& JOB_OBJECT_LIMIT_BREAKAWAY_OK != 0 then (true, [])
  else
    let localRemote := if os.SM_REMOTESESSION != 0 then "remote".toList else "local".toList
    (false, [(localRemote, true)])

/-! ## Read-only file rules of the content process, as lists -/

/-- The rule is a file rule with read-only access. -/
def isReadOnlyFileRule (r : Rule) : Bool :=
  decide (r.1 = SUBSYS_FILES ∧ r.2.1 = FILES_ALLOW_READONLY)

/-- The rule of `SetSecurityLevelForContentProcess` that lets the process read
every file. -/
def readEverythingRule : Rule :=
  (SUBSYS_FILES, FILES_ALLOW_READONLY, some "*".toList)

/-- The read-only rules for cached directories in the `else` branch of
`if (aSandboxLevel == 1 || aIsFileProcess)` in
`SetSecurityLevelForContentProcess`, in order: user fonts, installation
directory, profile `chrome`, profile `extensions`, the development extensions
directory and, under `ENABLE_SYSTEM_EXTENSION_DIRS`, the user extensions
directory; a rule is there when its directory was cached. -/
def contentReadOnlyDirRules (h : Host) : List Rule :=
  cachedDirRule FILES_ALLOW_READONLY h.sLocalAppDataDir "\\Microsoft\\Windows\\Fonts\\*".toList
  ++ cachedDirRule FILES_ALLOW_READONLY h.sBinDir "\\*".toList
  ++ cachedDirRule FILES_ALLOW_READONLY h.sProfileDir "\\chrome\\*".toList
  ++ cachedDirRule FILES_ALLOW_READONLY h.sProfileDir "\\extensions\\*".toList
  ++ cachedDirRule FILES_ALLOW_READONLY h.sUserExtensionsDevDir "\\*".toList
  ++ (if h.ENABLE_SYSTEM_EXTENSION_DIRS then
        cachedDirRule FILES_ALLOW_READONLY h.sUserExtensionsDir "\\*".toList
      else [])

/-! ## Reading a launch error key -/

/-- The variable `rotate` of `AddMozLogRulesToPolicy` after
`NSPRLogModulesParser` ran on the value of `MOZ_LOG`: the last entry named
`rotate` decides, by `aValue > 0`. -/
def mozLogRotate (h : LaunchHost) (logFileModules : nsString) : Bool :=
  (h.NSPRLogModulesParser logFileModules).foldl
    (fun rotate entry =>
      if entry.1 = "rotate".toList then decide (entry.2.2 > 0) else rotate) false

/-- The variable `logFileName` of `AddMozLogRulesToPolicy` before the PID token
is looked for: the value of the environment entry, the log file extension,
and `.?` when `rotate` is set. -/
def mozLogFileName (h : LaunchHost) (second logFileModules : nsString) : nsString :=
  if mozLogRotate h logFileModules then
    second ++ h.MOZ_LOG_FILE_EXTENSION ++ ".?".toList
  else second ++ h.MOZ_LOG_FILE_EXTENSION

/-- The variable `logFileName` of `AddMozLogRulesToPolicy` when the rule is
added: the first PID token is replaced by `*` when no separator is found or
the last separator lies before the token. -/
def mozLogPattern (h : LaunchHost) (second logFileModules : nsString) : nsString :=
  let logFileName := mozLogFileName h second logFileModules
  let pidPos := wstring_find h.MOZ_LOG_PID_TOKEN logFileName
  let lastSlash := wstring_find_last_of "/\\".toList logFileName
  match pidPos, lastSlash with
  | some pid, none => wstring_replace logFileName pid h.MOZ_LOG_PID_TOKEN.length "*".toList
  | some pid, some slash =>
    if slash < pid then
      wstring_replace logFileName pid h.MOZ_LOG_PID_TOKEN.length "*".toList
    else logFileName
  | none, _ => logFileName

/-! ## The procedures as scripts of calls -/

/-- What a procedure does with the result of a call on the policy object. -/
inductive Check where
  /-- The call has no result (`SetLockdownDefaultDacl`, `AddRestrictingRandomSid`,
  `SetEnableOPMRedirection`). -/
  | void
  /-- The result is at most logged (`SetAlternateDesktop`, the rule of
  `AddCachedDirRule`). -/
  | unchecked
  /-- The result is under `MOZ_RELEASE_ASSERT(SBOX_ALL_OK == result)`. -/
  | releaseAssert
  /-- The result is under `SANDBOX_ENSURE_SUCCESS`. -/
  | ensureSuccess
  /-- The result is under `MOZ_ASSERT(SBOX_ALL_OK == result)` alone. -/
  | assertOnly
  deriving DecidableEq, Repr

/-- One step of a script: a call with what is done with its result, or the two
rules of the shader cache, of which the second is asked for when the first was
accepted and neither result stops the run. -/
inductive Step where
  | call (c : PolicyCall) (check : Check)
  | pair (first second : PolicyCall)
  deriving DecidableEq

/-- A call on the policy object, through the operation of the policy object
that stands for it. -/
def perform (c : PolicyCall) : Broker ResultCode :=
  match c with
  | PolicyCall.SetProcessMitigations flags => TargetPolicy.SetProcessMitigations flags
  | c => TargetPolicy.invoke c

/-- A step: the call and what the procedure does with the result; the value
is whether the run goes on. -/
def Step.run (h : Host) : Step → Broker Bool
  | Step.call c Check.void => do
    TargetPolicy.invokeVoid c
    return true
  | Step.call c Check.unchecked => do
    let _result ← perform c
    return true
  | Step.call c Check.releaseAssert => do
    let result ← perform c
    MOZ_RELEASE_ASSERT (SBOX_ALL_OK == result)
    return true
  | Step.call c Check.ensureSuccess => do
    let result ← perform c
    MOZ_ASSERT h (SBOX_ALL_OK == result)
    if SBOX_ALL_OK != result then return false
    return true
  | Step.call c Check.assertOnly => do
    let result ← perform c
    MOZ_ASSERT h (SBOX_ALL_OK == result)
    return true
  | Step.pair first second => do
    let result ← perform first
    if result != SBOX_ALL_OK then return true
    let _result ← perform second
    return true

/-- A script: its steps in order, until one of them ends the run; the value is
true when every step was run. -/
def runScript (h : Host) : List Step → Broker Bool
  | [] => pure true
  | s :: rest => do
    let goOn ← s.run h
    if goOn then runScript h rest else return false

/-- The value of a run through a function. -/
def Outcome.map {α β : Type} (f : α → β) : Outcome α → Outcome β
  | Outcome.returned a => Outcome.returned (f a)
  | Outcome.crashed => Outcome.crashed

/-- On a policy object that holds the mitigation word `m`, the procedure `x`
does what the script does: the same calls with the same results, and it ends
as the script does, with `ret` telling which returned values stand for a run
through every step. -/
def Broker.follows {α : Type} (h : Host) (x : Broker α) (ret : α → Bool) (m : MitigationFlags)
    (script : List Step) : Prop :=
  ∀ p : TargetPolicy, p.mitigations = m →
    (((x p).1.map ret, (x p).2) : Outcome Bool × TargetPolicy) = runScript h script p

/-- The step of a call of `AddCachedDirRule`: none without a base directory. -/
def dirRuleSteps (aAccess : Semantics) (aBaseDir : Option nsString)
    (aRelativePath : nsString) : List Step :=
  match aBaseDir with
  | none => []
  | some baseDir =>
    [Step.call (PolicyCall.AddRule SUBSYS_FILES aAccess (some (baseDir ++ aRelativePath)))
      Check.unchecked]

/-- The steps of a call of `AddWin32kLockdownPolicy` whose result is under
`check`, on a policy object that holds the word `flags`: none before Windows
8. -/
def win32kSteps (h : Host) (flags : MitigationFlags) (aEnableOpm : Bool) (check : Check) :
    List Step :=
  if h.IsWin8OrLater then
    [Step.call (PolicyCall.SetProcessMitigations (flags ∪ {MITIGATION_WIN32K_DISABLE})) check,
     Step.call (PolicyCall.AddRule SUBSYS_WIN32K_LOCKDOWN
        (if aEnableOpm then IMPLEMENT_OPM_APIS else FAKE_USER_GDI_INIT) none) check]
    ++ (if aEnableOpm then [Step.call PolicyCall.SetEnableOPMRedirection Check.void] else [])
  else []

/-- Whether the run goes on after a call under `check` returned `r`. -/
def Check.passes (h : Host) : Check → ResultCode → Bool
  | Check.void, _ => true
  | Check.unchecked, _ => true
  | Check.releaseAssert, r => r == SBOX_ALL_OK
  | Check.ensureSuccess, r => r == SBOX_ALL_OK
  | Check.assertOnly, r => !h.DEBUG || r == SBOX_ALL_OK

/-- How the run ends when it does not go on: `SANDBOX_ENSURE_SUCCESS` returns
false where assertions are compiled out; everything else is a fatal
assertion. -/
def Check.stops (h : Host) : Check → Outcome Bool
  | Check.ensureSuccess => if h.DEBUG then Outcome.crashed else Outcome.returned false
  | _ => Outcome.crashed

/-- The result a call under `check` is logged with, when the policy object
would answer `r`: a call without a result is logged with `SBOX_ALL_OK`. -/
def Check.logged (check : Check) (r : ResultCode) : ResultCode :=
  if check = Check.void then SBOX_ALL_OK else r

/-- The calls a run of the script logs, in order, when the policy object
answers by `respond` and `n` calls were made before. -/
def scriptLog (h : Host) (respond : Nat → PolicyCall → ResultCode) :
    List Step → Nat → List LoggedCall
  | [], _ => []
  | Step.call c check :: rest, n =>
    ⟨c, check.logged (respond n c)⟩ ::
      (if check.passes h (respond n c) then scriptLog h respond rest (n + 1) else [])
  | Step.pair first second :: rest, n =>
    if respond n first = SBOX_ALL_OK then
      ⟨first, respond n first⟩ :: ⟨second, respond (n + 1) second⟩ ::
        scriptLog h respond rest (n + 2)
    else ⟨first, respond n first⟩ :: scriptLog h respond rest (n + 1)

/-- How a run of the script ends when the policy object answers by `respond`
and `n` calls were made before. -/
def scriptOutcome (h : Host) (respond : Nat → PolicyCall → ResultCode) :
    List Step → Nat → Outcome Bool
  | [], _ => Outcome.returned true
  | Step.call c check :: rest, n =>
    if check.passes h (respond n c) then scriptOutcome h respond rest (n + 1)
    else check.stops h
  | Step.pair first _ :: rest, n =>
    if respond n first = SBOX_ALL_OK then scriptOutcome h respond rest (n + 2)
    else scriptOutcome h respond rest (n + 1)

/-- The mitigation word the policy object holds after the calls `es` when it
held `m` before: the word of the last `SetProcessMitigations` it accepted. -/
def wordAfter (m : MitigationFlags) : List LoggedCall → MitigationFlags
  | [] => m
  | ⟨PolicyCall.SetProcessMitigations flags, r⟩ :: es =>
    wordAfter (if r = SBOX_ALL_OK then flags else m) es
  | _ :: es => wordAfter m es

/-- The calls of a step. -/
def Step.calls : Step → List PolicyCall
  | Step.call c _ => [c]
  | Step.pair first second => [first, second]

/-- The calls of a script, in order. -/
def scriptCalls (script : List Step) : List PolicyCall :=
  script.flatMap Step.calls

/-- The call `SetJobLevel` makes on the policy object: the requested job level
when a job object can be used, and no job otherwise. -/
def jobLevelCall (h : Host) (aJobLevel : JobLevel) (aUiExceptions : Nat) : PolicyCall :=
  PolicyCall.SetJobLevel (if h.sCanUseJob then aJobLevel else JOB_NONE)
    (if h.sCanUseJob then aUiExceptions else 0)

/-- The step of a file, handle, registry or event rule with a pattern. -/
def ruleStep (subsystem : SubSystem) (semantics : Semantics) (pattern : String)
    (check : Check) : Step :=
  Step.call (PolicyCall.AddRule subsystem semantics (some pattern.toList)) check

/-- The word `SetSecurityLevelForRDDProcess` and `SetSecurityLevelForSocketProcess`
hand to `SetProcessMitigations`. -/
def rddMitigations : MitigationFlags :=
  {MITIGATION_BOTTOM_UP_ASLR, MITIGATION_HEAP_TERMINATE, MITIGATION_SEHOP,
    MITIGATION_EXTENSION_POINT_DISABLE, MITIGATION_DEP_NO_ATL_THUNK, MITIGATION_DEP,
    MITIGATION_IMAGE_LOAD_PREFER_SYS32}

/-- The steps of `SetSecurityLevelForRDDProcess` before its win32k block. -/
def rddStepsBeforeWin32k (h : Host) : List Step :=
  [Step.call (jobLevelCall h JOB_LOCKDOWN 0) Check.ensureSuccess,
   Step.call (PolicyCall.SetTokenLevel USER_RESTRICTED_SAME_ACCESS USER_LOCKDOWN)
     Check.ensureSuccess,
   Step.call (PolicyCall.SetAlternateDesktop true) Check.unchecked,
   Step.call (PolicyCall.SetIntegrityLevel INTEGRITY_LEVEL_LOW) Check.ensureSuccess,
   Step.call (PolicyCall.SetDelayedIntegrityLevel INTEGRITY_LEVEL_UNTRUSTED)
     Check.ensureSuccess,
   Step.call PolicyCall.SetLockdownDefaultDacl Check.void,
   Step.call PolicyCall.AddRestrictingRandomSid Check.void,
   Step.call (PolicyCall.SetProcessMitigations rddMitigations) Check.ensureSuccess]

/-- The steps of `SetSecurityLevelForRDDProcess` after its win32k block. -/
def rddStepsAfterWin32k : List Step :=
  [Step.call (PolicyCall.SetDelayedProcessMitigations
      {MITIGATION_STRICT_HANDLE_CHECKS, MITIGATION_DYNAMIC_CODE_DISABLE,
        MITIGATION_DLL_SEARCH_ORDER, MITIGATION_FORCE_MS_SIGNED_BINS}) Check.ensureSuccess,
   ruleStep SUBSYS_FILES FILES_ALLOW_ANY "\\??\\pipe\\chrome.*" Check.ensureSuccess,
   ruleStep SUBSYS_FILES FILES_ALLOW_ANY "\\??\\pipe\\gecko-crash-server-pipe.*"
     Check.ensureSuccess,
   ruleStep SUBSYS_HANDLES HANDLES_DUP_ANY "Section" Check.ensureSuccess,
   ruleStep SUBSYS_HANDLES HANDLES_DUP_BROKER "Section" Check.ensureSuccess]

/-- The steps of `SetSecurityLevelForRDDProcess`, in program order. -/
def rddScript (h : Host) : List Step :=
  rddStepsBeforeWin32k h
  ++ (if h.security_sandbox_rdd_win32k_disable then
        win32kSteps h rddMitigations false Check.ensureSuccess
      else [])
  ++ rddStepsAfterWin32k

/-- The steps of `SetSecurityLevelForSocketProcess` before its win32k block:
those of the RDD procedure but for the delayed token level. -/
def socketStepsBeforeWin32k (h : Host) : List Step :=
  [Step.call (jobLevelCall h JOB_LOCKDOWN 0) Check.ensureSuccess,
   Step.call (PolicyCall.SetTokenLevel USER_RESTRICTED_SAME_ACCESS USER_LIMITED)
     Check.ensureSuccess,
   Step.call (PolicyCall.SetAlternateDesktop true) Check.unchecked,
   Step.call (PolicyCall.SetIntegrityLevel INTEGRITY_LEVEL_LOW) Check.ensureSuccess,
   Step.call (PolicyCall.SetDelayedIntegrityLevel INTEGRITY_LEVEL_UNTRUSTED)
     Check.ensureSuccess,
   Step.call PolicyCall.SetLockdownDefaultDacl Check.void,
   Step.call PolicyCall.AddRestrictingRandomSid Check.void,
   Step.call (PolicyCall.SetProcessMitigations rddMitigations) Check.ensureSuccess]

/-- The steps of `SetSecurityLevelForSocketProcess` after its win32k block. -/
def socketStepsAfterWin32k : List Step :=
  [Step.call (PolicyCall.SetDelayedProcessMitigations
      {MITIGATION_STRICT_HANDLE_CHECKS, MITIGATION_DYNAMIC_CODE_DISABLE,
        MITIGATION_DLL_SEARCH_ORDER, MITIGATION_FORCE_MS_SIGNED_BINS}) Check.ensureSuccess,
   ruleStep SUBSYS_FILES FILES_ALLOW_ANY "\\??\\pipe\\chrome.*" Check.ensureSuccess,
   ruleStep SUBSYS_FILES FILES_ALLOW_ANY "\\??\\pipe\\gecko-crash-server-pipe.*"
     Check.ensureSuccess,
   ruleStep SUBSYS_HANDLES HANDLES_DUP_BROKER "Section" Check.ensureSuccess]

/-- The steps of `SetSecurityLevelForSocketProcess`, in program order. -/
def socketScript (h : Host) : List Step :=
  socketStepsBeforeWin32k h
  ++ (if h.security_sandbox_socket_win32k_disable then
        win32kSteps h rddMitigations false Check.ensureSuccess
      else [])
  ++ socketStepsAfterWin32k

/-- The word `SetSecurityLevelForGMPlugin` hands to `SetProcessMitigations`. -/
def gmpMitigations : MitigationFlags :=
  {MITIGATION_BOTTOM_UP_ASLR, MITIGATION_HEAP_TERMINATE, MITIGATION_SEHOP,
    MITIGATION_EXTENSION_POINT_DISABLE, MITIGATION_DEP_NO_ATL_THUNK, MITIGATION_DEP}

/-- The steps of `SetSecurityLevelForGMPlugin` before its win32k block.  The
result of `SetIntegrityLevel` is under `MOZ_ASSERT` alone. -/
def gmpStepsBeforeWin32k (h : Host) (aLevel : SandboxLevel) : List Step :=
  [Step.call (jobLevelCall h JOB_LOCKDOWN 0) Check.ensureSuccess,
   Step.call (PolicyCall.SetTokenLevel USER_RESTRICTED_SAME_ACCESS
      (if aLevel = SandboxLevel.Restricted then USER_RESTRICTED else USER_LOCKDOWN))
     Check.ensureSuccess,
   Step.call (PolicyCall.SetAlternateDesktop true) Check.unchecked,
   Step.call (PolicyCall.SetIntegrityLevel INTEGRITY_LEVEL_LOW) Check.assertOnly,
   Step.call (PolicyCall.SetDelayedIntegrityLevel INTEGRITY_LEVEL_UNTRUSTED)
     Check.ensureSuccess,
   Step.call PolicyCall.SetLockdownDefaultDacl Check.void,
   Step.call PolicyCall.AddRestrictingRandomSid Check.void,
   Step.call (PolicyCall.SetProcessMitigations gmpMitigations) Check.ensureSuccess]

/-- The steps of `SetSecurityLevelForGMPlugin` after its win32k block, up to
its handle rule. -/
def gmpStepsAfterWin32k (h : Host) : List Step :=
  [Step.call (PolicyCall.SetDelayedProcessMitigations
      {MITIGATION_STRICT_HANDLE_CHECKS, MITIGATION_DLL_SEARCH_ORDER}) Check.ensureSuccess,
   ruleStep SUBSYS_FILES FILES_ALLOW_ANY "\\??\\pipe\\chrome.*" Check.ensureSuccess,
   ruleStep SUBSYS_FILES FILES_ALLOW_ANY "\\??\\pipe\\gecko-crash-server-pipe.*"
     Check.ensureSuccess]
  ++ (if h.DEBUG then
        [ruleStep SUBSYS_SYNC EVENTS_ALLOW_ANY "ChromeIPCLog.*" Check.ensureSuccess]
      else [])
  ++ [ruleStep SUBSYS_REGISTRY REG_ALLOW_READONLY "HKEY_CURRENT_USER" Check.ensureSuccess,
      ruleStep SUBSYS_REGISTRY REG_ALLOW_READONLY "HKEY_CURRENT_USER\\Control Panel\\Desktop"
        Check.ensureSuccess,
      ruleStep SUBSYS_REGISTRY REG_ALLOW_READONLY
        "HKEY_CURRENT_USER\\Control Panel\\Desktop\\LanguageConfiguration" Check.ensureSuccess,
      ruleStep SUBSYS_REGISTRY REG_ALLOW_READONLY
        "HKEY_LOCAL_MACHINE\\SOFTWARE\\Microsoft\\Windows\\CurrentVersion\\SideBySide"
        Check.ensureSuccess,
      ruleStep SUBSYS_REGISTRY REG_ALLOW_READONLY
        "HKEY_LOCAL_MACHINE\\SOFTWARE\\Policies\\Microsoft\\MUI\\Settings" Check.ensureSuccess,
      ruleStep SUBSYS_REGISTRY REG_ALLOW_READONLY
        "HKEY_CURRENT_USER\\Software\\Policies\\Microsoft\\Control Panel\\Desktop"
        Check.ensureSuccess,
      ruleStep SUBSYS_REGISTRY REG_ALLOW_READONLY
        "HKEY_CURRENT_USER\\Control Panel\\Desktop\\PreferredUILanguages" Check.ensureSuccess,
      ruleStep SUBSYS_REGISTRY REG_ALLOW_READONLY
        ("HKEY_LOCAL_MACHINE\\SOFTWARE\\Microsoft\\Windows\\CurrentVersion\\SideBySide" ++
          "\\PreferExternalManifest") Check.ensureSuccess,
      ruleStep SUBSYS_FILES FILES_ALLOW_READONLY "\\Device\\SrpDevice" Check.ensureSuccess,
      ruleStep SUBSYS_REGISTRY REG_ALLOW_READONLY
        "HKEY_LOCAL_MACHINE\\System\\CurrentControlSet\\Control\\Srp\\GP\\" Check.ensureSuccess,
      ruleStep SUBSYS_REGISTRY REG_ALLOW_READONLY
        "HKEY_LOCAL_MACHINE\\System\\CurrentControlSet\\Control\\Srp\\\\GP\\"
        Check.ensureSuccess]

/-- The last step of `SetSecurityLevelForGMPlugin`: its handle rule. -/
def gmpHandleStep (aIsRemoteLaunch : Bool) : Step :=
  ruleStep SUBSYS_HANDLES (if aIsRemoteLaunch then HANDLES_DUP_ANY else HANDLES_DUP_BROKER)
    "Section" Check.ensureSuccess

/-- The steps of `SetSecurityLevelForGMPlugin`, in program order. -/
def gmpScript (h : Host) (aLevel : SandboxLevel) (aIsRemoteLaunch : Bool) : List Step :=
  gmpStepsBeforeWin32k h aLevel
  ++ (if h.security_sandbox_gmp_win32k_disable && h.IsWin10OrLater then
        win32kSteps h gmpMitigations true Check.ensureSuccess
      else [])
  ++ gmpStepsAfterWin32k h
  ++ [gmpHandleStep aIsRemoteLaunch]

/-- The steps of `SetSecurityLevelForPluginProcess`, in program order. -/
def pluginScript (h : Host) (aSandboxLevel : Int) : List Step :=
  [Step.call (jobLevelCall h (PluginProcessLevels aSandboxLevel).jobLevel 0)
     Check.ensureSuccess,
   Step.call (PolicyCall.SetTokenLevel USER_RESTRICTED_SAME_ACCESS
      (PluginProcessLevels aSandboxLevel).accessTokenLevel) Check.ensureSuccess,
   Step.call (PolicyCall.SetIntegrityLevel
      (PluginProcessLevels aSandboxLevel).initialIntegrityLevel) Check.ensureSuccess,
   Step.call (PolicyCall.SetDelayedIntegrityLevel
      (PluginProcessLevels aSandboxLevel).delayedIntegrityLevel) Check.ensureSuccess,
   Step.call PolicyCall.SetLockdownDefaultDacl Check.void,
   Step.call PolicyCall.AddRestrictingRandomSid Check.void,
   Step.call (PolicyCall.SetProcessMitigations (PluginProcessMitigations h))
     Check.ensureSuccess,
   Step.call (PolicyCall.SetDelayedProcessMitigations {MITIGATION_DLL_SEARCH_ORDER})
     Check.ensureSuccess]
  ++ dirRuleSteps FILES_ALLOW_ANY h.sPluginTempDir "\\*".toList
  ++ (if aSandboxLevel ≥ 2 then
        dirRuleSteps FILES_ALLOW_ANY h.sRoamingAppDataDir "\\Macromedia\\Flash Player\\*".toList
        ++ dirRuleSteps FILES_ALLOW_ANY h.sLocalAppDataDir
          "\\Macromedia\\Flash Player\\*".toList
        ++ dirRuleSteps FILES_ALLOW_ANY h.sRoamingAppDataDir "\\Adobe\\Flash Player\\*".toList
        ++ dirRuleSteps FILES_ALLOW_DIR_ANY h.sRoamingAppDataDir "\\Macromedia".toList
        ++ dirRuleSteps FILES_ALLOW_QUERY h.sRoamingAppDataDir "\\Macromedia\\".toList
        ++ dirRuleSteps FILES_ALLOW_DIR_ANY h.sRoamingAppDataDir
          "\\Macromedia\\Flash Player".toList
        ++ dirRuleSteps FILES_ALLOW_DIR_ANY h.sLocalAppDataDir "\\Macromedia".toList
        ++ dirRuleSteps FILES_ALLOW_DIR_ANY h.sLocalAppDataDir
          "\\Macromedia\\Flash Player".toList
        ++ dirRuleSteps FILES_ALLOW_DIR_ANY h.sRoamingAppDataDir "\\Adobe".toList
        ++ dirRuleSteps FILES_ALLOW_DIR_ANY h.sRoamingAppDataDir "\\Adobe\\Flash Player".toList
      else [])
  ++ [ruleStep SUBSYS_FILES FILES_ALLOW_ANY "\\??\\pipe\\chrome.*" Check.ensureSuccess,
      ruleStep SUBSYS_FILES FILES_ALLOW_ANY "\\??\\pipe\\gecko-crash-server-pipe.*"
        Check.ensureSuccess,
      ruleStep SUBSYS_HANDLES HANDLES_DUP_ANY "Section" Check.ensureSuccess,
      ruleStep SUBSYS_HANDLES HANDLES_DUP_BROKER "Section" Check.ensureSuccess,
      ruleStep SUBSYS_REGISTRY REG_ALLOW_ANY
        ("HKEY_CURRENT_USER\\Software\\Microsoft\\Windows\\CurrentVersion\\Explorer" ++
          "\\ComDlg32\\OpenSavePidlMRU\\*") Check.ensureSuccess,
      ruleStep SUBSYS_REGISTRY REG_ALLOW_ANY
        ("HKEY_CURRENT_USER\\Software\\Microsoft\\Windows\\CurrentVersion\\Explorer" ++
          "\\ComDlg32\\LastVisitedPidlMRULegacy\\*") Check.ensureSuccess]

/-- The access token level and the delayed integrity level of
`SetSecurityLevelForContentProcess` after its `if (aIsFileProcess)`. -/
def contentClamped (aSandboxLevel : Int) (aIsFileProcess : Bool) :
    TokenLevel × IntegrityLevel :=
  if aIsFileProcess then
    fileProcessClamp ((contentLevelsOf aSandboxLevel).accessTokenLevel,
      (contentLevelsOf aSandboxLevel).delayedIntegrityLevel)
  else
    ((contentLevelsOf aSandboxLevel).accessTokenLevel,
      (contentLevelsOf aSandboxLevel).delayedIntegrityLevel)

/-- The steps of `SetSecurityLevelForContentProcess` before its win32k block,
at a level of at least 1. -/
def contentStepsBeforeWin32k (h : Host) (aSandboxLevel : Int) (aIsFileProcess : Bool) :
    List Step :=
  [Step.call (jobLevelCall h (contentLevelsOf aSandboxLevel).jobLevel
      (if h.DEBUG then JOB_OBJECT_UILIMIT_HANDLES else 0)) Check.releaseAssert,
   Step.call (PolicyCall.SetTokenLevel
      (initialAccessTokenLevel (contentClamped aSandboxLevel aIsFileProcess).1)
      (contentClamped aSandboxLevel aIsFileProcess).1) Check.releaseAssert,
   Step.call (PolicyCall.SetIntegrityLevel
      (contentLevelsOf aSandboxLevel).initialIntegrityLevel) Check.releaseAssert,
   Step.call (PolicyCall.SetDelayedIntegrityLevel
      (contentClamped aSandboxLevel aIsFileProcess).2) Check.releaseAssert]
  ++ (if aSandboxLevel > 5 then
        [Step.call PolicyCall.SetLockdownDefaultDacl Check.void,
         Step.call PolicyCall.AddRestrictingRandomSid Check.void]
      else [])
  ++ (if aSandboxLevel > 4 then
        [Step.call (PolicyCall.SetAlternateDesktop false) Check.unchecked]
      else [])
  ++ [Step.call (PolicyCall.SetProcessMitigations (ContentProcessMitigations h aSandboxLevel))
        Check.releaseAssert]

/-- The steps of `SetSecurityLevelForContentProcess` after its win32k block. -/
def contentStepsAfterWin32k (h : Host) (aSandboxLevel : Int) (aIsFileProcess : Bool) :
    List Step :=
  [Step.call (PolicyCall.SetDelayedProcessMitigations
      {MITIGATION_STRICT_HANDLE_CHECKS, MITIGATION_DLL_SEARCH_ORDER}) Check.releaseAssert]
  ++ dirRuleSteps FILES_ALLOW_ANY h.sContentTempDir "\\*".toList
  ++ (if aSandboxLevel = 1 ∨ aIsFileProcess then
        [ruleStep SUBSYS_FILES FILES_ALLOW_READONLY "*" Check.releaseAssert]
      else
        dirRuleSteps FILES_ALLOW_READONLY h.sLocalAppDataDir
          "\\Microsoft\\Windows\\Fonts\\*".toList
        ++ dirRuleSteps FILES_ALLOW_READONLY h.sBinDir "\\*".toList
        ++ dirRuleSteps FILES_ALLOW_READONLY h.sProfileDir "\\chrome\\*".toList
        ++ dirRuleSteps FILES_ALLOW_READONLY h.sProfileDir "\\extensions\\*".toList
        ++ dirRuleSteps FILES_ALLOW_READONLY h.sUserExtensionsDevDir "\\*".toList
        ++ (if h.ENABLE_SYSTEM_EXTENSION_DIRS then
              dirRuleSteps FILES_ALLOW_READONLY h.sUserExtensionsDir "\\*".toList
            else []))
  ++ [ruleStep SUBSYS_FILES FILES_ALLOW_ANY "\\??\\pipe\\chrome.*" Check.releaseAssert,
      ruleStep SUBSYS_FILES FILES_ALLOW_ANY "\\??\\pipe\\gecko-crash-server-pipe.*"
        Check.releaseAssert,
      ruleStep SUBSYS_HANDLES HANDLES_DUP_BROKER "File" Check.releaseAssert,
      ruleStep SUBSYS_HANDLES HANDLES_DUP_ANY "File" Check.releaseAssert,
      ruleStep SUBSYS_HANDLES HANDLES_DUP_BROKER "Section" Check.releaseAssert,
      ruleStep SUBSYS_HANDLES HANDLES_DUP_ANY "Section" Check.releaseAssert,
      ruleStep SUBSYS_HANDLES HANDLES_DUP_BROKER "Semaphore" Check.releaseAssert,
      ruleStep SUBSYS_HANDLES HANDLES_DUP_ANY "Semaphore" Check.releaseAssert]

/-- The steps of `SetSecurityLevelForContentProcess` at a level of at least 1,
in program order. -/
def contentScript (h : Host) (aSandboxLevel : Int) (aIsFileProcess : Bool) : List Step :=
  contentStepsBeforeWin32k h aSandboxLevel aIsFileProcess
  ++ (if h.security_sandbox_content_win32k_disable then
        win32kSteps h (ContentProcessMitigations h aSandboxLevel) false Check.releaseAssert
      else [])
  ++ contentStepsAfterWin32k h aSandboxLevel aIsFileProcess

/-- The step of the two shader cache rules of the GPU procedure: none without
a profile directory, when `GetPath` fails or when the path is empty. -/
def shaderCacheSteps (aProfileDir : Option (Option nsString)) : List Step :=
  match aProfileDir with
  | some (some path) =>
    if path.isEmpty then []
    else
      [Step.pair
        (PolicyCall.AddRule SUBSYS_FILES FILES_ALLOW_DIR_ANY (some (shaderCacheBase path)))
        (PolicyCall.AddRule SUBSYS_FILES FILES_ALLOW_ANY
          (some (shaderCacheBase path ++ "\\*".toList)))]
  | _ => []

/-- The steps of `SetSecurityLevelForGPUProcess` at a level of at least 1,
before the shader cache rules. -/
def gpuStepsBeforeShaderCache (h : Host) (aSandboxLevel : Int) : List Step :=
  [Step.call (jobLevelCall h (gpuLevelsOf aSandboxLevel).jobLevel 0) Check.releaseAssert,
   Step.call (PolicyCall.SetTokenLevel
      (initialAccessTokenLevel (gpuLevelsOf aSandboxLevel).accessTokenLevel)
      (gpuLevelsOf aSandboxLevel).accessTokenLevel) Check.releaseAssert,
   Step.call (PolicyCall.SetIntegrityLevel (gpuLevelsOf aSandboxLevel).initialIntegrityLevel)
     Check.releaseAssert,
   Step.call (PolicyCall.SetDelayedIntegrityLevel
      (gpuLevelsOf aSandboxLevel).delayedIntegrityLevel) Check.releaseAssert,
   Step.call PolicyCall.SetLockdownDefaultDacl Check.void,
   Step.call PolicyCall.AddRestrictingRandomSid Check.void,
   Step.call (PolicyCall.SetProcessMitigations
      {MITIGATION_BOTTOM_UP_ASLR, MITIGATION_HEAP_TERMINATE, MITIGATION_SEHOP,
        MITIGATION_DEP_NO_ATL_THUNK, MITIGATION_DEP}) Check.releaseAssert,
   Step.call (PolicyCall.SetDelayedProcessMitigations
      {MITIGATION_STRICT_HANDLE_CHECKS, MITIGATION_DLL_SEARCH_ORDER}) Check.releaseAssert,
   ruleStep SUBSYS_FILES FILES_ALLOW_ANY "\\??\\pipe\\chrome.*" Check.releaseAssert,
   ruleStep SUBSYS_FILES FILES_ALLOW_ANY "\\??\\pipe\\gecko-crash-server-pipe.*"
     Check.releaseAssert]

/-- The last two steps of `SetSecurityLevelForGPUProcess`: its handle rules
for "Section". -/
def gpuSectionSteps : List Step :=
  [ruleStep SUBSYS_HANDLES HANDLES_DUP_BROKER "Section" Check.releaseAssert,
   ruleStep SUBSYS_HANDLES HANDLES_DUP_ANY "Section" Check.releaseAssert]

/-- The steps of `SetSecurityLevelForGPUProcess` at a level of at least 1, in
program order. -/
def gpuScript (h : Host) (aSandboxLevel : Int) (aProfileDir : Option (Option nsString)) :
    List Step :=
  gpuStepsBeforeShaderCache h aSandboxLevel
  ++ shaderCacheSteps aProfileDir
  ++ gpuSectionSteps

/-- A step that is a single call under one of the checks `allowed`. -/
def Step.checkIn (allowed : Check → Bool) : Step → Bool
  | Step.call _ check => allowed check
  | Step.pair _ _ => false

/-- A step that is a single call. -/
def Step.isCall (s : Step) : Bool := s.checkIn fun _ => true

/-- A step of a procedure whose checked calls are all under
`SANDBOX_ENSURE_SUCCESS` or `MOZ_ASSERT`. -/
def Step.isEnsureStep (s : Step) : Bool := s.checkIn fun check => check != Check.releaseAssert

/-- No call of the step is one of those `f` picks. -/
def Step.avoids (f : PolicyCall → Bool) (s : Step) : Bool :=
  s.calls.all fun c => !f c

/-- The calls `AddRule` for the subsystem `SUBSYS_HANDLES`. -/
def PolicyCall.isHandleRule : PolicyCall → Bool
  | PolicyCall.AddRule SUBSYS_HANDLES _ _ => true
  | _ => false

/-- The member function `x` does on every policy object what the script
does: the same calls with the same results, and it ends as the script does,
with `ret` telling which returned values stand for a run through every
step. -/
def Member.runsScript {α : Type} (h : Host) (x : Member α) (ret : α → Bool)
    (script : List Step) : Prop :=
  ∀ p : TargetPolicy,
    (((x (some p)).1.map ret, (x (some p)).2) : Outcome Bool × Option TargetPolicy) =
      ((runScript h script p).1, some (runScript h script p).2)

/-- A call site of `AddWin32kLockdownPolicy` in the member function `x`, which
hands over `aEnableOpm` when `enabled` holds and puts the result under
`check`; `before` and `after` are the steps of `x` around the call and `flags`
is the word `x` sets last before it.  The member function does what the script
with the steps of the helper in that place does; whenever the steps before the
helper went through, the policy object holds the word `flags`, which is
without `MITIGATION_WIN32K_DISABLE`, and the helper entered there returns a
result code, so its assertion held; a run of `x` stops at a fatal assertion
only right after a call that returned a code other than `SBOX_ALL_OK`; and on
a policy object that accepts every call, `x` returns, and returns again when
it is run a second time on the policy object it left. -/
def Win32kCallSite {α : Type} (h : Host) (x : Member α) (ret : α → Bool) (before : List Step)
    (flags : MitigationFlags) (enabled aEnableOpm : Bool) (check : Check)
    (after : List Step) : Prop :=
  Member.runsScript h x ret
    (before ++ (if enabled then win32kSteps h flags aEnableOpm check else []) ++ after) ∧
  (∀ p q : TargetPolicy, runScript h before p = (Outcome.returned true, q) →
    q.mitigations = flags ∧ MITIGATION_WIN32K_DISABLE ∉ q.mitigations ∧
    ∃ r q', AddWin32kLockdownPolicy h aEnableOpm q = (Outcome.returned r, q')) ∧
  (∀ p : TargetPolicy, (x (some p)).1 = Outcome.crashed →
    ∃ es c r, loggedCalls (x (some p)) = p.log ++ es ++ [⟨c, r⟩] ∧ r ≠ SBOX_ALL_OK) ∧
  (∀ p : TargetPolicy, (∀ n c, p.respond n c = SBOX_ALL_OK) →
    ∃ v q, x (some p) = (Outcome.returned v, some q) ∧
      ∃ v' q', x (some q) = (Outcome.returned v', some q'))

/-- The sample debug host with every win32k lockdown preference on. -/
def win32kDebugHost : Host :=
  { debugHost with
    security_sandbox_content_win32k_disable := true
    security_sandbox_rdd_win32k_disable := true
    security_sandbox_socket_win32k_disable := true
    security_sandbox_gmp_win32k_disable := true }

/-- A member function guarded by `SANDBOX_ENSURE_SUCCESS`, with its steps in
program order: it does what the script does; without a policy object it
returns false; and on every policy object it does not stop at a fatal
assertion, it returns false exactly when a step under
`SANDBOX_ENSURE_SUCCESS` returned a code other than `SBOX_ALL_OK`, after one
call for each step before it and as the last call made, the calls it made are
the first calls of the script in program order, and they are all the calls of
the script when it returns true. -/
def EnsureSuccessGuarded (h : Host) (x : Member Bool) (script : List Step) : Prop :=
  Member.runsScript h x id script ∧
  x none = (Outcome.returned false, none) ∧
  ∀ p : TargetPolicy, ∃ es,
    loggedCalls (x (some p)) = p.log ++ es ∧
    (x (some p)).1 ≠ Outcome.crashed ∧
    ((x (some p)).1 = Outcome.returned false ↔
      ∃ pre c rest es' r, script = pre ++ Step.call c Check.ensureSuccess :: rest ∧
        es = es' ++ [⟨c, r⟩] ∧ es'.length = pre.length ∧ r ≠ SBOX_ALL_OK) ∧
    es.map LoggedCall.call <+: scriptCalls script ∧
    ((x (some p)).1 = Outcome.returned true → es.map LoggedCall.call = scriptCalls script)

theorem Broker.post_true_iff {α : Type} (Q : α → TargetPolicy → Prop) (x : Broker α)
    (p : TargetPolicy) :
    Broker.post True Q x p ↔ ∀ a q, x p = (Outcome.returned a, q) → Q a q := by
  unfold Broker.post
  rcases hx : x p with ⟨o, q⟩
  cases o <;> simp

theorem Broker.post_false_iff {α : Type} (Q : α → TargetPolicy → Prop) (x : Broker α)
    (p : TargetPolicy) :
    Broker.post False Q x p ↔ ∃ a q, x p = (Outcome.returned a, q) ∧ Q a q := by
  unfold Broker.post
  rcases hx : x p with ⟨o, q⟩
  cases o with
  | returned a => exact ⟨fun hq => ⟨a, q, rfl, hq⟩, fun ⟨_, _, he, hq⟩ => by cases he; exact hq⟩
  | crashed => simp

theorem Broker.post_bind_i {α β : Type} {C : Prop} {x : Broker α} {f : α → Broker β}
    {Q : β → TargetPolicy → Prop} {p : TargetPolicy}
    (hx : Broker.post C (fun a q => Broker.post C Q (f a) q) x p) :
    Broker.post C Q (x >>= f) p := by
  show Broker.post C Q (Broker.bind x f) p
  unfold Broker.post Broker.bind
  unfold Broker.post at hx
  rcases hxp : x p with ⟨o, q⟩
  rw [hxp] at hx
  cases o with
  | returned a => exact hx
  | crashed => exact hx

theorem Broker.post_pure_i {α : Type} {C : Prop} {a : α} {Q : α → TargetPolicy → Prop}
    {p : TargetPolicy} (hq : Q a p) : Broker.post C Q (pure a) p := hq

theorem Broker.post_ite_i {α : Type} {C : Prop} {c : Prop} {_ : Decidable c} {x y : Broker α}
    {Q : α → TargetPolicy → Prop} {p : TargetPolicy}
    (hx : c → Broker.post C Q x p) (hy : ¬ c → Broker.post C Q y p) :
    Broker.post C Q (if c then x else y) p := by
  split
  · exact hx (by assumption)
  · exact hy (by assumption)

theorem post_MOZ_RELEASE_ASSERT_i {C : Prop} {c : Bool} {Q : Unit → TargetPolicy → Prop}
    {p : TargetPolicy} (hq : c = true → Q () p) (hc : c = false → C) :
    Broker.post C Q (MOZ_RELEASE_ASSERT c) p := by
  cases c with
  | true => exact hq rfl
  | false => exact hc rfl

theorem post_MOZ_ASSERT_i {C : Prop} {h : Host} {c : Bool} {Q : Unit → TargetPolicy → Prop}
    {p : TargetPolicy} (hq : (h.DEBUG = true → c = true) → Q () p)
    (hc : h.DEBUG = true → c = false → C) :
    Broker.post C Q (MOZ_ASSERT h c) p := by
  unfold Broker.post MOZ_ASSERT
  cases hd : h.DEBUG with
  | false => exact hq (fun hd2 => by rw [hd] at hd2; cases hd2)
  | true =>
    cases c with
    | true => exact hq (fun _ => rfl)
    | false => exact hc hd rfl

theorem post_MOZ_RELEASE_ASSERT_ok_i {C : Prop} {r : ResultCode}
    {Q : Unit → TargetPolicy → Prop} {p : TargetPolicy}
    (hq : r = SBOX_ALL_OK → Q () p) (hc : r ≠ SBOX_ALL_OK → C) :
    Broker.post C Q (MOZ_RELEASE_ASSERT (SBOX_ALL_OK == r)) p := by
  apply post_MOZ_RELEASE_ASSERT_i
  · intro hb; exact hq (eq_of_beq hb).symm
  · intro hb; exact hc (fun he => by simp [he] at hb)

theorem post_MOZ_RELEASE_ASSERT_ok_i' {C : Prop} {r : ResultCode}
    {Q : Unit → TargetPolicy → Prop} {p : TargetPolicy}
    (hq : r = SBOX_ALL_OK → Q () p) (hc : r ≠ SBOX_ALL_OK → C) :
    Broker.post C Q (MOZ_RELEASE_ASSERT (r == SBOX_ALL_OK)) p := by
  apply post_MOZ_RELEASE_ASSERT_i
  · intro hb; exact hq (eq_of_beq hb)
  · intro hb; exact hc (fun he => by simp [he] at hb)

theorem post_MOZ_ASSERT_ok_i {C : Prop} {h : Host} {r : ResultCode}
    {Q : Unit → TargetPolicy → Prop} {p : TargetPolicy}
    (hq : (h.DEBUG = true → r = SBOX_ALL_OK) → Q () p)
    (hc : h.DEBUG = true → r ≠ SBOX_ALL_OK → C) :
    Broker.post C Q (MOZ_ASSERT h (SBOX_ALL_OK == r)) p := by
  apply post_MOZ_ASSERT_i
  · intro hb; exact hq (fun hd => (eq_of_beq (hb hd)).symm)
  · intro hd hb; exact hc hd (fun he => by simp [he] at hb)

theorem Broker.post_ite_bne_i {α : Type} {C : Prop} {r : ResultCode} {x y : Broker α}
    {Q : α → TargetPolicy → Prop} {p : TargetPolicy}
    (hx : r ≠ SBOX_ALL_OK → Broker.post C Q x p) (hy : r = SBOX_ALL_OK → Broker.post C Q y p) :
    Broker.post C Q (if (SBOX_ALL_OK != r) = true then x else y) p := by
  apply Broker.post_ite_i
  · intro hb; exact hx (fun he => by simp [he] at hb)
  · intro hb
    have hb2 : ¬ SBOX_ALL_OK ≠ r := fun hne => hb (by simpa using hne)
    exact hy (not_not.1 hb2).symm

theorem Broker.post_ite_bne_i' {α : Type} {C : Prop} {r : ResultCode} {x y : Broker α}
    {Q : α → TargetPolicy → Prop} {p : TargetPolicy}
    (hx : r ≠ SBOX_ALL_OK → Broker.post C Q x p) (hy : r = SBOX_ALL_OK → Broker.post C Q y p) :
    Broker.post C Q (if (r != SBOX_ALL_OK) = true then x else y) p := by
  apply Broker.post_ite_i
  · intro hb; exact hx (fun he => by simp [he] at hb)
  · intro hb; exact hy (by simpa using hb)

@[simp] theorem TargetPolicy.extended_respond (p : TargetPolicy) (es : List LoggedCall)
    (m : MitigationFlags) : (p.extended es m).respond = p.respond := rfl

@[simp] theorem TargetPolicy.extended_log (p : TargetPolicy) (es : List LoggedCall)
    (m : MitigationFlags) : (p.extended es m).log = p.log ++ es := rfl

@[simp] theorem TargetPolicy.extended_mitigations (p : TargetPolicy) (es : List LoggedCall)
    (m : MitigationFlags) : (p.extended es m).mitigations = m := rfl

theorem TargetPolicy.extended_nil (p : TargetPolicy) : p.extended [] p.mitigations = p := by
  simp [TargetPolicy.extended]

@[simp] theorem TargetPolicy.callsSince_extended (p : TargetPolicy) (es : List LoggedCall)
    (m : MitigationFlags) : p.callsSince (p.extended es m) = es := by
  simp [TargetPolicy.callsSince, TargetPolicy.extended]

theorem post_invoke_i {C : Prop} {c : PolicyCall} {Q : ResultCode → TargetPolicy → Prop}
    {p : TargetPolicy} {es : List LoggedCall} {m : MitigationFlags}
    (hq : ∀ r, r = p.respond (p.log.length + es.length) c →
      Q r (p.extended (es ++ [⟨c, r⟩]) m)) :
    Broker.post C Q (TargetPolicy.invoke c) (p.extended es m) := by
  have hq2 := hq _ rfl
  simpa [Broker.post, TargetPolicy.invoke, TargetPolicy.extended] using hq2

theorem post_invokeVoid_i {C : Prop} {c : PolicyCall} {Q : Unit → TargetPolicy → Prop}
    {p : TargetPolicy} {es : List LoggedCall} {m : MitigationFlags}
    (hq : Q () (p.extended (es ++ [⟨c, SBOX_ALL_OK⟩]) m)) :
    Broker.post C Q (TargetPolicy.invokeVoid c) (p.extended es m) := by
  simpa [Broker.post, TargetPolicy.invokeVoid, TargetPolicy.extended] using hq

theorem post_GetProcessMitigations_i {C : Prop} {Q : MitigationFlags → TargetPolicy → Prop}
    {p : TargetPolicy} {es : List LoggedCall} {m : MitigationFlags}
    (hq : Q m (p.extended es m)) :
    Broker.post C Q TargetPolicy.GetProcessMitigations (p.extended es m) := hq

theorem post_SetProcessMitigations_i {C : Prop} {flags : MitigationFlags}
    {Q : ResultCode → TargetPolicy → Prop}
    {p : TargetPolicy} {es : List LoggedCall} {m : MitigationFlags}
    (hq : ∀ r, r = p.respond (p.log.length + es.length) (PolicyCall.SetProcessMitigations flags) →
      Q r (p.extended (es ++ [⟨PolicyCall.SetProcessMitigations flags, r⟩])
        (if r = SBOX_ALL_OK then flags else m))) :
    Broker.post C Q (TargetPolicy.SetProcessMitigations flags) (p.extended es m) := by
  have hq2 := hq _ rfl
  simpa [Broker.post, TargetPolicy.SetProcessMitigations, TargetPolicy.extended] using hq2

theorem post_AddCachedDirRule_i {C : Prop} {aAccess : Semantics} {aBaseDir : Option nsString}
    {aRelativePath : nsString} {Q : Unit → TargetPolicy → Prop}
    {p : TargetPolicy} {es : List LoggedCall} {m : MitigationFlags}
    (hq : ∀ r, (∀ baseDir, aBaseDir = some baseDir →
        r = p.respond (p.log.length + es.length)
          (PolicyCall.AddRule SUBSYS_FILES aAccess (some (baseDir ++ aRelativePath)))) →
      Q () (p.extended (es ++ cachedDirLog aAccess aBaseDir aRelativePath r) m)) :
    Broker.post C Q (AddCachedDirRule aAccess aBaseDir aRelativePath) (p.extended es m) := by
  cases aBaseDir with
  | none =>
    have hq2 := hq SBOX_ALL_OK (by simp)
    simpa [cachedDirLog] using hq2
  | some baseDir =>
    have hq2 := hq _ (fun b hb => by cases hb; rfl)
    simpa [Broker.post, AddCachedDirRule, TargetPolicy.invoke, TargetPolicy.extended,
      cachedDirLog, Broker.bind, bind, pure] using hq2

theorem mem_cachedDirLog (e : LoggedCall) (aAccess : Semantics) (aBaseDir : Option nsString)
    (aRelativePath : nsString) (r : ResultCode) :
    e ∈ cachedDirLog aAccess aBaseDir aRelativePath r ↔
      ∃ baseDir, aBaseDir = some baseDir ∧
        e = ⟨PolicyCall.AddRule SUBSYS_FILES aAccess (some (baseDir ++ aRelativePath)), r⟩ := by
  cases aBaseDir <;> simp [cachedDirLog]

theorem Member.releaseAssertPolicy_some {α : Type} (body : Broker α) (p : TargetPolicy) :
    Member.releaseAssertPolicy body (some p) = ((body p).1, some (body p).2) := rfl

theorem Member.falseWithoutPolicy_some (body : Broker Bool) (p : TargetPolicy) :
    Member.falseWithoutPolicy body (some p) = ((body p).1, some (body p).2) := rfl

theorem Member.releaseAssertPolicy_post {α : Type} (body : Broker α) (p : TargetPolicy)
    (Q : α → TargetPolicy → Prop) (a : α) (q : TargetPolicy)
    (hpost : Broker.post True Q body (p.extended [] p.mitigations))
    (hrun : Member.releaseAssertPolicy body (some p) = (Outcome.returned a, some q)) : Q a q := by
  rw [TargetPolicy.extended_nil] at hpost
  rw [Member.releaseAssertPolicy_some] at hrun
  have h1 : (body p).1 = Outcome.returned a := congrArg Prod.fst hrun
  have h2 : (body p).2 = q := Option.some.inj (congrArg Prod.snd hrun)
  exact (Broker.post_true_iff Q body p).1 hpost a q (Prod.ext h1 h2)

theorem Member.releaseAssertPolicy_returns {α : Type} (body : Broker α) (p : TargetPolicy)
    (hpost : Broker.post False (fun _ _ => True) body (p.extended [] p.mitigations)) :
    ∃ a q, Member.releaseAssertPolicy body (some p) = (Outcome.returned a, some q) := by
  rw [TargetPolicy.extended_nil] at hpost
  obtain ⟨a, q, hrun, -⟩ := (Broker.post_false_iff _ body p).1 hpost
  exact ⟨a, q, by rw [Member.releaseAssertPolicy_some, hrun]⟩

theorem Member.falseWithoutPolicy_post (body : Broker Bool) (p : TargetPolicy)
    (Q : Bool → TargetPolicy → Prop) (a : Bool) (q : TargetPolicy)
    (hpost : Broker.post True Q body (p.extended [] p.mitigations))
    (hrun : Member.falseWithoutPolicy body (some p) = (Outcome.returned a, some q)) : Q a q := by
  rw [TargetPolicy.extended_nil] at hpost
  rw [Member.falseWithoutPolicy_some] at hrun
  have h1 : (body p).1 = Outcome.returned a := congrArg Prod.fst hrun
  have h2 : (body p).2 = q := Option.some.inj (congrArg Prod.snd hrun)
  exact (Broker.post_true_iff Q body p).1 hpost a q (Prod.ext h1 h2)

set_option linter.unusedTactic false

set_option linter.unreachableTactic false

@[simp] theorem Broker.pure_apply {α : Type} (a : α) (p : TargetPolicy) :
    (pure a : Broker α) p = (Outcome.returned a, p) := rfl

theorem Broker.bind_apply {α β : Type} (x : Broker α) (f : α → Broker β) (p : TargetPolicy) :
    (x >>= f) p = Broker.bind x f p := rfl

theorem SetJobLevel_eq (h : Host) (aJobLevel : JobLevel) (aUiExceptions : Nat) :
    SetJobLevel h aJobLevel aUiExceptions =
      TargetPolicy.invoke (PolicyCall.SetJobLevel (if h.sCanUseJob then aJobLevel else JOB_NONE)
        (if h.sCanUseJob then aUiExceptions else 0)) := by
  unfold SetJobLevel
  cases h.sCanUseJob <;> rfl

theorem ite_AddCachedDirRule (c : Bool) (aAccess : Semantics) (aBaseDir : Option nsString)
    (aRelativePath : nsString) :
    (if c = true then AddCachedDirRule aAccess aBaseDir aRelativePath else pure PUnit.unit) =
      AddCachedDirRule aAccess (if c = true then aBaseDir else none) aRelativePath := by
  cases c <;> rfl

theorem Member.releaseAssertPolicy_post_unit (body : Broker Unit) (p : TargetPolicy)
    (Q : TargetPolicy → Prop)
    (hpost : Broker.post True (fun _ q => Q q) body (p.extended [] p.mitigations)) :
    ∀ q, Member.releaseAssertPolicy body (some p) = (Outcome.returned (), some q) → Q q :=
  fun q hrun => Member.releaseAssertPolicy_post body p (fun _ q => Q q) () q hpost hrun

theorem Member.releaseAssertPolicy_returns_unit (body : Broker Unit) (p : TargetPolicy)
    (hpost : Broker.post False (fun _ _ => True) body (p.extended [] p.mitigations)) :
    ∃ q, Member.releaseAssertPolicy body (some p) = (Outcome.returned (), some q) := by
  obtain ⟨_, q, hq⟩ := Member.releaseAssertPolicy_returns body p hpost
  exact ⟨q, hq⟩

theorem mem_rules_of_mem_callsSince (p q : TargetPolicy)
    (s : SubSystem) (a : Semantics) (pat : Option nsString)
    (hmem : ⟨PolicyCall.AddRule s a pat, SBOX_ALL_OK⟩ ∈ p.callsSince q) :
    (s, a, pat) ∈ q.rules := by
  unfold TargetPolicy.rules
  rw [List.mem_filterMap]
  exact ⟨⟨PolicyCall.AddRule s a pat, SBOX_ALL_OK⟩, List.mem_of_mem_drop hmem, by simp⟩

theorem NO_REMOTE_mem_ContentProcessMitigations (h : Host) (aSandboxLevel : Int) :
    MITIGATION_IMAGE_LOAD_NO_REMOTE ∈ ContentProcessMitigations h aSandboxLevel ↔
      aSandboxLevel > 3 ∧ h.sRunningFromNetworkDrive = false := by
  unfold ContentProcessMitigations
  by_cases h3 : aSandboxLevel > 3 <;> cases h.sRunningFromNetworkDrive <;>
    cases h.M_ARM64 <;> cases h.IsWin10Sep2018UpdateOrLater <;> simp [h3]

theorem WIN32K_DISABLE_not_mem_ContentProcessMitigations (h : Host) (aSandboxLevel : Int) :
    MITIGATION_WIN32K_DISABLE ∉ ContentProcessMitigations h aSandboxLevel := by
  unfold ContentProcessMitigations
  by_cases h3 : aSandboxLevel > 3 <;> cases h.sRunningFromNetworkDrive <;>
    cases h.M_ARM64 <;> cases h.IsWin10Sep2018UpdateOrLater <;> simp [h3]

set_option maxHeartbeats 2000000 in
theorem content_level20_calls (h : Host) (p : TargetPolicy) : ∀ q,
    SetSecurityLevelForContentProcess h 20 false (some p) = (Outcome.returned (), some q) →
    (∀ j ui r, ⟨PolicyCall.SetJobLevel j ui, r⟩ ∈ p.callsSince q ↔
      j = (if h.sCanUseJob then JOB_LOCKDOWN else JOB_NONE) ∧
      ui = (if h.sCanUseJob then (if h.DEBUG then JOB_OBJECT_UILIMIT_HANDLES else 0) else 0) ∧
      r = SBOX_ALL_OK) ∧
    (∀ a b r, ⟨PolicyCall.SetTokenLevel a b, r⟩ ∈ p.callsSince q ↔
      a = USER_RESTRICTED_SAME_ACCESS ∧ b = USER_LOCKDOWN ∧ r = SBOX_ALL_OK) ∧
    (∀ l r, ⟨PolicyCall.SetIntegrityLevel l, r⟩ ∈ p.callsSince q ↔
      l = INTEGRITY_LEVEL_LOW ∧ r = SBOX_ALL_OK) ∧
    (∀ l r, ⟨PolicyCall.SetDelayedIntegrityLevel l, r⟩ ∈ p.callsSince q ↔
      l = INTEGRITY_LEVEL_UNTRUSTED ∧ r = SBOX_ALL_OK) ∧
    (∀ m r, ⟨PolicyCall.SetProcessMitigations m, r⟩ ∈ p.callsSince q →
      r = SBOX_ALL_OK ∧ ContentProcessMitigations h 20 ⊆ m) ∧
    ⟨PolicyCall.SetProcessMitigations (ContentProcessMitigations h 20), SBOX_ALL_OK⟩ ∈
      p.callsSince q ∧
    ContentProcessMitigations h 20 ⊆ q.mitigations := by
  unfold SetSecurityLevelForContentProcess
  refine Member.releaseAssertPolicy_post_unit _ p _ ?_
  simp only [ContentProcessLevels, SetJobLevel_eq, ite_AddCachedDirRule, AddWin32kLockdownPolicy,
    TargetPolicy.SetTokenLevel, TargetPolicy.SetIntegrityLevel,
    TargetPolicy.SetDelayedIntegrityLevel, TargetPolicy.SetLockdownDefaultDacl,
    TargetPolicy.AddRestrictingRandomSid, TargetPolicy.SetAlternateDesktop,
    TargetPolicy.SetDelayedProcessMitigations, TargetPolicy.AddRule]
  repeat' first
    | with_reducible apply Broker.post_bind_i
    | with_reducible apply Broker.post_pure_i
    | (with_reducible apply post_invoke_i); intro r hr; clear hr
    | with_reducible apply post_invokeVoid_i
    | with_reducible apply post_GetProcessMitigations_i
    | (with_reducible apply post_SetProcessMitigations_i); intro r hr; clear hr
    | (with_reducible apply post_AddCachedDirRule_i); intro r hr; clear hr
    | (with_reducible apply post_MOZ_RELEASE_ASSERT_ok_i) <;> intro hr <;>
        first | trivial | subst hr | skip
    | (with_reducible apply post_MOZ_RELEASE_ASSERT_ok_i') <;> intro hr <;>
        first | trivial | (subst hr; try contradiction) | skip
    | (with_reducible apply post_MOZ_RELEASE_ASSERT_i) <;> intro hc <;> try trivial
    | (with_reducible apply post_MOZ_ASSERT_i) <;> first | (intro _ _; trivial) | intro hc
    | (with_reducible apply Broker.post_ite_bne_i) <;> intro hr <;> try subst hr
    | (with_reducible apply Broker.post_ite_bne_i') <;> intro hr <;> try subst hr
    | (with_reducible apply Broker.post_ite_i) <;> intro hc <;>
        try (first | contradiction | (exfalso; revert hc; decide))
  all_goals simp +decide [mem_cachedDirLog, initialAccessTokenLevel, and_assoc, or_imp,
    forall_and, Finset.subset_union_left]

set_option maxHeartbeats 2000000 in
theorem content_level20_file_calls (h : Host) (p : TargetPolicy) : ∀ q,
    SetSecurityLevelForContentProcess h 20 true (some p) = (Outcome.returned (), some q) →
    (∀ a b r, ⟨PolicyCall.SetTokenLevel a b, r⟩ ∈ p.callsSince q ↔
      a = USER_UNPROTECTED ∧ b = USER_NON_ADMIN ∧ r = SBOX_ALL_OK) ∧
    (∀ l r, ⟨PolicyCall.SetIntegrityLevel l, r⟩ ∈ p.callsSince q ↔
      l = INTEGRITY_LEVEL_LOW ∧ r = SBOX_ALL_OK) ∧
    (∀ l r, ⟨PolicyCall.SetDelayedIntegrityLevel l, r⟩ ∈ p.callsSince q ↔
      l = INTEGRITY_LEVEL_LOW ∧ r = SBOX_ALL_OK) := by
  unfold SetSecurityLevelForContentProcess
  refine Member.releaseAssertPolicy_post_unit _ p _ ?_
  simp only [ContentProcessLevels, SetJobLevel_eq, ite_AddCachedDirRule, AddWin32kLockdownPolicy,
    TargetPolicy.SetTokenLevel, TargetPolicy.SetIntegrityLevel,
    TargetPolicy.SetDelayedIntegrityLevel, TargetPolicy.SetLockdownDefaultDacl,
    TargetPolicy.AddRestrictingRandomSid, TargetPolicy.SetAlternateDesktop,
    TargetPolicy.SetDelayedProcessMitigations, TargetPolicy.AddRule]
  repeat' first
    | with_reducible apply Broker.post_bind_i
    | with_reducible apply Broker.post_pure_i
    | (with_reducible apply post_invoke_i); intro r hr; clear hr
    | with_reducible apply post_invokeVoid_i
    | with_reducible apply post_GetProcessMitigations_i
    | (with_reducible apply post_SetProcessMitigations_i); intro r hr; clear hr
    | (with_reducible apply post_AddCachedDirRule_i); intro r hr; clear hr
    | (with_reducible apply post_MOZ_RELEASE_ASSERT_ok_i) <;> intro hr <;>
        first | trivial | subst hr | skip
    | (with_reducible apply post_MOZ_RELEASE_ASSERT_ok_i') <;> intro hr <;>
        first | trivial | (subst hr; try contradiction) | skip
    | (with_reducible apply post_MOZ_RELEASE_ASSERT_i) <;> intro hc <;> try trivial
    | (with_reducible apply post_MOZ_ASSERT_i) <;> first | (intro _ _; trivial) | intro hc
    | (with_reducible apply Broker.post_ite_bne_i) <;> intro hr <;> try subst hr
    | (with_reducible apply Broker.post_ite_bne_i') <;> intro hr <;> try subst hr
    | (with_reducible apply Broker.post_ite_i) <;> intro hc <;>
        try (first | contradiction | (exfalso; revert hc; decide))
  all_goals simp +decide [mem_cachedDirLog, initialAccessTokenLevel, fileProcessClamp, and_assoc]

set_option maxHeartbeats 2000000 in
theorem content_level1_calls (h : Host) (aIsFileProcess : Bool) (p : TargetPolicy) : ∀ q,
    SetSecurityLevelForContentProcess h 1 aIsFileProcess (some p) =
      (Outcome.returned (), some q) →
    (∀ j ui r, ⟨PolicyCall.SetJobLevel j ui, r⟩ ∈ p.callsSince q ↔
      j = JOB_NONE ∧
      ui = (if h.sCanUseJob then (if h.DEBUG then JOB_OBJECT_UILIMIT_HANDLES else 0) else 0) ∧
      r = SBOX_ALL_OK) ∧
    (∀ a b r, ⟨PolicyCall.SetTokenLevel a b, r⟩ ∈ p.callsSince q ↔
      a = USER_UNPROTECTED ∧ b = USER_NON_ADMIN ∧ r = SBOX_ALL_OK) ∧
    ⟨PolicyCall.AddRule SUBSYS_FILES FILES_ALLOW_READONLY (some "*".toList), SBOX_ALL_OK⟩ ∈
      p.callsSince q := by
  unfold SetSecurityLevelForContentProcess
  refine Member.releaseAssertPolicy_post_unit _ p _ ?_
  simp only [ContentProcessLevels, SetJobLevel_eq, ite_AddCachedDirRule, AddWin32kLockdownPolicy,
    TargetPolicy.SetTokenLevel, TargetPolicy.SetIntegrityLevel,
    TargetPolicy.SetDelayedIntegrityLevel, TargetPolicy.SetLockdownDefaultDacl,
    TargetPolicy.AddRestrictingRandomSid, TargetPolicy.SetAlternateDesktop,
    TargetPolicy.SetDelayedProcessMitigations, TargetPolicy.AddRule]
  cases aIsFileProcess
  all_goals
    repeat' first
      | with_reducible apply Broker.post_bind_i
      | with_reducible apply Broker.post_pure_i
      | (with_reducible apply post_invoke_i); intro r hr; clear hr
      | with_reducible apply post_invokeVoid_i
      | with_reducible apply post_GetProcessMitigations_i
      | (with_reducible apply post_SetProcessMitigations_i); intro r hr; clear hr
      | (with_reducible apply post_AddCachedDirRule_i); intro r hr; clear hr
      | (with_reducible apply post_MOZ_RELEASE_ASSERT_ok_i) <;> intro hr <;>
          first | trivial | subst hr | skip
      | (with_reducible apply post_MOZ_RELEASE_ASSERT_ok_i') <;> intro hr <;>
          first | trivial | (subst hr; try contradiction) | skip
      | (with_reducible apply post_MOZ_RELEASE_ASSERT_i) <;> intro hc <;> try trivial
      | (with_reducible apply post_MOZ_ASSERT_i) <;> first | (intro _ _; trivial) | intro hc
      | (with_reducible apply Broker.post_ite_bne_i) <;> intro hr <;> try subst hr
      | (with_reducible apply Broker.post_ite_bne_i') <;> intro hr <;> try subst hr
      | (with_reducible apply Broker.post_ite_i) <;> intro hc <;>
          try (first | contradiction | (exfalso; revert hc; decide))
  all_goals simp +decide [mem_cachedDirLog, initialAccessTokenLevel, fileProcessClamp, and_assoc]

set_option maxHeartbeats 2000000 in
theorem content_level20_returns (h : Host) (aIsFileProcess : Bool) (p : TargetPolicy)
    (hacc : ∀ n c, p.respond n c = SBOX_ALL_OK) :
    ∃ q, SetSecurityLevelForContentProcess h 20 aIsFileProcess (some p) =
      (Outcome.returned (), some q) := by
  unfold SetSecurityLevelForContentProcess
  refine Member.releaseAssertPolicy_returns_unit _ p ?_
  simp only [ContentProcessLevels, SetJobLevel_eq, ite_AddCachedDirRule, AddWin32kLockdownPolicy,
    TargetPolicy.SetTokenLevel, TargetPolicy.SetIntegrityLevel,
    TargetPolicy.SetDelayedIntegrityLevel, TargetPolicy.SetLockdownDefaultDacl,
    TargetPolicy.AddRestrictingRandomSid, TargetPolicy.SetAlternateDesktop,
    TargetPolicy.SetDelayedProcessMitigations, TargetPolicy.AddRule]
  cases aIsFileProcess
  all_goals
    repeat' first
      | exact True.intro
      | with_reducible apply Broker.post_bind_i
      | with_reducible apply Broker.post_pure_i
      | (with_reducible apply post_invoke_i); intro r hr; rw [hacc] at hr; subst hr
      | with_reducible apply post_invokeVoid_i
      | with_reducible apply post_GetProcessMitigations_i
      | (with_reducible apply post_SetProcessMitigations_i); intro r hr; rw [hacc] at hr; subst hr
      | (with_reducible apply post_AddCachedDirRule_i); intro r hr; clear hr
      | (with_reducible apply post_MOZ_RELEASE_ASSERT_ok_i) <;> intro hr <;>
          first | exact absurd rfl hr | clear hr
      | (with_reducible apply post_MOZ_RELEASE_ASSERT_ok_i') <;> intro hr <;>
          first | exact absurd rfl hr | clear hr
      | (with_reducible apply post_MOZ_RELEASE_ASSERT_i) <;> intro hc <;>
          first | exact absurd hc (by decide) | clear hc
      | (with_reducible apply post_MOZ_ASSERT_i) <;>
          first
            | (intro hd hc; exact absurd hc (by decide))
            | (intro hd hc; exact absurd hc (by simp [WIN32K_DISABLE_not_mem_ContentProcessMitigations]))
            | intro hc
      | (with_reducible apply Broker.post_ite_bne_i) <;> intro hr <;>
          first | exact absurd rfl hr | clear hr
      | (with_reducible apply Broker.post_ite_bne_i') <;> intro hr <;>
          first | exact absurd rfl hr | clear hr
      | (with_reducible apply Broker.post_ite_i) <;> intro hc <;>
          try (first | contradiction | (exfalso; revert hc; decide))

set_option maxHeartbeats 2000000 in
theorem content_level1_returns (h : Host) (aIsFileProcess : Bool) (p : TargetPolicy)
    (hacc : ∀ n c, p.respond n c = SBOX_ALL_OK) :
    ∃ q, SetSecurityLevelForContentProcess h 1 aIsFileProcess (some p) =
      (Outcome.returned (), some q) := by
  unfold SetSecurityLevelForContentProcess
  refine Member.releaseAssertPolicy_returns_unit _ p ?_
  simp only [ContentProcessLevels, SetJobLevel_eq, ite_AddCachedDirRule, AddWin32kLockdownPolicy,
    TargetPolicy.SetTokenLevel, TargetPolicy.SetIntegrityLevel,
    TargetPolicy.SetDelayedIntegrityLevel, TargetPolicy.SetLockdownDefaultDacl,
    TargetPolicy.AddRestrictingRandomSid, TargetPolicy.SetAlternateDesktop,
    TargetPolicy.SetDelayedProcessMitigations, TargetPolicy.AddRule]
  cases aIsFileProcess
  all_goals
    repeat' first
      | exact True.intro
      | with_reducible apply Broker.post_bind_i
      | with_reducible apply Broker.post_pure_i
      | (with_reducible apply post_invoke_i); intro r hr; rw [hacc] at hr; subst hr
      | with_reducible apply post_invokeVoid_i
      | with_reducible apply post_GetProcessMitigations_i
      | (with_reducible apply post_SetProcessMitigations_i); intro r hr; rw [hacc] at hr; subst hr
      | (with_reducible apply post_AddCachedDirRule_i); intro r hr; clear hr
      | (with_reducible apply post_MOZ_RELEASE_ASSERT_ok_i) <;> intro hr <;>
          first | exact absurd rfl hr | clear hr
      | (with_reducible apply post_MOZ_RELEASE_ASSERT_ok_i') <;> intro hr <;>
          first | exact absurd rfl hr | clear hr
      | (with_reducible apply post_MOZ_RELEASE_ASSERT_i) <;> intro hc <;>
          first | exact absurd hc (by decide) | clear hc
      | (with_reducible apply post_MOZ_ASSERT_i) <;>
          first
            | (intro hd hc; exact absurd hc (by decide))
            | (intro hd hc; exact absurd hc (by simp [WIN32K_DISABLE_not_mem_ContentProcessMitigations]))
            | intro hc
      | (with_reducible apply Broker.post_ite_bne_i) <;> intro hr <;>
          first | exact absurd rfl hr | clear hr
      | (with_reducible apply Broker.post_ite_bne_i') <;> intro hr <;>
          first | exact absurd rfl hr | clear hr
      | (with_reducible apply Broker.post_ite_i) <;> intro hc <;>
          try (first | contradiction | (exfalso; revert hc; decide))

/-! ## Scenarios A to C, level bands, clamp, rule builder, directory cache -/

/-- C1.  `SetSecurityLevelForContentProcess` with `aSandboxLevel = 20` and
`aIsFileProcess = false`, when a job object can be used and the broker does
not run from a network drive: with a policy object that accepts every call
the procedure returns, and whenever it returns the one `SetJobLevel` call it
made asked for `JOB_LOCKDOWN`, the initial integrity level set is
`INTEGRITY_LEVEL_LOW`, the delayed one `INTEGRITY_LEVEL_UNTRUSTED`, and every
word given to `SetProcessMitigations`, as well as the word the policy holds at
the end, contains `MITIGATION_IMAGE_LOAD_NO_REMOTE`. -/
theorem content_level20_sets_lockdown_levels (h : Host) (p : TargetPolicy)
    (hjob : h.sCanUseJob = true) (hnet : h.sRunningFromNetworkDrive = false) :
    ((∀ n c, p.respond n c = SBOX_ALL_OK) →
      ∃ q, SetSecurityLevelForContentProcess h 20 false (some p) =
        (Outcome.returned (), some q)) ∧
    ∀ q, SetSecurityLevelForContentProcess h 20 false (some p) =
        (Outcome.returned (), some q) →
      (∀ j ui r, ⟨PolicyCall.SetJobLevel j ui, r⟩ ∈ p.callsSince q ↔
        j = JOB_LOCKDOWN ∧ ui = (if h.DEBUG then JOB_OBJECT_UILIMIT_HANDLES else 0) ∧
        r = SBOX_ALL_OK) ∧
      (∀ l r, ⟨PolicyCall.SetIntegrityLevel l, r⟩ ∈ p.callsSince q ↔
        l = INTEGRITY_LEVEL_LOW ∧ r = SBOX_ALL_OK) ∧
      (∀ l r, ⟨PolicyCall.SetDelayedIntegrityLevel l, r⟩ ∈ p.callsSince q ↔
        l = INTEGRITY_LEVEL_UNTRUSTED ∧ r = SBOX_ALL_OK) ∧
      (∃ m, ⟨PolicyCall.SetProcessMitigations m, SBOX_ALL_OK⟩ ∈ p.callsSince q) ∧
      (∀ m r, ⟨PolicyCall.SetProcessMitigations m, r⟩ ∈ p.callsSince q →
        MITIGATION_IMAGE_LOAD_NO_REMOTE ∈ m) ∧
      MITIGATION_IMAGE_LOAD_NO_REMOTE ∈ q.mitigations := by
  refine ⟨content_level20_returns h false p, fun q hq => ?_⟩
  obtain ⟨hjl, -, hil, hdl, hm, hm1, hqm⟩ := content_level20_calls h p q hq
  have hmem : MITIGATION_IMAGE_LOAD_NO_REMOTE ∈ ContentProcessMitigations h 20 :=
    (NO_REMOTE_mem_ContentProcessMitigations h 20).2 ⟨by decide, hnet⟩
  refine ⟨?_, hil, hdl, ⟨_, hm1⟩, fun m r hmr => (hm m r hmr).2 hmem, hqm hmem⟩
  intro j ui r
  rw [hjl]
  simp [hjob]

/-- Witness of C1: on the sample release host with the accepting policy the
procedure returns, the integrity level call is in the log and the final
mitigation word holds the remote image-load block. -/
theorem content_level20_sets_lockdown_levels_witness :
    ∃ q, SetSecurityLevelForContentProcess releaseHost 20 false (some acceptingPolicy) =
        (Outcome.returned (), some q) ∧
      ⟨PolicyCall.SetJobLevel JOB_LOCKDOWN 0, SBOX_ALL_OK⟩ ∈ acceptingPolicy.callsSince q ∧
      ⟨PolicyCall.SetIntegrityLevel INTEGRITY_LEVEL_LOW, SBOX_ALL_OK⟩ ∈
        acceptingPolicy.callsSince q ∧
      MITIGATION_IMAGE_LOAD_NO_REMOTE ∈ q.mitigations := by
  have hthm := content_level20_sets_lockdown_levels releaseHost acceptingPolicy rfl rfl
  obtain ⟨q, hq⟩ := hthm.1 (fun _ _ => rfl)
  exact ⟨q, hq, ((hthm.2 q hq).1 _ _ _).2 ⟨rfl, rfl, rfl⟩,
    ((hthm.2 q hq).2.1 _ _).2 ⟨rfl, rfl⟩, (hthm.2 q hq).2.2.2.2.2⟩

/-- C2, counterexample.  On the sample release host with the accepting policy,
`SetSecurityLevelForContentProcess(20, false)` returns, its log holds
`SetTokenLevel(USER_RESTRICTED_SAME_ACCESS, USER_LOCKDOWN)` and holds no
`SetTokenLevel(USER_LOCKDOWN, USER_LOCKDOWN)`: the initial token level is not
`USER_LOCKDOWN`. -/
theorem content_level20_initial_token_is_not_lockdown :
    (SetSecurityLevelForContentProcess releaseHost 20 false (some acceptingPolicy)).1 =
      Outcome.returned () ∧
    ⟨PolicyCall.SetTokenLevel USER_RESTRICTED_SAME_ACCESS USER_LOCKDOWN, SBOX_ALL_OK⟩ ∈
      loggedCalls (SetSecurityLevelForContentProcess releaseHost 20 false (some acceptingPolicy)) ∧
    ⟨PolicyCall.SetTokenLevel USER_LOCKDOWN USER_LOCKDOWN, SBOX_ALL_OK⟩ ∉
      loggedCalls
        (SetSecurityLevelForContentProcess releaseHost 20 false (some acceptingPolicy)) := by
  decide

/-- C2, amended.  `SetSecurityLevelForContentProcess` with `aSandboxLevel = 20`
and `aIsFileProcess = false` returns when the policy object accepts every
call, and whenever it returns it made exactly one kind of `SetTokenLevel`
call: initial level `USER_RESTRICTED_SAME_ACCESS`, delayed level
`USER_LOCKDOWN`, accepted. -/
theorem content_level20_token_levels (h : Host) (p : TargetPolicy) :
    ((∀ n c, p.respond n c = SBOX_ALL_OK) →
      ∃ q, SetSecurityLevelForContentProcess h 20 false (some p) =
        (Outcome.returned (), some q)) ∧
    ∀ q, SetSecurityLevelForContentProcess h 20 false (some p) =
        (Outcome.returned (), some q) →
      ∀ a b r, ⟨PolicyCall.SetTokenLevel a b, r⟩ ∈ p.callsSince q ↔
        a = USER_RESTRICTED_SAME_ACCESS ∧ b = USER_LOCKDOWN ∧ r = SBOX_ALL_OK :=
  ⟨content_level20_returns h false p, fun q hq => (content_level20_calls h p q hq).2.1⟩

/-- Witness of C2 as amended, on the sample release host with the accepting
policy. -/
theorem content_level20_token_levels_witness :
    ∃ q, SetSecurityLevelForContentProcess releaseHost 20 false (some acceptingPolicy) =
        (Outcome.returned (), some q) ∧
      ⟨PolicyCall.SetTokenLevel USER_RESTRICTED_SAME_ACCESS USER_LOCKDOWN, SBOX_ALL_OK⟩ ∈
        acceptingPolicy.callsSince q := by
  have hthm := content_level20_token_levels releaseHost acceptingPolicy
  obtain ⟨q, hq⟩ := hthm.1 (fun _ _ => rfl)
  exact ⟨q, hq, (hthm.2 q hq _ _ _).2 ⟨rfl, rfl, rfl⟩⟩

/-- C3, counterexample.  On the sample release host with the accepting policy,
at `aSandboxLevel = 20` the run with `aIsFileProcess = false` logs
`SetTokenLevel(USER_RESTRICTED_SAME_ACCESS, USER_LOCKDOWN)` and
`SetDelayedIntegrityLevel(INTEGRITY_LEVEL_UNTRUSTED)`, and the run with
`aIsFileProcess = true` logs neither: it logs
`SetTokenLevel(USER_UNPROTECTED, USER_NON_ADMIN)` and
`SetDelayedIntegrityLevel(INTEGRITY_LEVEL_LOW)`. -/
theorem content_level20_file_process_changes_levels :
    (⟨PolicyCall.SetTokenLevel USER_RESTRICTED_SAME_ACCESS USER_LOCKDOWN, SBOX_ALL_OK⟩ ∈
        loggedCalls
          (SetSecurityLevelForContentProcess releaseHost 20 false (some acceptingPolicy)) ∧
      ⟨PolicyCall.SetDelayedIntegrityLevel INTEGRITY_LEVEL_UNTRUSTED, SBOX_ALL_OK⟩ ∈
        loggedCalls
          (SetSecurityLevelForContentProcess releaseHost 20 false (some acceptingPolicy))) ∧
    (⟨PolicyCall.SetTokenLevel USER_RESTRICTED_SAME_ACCESS USER_LOCKDOWN, SBOX_ALL_OK⟩ ∉
        loggedCalls
          (SetSecurityLevelForContentProcess releaseHost 20 true (some acceptingPolicy)) ∧
      ⟨PolicyCall.SetDelayedIntegrityLevel INTEGRITY_LEVEL_UNTRUSTED, SBOX_ALL_OK⟩ ∉
        loggedCalls
          (SetSecurityLevelForContentProcess releaseHost 20 true (some acceptingPolicy))) ∧
    (⟨PolicyCall.SetTokenLevel USER_UNPROTECTED USER_NON_ADMIN, SBOX_ALL_OK⟩ ∈
        loggedCalls
          (SetSecurityLevelForContentProcess releaseHost 20 true (some acceptingPolicy)) ∧
      ⟨PolicyCall.SetDelayedIntegrityLevel INTEGRITY_LEVEL_LOW, SBOX_ALL_OK⟩ ∈
        loggedCalls
          (SetSecurityLevelForContentProcess releaseHost 20 true (some acceptingPolicy))) := by
  decide

/-- C3, amended.  At `aSandboxLevel = 20` the file-content clamp changes the
derived levels.  Both runs return when the policy object accepts every call.
With `aIsFileProcess = false` the token levels passed are
`USER_RESTRICTED_SAME_ACCESS` / `USER_LOCKDOWN` and the delayed integrity
level is `INTEGRITY_LEVEL_UNTRUSTED`; with `aIsFileProcess = true` they are
`USER_UNPROTECTED` / `USER_NON_ADMIN` and `INTEGRITY_LEVEL_LOW`. -/
theorem content_level20_file_process_levels (h : Host) (p : TargetPolicy) :
    ((∀ n c, p.respond n c = SBOX_ALL_OK) → ∀ aIsFileProcess,
      ∃ q, SetSecurityLevelForContentProcess h 20 aIsFileProcess (some p) =
        (Outcome.returned (), some q)) ∧
    (∀ q, SetSecurityLevelForContentProcess h 20 false (some p) =
        (Outcome.returned (), some q) →
      (∀ a b r, ⟨PolicyCall.SetTokenLevel a b, r⟩ ∈ p.callsSince q ↔
        a = USER_RESTRICTED_SAME_ACCESS ∧ b = USER_LOCKDOWN ∧ r = SBOX_ALL_OK) ∧
      (∀ l r, ⟨PolicyCall.SetDelayedIntegrityLevel l, r⟩ ∈ p.callsSince q ↔
        l = INTEGRITY_LEVEL_UNTRUSTED ∧ r = SBOX_ALL_OK)) ∧
    (∀ q, SetSecurityLevelForContentProcess h 20 true (some p) =
        (Outcome.returned (), some q) →
      (∀ a b r, ⟨PolicyCall.SetTokenLevel a b, r⟩ ∈ p.callsSince q ↔
        a = USER_UNPROTECTED ∧ b = USER_NON_ADMIN ∧ r = SBOX_ALL_OK) ∧
      (∀ l r, ⟨PolicyCall.SetDelayedIntegrityLevel l, r⟩ ∈ p.callsSince q ↔
        l = INTEGRITY_LEVEL_LOW ∧ r = SBOX_ALL_OK)) := by
  refine ⟨fun hacc b => content_level20_returns h b p hacc, fun q hq => ?_, fun q hq => ?_⟩
  · obtain ⟨-, htok, -, hdl, -⟩ := content_level20_calls h p q hq
    exact ⟨htok, hdl⟩
  · obtain ⟨htok, -, hdl⟩ := content_level20_file_calls h p q hq
    exact ⟨htok, hdl⟩

/-- Witness of C3 as amended, on the sample release host with the accepting
policy: the file-process run returns and passes `USER_UNPROTECTED` /
`USER_NON_ADMIN`. -/
theorem content_level20_file_process_levels_witness :
    ∃ q, SetSecurityLevelForContentProcess releaseHost 20 true (some acceptingPolicy) =
        (Outcome.returned (), some q) ∧
      ⟨PolicyCall.SetTokenLevel USER_UNPROTECTED USER_NON_ADMIN, SBOX_ALL_OK⟩ ∈
        acceptingPolicy.callsSince q ∧
      ⟨PolicyCall.SetDelayedIntegrityLevel INTEGRITY_LEVEL_LOW, SBOX_ALL_OK⟩ ∈
        acceptingPolicy.callsSince q := by
  have hthm := content_level20_file_process_levels releaseHost acceptingPolicy
  obtain ⟨q, hq⟩ := hthm.1 (fun _ _ => rfl) true
  exact ⟨q, hq, ((hthm.2.2 q hq).1 _ _ _).2 ⟨rfl, rfl, rfl⟩,
    ((hthm.2.2 q hq).2 _ _).2 ⟨rfl, rfl⟩⟩

/-- C4.  `SetSecurityLevelForContentProcess` with `aSandboxLevel = 1` and
either value of `aIsFileProcess` returns when the policy object accepts every
call, and whenever it returns: the one `SetJobLevel` call asked for
`JOB_NONE`, the one `SetTokenLevel` call has delayed level `USER_NON_ADMIN`
(and initial level `USER_UNPROTECTED`), and the rules of the policy contain
`(SUBSYS_FILES, FILES_ALLOW_READONLY, "*")`. -/
theorem content_level1_policy (h : Host) (aIsFileProcess : Bool) (p : TargetPolicy) :
    ((∀ n c, p.respond n c = SBOX_ALL_OK) →
      ∃ q, SetSecurityLevelForContentProcess h 1 aIsFileProcess (some p) =
        (Outcome.returned (), some q)) ∧
    ∀ q, SetSecurityLevelForContentProcess h 1 aIsFileProcess (some p) =
        (Outcome.returned (), some q) →
      (∃ ui, ⟨PolicyCall.SetJobLevel JOB_NONE ui, SBOX_ALL_OK⟩ ∈ p.callsSince q) ∧
      (∀ j ui r, ⟨PolicyCall.SetJobLevel j ui, r⟩ ∈ p.callsSince q → j = JOB_NONE) ∧
      (∀ a b r, ⟨PolicyCall.SetTokenLevel a b, r⟩ ∈ p.callsSince q ↔
        a = USER_UNPROTECTED ∧ b = USER_NON_ADMIN ∧ r = SBOX_ALL_OK) ∧
      (SUBSYS_FILES, FILES_ALLOW_READONLY, some "*".toList) ∈ q.rules := by
  refine ⟨content_level1_returns h aIsFileProcess p, fun q hq => ?_⟩
  obtain ⟨hjl, htok, hrule⟩ := content_level1_calls h aIsFileProcess p q hq
  exact ⟨⟨_, (hjl _ _ _).2 ⟨rfl, rfl, rfl⟩⟩, fun j ui r hj => ((hjl j ui r).1 hj).1, htok,
    mem_rules_of_mem_callsSince p q _ _ _ hrule⟩

/-- Witness of C4, on the sample release host with the accepting policy and
`aIsFileProcess = false`. -/
theorem content_level1_policy_witness :
    ∃ q, SetSecurityLevelForContentProcess releaseHost 1 false (some acceptingPolicy) =
        (Outcome.returned (), some q) ∧
      ⟨PolicyCall.SetTokenLevel USER_UNPROTECTED USER_NON_ADMIN, SBOX_ALL_OK⟩ ∈
        acceptingPolicy.callsSince q ∧
      (SUBSYS_FILES, FILES_ALLOW_READONLY, some "*".toList) ∈ q.rules := by
  have hthm := content_level1_policy releaseHost false acceptingPolicy
  obtain ⟨q, hq⟩ := hthm.1 (fun _ _ => rfl)
  exact ⟨q, hq, ((hthm.2 q hq).2.2.1 _ _ _).2 ⟨rfl, rfl, rfl⟩, (hthm.2 q hq).2.2.2⟩

/-- C5.  For every trust level `t >= 1`: exactly one content band, exactly one
GPU band and exactly one plugin band has its condition true at `t` (the band
conditions are pairwise disjoint and cover `t >= 1`), and the level chain of
each procedure returns, without a crash and without touching the policy, the
levels of that band. -/
theorem level_bands_disjoint_and_cover (t : Int) (ht : 1 ≤ t) (h : Host) (p : TargetPolicy) :
    ((∃! b : ContentBand, b.cond t) ∧
      ∀ b : ContentBand, b.cond t →
        ContentProcessLevels h t p = (Outcome.returned b.levels, p)) ∧
    ((∃! b : GpuBand, b.cond t) ∧
      ∀ b : GpuBand, b.cond t → GPUProcessLevels t p = (Outcome.returned b.levels, p)) ∧
    ((∃! b : PluginBand, b.cond t) ∧
      ∀ b : PluginBand, b.cond t → PluginProcessLevels t = b.levels) := by
  refine ⟨⟨?_, ?_⟩, ⟨?_, ?_⟩, ⟨?_, ?_⟩⟩
  · have hc : t ≥ 20 ∨ (4 ≤ t ∧ t ≤ 19) ∨ t = 3 ∨ t = 2 ∨ t = 1 := by omega
    rcases hc with hc | hc | hc | hc | hc
    · exact ⟨ContentBand.atLeast20, hc, fun b hb => by
        cases b <;> simp [ContentBand.cond] at hb ⊢ <;> omega⟩
    · exact ⟨ContentBand.from4to19, hc, fun b hb => by
        cases b <;> simp [ContentBand.cond] at hb ⊢ <;> omega⟩
    · exact ⟨ContentBand.exactly3, hc, fun b hb => by
        cases b <;> simp [ContentBand.cond] at hb ⊢ <;> omega⟩
    · exact ⟨ContentBand.exactly2, hc, fun b hb => by
        cases b <;> simp [ContentBand.cond] at hb ⊢ <;> omega⟩
    · exact ⟨ContentBand.exactly1, hc, fun b hb => by
        cases b <;> simp [ContentBand.cond] at hb ⊢ <;> omega⟩
  · intro b hb
    cases b <;> simp only [ContentBand.cond] at hb
    · simp [ContentProcessLevels, hb, ContentBand.levels]
    · have h1 : ¬ t ≥ 20 := by omega
      simp [ContentProcessLevels, h1, hb.1, ContentBand.levels]
    · subst hb; simp [ContentProcessLevels, ContentBand.levels]
    · subst hb; simp [ContentProcessLevels, ContentBand.levels]
    · subst hb
      simp [ContentProcessLevels, ContentBand.levels, MOZ_ASSERT, Broker.bind_apply, Broker.bind]
  · have hc : t ≥ 2 ∨ t = 1 := by omega
    rcases hc with hc | hc
    · exact ⟨GpuBand.atLeast2, hc, fun b hb => by
        cases b <;> simp [GpuBand.cond] at hb ⊢; omega⟩
    · exact ⟨GpuBand.exactly1, hc, fun b hb => by
        cases b <;> simp [GpuBand.cond] at hb ⊢; omega⟩
  · intro b hb
    cases b <;> simp only [GpuBand.cond] at hb
    · simp [GPUProcessLevels, hb, GpuBand.levels]
    · subst hb
      simp [GPUProcessLevels, GpuBand.levels, MOZ_RELEASE_ASSERT, Broker.bind_apply,
        Broker.bind]
  · have hc : t > 2 ∨ t = 2 ∨ t = 1 := by omega
    rcases hc with hc | hc | hc
    · exact ⟨PluginBand.above2, hc, fun b hb => by
        cases b <;> simp [PluginBand.cond] at hb ⊢ <;> omega⟩
    · exact ⟨PluginBand.exactly2, hc, fun b hb => by
        cases b <;> simp [PluginBand.cond] at hb ⊢ <;> omega⟩
    · exact ⟨PluginBand.exactly1, hc, fun b hb => by
        cases b <;> simp [PluginBand.cond] at hb ⊢ <;> omega⟩
  · intro b hb
    cases b <;> simp only [PluginBand.cond] at hb
    · simp [PluginProcessLevels, hb, PluginBand.levels]
    · subst hb; simp [PluginProcessLevels, PluginBand.levels]
    · subst hb; simp [PluginProcessLevels, PluginBand.levels]

/-- Witness of C5 at trust level 20: the content level chain returns the
levels of the band `t >= 20`. -/
theorem level_bands_disjoint_and_cover_witness :
    ContentProcessLevels releaseHost 20 acceptingPolicy =
      (Outcome.returned
        ⟨JOB_LOCKDOWN, USER_LOCKDOWN, INTEGRITY_LEVEL_LOW, INTEGRITY_LEVEL_UNTRUSTED⟩,
        acceptingPolicy) :=
  (level_bands_disjoint_and_cover 20 (by decide) releaseHost acceptingPolicy).1.2
    ContentBand.atLeast20 (by decide)

/-- C6.  The file-content clamp is idempotent: on every pair of a token level
and a delayed integrity level, applying it twice gives what applying it once
gives. -/
theorem fileProcessClamp_idempotent (levels : TokenLevel × IntegrityLevel) :
    fileProcessClamp (fileProcessClamp levels) = fileProcessClamp levels := by
  rcases levels with ⟨t, i⟩
  cases t <;> cases i <;> rfl

/-- C7, the code at the failing input.  On the sample release host with the
accepting policy, `SetSecurityLevelForPluginProcess(1)` returns `true` and
its log holds `SetTokenLevel(USER_RESTRICTED_SAME_ACCESS, USER_NON_ADMIN)`:
the delayed token level is `USER_NON_ADMIN` and the initial one is not
`USER_UNPROTECTED`. -/
theorem plugin_level1_initial_token_is_restricted_same_access :
    (SetSecurityLevelForPluginProcess releaseHost 1 (some acceptingPolicy)).1 =
      Outcome.returned true ∧
    ⟨PolicyCall.SetTokenLevel USER_RESTRICTED_SAME_ACCESS USER_NON_ADMIN, SBOX_ALL_OK⟩ ∈
      loggedCalls (SetSecurityLevelForPluginProcess releaseHost 1 (some acceptingPolicy)) ∧
    ⟨PolicyCall.SetTokenLevel USER_UNPROTECTED USER_NON_ADMIN, SBOX_ALL_OK⟩ ∉
      loggedCalls (SetSecurityLevelForPluginProcess releaseHost 1 (some acceptingPolicy)) := by
  decide

/-- C8.  `AddCachedDirRule`, for every access kind and relative path: without
a base directory it returns normally and leaves the policy object as it was
(no call, no rule); with the base directory `b` it returns normally after
exactly one call, `AddRule(SUBSYS_FILES, aAccess, b ++ aRelativePath)`,
whatever the policy object answers. -/
theorem AddCachedDirRule_adds_base_plus_relative (aAccess : Semantics)
    (aRelativePath : nsString) (p : TargetPolicy) :
    AddCachedDirRule aAccess none aRelativePath p = (Outcome.returned (), p) ∧
    ∀ b : nsString, AddCachedDirRule aAccess (some b) aRelativePath p =
      (Outcome.returned (),
        { p with
          log := p.log ++
            [⟨PolicyCall.AddRule SUBSYS_FILES aAccess (some (b ++ aRelativePath)),
              p.respond p.log.length
                (PolicyCall.AddRule SUBSYS_FILES aAccess (some (b ++ aRelativePath)))⟩] }) :=
  ⟨rfl, fun _ => rfl⟩

/-- C9.  The path conversion of `CacheDirAndAutoClear`: a path made of two
backslashes and `rest` is cached as `\??\UNC\` followed by `rest`, and a path
that does not begin with two backslashes is cached unchanged. -/
theorem CacheDirAndAutoClear_converts_network_share (cacheVar : Option nsString) :
    (∀ rest : nsString, CacheDirAndAutoClear (some ('\\' :: '\\' :: rest)) cacheVar =
      some ("\\??\\UNC\\".toList ++ rest)) ∧
    (∀ path : nsString, (∀ rest, path ≠ '\\' :: '\\' :: rest) →
      CacheDirAndAutoClear (some path) cacheVar = some path) := by
  constructor
  · intro rest
    simp [CacheDirAndAutoClear, Substring, InsertLiteral]
  · intro path hp
    have hne : Substring path 0 2 ≠ "\\\\".toList := by
      intro hs
      match path, hp, hs with
      | [], _, hs => simp [Substring] at hs
      | [a], _, hs => simp [Substring] at hs
      | a :: b :: rest, hp, hs =>
        simp [Substring] at hs
        exact hp rest (by rw [hs.1, hs.2])
    show (if Substring path 0 2 = "\\\\".toList then _ else _) = _
    rw [if_neg hne]

/-- Witness of C9: a drive path is cached unchanged. -/
theorem CacheDirAndAutoClear_converts_network_share_witness :
    CacheDirAndAutoClear (some "C:\\dir".toList) none = some "C:\\dir".toList :=
  (CacheDirAndAutoClear_converts_network_share none).2 "C:\\dir".toList
    (by intro rest; simp)

/-- C10, counterexample.  In a release build on Windows 10, with a policy
object that accepts every call and whose process mitigations already contain
`MITIGATION_WIN32K_DISABLE`, `AddWin32kLockdownPolicy` is not stopped by an
assertion: it returns `SBOX_ALL_OK` and the `SUBSYS_WIN32K_LOCKDOWN` rule has
been added. -/
theorem AddWin32kLockdownPolicy_release_adds_rule_twice :
    MITIGATION_WIN32K_DISABLE ∈ lockedDownPolicy.mitigations ∧
    (AddWin32kLockdownPolicy releaseHost false lockedDownPolicy).1 =
      Outcome.returned SBOX_ALL_OK ∧
    (SUBSYS_WIN32K_LOCKDOWN, FAKE_USER_GDI_INIT, none) ∈
      (AddWin32kLockdownPolicy releaseHost false lockedDownPolicy).2.rules := by
  decide

/-- C10, amended.  `AddWin32kLockdownPolicy` on a policy whose process
mitigations already contain `MITIGATION_WIN32K_DISABLE`: in a debug build on
Windows 8 or later the assertion stops the run before any call is made on the
policy object (so no rule is added); before Windows 8 the procedure returns
`SBOX_ALL_OK` without any call on the policy object. -/
theorem AddWin32kLockdownPolicy_debug_rejects_second_call (h : Host) (aEnableOpm : Bool)
    (p : TargetPolicy) (hflag : MITIGATION_WIN32K_DISABLE ∈ p.mitigations) :
    (h.IsWin8OrLater = true → h.DEBUG = true →
      AddWin32kLockdownPolicy h aEnableOpm p = (Outcome.crashed, p)) ∧
    (h.IsWin8OrLater = false →
      AddWin32kLockdownPolicy h aEnableOpm p = (Outcome.returned SBOX_ALL_OK, p)) := by
  constructor
  · intro hw hd
    simp [AddWin32kLockdownPolicy, hw, hd, hflag, Broker.bind_apply, Broker.bind,
      TargetPolicy.GetProcessMitigations, MOZ_ASSERT]
  · intro hw
    simp [AddWin32kLockdownPolicy, hw]

/-- Witness of C10 as amended: the sample debug host crashes on the policy
that already holds the flag, and the policy is left as it was. -/
theorem AddWin32kLockdownPolicy_debug_rejects_second_call_witness :
    AddWin32kLockdownPolicy debugHost false lockedDownPolicy =
      (Outcome.crashed, lockedDownPolicy) :=
  (AddWin32kLockdownPolicy_debug_rejects_second_call debugHost false lockedDownPolicy
    (by decide)).1 rfl rfl

/-! ## Launching: rules for stepping through a launch -/

theorem Launch.step_bind_i {α β : Type} {Q : β → LaunchState → Prop} {x : Launch α}
    {f : α → Launch β} {s : LaunchState}
    (hx : Launch.post (fun a t => Launch.post Q (f a) t) x s) : Launch.post Q (x >>= f) s := by
  unfold Launch.post at hx ⊢
  show match Launch.bind x f s with
    | (Outcome.returned a, t) => Q a t
    | (Outcome.crashed, _) => False
  unfold Launch.bind
  rcases hxs : x s with ⟨o, t⟩
  rw [hxs] at hx
  cases o with
  | returned a => exact hx
  | crashed => exact hx.elim

theorem Launch.step_pure_i {α : Type} {Q : α → LaunchState → Prop} {a : α} {s : LaunchState}
    (hq : Q a s) : Launch.post Q (pure a) s := hq

theorem Launch.step_ite_i {α : Type} {Q : α → LaunchState → Prop} {c : Prop} {_ : Decidable c}
    {x y : Launch α} {s : LaunchState}
    (hx : c → Launch.post Q x s) (hy : ¬ c → Launch.post Q y s) :
    Launch.post Q (if c then x else y) s := by
  by_cases hc : c
  · rw [if_pos hc]; exact hx hc
  · rw [if_neg hc]; exact hy hc

theorem Launch.post_effect_i {Q : Unit → LaunchState → Prop} {e : LaunchEffect}
    {mp : Option TargetPolicy} {le : Option (List nsString)} {es : List LaunchEffect}
    {ph : Option Nat} (hq : Q () ⟨mp, le, es ++ [e], ph⟩) :
    Launch.post Q (Launch.effect e) ⟨mp, le, es, ph⟩ := hq

theorem Launch.post_storeProcessHandle_i {Q : Unit → LaunchState → Prop} {hProcess : Nat}
    {mp : Option TargetPolicy} {le : Option (List nsString)} {es : List LaunchEffect}
    {ph : Option Nat} (hq : Q () ⟨mp, le, es, some hProcess⟩) :
    Launch.post Q (Launch.storeProcessHandle hProcess) ⟨mp, le, es, ph⟩ := hq

theorem Launch.post_mPolicy_isNull_i {Q : Bool → LaunchState → Prop}
    {mp : Option TargetPolicy} {le : Option (List nsString)} {es : List LaunchEffect}
    {ph : Option Nat} (hq : Q mp.isNone ⟨mp, le, es, ph⟩) :
    Launch.post Q Launch.mPolicy_isNull ⟨mp, le, es, ph⟩ := hq

theorem Launch.post_sLaunchErrors_isSet_i {Q : Bool → LaunchState → Prop}
    {mp : Option TargetPolicy} {le : Option (List nsString)} {es : List LaunchEffect}
    {ph : Option Nat} (hq : Q le.isSome ⟨mp, le, es, ph⟩) :
    Launch.post Q Launch.sLaunchErrors_isSet ⟨mp, le, es, ph⟩ := hq

theorem Launch.post_Contains_i {Q : Bool → LaunchState → Prop} {key : nsString}
    {mp : Option TargetPolicy} {keys : List nsString} {es : List LaunchEffect}
    {ph : Option Nat} (hq : Q (decide (key ∈ keys)) ⟨mp, some keys, es, ph⟩) :
    Launch.post Q (Launch.Contains key) ⟨mp, some keys, es, ph⟩ := hq

theorem Launch.post_PutEntry_i {Q : Unit → LaunchState → Prop} {key : nsString}
    {mp : Option TargetPolicy} {keys : List nsString} {es : List LaunchEffect}
    {ph : Option Nat}
    (hq : Q () ⟨mp, some (if key ∈ keys then keys else keys ++ [key]), es, ph⟩) :
    Launch.post Q (Launch.PutEntry key) ⟨mp, some keys, es, ph⟩ := hq

theorem Launch.post_onPolicy_i {α : Type} {Q : α → LaunchState → Prop} {x : Broker α}
    {p : TargetPolicy} {le : Option (List nsString)} {es : List LaunchEffect} {ph : Option Nat}
    (hx : ∀ p, ∃ a, (x p).1 = Outcome.returned a)
    (hq : ∀ a q, Q a ⟨some q, le, es, ph⟩) :
    Launch.post Q (Launch.onPolicy x) ⟨some p, le, es, ph⟩ := by
  obtain ⟨a, ha⟩ := hx p
  show match ((x p).1, (⟨some (x p).2, le, es, ph⟩ : LaunchState)) with
    | (Outcome.returned a, t) => Q a t
    | (Outcome.crashed, _) => False
  rw [ha]
  exact hq a _

/-- A step that runs on the policy object only when `c` holds. -/
theorem Launch.post_ite_onPolicy_i {Q : Unit → LaunchState → Prop} {c : Prop} {_ : Decidable c}
    {x : Broker Unit}
    {p : TargetPolicy} {le : Option (List nsString)} {es : List LaunchEffect} {ph : Option Nat}
    (hx : ∀ p, ∃ a, (x p).1 = Outcome.returned a)
    (hq : ∀ q, Q () ⟨some q, le, es, ph⟩) :
    Launch.post Q (if c then Launch.onPolicy x else pure ()) ⟨some p, le, es, ph⟩ := by
  by_cases hc : c
  · rw [if_pos hc]; exact Launch.post_onPolicy_i hx (fun _ q => hq q)
  · rw [if_neg hc]; exact hq p

theorem TargetPolicy.invoke_returns (c : PolicyCall) :
    ∀ p, ∃ a, (TargetPolicy.invoke c p).1 = Outcome.returned a := fun _ => ⟨_, rfl⟩

theorem ApplyLoggingPolicy_returns (h : Host) :
    ∀ p, ∃ a, (ApplyLoggingPolicy h p).1 = Outcome.returned a := by
  intro p
  refine ⟨(), ?_⟩
  simp [ApplyLoggingPolicy, bind, Broker.bind, MOZ_ASSERT, TargetPolicy.AddRule,
    TargetPolicy.invoke, pure]

theorem AddRule_then_pure_returns (s : SubSystem) (a : Semantics) (pat : nsString) :
    ∀ p, ∃ u, ((do let _ ← TargetPolicy.AddRule s a pat; pure () : Broker Unit) p).1
      = Outcome.returned u := fun _ => ⟨_, rfl⟩

theorem AddMozLogRulesToPolicy_returns (h : LaunchHost) (env : List (nsString × nsString))
    (ml : Option nsString) :
    ∀ p, ∃ a, (AddMozLogRulesToPolicy h env ml p).1 = Outcome.returned a := by
  intro p
  refine ⟨(), ?_⟩
  unfold AddMozLogRulesToPolicy
  generalize (List.lookup _ env).orElse _ = it
  cases it <;> cases ml <;> rfl

/-- A launch by a broker without broker services or without a policy object
returns false and does nothing. -/
theorem LaunchApp_without_broker (h : LaunchHost) (c : LaunchCall) (s : LaunchState)
    (hn : h.sBrokerService = false ∨ s.mPolicy = none) :
    LaunchApp h c s = (Outcome.returned false, s) := by
  obtain ⟨mp, le, es, ph⟩ := s
  rcases hn with hn | hn
  · simp [LaunchApp, hn, bind, Launch.bind, Launch.mPolicy_isNull, pure]
  · simp only at hn
    subst hn
    simp [LaunchApp, bind, Launch.bind, Launch.mPolicy_isNull, pure]

/-- A launch whose spawn succeeds: the value it returns and what it does. -/
theorem LaunchApp_spawned (h : LaunchHost) (c : LaunchCall) (p : TargetPolicy)
    (le : Option (List nsString)) (es : List LaunchEffect) (ph : Option Nat)
    (hb : h.sBrokerService = true) (hr : c.SpawnTarget.result = SBOX_ALL_OK) :
    Launch.post (fun a t => a = !fixupFails h c ∧ t.mPolicy.isSome = true ∧ t.sLaunchErrors = le ∧
        t.effects = es ++ (LaunchEffect.SpawnTarget :: warningLog c ++ fixupEffects h c
          ++ (if fixupFails h c then []
              else [LaunchEffect.ResumeThread c.SpawnTarget.hThread,
                    LaunchEffect.CloseHandle c.SpawnTarget.hThread])) ∧
        t.aProcessHandle = if fixupFails h c then ph else some c.SpawnTarget.hProcess)
      (LaunchApp h c) ⟨some p, le, es, ph⟩ := by
  simp only [LaunchApp]
  repeat' first
    | with_reducible apply Launch.step_bind_i
    | with_reducible apply Launch.step_pure_i
    | with_reducible apply Launch.post_effect_i
    | with_reducible apply Launch.post_storeProcessHandle_i
    | with_reducible apply Launch.post_mPolicy_isNull_i
    | with_reducible apply Launch.post_sLaunchErrors_isSet_i
    | with_reducible apply Launch.post_Contains_i
    | with_reducible apply Launch.post_PutEntry_i
    | (with_reducible apply Launch.post_ite_onPolicy_i (ApplyLoggingPolicy_returns _)); intro q
    | (with_reducible apply Launch.post_ite_onPolicy_i (AddRule_then_pure_returns _ _ _)); intro q
    | (with_reducible apply Launch.post_onPolicy_i (TargetPolicy.invoke_returns _)); intro r q
    | (with_reducible apply Launch.post_onPolicy_i (AddMozLogRulesToPolicy_returns _ _ _)); intro r q
    | (with_reducible apply Launch.step_ite_i) <;> intro hc <;>
        try (first | contradiction | (exfalso; simp_all; done))
  all_goals simp_all [fixupFails, fixupEffects, warningLog, takeDown]
  all_goals split_ifs <;> simp_all
  all_goals cases hL : c.LoadLibraryExW <;> simp_all

/-- A launch whose spawn fails: it returns false, and hands the key to
telemetry unless `sLaunchErrors` exists and holds the key already. -/
theorem LaunchApp_spawn_failed (h : LaunchHost) (c : LaunchCall) (p : TargetPolicy)
    (le : Option (List nsString)) (es : List LaunchEffect) (ph : Option Nat)
    (hb : h.sBrokerService = true) (hr : c.SpawnTarget.result ≠ SBOX_ALL_OK) :
    Launch.post (fun a t => a = false ∧ t.mPolicy.isSome = true ∧
        t.sLaunchErrors = le.map (fun keys =>
          if launchErrorKey h c ∈ keys then keys else keys ++ [launchErrorKey h c]) ∧
        t.effects = es ++ (LaunchEffect.SpawnTarget ::
          (if ∃ keys, le = some keys ∧ launchErrorKey h c ∈ keys then []
           else [LaunchEffect.Accumulate (launchErrorKey h c) c.SpawnTarget.result])
          ++ [LaunchEffect.LOG_E "Failed to SpawnTarget"]) ∧
        t.aProcessHandle = ph)
      (LaunchApp h c) ⟨some p, le, es, ph⟩ := by
  cases le
  all_goals
    simp only [LaunchApp]
    repeat' first
      | with_reducible apply Launch.step_bind_i
      | with_reducible apply Launch.step_pure_i
      | with_reducible apply Launch.post_effect_i
      | with_reducible apply Launch.post_storeProcessHandle_i
      | with_reducible apply Launch.post_mPolicy_isNull_i
      | with_reducible apply Launch.post_sLaunchErrors_isSet_i
      | with_reducible apply Launch.post_Contains_i
      | with_reducible apply Launch.post_PutEntry_i
      | (with_reducible apply Launch.post_ite_onPolicy_i (ApplyLoggingPolicy_returns _)); intro q
      | (with_reducible apply Launch.post_ite_onPolicy_i (AddRule_then_pure_returns _ _ _)); intro q
      | (with_reducible apply Launch.post_onPolicy_i (TargetPolicy.invoke_returns _)); intro r q
      | (with_reducible apply Launch.post_onPolicy_i (AddMozLogRulesToPolicy_returns _ _ _)); intro r q
      | (with_reducible apply Launch.step_ite_i) <;> intro hc <;>
          try (first | contradiction | (exfalso; simp_all; done))
  all_goals simp_all [launchErrorKey]

/-! ## Launching: telemetry of failed spawns -/

theorem LaunchState.effectsSince_append (s t : LaunchState) (added : List LaunchEffect)
    (ht : t.effects = s.effects ++ added) : s.effectsSince t = added := by
  simp [LaunchState.effectsSince, ht]

theorem Launch.post_elim {α : Type} {Q : α → LaunchState → Prop} {x : Launch α}
    {s : LaunchState} (hx : Launch.post Q x s) :
    ∃ a t, x s = (Outcome.returned a, t) ∧ Q a t := by
  unfold Launch.post at hx
  rcases hxs : x s with ⟨o, t⟩
  rw [hxs] at hx
  cases o with
  | returned a => exact ⟨a, t, rfl, hx⟩
  | crashed => exact hx.elim

/-- A launch by a broker with broker services and a policy object whose spawn
succeeds: the value returned and the state left behind. -/
theorem LaunchApp_spawned_run (h : LaunchHost) (c : LaunchCall) (s : LaunchState)
    (hb : h.sBrokerService = true) (hp : s.mPolicy.isSome = true)
    (hr : c.SpawnTarget.result = SBOX_ALL_OK) :
    (LaunchApp h c s).1 = Outcome.returned (!fixupFails h c) ∧
    s.effectsSince (LaunchApp h c s).2
      = LaunchEffect.SpawnTarget :: warningLog c ++ fixupEffects h c
          ++ (if fixupFails h c then []
              else [LaunchEffect.ResumeThread c.SpawnTarget.hThread,
                    LaunchEffect.CloseHandle c.SpawnTarget.hThread]) ∧
    (LaunchApp h c s).2.aProcessHandle
      = (if fixupFails h c then s.aProcessHandle else some c.SpawnTarget.hProcess) := by
  obtain ⟨mp, le, es, ph⟩ := s
  obtain ⟨p, rfl⟩ := Option.isSome_iff_exists.1 hp
  obtain ⟨a, t, hrun, ha, -, -, hes, hph⟩ := Launch.post_elim (LaunchApp_spawned h c p le es ph hb hr)
  rw [hrun]
  exact ⟨by rw [ha], LaunchState.effectsSince_append _ _ _ hes, hph⟩

/-- A launch by a broker with broker services and a policy object whose spawn
fails: it returns false after the spawn, telemetry and the error log. -/
theorem LaunchApp_spawn_failed_run (h : LaunchHost) (c : LaunchCall) (s : LaunchState)
    (hb : h.sBrokerService = true) (hp : s.mPolicy.isSome = true)
    (hr : c.SpawnTarget.result ≠ SBOX_ALL_OK) :
    (LaunchApp h c s).1 = Outcome.returned false ∧
    s.effectsSince (LaunchApp h c s).2
      = LaunchEffect.SpawnTarget ::
          (if ∃ keys, s.sLaunchErrors = some keys ∧ launchErrorKey h c ∈ keys then []
           else [LaunchEffect.Accumulate (launchErrorKey h c) c.SpawnTarget.result])
          ++ [LaunchEffect.LOG_E "Failed to SpawnTarget"] ∧
    (LaunchApp h c s).2.aProcessHandle = s.aProcessHandle := by
  obtain ⟨mp, le, es, ph⟩ := s
  obtain ⟨p, rfl⟩ := Option.isSome_iff_exists.1 hp
  obtain ⟨a, t, hrun, ha, -, -, hes, hph⟩ :=
    Launch.post_elim (LaunchApp_spawn_failed h c p le es ph hb hr)
  rw [hrun]
  exact ⟨by rw [ha], LaunchState.effectsSince_append _ _ _ hes, hph⟩

theorem LaunchState.effectsSince_self (s : LaunchState) : s.effectsSince s = [] := by
  simp [LaunchState.effectsSince]

theorem ResumeThread_not_mem_fixupEffects (h : LaunchHost) (c : LaunchCall) (t : Nat) :
    LaunchEffect.ResumeThread t ∉ fixupEffects h c := by
  unfold fixupEffects takeDown
  split_ifs <;> simp

theorem ResumeThread_not_mem_warningLog (c : LaunchCall) (t : Nat) :
    LaunchEffect.ResumeThread t ∉ warningLog c := by
  unfold warningLog
  split_ifs <;> simp

/-- C17: with broker services and a policy object, a spawn result other than
`SBOX_ALL_OK` makes `LaunchApp` return false without any fix-up action (no
blocklist setup, no inspection of the executable, no import restore, nothing
terminated, closed or resumed); after a result `SBOX_ALL_OK` the value
returned, the handle given back and everything done after the warning is
logged are the same for every warning code. -/
theorem LaunchApp_spawn_result_classes (h : LaunchHost) (c : LaunchCall) (s : LaunchState)
    (hb : h.sBrokerService = true) (hp : s.mPolicy.isSome = true) :
    (c.SpawnTarget.result ≠ SBOX_ALL_OK →
      (LaunchApp h c s).1 = Outcome.returned false ∧
      ∀ e ∈ s.effectsSince (LaunchApp h c s).2,
        e = LaunchEffect.SpawnTarget ∨ e = LaunchEffect.LOG_E "Failed to SpawnTarget" ∨
        e = LaunchEffect.Accumulate (launchErrorKey h c) c.SpawnTarget.result) ∧
    (c.SpawnTarget.result = SBOX_ALL_OK →
      ∃ (value : Bool) (fixup : List LaunchEffect) (handle : Option Nat),
        ∀ w : ResultCode,
          (LaunchApp h (c.withWarning w) s).1 = Outcome.returned value ∧
          s.effectsSince (LaunchApp h (c.withWarning w) s).2 = LaunchEffect.SpawnTarget ::
                (if SBOX_ALL_OK != w then [LaunchEffect.LOG_W "Warning on SpawnTarget"] else [])
                ++ fixup ∧
          (LaunchApp h (c.withWarning w) s).2.aProcessHandle = handle) := by
  refine ⟨fun hr => ?_, fun hr => ?_⟩
  · obtain ⟨hv, hes, -⟩ := LaunchApp_spawn_failed_run h c s hb hp hr
    refine ⟨hv, fun e he => ?_⟩
    rw [hes] at he
    split_ifs at he <;> simp at he <;> tauto
  · refine ⟨!fixupFails h c, fixupEffects h c ++ (if fixupFails h c then []
        else [LaunchEffect.ResumeThread c.SpawnTarget.hThread,
              LaunchEffect.CloseHandle c.SpawnTarget.hThread]),
      if fixupFails h c then s.aProcessHandle else some c.SpawnTarget.hProcess, fun w => ?_⟩
    obtain ⟨hv, hes, hph⟩ := LaunchApp_spawned_run h (c.withWarning w) s hb hp hr
    refine ⟨hv, ?_, hph⟩
    rw [hes]
    simp [warningLog, fixupEffects, fixupFails, takeDown, LaunchCall.withWarning]

/-- A spawn that succeeds with the warning code 3 and one that succeeds
without a warning: the launch returns true in both cases. -/
theorem LaunchApp_spawn_result_classes_witness :
    ∃ (value : Bool) (fixup : List LaunchEffect) (handle : Option Nat),
      ∀ w : ResultCode,
        (LaunchApp sampleLaunchHost (sampleLaunch.withWarning w) startState).1
          = Outcome.returned value ∧
        startState.effectsSince (LaunchApp sampleLaunchHost (sampleLaunch.withWarning w) startState).2
          = LaunchEffect.SpawnTarget ::
              (if SBOX_ALL_OK != w then [LaunchEffect.LOG_W "Warning on SpawnTarget"] else [])
              ++ fixup ∧
        (LaunchApp sampleLaunchHost (sampleLaunch.withWarning w) startState).2.aProcessHandle
          = handle :=
  (LaunchApp_spawn_result_classes sampleLaunchHost sampleLaunch startState rfl rfl).2 rfl

/-- C18: in every execution `LaunchApp` returns, and the main thread of the
target is resumed if and only if it returns true; when it is resumed, this is
the last thing but one the launch does (only closing the thread handle
follows), no resume comes before it, the spawn was successful, and the fix-up
that applies was called before and returned no error; when `LaunchApp`
returns false, no thread is resumed. -/
theorem LaunchApp_resumes_thread_iff_true (h : LaunchHost) (c : LaunchCall) (s : LaunchState) :
    ((LaunchApp h c s).1 = Outcome.returned true ∨
      (LaunchApp h c s).1 = Outcome.returned false) ∧
    ((LaunchApp h c s).1 = Outcome.returned true ↔
      LaunchEffect.ResumeThread c.SpawnTarget.hThread ∈ s.effectsSince (LaunchApp h c s).2) ∧
    ((LaunchApp h c s).1 = Outcome.returned false →
      ∀ t, LaunchEffect.ResumeThread t ∉ s.effectsSince (LaunchApp h c s).2) ∧
    (∀ t, LaunchEffect.ResumeThread t ∈ s.effectsSince (LaunchApp h c s).2 →
      t = c.SpawnTarget.hThread ∧ c.SpawnTarget.result = SBOX_ALL_OK ∧
      ∃ before, s.effectsSince (LaunchApp h c s).2
          = before ++ [LaunchEffect.ResumeThread c.SpawnTarget.hThread,
                       LaunchEffect.CloseHandle c.SpawnTarget.hThread] ∧
        (∀ t', LaunchEffect.ResumeThread t' ∉ before) ∧
        (h.XRE_GetChildProcBinPathType_isSelf c.aProcessType = true →
          LaunchEffect.InitDllBlocklistOOP ∈ before ∧ c.InitDllBlocklistOOP_isErr = false) ∧
        (LaunchEffect.RestoreImportDirectory ∈ s.effectsSince (LaunchApp h c s).2 →
          LaunchEffect.RestoreImportDirectory ∈ before ∧
          c.RestoreImportDirectory_isErr = false)) := by
  by_cases hbp : h.sBrokerService = true ∧ s.mPolicy.isSome = true
  · obtain ⟨hb, hp⟩ := hbp
    by_cases hr : c.SpawnTarget.result = SBOX_ALL_OK
    · obtain ⟨hv, hes, -⟩ := LaunchApp_spawned_run h c s hb hp hr
      rw [hv, hes]
      cases hf : fixupFails h c
      · have hf2 := hf
        simp only [fixupFails] at hf2
        refine ⟨Or.inl rfl, by simp, by simp, fun t ht => ?_⟩
        have ht2 : t = c.SpawnTarget.hThread := by
          simpa [ResumeThread_not_mem_fixupEffects, ResumeThread_not_mem_warningLog] using ht
        refine ⟨ht2, hr, LaunchEffect.SpawnTarget :: warningLog c ++ fixupEffects h c, by simp,
          fun t' => by simp [ResumeThread_not_mem_fixupEffects, ResumeThread_not_mem_warningLog],
          fun hs => ?_, fun hri => ?_⟩
        · simp [fixupEffects, hs] at hf2 ⊢
          exact hf2
        · revert hri hf2
          simp only [fixupEffects, warningLog, takeDown]
          split_ifs <;> simp_all
      · refine ⟨Or.inr rfl, ?_, fun _ t => ?_, fun t ht => ?_⟩
        · simp [ResumeThread_not_mem_fixupEffects, ResumeThread_not_mem_warningLog]
        · simp [ResumeThread_not_mem_fixupEffects, ResumeThread_not_mem_warningLog]
        · simp [ResumeThread_not_mem_fixupEffects, ResumeThread_not_mem_warningLog] at ht
    · obtain ⟨hv, hes, -⟩ := LaunchApp_spawn_failed_run h c s hb hp hr
      rw [hv, hes]
      refine ⟨Or.inr rfl, ?_, fun _ t => ?_, fun t ht => ?_⟩
      · split_ifs <;> simp
      · split_ifs <;> simp
      · split_ifs at ht <;> simp at ht
  · have hn : h.sBrokerService = false ∨ s.mPolicy = none := by
      by_cases hb : h.sBrokerService = true
      · right
        cases hmp : s.mPolicy with
        | none => rfl
        | some p => exact absurd ⟨hb, by simp [hmp]⟩ hbp
      · left; simpa using hb
    rw [LaunchApp_without_broker h c s hn]
    simp [LaunchState.effectsSince_self]

/-- C19: after a successful spawn by a broker with broker services and a
policy object, if `InitDllBlocklistOOP` (target running the broker's own
binary) or a `RestoreImportDirectory` that was called returns an error, the
target process is terminated with exit code 1, then the thread handle and the
process handle are closed, no thread is resumed, `LaunchApp` returns false,
and nothing is stored through `aProcessHandle`. -/
theorem LaunchApp_fixup_error_takes_target_down (h : LaunchHost) (c : LaunchCall)
    (s : LaunchState) (hb : h.sBrokerService = true) (hp : s.mPolicy.isSome = true)
    (hr : c.SpawnTarget.result = SBOX_ALL_OK)
    (herr : (h.XRE_GetChildProcBinPathType_isSelf c.aProcessType = true ∧
        c.InitDllBlocklistOOP_isErr = true) ∨
      (LaunchEffect.RestoreImportDirectory ∈ s.effectsSince (LaunchApp h c s).2 ∧
        c.RestoreImportDirectory_isErr = true)) :
    (LaunchApp h c s).1 = Outcome.returned false ∧
    (∃ before after, s.effectsSince (LaunchApp h c s).2
      = before ++ [LaunchEffect.TerminateProcess c.SpawnTarget.hProcess 1,
                   LaunchEffect.CloseHandle c.SpawnTarget.hThread,
                   LaunchEffect.CloseHandle c.SpawnTarget.hProcess] ++ after) ∧
    (∀ t, LaunchEffect.ResumeThread t ∉ s.effectsSince (LaunchApp h c s).2) ∧
    (LaunchApp h c s).2.aProcessHandle = s.aProcessHandle := by
  obtain ⟨hv, hes, hph⟩ := LaunchApp_spawned_run h c s hb hp hr
  rw [hes] at herr
  have hf : fixupFails h c = true := by
    rcases herr with ⟨hs, he⟩ | ⟨hri, he⟩
    · simp [fixupFails, hs, he]
    · revert hri
      simp only [fixupFails, fixupEffects, warningLog, takeDown]
      split_ifs <;> simp_all
  rw [hv, hes, hph, hf]
  refine ⟨rfl, ?_, fun t => by
    simp [ResumeThread_not_mem_fixupEffects, ResumeThread_not_mem_warningLog], rfl⟩
  have hf2 := hf
  simp only [fixupFails] at hf2
  by_cases hs : h.XRE_GetChildProcBinPathType_isSelf c.aProcessType = true
  · simp only [hs, if_true] at hf2
    refine ⟨LaunchEffect.SpawnTarget :: warningLog c ++
      [LaunchEffect.InitDllBlocklistOOP, LaunchEffect.LOG_E "InitDllBlocklistOOP failed"],
      if h.MOZ_LAUNCHER_PROCESS then [LaunchEffect.DisableDueToFailure] else [], ?_⟩
    simp [fixupEffects, hs, hf2, takeDown]
  · simp [hs] at hf2
    refine ⟨LaunchEffect.SpawnTarget :: warningLog c ++
      ([LaunchEffect.LoadLibraryExW, LaunchEffect.GetProcessExeModule]
        ++ (if c.GetProcessExeModule_isOk then []
            else [LaunchEffect.LOG_E "nt::GetProcessExeModule failed"])
        ++ [LaunchEffect.RestoreImportDirectory,
            LaunchEffect.LOG_E "Failed to restore import directory"]), [], ?_⟩
    simp [fixupEffects, hs, hf2, takeDown]

/-- An `InitDllBlocklistOOP` error on the sample launch: the launch returns
false and resumes no thread. -/
theorem LaunchApp_fixup_error_takes_target_down_witness :
    (LaunchApp sampleLaunchHost { sampleLaunch with InitDllBlocklistOOP_isErr := true }
      startState).1 = Outcome.returned false :=
  (LaunchApp_fixup_error_takes_target_down sampleLaunchHost
    { sampleLaunch with InitDllBlocklistOOP_isErr := true } startState rfl rfl rfl
    (Or.inl ⟨rfl, rfl⟩)).1

/-- C20: for a target that runs a binary of its own, after a successful spawn
by a broker with broker services and a policy object: if `LoadLibraryExW`
gives no module, or `nt::GetProcessExeModule` fails or gives a null base, or
the PE headers are not valid, then `RestoreImportDirectory` is not called, the
process is not terminated, the thread is resumed, the process handle is stored
through `aProcessHandle`, and `LaunchApp` returns true. -/
theorem LaunchApp_skips_import_restore (h : LaunchHost) (c : LaunchCall) (s : LaunchState)
    (hb : h.sBrokerService = true) (hp : s.mPolicy.isSome = true)
    (hr : c.SpawnTarget.result = SBOX_ALL_OK)
    (hs : h.XRE_GetChildProcBinPathType_isSelf c.aProcessType = false)
    (hskip : c.LoadLibraryExW = false ∨ c.GetProcessExeModule_isOk = false ∨
      c.GetProcessExeModule_unwrap = 0 ∨ c.PEHeaders_valid = false) :
    (LaunchApp h c s).1 = Outcome.returned true ∧
    LaunchEffect.RestoreImportDirectory ∉ s.effectsSince (LaunchApp h c s).2 ∧
    (∀ hProcess uExitCode,
      LaunchEffect.TerminateProcess hProcess uExitCode ∉ s.effectsSince (LaunchApp h c s).2) ∧
    LaunchEffect.ResumeThread c.SpawnTarget.hThread ∈ s.effectsSince (LaunchApp h c s).2 ∧
    (LaunchApp h c s).2.aProcessHandle = some c.SpawnTarget.hProcess := by
  obtain ⟨hv, hes, hph⟩ := LaunchApp_spawned_run h c s hb hp hr
  have hf : fixupFails h c = false := by
    simp only [fixupFails, hs]
    rcases hskip with hk | hk | hk | hk <;> simp [hk]
  have hfx : fixupEffects h c = [LaunchEffect.LoadLibraryExW, LaunchEffect.GetProcessExeModule]
      ++ (if c.GetProcessExeModule_isOk then []
          else [LaunchEffect.LOG_E "nt::GetProcessExeModule failed"]) := by
    simp only [fixupEffects, hs]
    rcases hskip with hk | hk | hk | hk <;> simp [hk]
  rw [hv, hes, hph, hf, hfx]
  refine ⟨rfl, ?_, fun x y => ?_, by simp, rfl⟩
  · simp only [warningLog]; split_ifs <;> simp
  · simp only [warningLog]; split_ifs <;> simp

/-- A launch of an `rdd` process whose executable cannot be loaded as a data
file: the launch returns true. -/
theorem LaunchApp_skips_import_restore_witness :
    (LaunchApp sampleLaunchHost { sampleLaunch with aProcessType := 9, LoadLibraryExW := false }
      startState).1 = Outcome.returned true :=
  (LaunchApp_skips_import_restore sampleLaunchHost
    { sampleLaunch with aProcessType := 9, LoadLibraryExW := false } startState rfl rfl rfl rfl
    (Or.inl rfl)).1

/-! ## Rules for what every call of a run satisfies -/

theorem Broker.calls_mono {α : Type} {P : LoggedCall → Prop} {Q R : α → MitigationFlags → Prop}
    {x : Broker α} {m : MitigationFlags} (hx : Broker.calls P Q x m)
    (hqr : ∀ a m', Q a m' → R a m') : Broker.calls P R x m := by
  intro p hp
  obtain ⟨hresp, hlog, hq⟩ := hx p hp
  exact ⟨hresp, hlog, fun a ha => hqr _ _ (hq a ha)⟩

theorem Broker.calls_bind_i {α β : Type} {P : LoggedCall → Prop}
    {Q : β → MitigationFlags → Prop} {x : Broker α} {f : α → Broker β} {m : MitigationFlags}
    (hx : Broker.calls P (fun a m' => Broker.calls P Q (f a) m') x m) :
    Broker.calls P Q (x >>= f) m := by
  intro p hp
  obtain ⟨hresp, ⟨es, hlog, hes⟩, hq⟩ := hx p hp
  rw [Broker.bind_apply]
  unfold Broker.bind
  rcases hxp : x p with ⟨o, q⟩
  rw [hxp] at hresp hlog hq
  cases o with
  | crashed => exact ⟨hresp, ⟨es, hlog, hes⟩, fun a ha => by cases ha⟩
  | returned a =>
    obtain ⟨hresp2, ⟨es2, hlog2, hes2⟩, hq2⟩ := hq a rfl q rfl
    refine ⟨hresp2.trans hresp, ⟨es ++ es2, ?_, ?_⟩, hq2⟩
    · show (f a q).2.log = p.log ++ (es ++ es2)
      rw [hlog2]
      show q.log ++ es2 = _
      rw [show q.log = p.log ++ es from hlog, List.append_assoc]
    · intro e he
      rcases List.mem_append.1 he with he | he
      · exact hes e he
      · exact hes2 e he

theorem Broker.calls_pure_i {α : Type} {P : LoggedCall → Prop} {Q : α → MitigationFlags → Prop}
    {a : α} {m : MitigationFlags} (hq : Q a m) : Broker.calls P Q (pure a) m := by
  intro p hp
  refine ⟨rfl, ⟨[], by simp, by simp⟩, fun b hb => ?_⟩
  cases hb
  exact hp ▸ hq

theorem Broker.calls_ite_i {α : Type} {P : LoggedCall → Prop} {Q : α → MitigationFlags → Prop}
    {c : Prop} {_ : Decidable c} {x y : Broker α} {m : MitigationFlags}
    (hx : c → Broker.calls P Q x m) (hy : ¬ c → Broker.calls P Q y m) :
    Broker.calls P Q (if c then x else y) m := by
  by_cases hc : c
  · rw [if_pos hc]; exact hx hc
  · rw [if_neg hc]; exact hy hc

/-- A conditional statement in the middle of a run: what follows it is met
once, whatever word the policy object holds then. -/
theorem Broker.calls_block_i {α β : Type} {P : LoggedCall → Prop}
    {Q : β → MitigationFlags → Prop} {c : Prop} {_ : Decidable c} {x y : Broker α}
    {f : α → Broker β} {m : MitigationFlags}
    (hx : Broker.calls P (fun _ _ => True) (if c then x else y) m)
    (hf : ∀ a m', Broker.calls P Q (f a) m') :
    Broker.calls P Q ((if c then x else y) >>= f) m :=
  Broker.calls_bind_i (Broker.calls_mono hx (fun a m' _ => hf a m'))

theorem Broker.calls_ite_bne_i {α : Type} {P : LoggedCall → Prop}
    {Q : α → MitigationFlags → Prop} {r : ResultCode} {x y : Broker α} {m : MitigationFlags}
    (hx : r ≠ SBOX_ALL_OK → Broker.calls P Q x m) (hy : r = SBOX_ALL_OK → Broker.calls P Q y m) :
    Broker.calls P Q (if (SBOX_ALL_OK != r) = true then x else y) m := by
  apply Broker.calls_ite_i
  · intro hb; exact hx (fun he => by simp [he] at hb)
  · intro hb
    have hb2 : ¬ SBOX_ALL_OK ≠ r := fun hne => hb (by simpa using hne)
    exact hy (not_not.1 hb2).symm

theorem Broker.calls_ite_bne_i' {α : Type} {P : LoggedCall → Prop}
    {Q : α → MitigationFlags → Prop} {r : ResultCode} {x y : Broker α} {m : MitigationFlags}
    (hx : r ≠ SBOX_ALL_OK → Broker.calls P Q x m) (hy : r = SBOX_ALL_OK → Broker.calls P Q y m) :
    Broker.calls P Q (if (r != SBOX_ALL_OK) = true then x else y) m := by
  apply Broker.calls_ite_i
  · intro hb; exact hx (fun he => by simp [he] at hb)
  · intro hb; exact hy (by simpa using hb)

theorem calls_MOZ_RELEASE_ASSERT_i {P : LoggedCall → Prop} {Q : Unit → MitigationFlags → Prop}
    {c : Bool} {m : MitigationFlags} (hq : c = true → Q () m) :
    Broker.calls P Q (MOZ_RELEASE_ASSERT c) m := by
  intro p hp
  cases c with
  | true => exact ⟨rfl, ⟨[], by simp [MOZ_RELEASE_ASSERT], by simp⟩, fun _ _ => hp ▸ hq rfl⟩
  | false =>
    exact ⟨rfl, ⟨[], by simp [MOZ_RELEASE_ASSERT], by simp⟩, fun a ha => by
      simp [MOZ_RELEASE_ASSERT] at ha⟩

theorem calls_MOZ_RELEASE_ASSERT_ok_i {P : LoggedCall → Prop}
    {Q : Unit → MitigationFlags → Prop} {r : ResultCode} {m : MitigationFlags}
    (hq : r = SBOX_ALL_OK → Q () m) :
    Broker.calls P Q (MOZ_RELEASE_ASSERT (SBOX_ALL_OK == r)) m :=
  calls_MOZ_RELEASE_ASSERT_i (fun hc => hq (eq_of_beq hc).symm)

theorem calls_MOZ_RELEASE_ASSERT_ok_i' {P : LoggedCall → Prop}
    {Q : Unit → MitigationFlags → Prop} {r : ResultCode} {m : MitigationFlags}
    (hq : r = SBOX_ALL_OK → Q () m) :
    Broker.calls P Q (MOZ_RELEASE_ASSERT (r == SBOX_ALL_OK)) m :=
  calls_MOZ_RELEASE_ASSERT_i (fun hc => hq (eq_of_beq hc))

theorem calls_MOZ_ASSERT_i {P : LoggedCall → Prop} {Q : Unit → MitigationFlags → Prop}
    {h : Host} {c : Bool} {m : MitigationFlags} (hq : Q () m) :
    Broker.calls P Q (MOZ_ASSERT h c) m := by
  intro p hp
  refine ⟨?_, ⟨[], ?_, by simp⟩, fun _ _ => ?_⟩
  · unfold MOZ_ASSERT; split <;> rfl
  · unfold MOZ_ASSERT; split <;> simp
  · have : (MOZ_ASSERT h c p).2 = p := by unfold MOZ_ASSERT; split <;> rfl
    rw [this, hp]; exact hq

theorem calls_invoke_i {P : LoggedCall → Prop} {Q : ResultCode → MitigationFlags → Prop}
    {c : PolicyCall} {m : MitigationFlags} (hc : ∀ r, P ⟨c, r⟩) (hq : ∀ r, Q r m) :
    Broker.calls P Q (TargetPolicy.invoke c) m := by
  intro p hp
  refine ⟨rfl, ⟨[⟨c, p.respond p.log.length c⟩], rfl, by simpa using hc _⟩, fun a _ => ?_⟩
  exact hp ▸ hq a

theorem calls_invokeVoid_i {P : LoggedCall → Prop} {Q : Unit → MitigationFlags → Prop}
    {c : PolicyCall} {m : MitigationFlags} (hc : P ⟨c, SBOX_ALL_OK⟩) (hq : Q () m) :
    Broker.calls P Q (TargetPolicy.invokeVoid c) m := by
  intro p hp
  refine ⟨rfl, ⟨[⟨c, SBOX_ALL_OK⟩], rfl, by simpa using hc⟩, fun a _ => ?_⟩
  exact hp ▸ hq

theorem calls_GetProcessMitigations_i {P : LoggedCall → Prop}
    {Q : MitigationFlags → MitigationFlags → Prop} {m : MitigationFlags} (hq : Q m m) :
    Broker.calls P Q TargetPolicy.GetProcessMitigations m := by
  intro p hp
  refine ⟨rfl, ⟨[], by simp [TargetPolicy.GetProcessMitigations], by simp⟩, fun a ha => ?_⟩
  simp only [TargetPolicy.GetProcessMitigations, Outcome.returned.injEq] at ha
  subst ha; subst hp
  exact hq

theorem calls_SetProcessMitigations_i {P : LoggedCall → Prop}
    {Q : ResultCode → MitigationFlags → Prop} {flags m : MitigationFlags}
    (hc : ∀ r, P ⟨PolicyCall.SetProcessMitigations flags, r⟩)
    (hq : ∀ r, Q r (if r = SBOX_ALL_OK then flags else m)) :
    Broker.calls P Q (TargetPolicy.SetProcessMitigations flags) m := by
  intro p hp
  refine ⟨rfl, ⟨[⟨PolicyCall.SetProcessMitigations flags, _⟩], rfl, by simpa using hc _⟩,
    fun a ha => ?_⟩
  simp only [TargetPolicy.SetProcessMitigations, Outcome.returned.injEq] at ha
  subst ha; subst hp
  exact hq _

theorem calls_AddCachedDirRule_i {P : LoggedCall → Prop} {Q : Unit → MitigationFlags → Prop}
    {aAccess : Semantics} {aBaseDir : Option nsString} {aRelativePath : nsString}
    {m : MitigationFlags}
    (hc : ∀ baseDir r, aBaseDir = some baseDir →
      P ⟨PolicyCall.AddRule SUBSYS_FILES aAccess (some (baseDir ++ aRelativePath)), r⟩)
    (hq : Q () m) :
    Broker.calls P Q (AddCachedDirRule aAccess aBaseDir aRelativePath) m := by
  intro p hp
  cases aBaseDir with
  | none => exact ⟨rfl, ⟨[], by simp [AddCachedDirRule], by simp⟩, fun _ _ => hp ▸ hq⟩
  | some baseDir =>
    refine ⟨rfl, ⟨[⟨PolicyCall.AddRule SUBSYS_FILES aAccess (some (baseDir ++ aRelativePath)),
      p.respond p.log.length _⟩], rfl, by simpa using hc baseDir _ rfl⟩, fun _ _ => hp ▸ hq⟩

theorem calls_ContentProcessLevels_i {P : LoggedCall → Prop}
    {Q : Levels → MitigationFlags → Prop} {h : Host} {aSandboxLevel : Int} {m : MitigationFlags}
    (hq : ∀ levels, Q levels m) : Broker.calls P Q (ContentProcessLevels h aSandboxLevel) m := by
  unfold ContentProcessLevels
  repeat' first
    | exact Broker.calls_pure_i (hq _)
    | (refine Broker.calls_ite_i (fun _ => ?_) (fun _ => ?_))
    | exact Broker.calls_bind_i (calls_MOZ_ASSERT_i (Broker.calls_pure_i (hq _)))

theorem calls_GPUProcessLevels_i {P : LoggedCall → Prop}
    {Q : Levels → MitigationFlags → Prop} {aSandboxLevel : Int} {m : MitigationFlags}
    (hq : ∀ levels, Q levels m) : Broker.calls P Q (GPUProcessLevels aSandboxLevel) m := by
  unfold GPUProcessLevels
  refine Broker.calls_ite_i (fun _ => Broker.calls_pure_i (hq _))
    (fun _ => Broker.calls_bind_i (calls_MOZ_RELEASE_ASSERT_i (fun _ => Broker.calls_pure_i (hq _))))

theorem Member.releaseAssertPolicy_calls {α : Type} (body : Broker α) (P : LoggedCall → Prop)
    (hbody : ∀ m, Broker.calls P (fun _ _ => True) body m) (p q : TargetPolicy)
    (hq : (Member.releaseAssertPolicy body (some p)).2 = some q) :
    ∀ e ∈ p.callsSince q, P e := by
  obtain ⟨-, ⟨es, hlog, hes⟩, -⟩ := hbody p.mitigations p rfl
  simp only [Member.releaseAssertPolicy, Option.some.injEq] at hq
  subst hq
  simpa [TargetPolicy.callsSince, hlog] using hes

theorem Member.falseWithoutPolicy_calls (body : Broker Bool) (P : LoggedCall → Prop)
    (hbody : ∀ m, Broker.calls P (fun _ _ => True) body m) (p q : TargetPolicy)
    (hq : (Member.falseWithoutPolicy body (some p)).2 = some q) :
    ∀ e ∈ p.callsSince q, P e := by
  obtain ⟨-, ⟨es, hlog, hes⟩, -⟩ := hbody p.mitigations p rfl
  simp only [Member.falseWithoutPolicy, Option.some.injEq] at hq
  subst hq
  simpa [TargetPolicy.callsSince, hlog] using hes

theorem fileProcessClamp_token (levels : TokenLevel × IntegrityLevel) :
    USER_NON_ADMIN ≤ (fileProcessClamp levels).1 := by
  obtain ⟨t, i⟩ := levels
  cases t <;> cases i <;> decide

theorem fileProcessClamp_integrity (levels : TokenLevel × IntegrityLevel) :
    (fileProcessClamp levels).2 ≤ INTEGRITY_LEVEL_LOW := by
  obtain ⟨t, i⟩ := levels
  cases t <;> cases i <;> decide

theorem baselineMitigations_subset_ContentProcessMitigations (h : Host) (aSandboxLevel : Int) :
    baselineMitigations ⊆ ContentProcessMitigations h aSandboxLevel := by
  intro x hx
  have hx2 : x ∈ ({MITIGATION_BOTTOM_UP_ASLR, MITIGATION_HEAP_TERMINATE, MITIGATION_SEHOP,
      MITIGATION_DEP_NO_ATL_THUNK, MITIGATION_DEP, MITIGATION_EXTENSION_POINT_DISABLE,
      MITIGATION_IMAGE_LOAD_PREFER_SYS32} : MitigationFlags) := by
    revert x; decide
  unfold ContentProcessMitigations
  simp only []
  split_ifs <;>
    first
    | exact hx2
    | exact Finset.mem_union_left _ hx2
    | exact Finset.mem_union_left _ (Finset.mem_union_left _ hx2)

theorem ContentProcessMitigations_on_network_drive (h : Host) (aSandboxLevel : Int)
    (hn : h.sRunningFromNetworkDrive = true) :
    MITIGATION_IMAGE_LOAD_NO_REMOTE ∉ ContentProcessMitigations h aSandboxLevel ∧
    MITIGATION_IMAGE_LOAD_NO_LOW_LABEL ∉ ContentProcessMitigations h aSandboxLevel := by
  cases ha : h.M_ARM64 <;> cases hw : h.IsWin10Sep2018UpdateOrLater <;>
    by_cases ht : aSandboxLevel > 3 <;>
    simp +decide [ContentProcessMitigations, hn, ha, hw, ht]

theorem baselineMitigations_subset_union {s : MitigationFlags} (t : MitigationFlags)
    (hs : baselineMitigations ⊆ s) : baselineMitigations ⊆ s ∪ t :=
  hs.trans Finset.subset_union_left

/-- Every call `SetSecurityLevelForContentProcess` makes, however the run
ends: the mitigation words hold the baseline flags and respect the network
drive, and for a file process the delayed levels are clamped. -/
theorem content_every_call (h : Host) (aSandboxLevel : Int) (aIsFileProcess : Bool)
    (p q : TargetPolicy)
    (hq : (SetSecurityLevelForContentProcess h aSandboxLevel aIsFileProcess (some p)).2 = some q) :
    ∀ e ∈ p.callsSince q,
      mitigationCallOk h e ∧ (aIsFileProcess = true → fileProcessCallOk e) := by
  unfold SetSecurityLevelForContentProcess at hq
  refine Member.releaseAssertPolicy_calls _ _ (fun m => ?_) p q hq
  clear hq
  simp only [SetJobLevel_eq, ite_AddCachedDirRule, AddWin32kLockdownPolicy,
    TargetPolicy.SetTokenLevel, TargetPolicy.SetIntegrityLevel,
    TargetPolicy.SetDelayedIntegrityLevel, TargetPolicy.SetLockdownDefaultDacl,
    TargetPolicy.AddRestrictingRandomSid, TargetPolicy.SetAlternateDesktop,
    TargetPolicy.SetDelayedProcessMitigations, TargetPolicy.AddRule]
  repeat' first
    | with_reducible refine Broker.calls_block_i ?_ (fun _ m => ?_)
    | with_reducible apply Broker.calls_bind_i
    | with_reducible apply Broker.calls_pure_i
    | with_reducible refine calls_ContentProcessLevels_i (fun levels => ?_)
    | with_reducible refine calls_GPUProcessLevels_i (fun levels => ?_)
    | with_reducible refine calls_invoke_i (fun r => ?_) (fun r => ?_)
    | with_reducible refine calls_invokeVoid_i ?_ ?_
    | with_reducible apply calls_GetProcessMitigations_i
    | with_reducible refine calls_SetProcessMitigations_i (fun r => ?_) (fun r => ?_)
    | with_reducible refine calls_AddCachedDirRule_i (fun baseDir r _ => ?_) ?_
    | (with_reducible refine calls_MOZ_RELEASE_ASSERT_ok_i (fun hr => ?_)) <;> subst hr
    | (with_reducible refine calls_MOZ_RELEASE_ASSERT_ok_i' (fun hr => ?_)) <;> subst hr
    | with_reducible refine calls_MOZ_RELEASE_ASSERT_i (fun _ => ?_)
    | with_reducible apply calls_MOZ_ASSERT_i
    | (with_reducible refine Broker.calls_ite_bne_i (fun _ => ?_) (fun hr => ?_)) <;> try subst hr
    | (with_reducible refine Broker.calls_ite_bne_i' (fun _ => ?_) (fun hr => ?_)) <;> try subst hr
    | with_reducible refine Broker.calls_ite_i (fun _ => ?_) (fun _ => ?_)
  all_goals first
    | exact True.intro
    | (constructor <;> intros <;> exact True.intro)
    | (simp +contextual [mitigationCallOk, fileProcessCallOk, fileProcessClamp_token,
        fileProcessClamp_integrity, baselineMitigations_subset_ContentProcessMitigations,
        ContentProcessMitigations_on_network_drive, baselineMitigations_subset_union]; done)

theorem baselineMitigations_subset_PluginProcessMitigations (h : Host) :
    baselineMitigations ⊆ PluginProcessMitigations h := by
  cases hn : h.sRunningFromNetworkDrive <;>
    simp +decide [PluginProcessMitigations, hn]

theorem PluginProcessMitigations_on_network_drive (h : Host)
    (hn : h.sRunningFromNetworkDrive = true) :
    MITIGATION_IMAGE_LOAD_NO_REMOTE ∉ PluginProcessMitigations h ∧
    MITIGATION_IMAGE_LOAD_NO_LOW_LABEL ∉ PluginProcessMitigations h := by
  simp +decide [PluginProcessMitigations, hn]

/-- Every call `SetSecurityLevelForGPUProcess` makes, however the run ends. -/
theorem gpu_every_call (h : Host) (aSandboxLevel : Int) (aProfileDir : Option (Option nsString))
    (p q : TargetPolicy)
    (hq : (SetSecurityLevelForGPUProcess h aSandboxLevel aProfileDir (some p)).2 = some q) :
    ∀ e ∈ p.callsSince q, mitigationCallOk h e := by
  unfold SetSecurityLevelForGPUProcess at hq
  refine Member.releaseAssertPolicy_calls _ _ (fun m => ?_) p q hq
  clear hq
  rcases aProfileDir with _ | _ | path
  all_goals
    simp only [addShaderCacheRules]
    simp only [SetJobLevel_eq, ite_AddCachedDirRule, AddWin32kLockdownPolicy,
      TargetPolicy.SetTokenLevel, TargetPolicy.SetIntegrityLevel,
      TargetPolicy.SetDelayedIntegrityLevel, TargetPolicy.SetLockdownDefaultDacl,
      TargetPolicy.AddRestrictingRandomSid, TargetPolicy.SetAlternateDesktop,
      TargetPolicy.SetDelayedProcessMitigations, TargetPolicy.AddRule]
    repeat' first
      | with_reducible refine Broker.calls_block_i ?_ (fun _ m => ?_)
      | with_reducible apply Broker.calls_bind_i
      | with_reducible apply Broker.calls_pure_i
      | with_reducible refine calls_ContentProcessLevels_i (fun levels => ?_)
      | with_reducible refine calls_GPUProcessLevels_i (fun levels => ?_)
      | with_reducible refine calls_invoke_i (fun r => ?_) (fun r => ?_)
      | with_reducible refine calls_invokeVoid_i ?_ ?_
      | with_reducible apply calls_GetProcessMitigations_i
      | with_reducible refine calls_SetProcessMitigations_i (fun r => ?_) (fun r => ?_)
      | with_reducible refine calls_AddCachedDirRule_i (fun baseDir r _ => ?_) ?_
      | (with_reducible refine calls_MOZ_RELEASE_ASSERT_ok_i (fun hr => ?_)) <;> subst hr
      | (with_reducible refine calls_MOZ_RELEASE_ASSERT_ok_i' (fun hr => ?_)) <;> subst hr
      | with_reducible refine calls_MOZ_RELEASE_ASSERT_i (fun _ => ?_)
      | with_reducible apply calls_MOZ_ASSERT_i
      | (with_reducible refine Broker.calls_ite_bne_i (fun _ => ?_) (fun hr => ?_)) <;> try subst hr
      | (with_reducible refine Broker.calls_ite_bne_i' (fun _ => ?_) (fun hr => ?_)) <;> try subst hr
      | with_reducible refine Broker.calls_ite_i (fun _ => ?_) (fun _ => ?_)
  all_goals first
    | exact True.intro
    | (simp +decide [mitigationCallOk, baselineMitigations]; done)

/-- Every call `SetSecurityLevelForPluginProcess` makes, however the run ends. -/
theorem plugin_every_call (h : Host) (aSandboxLevel : Int) (p q : TargetPolicy)
    (hq : (SetSecurityLevelForPluginProcess h aSandboxLevel (some p)).2 = some q) :
    ∀ e ∈ p.callsSince q, mitigationCallOk h e := by
  unfold SetSecurityLevelForPluginProcess at hq
  refine Member.falseWithoutPolicy_calls _ _ (fun m => ?_) p q hq
  clear hq
  simp only [SetJobLevel_eq, ite_AddCachedDirRule, AddWin32kLockdownPolicy,
    TargetPolicy.SetTokenLevel, TargetPolicy.SetIntegrityLevel,
    TargetPolicy.SetDelayedIntegrityLevel, TargetPolicy.SetLockdownDefaultDacl,
    TargetPolicy.AddRestrictingRandomSid, TargetPolicy.SetAlternateDesktop,
    TargetPolicy.SetDelayedProcessMitigations, TargetPolicy.AddRule]
  repeat' first
    | with_reducible refine Broker.calls_block_i ?_ (fun _ m => ?_)
    | with_reducible apply Broker.calls_bind_i
    | with_reducible apply Broker.calls_pure_i
    | with_reducible refine calls_ContentProcessLevels_i (fun levels => ?_)
    | with_reducible refine calls_GPUProcessLevels_i (fun levels => ?_)
    | with_reducible refine calls_invoke_i (fun r => ?_) (fun r => ?_)
    | with_reducible refine calls_invokeVoid_i ?_ ?_
    | with_reducible apply calls_GetProcessMitigations_i
    | with_reducible refine calls_SetProcessMitigations_i (fun r => ?_) (fun r => ?_)
    | with_reducible refine calls_AddCachedDirRule_i (fun baseDir r _ => ?_) ?_
    | (with_reducible refine calls_MOZ_RELEASE_ASSERT_ok_i (fun hr => ?_)) <;> subst hr
    | (with_reducible refine calls_MOZ_RELEASE_ASSERT_ok_i' (fun hr => ?_)) <;> subst hr
    | with_reducible refine calls_MOZ_RELEASE_ASSERT_i (fun _ => ?_)
    | with_reducible apply calls_MOZ_ASSERT_i
    | (with_reducible refine Broker.calls_ite_bne_i (fun _ => ?_) (fun hr => ?_)) <;> try subst hr
    | (with_reducible refine Broker.calls_ite_bne_i' (fun _ => ?_) (fun hr => ?_)) <;> try subst hr
    | with_reducible refine Broker.calls_ite_i (fun _ => ?_) (fun _ => ?_)
  all_goals first
    | exact True.intro
    | (simp +contextual [mitigationCallOk, baselineMitigations_subset_PluginProcessMitigations,
        PluginProcessMitigations_on_network_drive]; done)

/-- Every call `SetSecurityLevelForRDDProcess` makes, however the run ends. -/
theorem rdd_every_call (h : Host) (p q : TargetPolicy)
    (hq : (SetSecurityLevelForRDDProcess h (some p)).2 = some q) :
    ∀ e ∈ p.callsSince q, mitigationCallOk h e := by
  unfold SetSecurityLevelForRDDProcess at hq
  refine Member.falseWithoutPolicy_calls _ _ (fun m => ?_) p q hq
  clear hq
  simp only [SetJobLevel_eq, ite_AddCachedDirRule, AddWin32kLockdownPolicy,
    TargetPolicy.SetTokenLevel, TargetPolicy.SetIntegrityLevel,
    TargetPolicy.SetDelayedIntegrityLevel, TargetPolicy.SetLockdownDefaultDacl,
    TargetPolicy.AddRestrictingRandomSid, TargetPolicy.SetAlternateDesktop,
    TargetPolicy.SetDelayedProcessMitigations, TargetPolicy.AddRule]
  repeat' first
    | with_reducible refine Broker.calls_block_i ?_ (fun _ m => ?_)
    | with_reducible apply Broker.calls_bind_i
    | with_reducible apply Broker.calls_pure_i
    | with_reducible refine calls_ContentProcessLevels_i (fun levels => ?_)
    | with_reducible refine calls_GPUProcessLevels_i (fun levels => ?_)
    | with_reducible refine calls_invoke_i (fun r => ?_) (fun r => ?_)
    | with_reducible refine calls_invokeVoid_i ?_ ?_
    | with_reducible apply calls_GetProcessMitigations_i
    | with_reducible refine calls_SetProcessMitigations_i (fun r => ?_) (fun r => ?_)
    | with_reducible refine calls_AddCachedDirRule_i (fun baseDir r _ => ?_) ?_
    | (with_reducible refine calls_MOZ_RELEASE_ASSERT_ok_i (fun hr => ?_)) <;> subst hr
    | (with_reducible refine calls_MOZ_RELEASE_ASSERT_ok_i' (fun hr => ?_)) <;> subst hr
    | with_reducible refine calls_MOZ_RELEASE_ASSERT_i (fun _ => ?_)
    | with_reducible apply calls_MOZ_ASSERT_i
    | (with_reducible refine Broker.calls_ite_bne_i (fun _ => ?_) (fun hr => ?_)) <;> try subst hr
    | (with_reducible refine Broker.calls_ite_bne_i' (fun _ => ?_) (fun hr => ?_)) <;> try subst hr
    | with_reducible refine Broker.calls_ite_i (fun _ => ?_) (fun _ => ?_)
  all_goals first
    | exact True.intro
    | (simp +decide [mitigationCallOk, baselineMitigations]; done)

/-- Every call `SetSecurityLevelForSocketProcess` makes, however the run ends. -/
theorem socket_every_call (h : Host) (p q : TargetPolicy)
    (hq : (SetSecurityLevelForSocketProcess h (some p)).2 = some q) :
    ∀ e ∈ p.callsSince q, mitigationCallOk h e := by
  unfold SetSecurityLevelForSocketProcess at hq
  refine Member.falseWithoutPolicy_calls _ _ (fun m => ?_) p q hq
  clear hq
  simp only [SetJobLevel_eq, ite_AddCachedDirRule, AddWin32kLockdownPolicy,
    TargetPolicy.SetTokenLevel, TargetPolicy.SetIntegrityLevel,
    TargetPolicy.SetDelayedIntegrityLevel, TargetPolicy.SetLockdownDefaultDacl,
    TargetPolicy.AddRestrictingRandomSid, TargetPolicy.SetAlternateDesktop,
    TargetPolicy.SetDelayedProcessMitigations, TargetPolicy.AddRule]
  repeat' first
    | with_reducible refine Broker.calls_block_i ?_ (fun _ m => ?_)
    | with_reducible apply Broker.calls_bind_i
    | with_reducible apply Broker.calls_pure_i
    | with_reducible refine calls_ContentProcessLevels_i (fun levels => ?_)
    | with_reducible refine calls_GPUProcessLevels_i (fun levels => ?_)
    | with_reducible refine calls_invoke_i (fun r => ?_) (fun r => ?_)
    | with_reducible refine calls_invokeVoid_i ?_ ?_
    | with_reducible apply calls_GetProcessMitigations_i
    | with_reducible refine calls_SetProcessMitigations_i (fun r => ?_) (fun r => ?_)
    | with_reducible refine calls_AddCachedDirRule_i (fun baseDir r _ => ?_) ?_
    | (with_reducible refine calls_MOZ_RELEASE_ASSERT_ok_i (fun hr => ?_)) <;> subst hr
    | (with_reducible refine calls_MOZ_RELEASE_ASSERT_ok_i' (fun hr => ?_)) <;> subst hr
    | with_reducible refine calls_MOZ_RELEASE_ASSERT_i (fun _ => ?_)
    | with_reducible apply calls_MOZ_ASSERT_i
    | (with_reducible refine Broker.calls_ite_bne_i (fun _ => ?_) (fun hr => ?_)) <;> try subst hr
    | (with_reducible refine Broker.calls_ite_bne_i' (fun _ => ?_) (fun hr => ?_)) <;> try subst hr
    | with_reducible refine Broker.calls_ite_i (fun _ => ?_) (fun _ => ?_)
  all_goals first
    | exact True.intro
    | (simp +decide [mitigationCallOk, baselineMitigations]; done)

/-- Every call `SetSecurityLevelForGMPlugin` makes, however the run ends. -/
theorem gmp_every_call (h : Host) (aLevel : SandboxLevel) (aIsRemoteLaunch : Bool)
    (p q : TargetPolicy)
    (hq : (SetSecurityLevelForGMPlugin h aLevel aIsRemoteLaunch (some p)).2 = some q) :
    ∀ e ∈ p.callsSince q, mitigationCallOk h e := by
  unfold SetSecurityLevelForGMPlugin at hq
  refine Member.falseWithoutPolicy_calls _ _ (fun m => ?_) p q hq
  clear hq
  simp only [SetJobLevel_eq, ite_AddCachedDirRule, AddWin32kLockdownPolicy,
    TargetPolicy.SetTokenLevel, TargetPolicy.SetIntegrityLevel,
    TargetPolicy.SetDelayedIntegrityLevel, TargetPolicy.SetLockdownDefaultDacl,
    TargetPolicy.AddRestrictingRandomSid, TargetPolicy.SetAlternateDesktop,
    TargetPolicy.SetDelayedProcessMitigations, TargetPolicy.AddRule]
  repeat' first
    | with_reducible refine Broker.calls_block_i ?_ (fun _ m => ?_)
    | with_reducible apply Broker.calls_bind_i
    | with_reducible apply Broker.calls_pure_i
    | with_reducible refine calls_ContentProcessLevels_i (fun levels => ?_)
    | with_reducible refine calls_GPUProcessLevels_i (fun levels => ?_)
    | with_reducible refine calls_invoke_i (fun r => ?_) (fun r => ?_)
    | with_reducible refine calls_invokeVoid_i ?_ ?_
    | with_reducible apply calls_GetProcessMitigations_i
    | with_reducible refine calls_SetProcessMitigations_i (fun r => ?_) (fun r => ?_)
    | with_reducible refine calls_AddCachedDirRule_i (fun baseDir r _ => ?_) ?_
    | (with_reducible refine calls_MOZ_RELEASE_ASSERT_ok_i (fun hr => ?_)) <;> subst hr
    | (with_reducible refine calls_MOZ_RELEASE_ASSERT_ok_i' (fun hr => ?_)) <;> subst hr
    | with_reducible refine calls_MOZ_RELEASE_ASSERT_i (fun _ => ?_)
    | with_reducible apply calls_MOZ_ASSERT_i
    | (with_reducible refine Broker.calls_ite_bne_i (fun _ => ?_) (fun hr => ?_)) <;> try subst hr
    | (with_reducible refine Broker.calls_ite_bne_i' (fun _ => ?_) (fun hr => ?_)) <;> try subst hr
    | with_reducible refine Broker.calls_ite_i (fun _ => ?_) (fun _ => ?_)
  all_goals first
    | exact True.intro
    | (simp +decide [mitigationCallOk, baselineMitigations]; done)

/-! ## Levels below 1, file content processes, mitigation words, job level -/

/-- Below level 1 the content procedure stops at its first assertion, whatever
the host and the policy object. -/
theorem content_below_level1_crashes (h : Host) (aSandboxLevel : Int) (aIsFileProcess : Bool)
    (mPolicy : Option TargetPolicy) (hlevel : aSandboxLevel < 1) :
    (SetSecurityLevelForContentProcess h aSandboxLevel aIsFileProcess mPolicy).1
      = Outcome.crashed := by
  have hd : decide (aSandboxLevel ≥ 1) = false := by simp; omega
  cases mPolicy with
  | none => rfl
  | some p =>
    simp only [SetSecurityLevelForContentProcess, Member.releaseAssertPolicy, hd,
      Broker.bind_apply, Broker.bind, MOZ_RELEASE_ASSERT]
    rfl

/-- Below level 1 the GPU procedure stops at the assertion of its level chain,
whatever the host and the policy object. -/
theorem gpu_below_level1_crashes (h : Host) (aSandboxLevel : Int)
    (aProfileDir : Option (Option nsString)) (mPolicy : Option TargetPolicy)
    (hlevel : aSandboxLevel < 1) :
    (SetSecurityLevelForGPUProcess h aSandboxLevel aProfileDir mPolicy).1 = Outcome.crashed := by
  have hd : decide (aSandboxLevel ≥ 1) = false := by simp; omega
  have h2 : ¬ aSandboxLevel ≥ 2 := by omega
  cases mPolicy with
  | none => rfl
  | some p =>
    simp only [SetSecurityLevelForGPUProcess, Member.releaseAssertPolicy, GPUProcessLevels, hd,
      if_neg h2, Broker.bind_apply, Broker.bind, MOZ_RELEASE_ASSERT]
    rfl

/-- Below level 1 the plugin procedure is the same as at level 1. -/
theorem plugin_below_level1_is_level1 (h : Host) (aSandboxLevel : Int)
    (hlevel : aSandboxLevel < 1) :
    SetSecurityLevelForPluginProcess h aSandboxLevel = SetSecurityLevelForPluginProcess h 1 := by
  have h1 : PluginProcessLevels aSandboxLevel = PluginProcessLevels 1 := by
    have ha : ¬ aSandboxLevel > 2 := by omega
    have hb : ¬ aSandboxLevel = 2 := by omega
    simp [PluginProcessLevels, ha, hb]
  have h2 : ¬ aSandboxLevel ≥ 2 := by omega
  have h3 : ¬ (1 : Int) ≥ 2 := by decide
  unfold SetSecurityLevelForPluginProcess
  rw [h1]
  simp only [if_neg h2, if_neg h3]

/-- C12, failing input.  `SetSecurityLevelForPluginProcess(0)` on the sample
host with the accepting policy, in a release and in a debug build, returns
true after the same calls as at level 1 (`JOB_NONE`, `USER_NON_ADMIN`,
`INTEGRITY_LEVEL_MEDIUM`): no assertion stops it.  The content and GPU
procedures at level 0 do stop at their assertion. -/
theorem plugin_level0_returns_true :
    (SetSecurityLevelForPluginProcess releaseHost 0 (some acceptingPolicy)).1
      = Outcome.returned true ∧
    (SetSecurityLevelForPluginProcess debugHost 0 (some acceptingPolicy)).1
      = Outcome.returned true ∧
    ⟨PolicyCall.SetJobLevel JOB_NONE 0, SBOX_ALL_OK⟩ ∈
      loggedCalls (SetSecurityLevelForPluginProcess releaseHost 0 (some acceptingPolicy)) ∧
    ⟨PolicyCall.SetTokenLevel USER_RESTRICTED_SAME_ACCESS USER_NON_ADMIN, SBOX_ALL_OK⟩ ∈
      loggedCalls (SetSecurityLevelForPluginProcess releaseHost 0 (some acceptingPolicy)) ∧
    (SetSecurityLevelForContentProcess releaseHost 0 false (some acceptingPolicy)).1
      = Outcome.crashed ∧
    (SetSecurityLevelForGPUProcess releaseHost 0 none (some acceptingPolicy)).1
      = Outcome.crashed := by
  decide

/-- C13: for a file content process (`aIsFileProcess = true`) at every level
(from 1 up, and below 1 as well, where the run stops before any call),
whatever the host and whatever the policy object answers, and however the run
ends: every `SetTokenLevel` call made has a delayed level of at least
`USER_NON_ADMIN`, and every `SetDelayedIntegrityLevel` call made has a level of
at most `INTEGRITY_LEVEL_LOW`. -/
theorem content_file_process_levels_clamped (h : Host) (aSandboxLevel : Int)
    (p q : TargetPolicy)
    (hq : (SetSecurityLevelForContentProcess h aSandboxLevel true (some p)).2 = some q) :
    (∀ initial lockdown r,
      ⟨PolicyCall.SetTokenLevel initial lockdown, r⟩ ∈ p.callsSince q →
        USER_NON_ADMIN ≤ lockdown) ∧
    (∀ level r,
      ⟨PolicyCall.SetDelayedIntegrityLevel level, r⟩ ∈ p.callsSince q →
        level ≤ INTEGRITY_LEVEL_LOW) := by
  have hall := content_every_call h aSandboxLevel true p q hq
  exact ⟨fun initial lockdown r he => by simpa [fileProcessCallOk] using (hall _ he).2 rfl,
    fun level r he => by simpa [fileProcessCallOk] using (hall _ he).2 rfl⟩

/-- On the sample host with the accepting policy a file content process at
level 20 gets `SetTokenLevel(USER_UNPROTECTED, USER_NON_ADMIN)` and
`SetDelayedIntegrityLevel(INTEGRITY_LEVEL_LOW)`, within the two bounds. -/
theorem content_file_process_levels_clamped_witness :
    ∃ q, (SetSecurityLevelForContentProcess releaseHost 20 true (some acceptingPolicy)).2
        = some q ∧
      ⟨PolicyCall.SetTokenLevel USER_UNPROTECTED USER_NON_ADMIN, SBOX_ALL_OK⟩ ∈
        acceptingPolicy.callsSince q ∧
      ⟨PolicyCall.SetDelayedIntegrityLevel INTEGRITY_LEVEL_LOW, SBOX_ALL_OK⟩ ∈
        acceptingPolicy.callsSince q ∧
      (∀ initial lockdown r,
        ⟨PolicyCall.SetTokenLevel initial lockdown, r⟩ ∈ acceptingPolicy.callsSince q →
          USER_NON_ADMIN ≤ lockdown) ∧
      (∀ level r,
        ⟨PolicyCall.SetDelayedIntegrityLevel level, r⟩ ∈ acceptingPolicy.callsSince q →
          level ≤ INTEGRITY_LEVEL_LOW) :=
  ⟨_, rfl, by decide, by decide,
    content_file_process_levels_clamped releaseHost 20 acceptingPolicy _ rfl⟩

theorem mitigationCallOk_SetProcessMitigations (h : Host) (flags : MitigationFlags)
    (r : ResultCode) :
    mitigationCallOk h ⟨PolicyCall.SetProcessMitigations flags, r⟩ ↔
      baselineMitigations ⊆ flags ∧
      (h.sRunningFromNetworkDrive = true →
        MITIGATION_IMAGE_LOAD_NO_REMOTE ∉ flags ∧ MITIGATION_IMAGE_LOAD_NO_LOW_LABEL ∉ flags) :=
  Iff.rfl

/-- C14: when the broker runs from a network drive, for each of the six kinds
of process, every level and every other input, whatever the policy object
answers and however the run ends: no word passed to `SetProcessMitigations`
holds `MITIGATION_IMAGE_LOAD_NO_REMOTE` or `MITIGATION_IMAGE_LOAD_NO_LOW_LABEL`. -/
theorem network_drive_mitigation_words (h : Host) (p q : TargetPolicy)
    (flags : MitigationFlags) (r : ResultCode)
    (hnet : h.sRunningFromNetworkDrive = true)
    (hcall : ⟨PolicyCall.SetProcessMitigations flags, r⟩ ∈ p.callsSince q)
    (hrun : (∃ aSandboxLevel aIsFileProcess,
        (SetSecurityLevelForContentProcess h aSandboxLevel aIsFileProcess (some p)).2 = some q) ∨
      (∃ aSandboxLevel aProfileDir,
        (SetSecurityLevelForGPUProcess h aSandboxLevel aProfileDir (some p)).2 = some q) ∨
      (∃ aSandboxLevel, (SetSecurityLevelForPluginProcess h aSandboxLevel (some p)).2 = some q) ∨
      (SetSecurityLevelForRDDProcess h (some p)).2 = some q ∨
      (SetSecurityLevelForSocketProcess h (some p)).2 = some q ∨
      (∃ aLevel aIsRemoteLaunch,
        (SetSecurityLevelForGMPlugin h aLevel aIsRemoteLaunch (some p)).2 = some q)) :
    MITIGATION_IMAGE_LOAD_NO_REMOTE ∉ flags ∧ MITIGATION_IMAGE_LOAD_NO_LOW_LABEL ∉ flags := by
  have hok : mitigationCallOk h ⟨PolicyCall.SetProcessMitigations flags, r⟩ := by
    rcases hrun with ⟨t, f, hq⟩ | ⟨t, d, hq⟩ | ⟨t, hq⟩ | hq | hq | ⟨l, rl, hq⟩
    · exact (content_every_call h t f p q hq _ hcall).1
    · exact gpu_every_call h t d p q hq _ hcall
    · exact plugin_every_call h t p q hq _ hcall
    · exact rdd_every_call h p q hq _ hcall
    · exact socket_every_call h p q hq _ hcall
    · exact gmp_every_call h l rl p q hq _ hcall
  exact ((mitigationCallOk_SetProcessMitigations h flags r).1 hok).2 hnet

/-- On the sample host run from a network drive a content process at level 20
gets a mitigation word without the two image-load flags. -/
theorem network_drive_mitigation_words_witness :
    ∃ q flags,
      (SetSecurityLevelForContentProcess networkDriveHost 20 false (some acceptingPolicy)).2
        = some q ∧
      ⟨PolicyCall.SetProcessMitigations flags, SBOX_ALL_OK⟩ ∈ acceptingPolicy.callsSince q ∧
      MITIGATION_IMAGE_LOAD_NO_REMOTE ∉ flags ∧ MITIGATION_IMAGE_LOAD_NO_LOW_LABEL ∉ flags :=
  ⟨_, ContentProcessMitigations networkDriveHost 20, rfl, by decide,
    network_drive_mitigation_words networkDriveHost acceptingPolicy _
      (ContentProcessMitigations networkDriveHost 20) SBOX_ALL_OK rfl (by decide)
      (Or.inl ⟨20, false, rfl⟩)⟩

/-- C15: for each of the six kinds of process, every level and every other
input, whatever the host and whatever the policy object answers, and however
the run ends: every word passed to `SetProcessMitigations` holds the five
baseline flags `MITIGATION_BOTTOM_UP_ASLR`, `MITIGATION_HEAP_TERMINATE`,
`MITIGATION_SEHOP`, `MITIGATION_DEP_NO_ATL_THUNK` and `MITIGATION_DEP`. -/
theorem mitigation_words_hold_baseline (h : Host) (p q : TargetPolicy)
    (flags : MitigationFlags) (r : ResultCode)
    (hcall : ⟨PolicyCall.SetProcessMitigations flags, r⟩ ∈ p.callsSince q)
    (hrun : (∃ aSandboxLevel aIsFileProcess,
        (SetSecurityLevelForContentProcess h aSandboxLevel aIsFileProcess (some p)).2 = some q) ∨
      (∃ aSandboxLevel aProfileDir,
        (SetSecurityLevelForGPUProcess h aSandboxLevel aProfileDir (some p)).2 = some q) ∨
      (∃ aSandboxLevel, (SetSecurityLevelForPluginProcess h aSandboxLevel (some p)).2 = some q) ∨
      (SetSecurityLevelForRDDProcess h (some p)).2 = some q ∨
      (SetSecurityLevelForSocketProcess h (some p)).2 = some q ∨
      (∃ aLevel aIsRemoteLaunch,
        (SetSecurityLevelForGMPlugin h aLevel aIsRemoteLaunch (some p)).2 = some q)) :
    MITIGATION_BOTTOM_UP_ASLR ∈ flags ∧ MITIGATION_HEAP_TERMINATE ∈ flags ∧
    MITIGATION_SEHOP ∈ flags ∧ MITIGATION_DEP_NO_ATL_THUNK ∈ flags ∧
    MITIGATION_DEP ∈ flags := by
  have hok : mitigationCallOk h ⟨PolicyCall.SetProcessMitigations flags, r⟩ := by
    rcases hrun with ⟨t, f, hq⟩ | ⟨t, d, hq⟩ | ⟨t, hq⟩ | hq | hq | ⟨l, rl, hq⟩
    · exact (content_every_call h t f p q hq _ hcall).1
    · exact gpu_every_call h t d p q hq _ hcall
    · exact plugin_every_call h t p q hq _ hcall
    · exact rdd_every_call h p q hq _ hcall
    · exact socket_every_call h p q hq _ hcall
    · exact gmp_every_call h l rl p q hq _ hcall
  have hsub := ((mitigationCallOk_SetProcessMitigations h flags r).1 hok).1
  exact ⟨hsub (by decide), hsub (by decide), hsub (by decide), hsub (by decide),
    hsub (by decide)⟩

/-- On the sample host with the accepting policy the GPU procedure at level 1
passes exactly the five baseline flags. -/
theorem mitigation_words_hold_baseline_witness :
    ∃ q,
      (SetSecurityLevelForGPUProcess releaseHost 1 none (some acceptingPolicy)).2 = some q ∧
      ⟨PolicyCall.SetProcessMitigations baselineMitigations, SBOX_ALL_OK⟩ ∈
        acceptingPolicy.callsSince q ∧
      MITIGATION_BOTTOM_UP_ASLR ∈ baselineMitigations ∧
      MITIGATION_HEAP_TERMINATE ∈ baselineMitigations ∧
      MITIGATION_SEHOP ∈ baselineMitigations ∧
      MITIGATION_DEP_NO_ATL_THUNK ∈ baselineMitigations ∧
      MITIGATION_DEP ∈ baselineMitigations :=
  ⟨_, rfl, by decide,
    mitigation_words_hold_baseline releaseHost acceptingPolicy _ baselineMitigations SBOX_ALL_OK
      (by decide) (Or.inr (Or.inl ⟨1, none, rfl⟩))⟩

/-- C16: `SetJobLevel(aPolicy, j, u)` makes exactly one call on the policy
object: `SetJobLevel(JOB_NONE, 0)` when the host cannot use a job object, and
`SetJobLevel(j, u)` when it can; it returns, and the value it returns is the
result code the policy object answered to that call. -/
theorem SetJobLevel_uses_job_only_when_possible (h : Host) (aJobLevel : JobLevel)
    (aUiExceptions : Nat) (p : TargetPolicy) :
    (h.sCanUseJob = false →
      ∃ r, (SetJobLevel h aJobLevel aUiExceptions p).1 = Outcome.returned r ∧
        r = p.respond p.log.length (PolicyCall.SetJobLevel JOB_NONE 0) ∧
        p.callsSince (SetJobLevel h aJobLevel aUiExceptions p).2
          = [⟨PolicyCall.SetJobLevel JOB_NONE 0, r⟩]) ∧
    (h.sCanUseJob = true →
      ∃ r, (SetJobLevel h aJobLevel aUiExceptions p).1 = Outcome.returned r ∧
        r = p.respond p.log.length (PolicyCall.SetJobLevel aJobLevel aUiExceptions) ∧
        p.callsSince (SetJobLevel h aJobLevel aUiExceptions p).2
          = [⟨PolicyCall.SetJobLevel aJobLevel aUiExceptions, r⟩]) := by
  constructor <;> intro hjob <;>
    exact ⟨_, by simp [SetJobLevel, hjob, TargetPolicy.invoke], rfl,
      by simp [SetJobLevel, hjob, TargetPolicy.invoke, TargetPolicy.callsSince]⟩

/-! ## The win32k lockdown helper, step by step -/

/-- C27: `AddWin32kLockdownPolicy` on Windows 8 or later, on a policy object
whose mitigation word does not hold `MITIGATION_WIN32K_DISABLE`, returns, and:
its first call is `SetProcessMitigations` with the flag added; if that call is
rejected nothing else is called and its result is returned; otherwise the
`SUBSYS_WIN32K_LOCKDOWN` rule follows, `IMPLEMENT_OPM_APIS` when `aEnableOpm`
holds and `FAKE_USER_GDI_INIT` otherwise; if the rule is rejected nothing else
is called and its result is returned; otherwise `SetEnableOPMRedirection`
follows exactly when `aEnableOpm` holds, and `SBOX_ALL_OK` is returned. -/
theorem AddWin32kLockdownPolicy_steps_in_order (h : Host) (aEnableOpm : Bool)
    (p : TargetPolicy) (hwin : h.IsWin8OrLater = true)
    (hflag : MITIGATION_WIN32K_DISABLE ∉ p.mitigations) :
    ∃ r1 r2 : ResultCode,
      r1 = p.respond p.log.length
        (PolicyCall.SetProcessMitigations (p.mitigations ∪ {MITIGATION_WIN32K_DISABLE})) ∧
      r2 = p.respond (p.log.length + 1)
        (PolicyCall.AddRule SUBSYS_WIN32K_LOCKDOWN
          (if aEnableOpm then IMPLEMENT_OPM_APIS else FAKE_USER_GDI_INIT) none) ∧
      (r1 ≠ SBOX_ALL_OK →
        (AddWin32kLockdownPolicy h aEnableOpm p).1 = Outcome.returned r1 ∧
        p.callsSince (AddWin32kLockdownPolicy h aEnableOpm p).2 =
          [⟨PolicyCall.SetProcessMitigations (p.mitigations ∪ {MITIGATION_WIN32K_DISABLE}),
            r1⟩]) ∧
      (r1 = SBOX_ALL_OK → r2 ≠ SBOX_ALL_OK →
        (AddWin32kLockdownPolicy h aEnableOpm p).1 = Outcome.returned r2 ∧
        p.callsSince (AddWin32kLockdownPolicy h aEnableOpm p).2 =
          [⟨PolicyCall.SetProcessMitigations (p.mitigations ∪ {MITIGATION_WIN32K_DISABLE}),
            SBOX_ALL_OK⟩,
           ⟨PolicyCall.AddRule SUBSYS_WIN32K_LOCKDOWN
            (if aEnableOpm then IMPLEMENT_OPM_APIS else FAKE_USER_GDI_INIT) none, r2⟩]) ∧
      (r1 = SBOX_ALL_OK → r2 = SBOX_ALL_OK →
        (AddWin32kLockdownPolicy h aEnableOpm p).1 = Outcome.returned SBOX_ALL_OK ∧
        p.callsSince (AddWin32kLockdownPolicy h aEnableOpm p).2 =
          [⟨PolicyCall.SetProcessMitigations (p.mitigations ∪ {MITIGATION_WIN32K_DISABLE}),
            SBOX_ALL_OK⟩,
           ⟨PolicyCall.AddRule SUBSYS_WIN32K_LOCKDOWN
            (if aEnableOpm then IMPLEMENT_OPM_APIS else FAKE_USER_GDI_INIT) none,
            SBOX_ALL_OK⟩]
          ++ (if aEnableOpm then [⟨PolicyCall.SetEnableOPMRedirection, SBOX_ALL_OK⟩] else [])) := by
  refine ⟨_, _, rfl, rfl, ?_, ?_, ?_⟩
  · intro h1
    simp [AddWin32kLockdownPolicy, hwin, hflag, h1, bind, Broker.bind, pure, MOZ_ASSERT,
      TargetPolicy.GetProcessMitigations, TargetPolicy.SetProcessMitigations,
      TargetPolicy.callsSince]
  · intro h1 h2
    simp [AddWin32kLockdownPolicy, hwin, hflag, h1, h2, bind, Broker.bind, pure, MOZ_ASSERT,
      TargetPolicy.GetProcessMitigations, TargetPolicy.SetProcessMitigations,
      TargetPolicy.invoke, TargetPolicy.callsSince]
  · intro h1 h2
    cases aEnableOpm <;>
    simp_all [AddWin32kLockdownPolicy, bind, Broker.bind, pure, MOZ_ASSERT,
      TargetPolicy.GetProcessMitigations, TargetPolicy.SetProcessMitigations,
      TargetPolicy.invoke, TargetPolicy.invokeVoid, TargetPolicy.callsSince]

/-- On the sample debug host with the accepting policy and `aEnableOpm` set
the three calls are made in order. -/
theorem AddWin32kLockdownPolicy_steps_in_order_witness :
    (AddWin32kLockdownPolicy debugHost true acceptingPolicy).1 = Outcome.returned SBOX_ALL_OK ∧
    acceptingPolicy.callsSince (AddWin32kLockdownPolicy debugHost true acceptingPolicy).2 =
      [⟨PolicyCall.SetProcessMitigations {MITIGATION_WIN32K_DISABLE}, SBOX_ALL_OK⟩,
       ⟨PolicyCall.AddRule SUBSYS_WIN32K_LOCKDOWN IMPLEMENT_OPM_APIS none, SBOX_ALL_OK⟩,
       ⟨PolicyCall.SetEnableOPMRedirection, SBOX_ALL_OK⟩] := by
  obtain ⟨r1, r2, h1, h2, -, -, h3⟩ :=
    AddWin32kLockdownPolicy_steps_in_order debugHost true acceptingPolicy rfl (by decide)
  exact h3 h1 h2

/-! ## Rejected steps -/

/-- C22 as stated fails in a release build: on the sample release host, with a
policy object that rejects `SetTokenLevel` and accepts everything else,
`SetSecurityLevelForRDDProcess` returns false to its caller after the rejected
call, and so do the socket, plugin and GMP procedures. -/
theorem release_build_returns_false_on_rejected_token_level :
    (SetSecurityLevelForRDDProcess releaseHost
      (some (rejectingPolicy PolicyCall.isSetTokenLevel))).1 = Outcome.returned false ∧
    loggedCalls (SetSecurityLevelForRDDProcess releaseHost
      (some (rejectingPolicy PolicyCall.isSetTokenLevel))) =
      [⟨PolicyCall.SetJobLevel JOB_LOCKDOWN 0, SBOX_ALL_OK⟩,
       ⟨PolicyCall.SetTokenLevel USER_RESTRICTED_SAME_ACCESS USER_LOCKDOWN, 1⟩] ∧
    (SetSecurityLevelForSocketProcess releaseHost
      (some (rejectingPolicy PolicyCall.isSetTokenLevel))).1 = Outcome.returned false ∧
    (SetSecurityLevelForPluginProcess releaseHost 2
      (some (rejectingPolicy PolicyCall.isSetTokenLevel))).1 = Outcome.returned false ∧
    (SetSecurityLevelForGMPlugin releaseHost SandboxLevel.LockDown false
      (some (rejectingPolicy PolicyCall.isSetTokenLevel))).1 = Outcome.returned false := by
  decide

/-- C23, failing input.  On the sample release host, with a policy object that
rejects `SetIntegrityLevel` and accepts everything else,
`SetSecurityLevelForGMPlugin` goes on after the rejected call and returns
true; the RDD procedure with the same policy object returns false. -/
theorem gmp_release_build_ignores_rejected_integrity_level :
    (SetSecurityLevelForGMPlugin releaseHost SandboxLevel.LockDown false
      (some (rejectingPolicy PolicyCall.isSetIntegrityLevel))).1 = Outcome.returned true ∧
    ⟨PolicyCall.SetIntegrityLevel INTEGRITY_LEVEL_LOW, 1⟩ ∈
      loggedCalls (SetSecurityLevelForGMPlugin releaseHost SandboxLevel.LockDown false
        (some (rejectingPolicy PolicyCall.isSetIntegrityLevel))) ∧
    ⟨PolicyCall.AddRule SUBSYS_HANDLES HANDLES_DUP_BROKER (some "Section".toList),
      SBOX_ALL_OK⟩ ∈
      loggedCalls (SetSecurityLevelForGMPlugin releaseHost SandboxLevel.LockDown false
        (some (rejectingPolicy PolicyCall.isSetIntegrityLevel))) ∧
    (SetSecurityLevelForRDDProcess releaseHost
      (some (rejectingPolicy PolicyCall.isSetIntegrityLevel))).1 = Outcome.returned false := by
  decide

/-- C24 as stated fails: on the sample release host with the accepting policy
`SetSecurityLevelForRDDProcess` returns true and the rules it added are the
two pipe rules and the two `Section` handle rules; none is a
`SUBSYS_REGISTRY` rule. -/
theorem rdd_adds_no_registry_rule :
    (SetSecurityLevelForRDDProcess releaseHost (some acceptingPolicy)).1
      = Outcome.returned true ∧
    (loggedCalls (SetSecurityLevelForRDDProcess releaseHost (some acceptingPolicy))).filterMap
        (fun e => match e.call with
          | PolicyCall.AddRule s a pat => some (s, a, pat)
          | _ => none) =
      [(SUBSYS_FILES, FILES_ALLOW_ANY, some "\\??\\pipe\\chrome.*".toList),
       (SUBSYS_FILES, FILES_ALLOW_ANY, some "\\??\\pipe\\gecko-crash-server-pipe.*".toList),
       (SUBSYS_HANDLES, HANDLES_DUP_ANY, some "Section".toList),
       (SUBSYS_HANDLES, HANDLES_DUP_BROKER, some "Section".toList)] := by
  decide

/-! ## The rules and levels every run asks for -/

theorem calls_ContentProcessLevels_val_i {P : LoggedCall → Prop}
    {Q : Levels → MitigationFlags → Prop} {h : Host} {aSandboxLevel : Int} {m : MitigationFlags}
    (hq : Q (contentLevelsOf aSandboxLevel) m) :
    Broker.calls P Q (ContentProcessLevels h aSandboxLevel) m := by
  unfold ContentProcessLevels
  unfold contentLevelsOf at hq
  split_ifs at hq ⊢
  · exact Broker.calls_pure_i hq
  · exact Broker.calls_pure_i hq
  · exact Broker.calls_pure_i hq
  · exact Broker.calls_pure_i hq
  · exact Broker.calls_bind_i (calls_MOZ_ASSERT_i (Broker.calls_pure_i hq))

theorem calls_GPUProcessLevels_val_i {P : LoggedCall → Prop}
    {Q : Levels → MitigationFlags → Prop} {aSandboxLevel : Int} {m : MitigationFlags}
    (hq : Q (gpuLevelsOf aSandboxLevel) m) :
    Broker.calls P Q (GPUProcessLevels aSandboxLevel) m := by
  unfold GPUProcessLevels
  unfold gpuLevelsOf at hq
  split_ifs at hq ⊢
  · exact Broker.calls_pure_i hq
  · exact Broker.calls_bind_i (calls_MOZ_RELEASE_ASSERT_i (fun _ => Broker.calls_pure_i hq))

/-- Every call `SetSecurityLevelForContentProcess` makes, however the run
ends, passes the derived levels and asks for a rule of its list. -/
theorem content_every_call_derived (h : Host) (aSandboxLevel : Int) (aIsFileProcess : Bool)
    (p q : TargetPolicy)
    (hq : (SetSecurityLevelForContentProcess h aSandboxLevel aIsFileProcess (some p)).2 = some q) :
    ∀ e ∈ p.callsSince q,
      levelCallFrom (contentDerived h aSandboxLevel aIsFileProcess) e ∧
      ruleCallIn (contentRuleList h aSandboxLevel aIsFileProcess) e := by
  unfold SetSecurityLevelForContentProcess at hq
  refine Member.releaseAssertPolicy_calls _ _ (fun m => ?_) p q hq
  clear hq
  simp only [SetJobLevel_eq, ite_AddCachedDirRule, AddWin32kLockdownPolicy,
    TargetPolicy.SetTokenLevel, TargetPolicy.SetIntegrityLevel,
    TargetPolicy.SetDelayedIntegrityLevel, TargetPolicy.SetLockdownDefaultDacl,
    TargetPolicy.AddRestrictingRandomSid, TargetPolicy.SetAlternateDesktop,
    TargetPolicy.SetDelayedProcessMitigations, TargetPolicy.AddRule]
  repeat' first
    | with_reducible refine Broker.calls_block_i ?_ (fun _ m => ?_)
    | with_reducible apply Broker.calls_bind_i
    | with_reducible apply Broker.calls_pure_i
    | with_reducible apply calls_ContentProcessLevels_val_i
    | with_reducible apply calls_GPUProcessLevels_val_i
    | with_reducible refine calls_invoke_i (fun r => ?_) (fun r => ?_)
    | with_reducible refine calls_invokeVoid_i ?_ ?_
    | with_reducible apply calls_GetProcessMitigations_i
    | with_reducible refine calls_SetProcessMitigations_i (fun r => ?_) (fun r => ?_)
    | with_reducible refine calls_AddCachedDirRule_i (fun baseDir r hbase => ?_) ?_
    | (with_reducible refine calls_MOZ_RELEASE_ASSERT_ok_i (fun hr => ?_)) <;> subst hr
    | (with_reducible refine calls_MOZ_RELEASE_ASSERT_ok_i' (fun hr => ?_)) <;> subst hr
    | with_reducible refine calls_MOZ_RELEASE_ASSERT_i (fun _ => ?_)
    | with_reducible apply calls_MOZ_ASSERT_i
    | (with_reducible refine Broker.calls_ite_bne_i (fun _ => ?_) (fun hr => ?_)) <;> try subst hr
    | (with_reducible refine Broker.calls_ite_bne_i' (fun _ => ?_) (fun hr => ?_)) <;> try subst hr
    | with_reducible refine Broker.calls_ite_i (fun hc => ?_) (fun hc => ?_)
  all_goals first
    | exact True.intro
    | (constructor <;> exact True.intro)
    | (simp [levelCallFrom, ruleCallIn, contentDerived, contentRuleList, win32kRule,
        cachedDirRule, chromePipeRule, crashPipeRule, *]; done)
    | (simp_all [levelCallFrom, ruleCallIn, contentDerived, contentRuleList, win32kRule,
        cachedDirRule, chromePipeRule, crashPipeRule]; done)

/-- Every call `SetSecurityLevelForGPUProcess` makes, however the run ends,
passes the derived levels and asks for a rule of its list. -/
theorem gpu_every_call_derived (h : Host) (aSandboxLevel : Int)
    (aProfileDir : Option (Option nsString)) (p q : TargetPolicy)
    (hq : (SetSecurityLevelForGPUProcess h aSandboxLevel aProfileDir (some p)).2 = some q) :
    ∀ e ∈ p.callsSince q,
      levelCallFrom (gpuDerived h aSandboxLevel) e ∧ ruleCallIn (gpuRuleList aProfileDir) e := by
  unfold SetSecurityLevelForGPUProcess at hq
  refine Member.releaseAssertPolicy_calls _ _ (fun m => ?_) p q hq
  clear hq
  rcases aProfileDir with _ | _ | path
  all_goals
    simp only [addShaderCacheRules]
    simp only [SetJobLevel_eq, ite_AddCachedDirRule, AddWin32kLockdownPolicy,
      TargetPolicy.SetTokenLevel, TargetPolicy.SetIntegrityLevel,
      TargetPolicy.SetDelayedIntegrityLevel, TargetPolicy.SetLockdownDefaultDacl,
      TargetPolicy.AddRestrictingRandomSid, TargetPolicy.SetAlternateDesktop,
      TargetPolicy.SetDelayedProcessMitigations, TargetPolicy.AddRule]
    repeat' first
      | with_reducible refine Broker.calls_block_i ?_ (fun _ m => ?_)
      | with_reducible apply Broker.calls_bind_i
      | with_reducible apply Broker.calls_pure_i
      | with_reducible apply calls_ContentProcessLevels_val_i
      | with_reducible apply calls_GPUProcessLevels_val_i
      | with_reducible refine calls_invoke_i (fun r => ?_) (fun r => ?_)
      | with_reducible refine calls_invokeVoid_i ?_ ?_
      | with_reducible apply calls_GetProcessMitigations_i
      | with_reducible refine calls_SetProcessMitigations_i (fun r => ?_) (fun r => ?_)
      | with_reducible refine calls_AddCachedDirRule_i (fun baseDir r hbase => ?_) ?_
      | (with_reducible refine calls_MOZ_RELEASE_ASSERT_ok_i (fun hr => ?_)) <;> subst hr
      | (with_reducible refine calls_MOZ_RELEASE_ASSERT_ok_i' (fun hr => ?_)) <;> subst hr
      | with_reducible refine calls_MOZ_RELEASE_ASSERT_i (fun _ => ?_)
      | with_reducible apply calls_MOZ_ASSERT_i
      | (with_reducible refine Broker.calls_ite_bne_i (fun _ => ?_) (fun hr => ?_)) <;> try subst hr
      | (with_reducible refine Broker.calls_ite_bne_i' (fun _ => ?_) (fun hr => ?_)) <;> try subst hr
      | with_reducible refine Broker.calls_ite_i (fun hc => ?_) (fun hc => ?_)
  all_goals first
    | exact True.intro
    | (constructor <;> exact True.intro)
    | (simp [levelCallFrom, ruleCallIn, gpuDerived, gpuRuleList, shaderCacheRuleList,
        shaderCacheBase, chromePipeRule, crashPipeRule, baselineMitigations, *]; done)
    | (simp_all [levelCallFrom, ruleCallIn, gpuDerived, gpuRuleList, shaderCacheRuleList,
        shaderCacheBase, chromePipeRule, crashPipeRule, baselineMitigations]; done)

/-- Every call `SetSecurityLevelForPluginProcess` makes, however the run ends,
passes the derived levels and asks for a rule of its list. -/
theorem plugin_every_call_derived (h : Host) (aSandboxLevel : Int) (p q : TargetPolicy)
    (hq : (SetSecurityLevelForPluginProcess h aSandboxLevel (some p)).2 = some q) :
    ∀ e ∈ p.callsSince q,
      levelCallFrom (pluginDerived h aSandboxLevel) e ∧
      ruleCallIn (pluginRuleList h aSandboxLevel) e := by
  unfold SetSecurityLevelForPluginProcess at hq
  refine Member.falseWithoutPolicy_calls _ _ (fun m => ?_) p q hq
  clear hq
  simp only [SetJobLevel_eq, ite_AddCachedDirRule, AddWin32kLockdownPolicy,
    TargetPolicy.SetTokenLevel, TargetPolicy.SetIntegrityLevel,
    TargetPolicy.SetDelayedIntegrityLevel, TargetPolicy.SetLockdownDefaultDacl,
    TargetPolicy.AddRestrictingRandomSid, TargetPolicy.SetAlternateDesktop,
    TargetPolicy.SetDelayedProcessMitigations, TargetPolicy.AddRule]
  repeat' first
    | with_reducible refine Broker.calls_block_i ?_ (fun _ m => ?_)
    | with_reducible apply Broker.calls_bind_i
    | with_reducible apply Broker.calls_pure_i
    | with_reducible apply calls_ContentProcessLevels_val_i
    | with_reducible apply calls_GPUProcessLevels_val_i
    | with_reducible refine calls_invoke_i (fun r => ?_) (fun r => ?_)
    | with_reducible refine calls_invokeVoid_i ?_ ?_
    | with_reducible apply calls_GetProcessMitigations_i
    | with_reducible refine calls_SetProcessMitigations_i (fun r => ?_) (fun r => ?_)
    | with_reducible refine calls_AddCachedDirRule_i (fun baseDir r hbase => ?_) ?_
    | (with_reducible refine calls_MOZ_RELEASE_ASSERT_ok_i (fun hr => ?_)) <;> subst hr
    | (with_reducible refine calls_MOZ_RELEASE_ASSERT_ok_i' (fun hr => ?_)) <;> subst hr
    | with_reducible refine calls_MOZ_RELEASE_ASSERT_i (fun _ => ?_)
    | with_reducible apply calls_MOZ_ASSERT_i
    | (with_reducible refine Broker.calls_ite_bne_i (fun _ => ?_) (fun hr => ?_)) <;> try subst hr
    | (with_reducible refine Broker.calls_ite_bne_i' (fun _ => ?_) (fun hr => ?_)) <;> try subst hr
    | with_reducible refine Broker.calls_ite_i (fun hc => ?_) (fun hc => ?_)
  all_goals first
    | exact True.intro
    | (constructor <;> exact True.intro)
    | (simp [levelCallFrom, ruleCallIn, pluginDerived, pluginRuleList, cachedDirRule,
        chromePipeRule, crashPipeRule, *]; done)
    | (simp_all [levelCallFrom, ruleCallIn, pluginDerived, pluginRuleList, cachedDirRule,
        chromePipeRule, crashPipeRule]; done)

/-- Every rule `SetSecurityLevelForRDDProcess` asks for, however the run ends,
is in its list. -/
theorem rdd_every_rule (h : Host) (p q : TargetPolicy)
    (hq : (SetSecurityLevelForRDDProcess h (some p)).2 = some q) :
    ∀ e ∈ p.callsSince q, ruleCallIn (rddRuleList h) e := by
  unfold SetSecurityLevelForRDDProcess at hq
  refine Member.falseWithoutPolicy_calls _ _ (fun m => ?_) p q hq
  clear hq
  simp only [SetJobLevel_eq, ite_AddCachedDirRule, AddWin32kLockdownPolicy,
    TargetPolicy.SetTokenLevel, TargetPolicy.SetIntegrityLevel,
    TargetPolicy.SetDelayedIntegrityLevel, TargetPolicy.SetLockdownDefaultDacl,
    TargetPolicy.AddRestrictingRandomSid, TargetPolicy.SetAlternateDesktop,
    TargetPolicy.SetDelayedProcessMitigations, TargetPolicy.AddRule]
  repeat' first
    | with_reducible refine Broker.calls_block_i ?_ (fun _ m => ?_)
    | with_reducible apply Broker.calls_bind_i
    | with_reducible apply Broker.calls_pure_i
    | with_reducible apply calls_ContentProcessLevels_val_i
    | with_reducible apply calls_GPUProcessLevels_val_i
    | with_reducible refine calls_invoke_i (fun r => ?_) (fun r => ?_)
    | with_reducible refine calls_invokeVoid_i ?_ ?_
    | with_reducible apply calls_GetProcessMitigations_i
    | with_reducible refine calls_SetProcessMitigations_i (fun r => ?_) (fun r => ?_)
    | with_reducible refine calls_AddCachedDirRule_i (fun baseDir r hbase => ?_) ?_
    | (with_reducible refine calls_MOZ_RELEASE_ASSERT_ok_i (fun hr => ?_)) <;> subst hr
    | (with_reducible refine calls_MOZ_RELEASE_ASSERT_ok_i' (fun hr => ?_)) <;> subst hr
    | with_reducible refine calls_MOZ_RELEASE_ASSERT_i (fun _ => ?_)
    | with_reducible apply calls_MOZ_ASSERT_i
    | (with_reducible refine Broker.calls_ite_bne_i (fun _ => ?_) (fun hr => ?_)) <;> try subst hr
    | (with_reducible refine Broker.calls_ite_bne_i' (fun _ => ?_) (fun hr => ?_)) <;> try subst hr
    | with_reducible refine Broker.calls_ite_i (fun hc => ?_) (fun hc => ?_)
  all_goals first
    | exact True.intro
    | (constructor <;> exact True.intro)
    | (simp [ruleCallIn, rddRuleList, win32kRule, chromePipeRule, crashPipeRule, *]; done)
    | (simp_all [ruleCallIn, rddRuleList, win32kRule, chromePipeRule, crashPipeRule]; done)

/-- Every rule `SetSecurityLevelForSocketProcess` asks for, however the run
ends, is in its list. -/
theorem socket_every_rule (h : Host) (p q : TargetPolicy)
    (hq : (SetSecurityLevelForSocketProcess h (some p)).2 = some q) :
    ∀ e ∈ p.callsSince q, ruleCallIn (socketRuleList h) e := by
  unfold SetSecurityLevelForSocketProcess at hq
  refine Member.falseWithoutPolicy_calls _ _ (fun m => ?_) p q hq
  clear hq
  simp only [SetJobLevel_eq, ite_AddCachedDirRule, AddWin32kLockdownPolicy,
    TargetPolicy.SetTokenLevel, TargetPolicy.SetIntegrityLevel,
    TargetPolicy.SetDelayedIntegrityLevel, TargetPolicy.SetLockdownDefaultDacl,
    TargetPolicy.AddRestrictingRandomSid, TargetPolicy.SetAlternateDesktop,
    TargetPolicy.SetDelayedProcessMitigations, TargetPolicy.AddRule]
  repeat' first
    | with_reducible refine Broker.calls_block_i ?_ (fun _ m => ?_)
    | with_reducible apply Broker.calls_bind_i
    | with_reducible apply Broker.calls_pure_i
    | with_reducible apply calls_ContentProcessLevels_val_i
    | with_reducible apply calls_GPUProcessLevels_val_i
    | with_reducible refine calls_invoke_i (fun r => ?_) (fun r => ?_)
    | with_reducible refine calls_invokeVoid_i ?_ ?_
    | with_reducible apply calls_GetProcessMitigations_i
    | with_reducible refine calls_SetProcessMitigations_i (fun r => ?_) (fun r => ?_)
    | with_reducible refine calls_AddCachedDirRule_i (fun baseDir r hbase => ?_) ?_
    | (with_reducible refine calls_MOZ_RELEASE_ASSERT_ok_i (fun hr => ?_)) <;> subst hr
    | (with_reducible refine calls_MOZ_RELEASE_ASSERT_ok_i' (fun hr => ?_)) <;> subst hr
    | with_reducible refine calls_MOZ_RELEASE_ASSERT_i (fun _ => ?_)
    | with_reducible apply calls_MOZ_ASSERT_i
    | (with_reducible refine Broker.calls_ite_bne_i (fun _ => ?_) (fun hr => ?_)) <;> try subst hr
    | (with_reducible refine Broker.calls_ite_bne_i' (fun _ => ?_) (fun hr => ?_)) <;> try subst hr
    | with_reducible refine Broker.calls_ite_i (fun hc => ?_) (fun hc => ?_)
  all_goals first
    | exact True.intro
    | (constructor <;> exact True.intro)
    | (simp [ruleCallIn, socketRuleList, win32kRule, chromePipeRule, crashPipeRule, *]; done)
    | (simp_all [ruleCallIn, socketRuleList, win32kRule, chromePipeRule, crashPipeRule]; done)

/-- The rules `SetSecurityLevelForGMPlugin` asks for on every host. -/
theorem mem_gmpRuleList_of_fixed (h : Host) (aIsRemoteLaunch : Bool) (rule : Rule)
    (hr : rule ∈ [chromePipeRule, crashPipeRule,
        (SUBSYS_FILES, FILES_ALLOW_READONLY, some "\\Device\\SrpDevice".toList)] ++
      gmpRegistryPatterns.map (fun pat => (SUBSYS_REGISTRY, REG_ALLOW_READONLY, some pat))) :
    rule ∈ gmpRuleList h aIsRemoteLaunch := by
  have hsplit : gmpRegistryPatterns
      = gmpRegistryPatterns.take 8 ++ gmpRegistryPatterns.drop 8 :=
    (List.take_append_drop 8 gmpRegistryPatterns).symm
  rw [hsplit, List.map_append] at hr
  unfold gmpRuleList
  simp only [List.mem_append, List.mem_cons, List.mem_singleton, List.not_mem_nil,
    or_false] at hr ⊢
  tauto

/-- Every rule `SetSecurityLevelForGMPlugin` asks for, however the run ends,
is in its list. -/
theorem gmp_every_rule (h : Host) (aLevel : SandboxLevel) (aIsRemoteLaunch : Bool)
    (p q : TargetPolicy)
    (hq : (SetSecurityLevelForGMPlugin h aLevel aIsRemoteLaunch (some p)).2 = some q) :
    ∀ e ∈ p.callsSince q, ruleCallIn (gmpRuleList h aIsRemoteLaunch) e := by
  unfold SetSecurityLevelForGMPlugin at hq
  refine Member.falseWithoutPolicy_calls _ _ (fun m => ?_) p q hq
  clear hq
  simp only [SetJobLevel_eq, ite_AddCachedDirRule, AddWin32kLockdownPolicy,
    TargetPolicy.SetTokenLevel, TargetPolicy.SetIntegrityLevel,
    TargetPolicy.SetDelayedIntegrityLevel, TargetPolicy.SetLockdownDefaultDacl,
    TargetPolicy.AddRestrictingRandomSid, TargetPolicy.SetAlternateDesktop,
    TargetPolicy.SetDelayedProcessMitigations, TargetPolicy.AddRule]
  repeat' first
    | with_reducible refine Broker.calls_block_i ?_ (fun _ m => ?_)
    | with_reducible apply Broker.calls_bind_i
    | with_reducible apply Broker.calls_pure_i
    | with_reducible apply calls_ContentProcessLevels_val_i
    | with_reducible apply calls_GPUProcessLevels_val_i
    | with_reducible refine calls_invoke_i (fun r => ?_) (fun r => ?_)
    | with_reducible refine calls_invokeVoid_i ?_ ?_
    | with_reducible apply calls_GetProcessMitigations_i
    | with_reducible refine calls_SetProcessMitigations_i (fun r => ?_) (fun r => ?_)
    | with_reducible refine calls_AddCachedDirRule_i (fun baseDir r hbase => ?_) ?_
    | (with_reducible refine calls_MOZ_RELEASE_ASSERT_ok_i (fun hr => ?_)) <;> subst hr
    | (with_reducible refine calls_MOZ_RELEASE_ASSERT_ok_i' (fun hr => ?_)) <;> subst hr
    | with_reducible refine calls_MOZ_RELEASE_ASSERT_i (fun _ => ?_)
    | with_reducible apply calls_MOZ_ASSERT_i
    | (with_reducible refine Broker.calls_ite_bne_i (fun _ => ?_) (fun hr => ?_)) <;> try subst hr
    | (with_reducible refine Broker.calls_ite_bne_i' (fun _ => ?_) (fun hr => ?_)) <;> try subst hr
    | with_reducible refine Broker.calls_ite_i (fun hc => ?_) (fun hc => ?_)
  all_goals first
    | exact True.intro
    | (constructor <;> exact True.intro)
    | exact mem_gmpRuleList_of_fixed h aIsRemoteLaunch _ (by decide)
    | (simp [ruleCallIn, gmpRuleList, win32kRule, *]; done)
    | (simp_all [ruleCallIn, gmpRuleList, win32kRule]; done)

/-! ## Handle rules -/

theorem cachedDirRule_subsystem {aAccess : Semantics} {aBaseDir : Option nsString}
    {aRelativePath : nsString} {r : Rule} (hr : r ∈ cachedDirRule aAccess aBaseDir aRelativePath) :
    r.1 = SUBSYS_FILES := by
  cases aBaseDir with
  | none => simp [cachedDirRule] at hr
  | some baseDir =>
    simp only [cachedDirRule, List.mem_singleton] at hr
    rw [hr]

theorem win32kRule_subsystem {h : Host} {enabled aEnableOpm : Bool} {r : Rule}
    (hr : r ∈ win32kRule h enabled aEnableOpm) : r.1 = SUBSYS_WIN32K_LOCKDOWN := by
  unfold win32kRule at hr
  split at hr
  · simp only [List.mem_singleton] at hr
    rw [hr]
  · simp at hr

theorem contentRuleList_handles (h : Host) (aSandboxLevel : Int) (aIsFileProcess : Bool)
    (r : Rule) (hr : r ∈ contentRuleList h aSandboxLevel aIsFileProcess)
    (hs : r.1 = SUBSYS_HANDLES) :
    (r.2.1 = HANDLES_DUP_BROKER ∨ r.2.1 = HANDLES_DUP_ANY) ∧
    ∃ s ∈ ["File".toList, "Section".toList, "Semaphore".toList], r.2.2 = some s := by
  have hfiles : ∀ {a b c}, r ∈ cachedDirRule a b c → False := fun hm => by
    rw [cachedDirRule_subsystem hm] at hs; cases hs
  have hwin : ∀ {a b c}, r ∈ win32kRule a b c → False := fun hm => by
    rw [win32kRule_subsystem hm] at hs; cases hs
  unfold contentRuleList at hr
  split_ifs at hr
  all_goals
    simp only [chromePipeRule, crashPipeRule, List.mem_append, List.mem_cons,
      List.mem_singleton, List.not_mem_nil, or_false] at hr
    casesm* _ ∨ _
  all_goals first
    | exact (hfiles ‹_›).elim
    | exact (hwin ‹_›).elim
    | (obtain rfl := ‹r = _›; exfalso; revert hs; decide)
    | (obtain rfl := ‹r = _›; decide)

theorem shaderCacheRuleList_subsystem {aProfileDir : Option (Option nsString)} {r : Rule}
    (hr : r ∈ shaderCacheRuleList aProfileDir) : r.1 = SUBSYS_FILES := by
  rcases aProfileDir with _ | _ | path
  · simp [shaderCacheRuleList] at hr
  · simp [shaderCacheRuleList] at hr
  · simp only [shaderCacheRuleList] at hr
    split_ifs at hr
    · simp at hr
    · simp only [List.mem_cons, List.mem_singleton, List.not_mem_nil, or_false] at hr
      rcases hr with hr | hr <;> rw [hr]

/-- The handle rules of the lists of the five other kinds: duplication of
`Section` handles only. -/
theorem otherRuleLists_handles (h : Host) (aSandboxLevel : Int)
    (aProfileDir : Option (Option nsString)) (aIsRemoteLaunch : Bool) (r : Rule)
    (hr : r ∈ gpuRuleList aProfileDir ∨ r ∈ pluginRuleList h aSandboxLevel ∨
      r ∈ rddRuleList h ∨ r ∈ socketRuleList h ∨ r ∈ gmpRuleList h aIsRemoteLaunch)
    (hs : r.1 = SUBSYS_HANDLES) :
    (r.2.1 = HANDLES_DUP_BROKER ∨ r.2.1 = HANDLES_DUP_ANY) ∧ r.2.2 = some "Section".toList := by
  have hfiles : ∀ {a b c}, r ∈ cachedDirRule a b c → False := fun hm => by
    rw [cachedDirRule_subsystem hm] at hs; cases hs
  have hwin : ∀ {a b c}, r ∈ win32kRule a b c → False := fun hm => by
    rw [win32kRule_subsystem hm] at hs; cases hs
  have hshader : ∀ {a}, r ∈ shaderCacheRuleList a → False := fun hm => by
    rw [shaderCacheRuleList_subsystem hm] at hs; cases hs
  have hreg : ∀ {l : List nsString},
      r ∈ l.map (fun pat => (SUBSYS_REGISTRY, REG_ALLOW_READONLY, some pat)) → False :=
    fun hm => by
      obtain ⟨pat, -, rfl⟩ := List.mem_map.1 hm
      cases hs
  unfold gpuRuleList pluginRuleList rddRuleList socketRuleList gmpRuleList at hr
  rcases hr with hr | hr | hr | hr | hr
  all_goals
    try split_ifs at hr
  all_goals
    simp only [chromePipeRule, crashPipeRule, List.mem_append, List.mem_cons,
      List.mem_singleton, List.not_mem_nil, or_false] at hr
    casesm* _ ∨ _
  all_goals first
    | exact (hfiles ‹_›).elim
    | exact (hwin ‹_›).elim
    | exact (hshader ‹_›).elim
    | exact (hreg ‹_›).elim
    | (obtain rfl := ‹r = _›; exfalso; revert hs; decide)
    | (obtain rfl := ‹r = _›; decide)

/-! ## Levels rise with the sandbox level -/

theorem contentLevelsOf_bands (t : Int) (ht : 1 ≤ t) :
    (t = 1 ∧ contentLevelsOf t =
      ⟨JOB_NONE, USER_NON_ADMIN, INTEGRITY_LEVEL_LOW, INTEGRITY_LEVEL_LOW⟩) ∨
    (t = 2 ∧ contentLevelsOf t =
      ⟨JOB_INTERACTIVE, USER_INTERACTIVE, INTEGRITY_LEVEL_LOW, INTEGRITY_LEVEL_LOW⟩) ∨
    (t = 3 ∧ contentLevelsOf t =
      ⟨JOB_RESTRICTED, USER_LIMITED, INTEGRITY_LEVEL_LOW, INTEGRITY_LEVEL_LOW⟩) ∨
    (4 ≤ t ∧ t < 20 ∧ contentLevelsOf t =
      ⟨JOB_LOCKDOWN, USER_LIMITED, INTEGRITY_LEVEL_LOW, INTEGRITY_LEVEL_LOW⟩) ∨
    (20 ≤ t ∧ contentLevelsOf t =
      ⟨JOB_LOCKDOWN, USER_LOCKDOWN, INTEGRITY_LEVEL_LOW, INTEGRITY_LEVEL_UNTRUSTED⟩) := by
  unfold contentLevelsOf
  split_ifs <;> simp <;> omega

theorem gpuLevelsOf_bands (t : Int) (ht : 1 ≤ t) :
    (t = 1 ∧ gpuLevelsOf t =
      ⟨JOB_NONE, USER_NON_ADMIN, INTEGRITY_LEVEL_LOW, INTEGRITY_LEVEL_LOW⟩) ∨
    (2 ≤ t ∧ gpuLevelsOf t =
      ⟨JOB_NONE, USER_LIMITED, INTEGRITY_LEVEL_LOW, INTEGRITY_LEVEL_LOW⟩) := by
  unfold gpuLevelsOf
  split_ifs <;> simp <;> omega

theorem PluginProcessLevels_bands (t : Int) (ht : 1 ≤ t) :
    (t = 1 ∧ PluginProcessLevels t =
      ⟨JOB_NONE, USER_NON_ADMIN, INTEGRITY_LEVEL_MEDIUM, INTEGRITY_LEVEL_MEDIUM⟩) ∨
    (t = 2 ∧ PluginProcessLevels t =
      ⟨JOB_UNPROTECTED, USER_INTERACTIVE, INTEGRITY_LEVEL_LOW, INTEGRITY_LEVEL_LOW⟩) ∨
    (3 ≤ t ∧ PluginProcessLevels t =
      ⟨JOB_UNPROTECTED, USER_LIMITED, INTEGRITY_LEVEL_LOW, INTEGRITY_LEVEL_LOW⟩) := by
  unfold PluginProcessLevels
  split_ifs <;> simp <;> omega

theorem ContentProcessMitigations_mono (h : Host) (a b : Int) (hab : a ≤ b) :
    ContentProcessMitigations h a ⊆ ContentProcessMitigations h b := by
  unfold ContentProcessMitigations
  simp only []
  by_cases ha : a > 3
  · have hb : b > 3 := by omega
    rw [if_pos ha, if_pos hb]
  · rw [if_neg ha]
    split_ifs
    · exact Finset.subset_union_left
    · exact Finset.Subset.refl _
    · exact Finset.Subset.refl _
    · exact Finset.subset_union_left
    · exact Finset.Subset.refl _
    · exact Finset.Subset.refl _

theorem contentDerived_mono (h : Host) (aIsFileProcess : Bool) (a b : Int) (ha : 1 ≤ a)
    (hab : a ≤ b) :
    (contentDerived h b aIsFileProcess).atLeastAsRestrictiveAs
      (contentDerived h a aIsFileProcess) := by
  have hm := ContentProcessMitigations_mono h a b hab
  unfold DerivedLevels.atLeastAsRestrictiveAs contentDerived
  simp only []
  refine ⟨?_, ?_, ?_, ?_, ?_, hm⟩
  all_goals
    rcases contentLevelsOf_bands a ha with ⟨h1, e1⟩ | ⟨h1, e1⟩ | ⟨h1, e1⟩ | ⟨h1, -, e1⟩ | ⟨h1, e1⟩ <;>
    rcases contentLevelsOf_bands b (by omega) with
      ⟨h2, e2⟩ | ⟨h2, e2⟩ | ⟨h2, e2⟩ | ⟨h2, h3, e2⟩ | ⟨h2, e2⟩ <;>
    first
    | (exfalso; omega)
    | (simp only [e1, e2]; cases aIsFileProcess <;> cases h.sCanUseJob <;> decide)

theorem gpuDerived_mono (h : Host) (a b : Int) (ha : 1 ≤ a) (hab : a ≤ b) :
    (gpuDerived h b).atLeastAsRestrictiveAs (gpuDerived h a) := by
  unfold DerivedLevels.atLeastAsRestrictiveAs gpuDerived
  simp only []
  refine ⟨?_, ?_, ?_, ?_, ?_, Finset.Subset.refl _⟩
  all_goals
    rcases gpuLevelsOf_bands a ha with ⟨h1, e1⟩ | ⟨h1, e1⟩ <;>
    rcases gpuLevelsOf_bands b (by omega) with ⟨h2, e2⟩ | ⟨h2, e2⟩ <;>
    first
    | (exfalso; omega)
    | (simp only [e1, e2]; cases h.sCanUseJob <;> decide)
    | decide

theorem pluginDerived_mono (h : Host) (a b : Int) (ha : 1 ≤ a) (hab : a ≤ b) :
    (pluginDerived h b).atLeastAsRestrictiveAs (pluginDerived h a) := by
  unfold DerivedLevels.atLeastAsRestrictiveAs pluginDerived
  simp only []
  refine ⟨?_, ?_, ?_, ?_, ?_, Finset.Subset.refl _⟩
  all_goals
    rcases PluginProcessLevels_bands a ha with ⟨h1, e1⟩ | ⟨h1, e1⟩ | ⟨h1, e1⟩ <;>
    rcases PluginProcessLevels_bands b (by omega) with ⟨h2, e2⟩ | ⟨h2, e2⟩ | ⟨h2, e2⟩ <;>
    first
    | (exfalso; omega)
    | (simp only [e1, e2]; cases h.sCanUseJob <;> decide)
    | decide

theorem handleRuleOk_of_ruleCallIn {rules : List Rule} {patterns : List nsString}
    (hrules : ∀ r ∈ rules, r.1 = SUBSYS_HANDLES →
      (r.2.1 = HANDLES_DUP_BROKER ∨ r.2.1 = HANDLES_DUP_ANY) ∧ ∃ x ∈ patterns, r.2.2 = some x)
    {e : LoggedCall} (he : ruleCallIn rules e) : handleRuleOk patterns e := by
  unfold ruleCallIn at he
  unfold handleRuleOk
  split
  · next s a pat heq =>
    rw [heq] at he
    exact hrules _ he
  · exact True.intro

theorem handleRuleOk_Section_of_ruleCallIn {rules : List Rule}
    (hrules : ∀ r ∈ rules, r.1 = SUBSYS_HANDLES →
      (r.2.1 = HANDLES_DUP_BROKER ∨ r.2.1 = HANDLES_DUP_ANY) ∧ r.2.2 = some "Section".toList)
    {e : LoggedCall} (he : ruleCallIn rules e) : handleRuleOk ["Section".toList] e :=
  handleRuleOk_of_ruleCallIn
    (fun r hr hs => ⟨(hrules r hr hs).1, _, List.mem_singleton.2 rfl, (hrules r hr hs).2⟩) he

/-- C26: every `SUBSYS_HANDLES` rule a `SetSecurityLevelFor*` procedure asks
for, on every input and however the run ends, has access kind
`HANDLES_DUP_BROKER` or `HANDLES_DUP_ANY`; its pattern is `File`, `Section` or
`Semaphore` for the content procedure and `Section` for the five others; and
the content procedure does add `File` and `Semaphore` rules. -/
theorem handle_rules_are_File_Section_Semaphore :
    (∀ h aSandboxLevel aIsFileProcess p q,
      (SetSecurityLevelForContentProcess h aSandboxLevel aIsFileProcess (some p)).2 = some q →
      ∀ e ∈ p.callsSince q,
        handleRuleOk ["File".toList, "Section".toList, "Semaphore".toList] e) ∧
    (∀ h aSandboxLevel aProfileDir p q,
      (SetSecurityLevelForGPUProcess h aSandboxLevel aProfileDir (some p)).2 = some q →
      ∀ e ∈ p.callsSince q, handleRuleOk ["Section".toList] e) ∧
    (∀ h aSandboxLevel p q,
      (SetSecurityLevelForPluginProcess h aSandboxLevel (some p)).2 = some q →
      ∀ e ∈ p.callsSince q, handleRuleOk ["Section".toList] e) ∧
    (∀ h p q, (SetSecurityLevelForRDDProcess h (some p)).2 = some q →
      ∀ e ∈ p.callsSince q, handleRuleOk ["Section".toList] e) ∧
    (∀ h p q, (SetSecurityLevelForSocketProcess h (some p)).2 = some q →
      ∀ e ∈ p.callsSince q, handleRuleOk ["Section".toList] e) ∧
    (∀ h aLevel aIsRemoteLaunch p q,
      (SetSecurityLevelForGMPlugin h aLevel aIsRemoteLaunch (some p)).2 = some q →
      ∀ e ∈ p.callsSince q, handleRuleOk ["Section".toList] e) ∧
    (∃ q, (SetSecurityLevelForContentProcess releaseHost 3 false (some acceptingPolicy)).2 = some q ∧
      (SUBSYS_HANDLES, HANDLES_DUP_BROKER, some "File".toList) ∈ q.rules ∧
      (SUBSYS_HANDLES, HANDLES_DUP_ANY, some "Semaphore".toList) ∈ q.rules) := by
  refine ⟨?_, ?_, ?_, ?_, ?_, ?_, ⟨_, rfl, by decide, by decide⟩⟩
  · intro h t file p q hq e he
    exact handleRuleOk_of_ruleCallIn (contentRuleList_handles h t file)
      (content_every_call_derived h t file p q hq e he).2
  · intro h t dir p q hq e he
    exact handleRuleOk_Section_of_ruleCallIn
      (fun r hr => otherRuleLists_handles h t dir false r (Or.inl hr))
      (gpu_every_call_derived h t dir p q hq e he).2
  · intro h t p q hq e he
    exact handleRuleOk_Section_of_ruleCallIn
      (fun r hr => otherRuleLists_handles h t none false r (Or.inr (Or.inl hr)))
      (plugin_every_call_derived h t p q hq e he).2
  · intro h p q hq e he
    exact handleRuleOk_Section_of_ruleCallIn
      (fun r hr => otherRuleLists_handles h 0 none false r (Or.inr (Or.inr (Or.inl hr))))
      (rdd_every_rule h p q hq e he)
  · intro h p q hq e he
    exact handleRuleOk_Section_of_ruleCallIn
      (fun r hr => otherRuleLists_handles h 0 none false r (Or.inr (Or.inr (Or.inr (Or.inl hr)))))
      (socket_every_rule h p q hq e he)
  · intro h aLevel remote p q hq e he
    exact handleRuleOk_Section_of_ruleCallIn
      (fun r hr =>
        otherRuleLists_handles h 0 none remote r (Or.inr (Or.inr (Or.inr (Or.inr hr)))))
      (gmp_every_rule h aLevel remote p q hq e he)

/-- C28: for the content procedure (with `aIsFileProcess` fixed), the GPU
procedure and the plugin procedure, and levels `1 ≤ a ≤ b`: the job level, the
initial and delayed token levels and the initial and delayed integrity levels
derived for `b` are at least as restrictive as those derived for `a`, and the
first mitigation word for `b` holds the one for `a`; and these derived values
are what every call of a run passes to the policy object. -/
theorem trust_levels_are_monotone (h : Host) (aIsFileProcess : Bool) (a b : Int) (ha : 1 ≤ a)
    (hab : a ≤ b) :
    ((contentDerived h b aIsFileProcess).atLeastAsRestrictiveAs
        (contentDerived h a aIsFileProcess) ∧
      (gpuDerived h b).atLeastAsRestrictiveAs (gpuDerived h a) ∧
      (pluginDerived h b).atLeastAsRestrictiveAs (pluginDerived h a)) ∧
    (∀ t p q,
      (SetSecurityLevelForContentProcess h t aIsFileProcess (some p)).2 = some q →
      ∀ e ∈ p.callsSince q, levelCallFrom (contentDerived h t aIsFileProcess) e) ∧
    (∀ t aProfileDir p q,
      (SetSecurityLevelForGPUProcess h t aProfileDir (some p)).2 = some q →
      ∀ e ∈ p.callsSince q, levelCallFrom (gpuDerived h t) e) ∧
    (∀ t p q, (SetSecurityLevelForPluginProcess h t (some p)).2 = some q →
      ∀ e ∈ p.callsSince q, levelCallFrom (pluginDerived h t) e) :=
  ⟨⟨contentDerived_mono h aIsFileProcess a b ha hab, gpuDerived_mono h a b ha hab,
      pluginDerived_mono h a b ha hab⟩,
    fun t p q hq e he => (content_every_call_derived h t aIsFileProcess p q hq e he).1,
    fun t dir p q hq e he => (gpu_every_call_derived h t dir p q hq e he).1,
    fun t p q hq e he => (plugin_every_call_derived h t p q hq e he).1⟩

theorem trust_levels_are_monotone_witness :
    (1 : Int) ≤ 2 ∧ (2 : Int) ≤ 20 ∧
    (contentDerived releaseHost 20 false).atLeastAsRestrictiveAs
      (contentDerived releaseHost 2 false) ∧
    (gpuDerived releaseHost 20).atLeastAsRestrictiveAs (gpuDerived releaseHost 2) ∧
    (pluginDerived releaseHost 20).atLeastAsRestrictiveAs (pluginDerived releaseHost 2) :=
  ⟨by decide, by decide,
    (trust_levels_are_monotone releaseHost false 2 20 (by decide) (by decide)).1⟩

/-! ## A failing `SetAlternateDesktop` -/

theorem TargetPolicy.sameExceptDesktop_length {p p' : TargetPolicy}
    (hpp : p.sameExceptDesktop p') : p.log.length = p'.log.length := by
  have hlen := congrArg List.length hpp.2.1
  simpa using hlen

theorem Broker.ignoresDesktopResult_pure {α : Type} (a : α) :
    Broker.ignoresDesktopResult (pure a : Broker α) :=
  fun _ _ hpp => ⟨rfl, hpp⟩

theorem Broker.ignoresDesktopResult_bind {α β : Type} {x : Broker α} {f : α → Broker β}
    (hx : Broker.ignoresDesktopResult x) (hf : ∀ a, Broker.ignoresDesktopResult (f a)) :
    Broker.ignoresDesktopResult (x >>= f) := by
  intro p p' hpp
  obtain ⟨ho, hq⟩ := hx p p' hpp
  rw [Broker.bind_apply, Broker.bind_apply]
  unfold Broker.bind
  rcases hxp : x p with ⟨o, q⟩
  rcases hxp' : x p' with ⟨o', q'⟩
  rw [hxp, hxp'] at ho hq
  simp only at ho hq
  subst ho
  cases o with
  | crashed => exact ⟨rfl, hq⟩
  | returned a => exact hf a q q' hq

theorem Broker.ignoresDesktopResult_ite {α : Type} {c : Prop} {_ : Decidable c} {x y : Broker α}
    (hx : Broker.ignoresDesktopResult x) (hy : Broker.ignoresDesktopResult y) :
    Broker.ignoresDesktopResult (if c then x else y) := by
  split_ifs
  · exact hx
  · exact hy

theorem ignoresDesktopResult_invoke {c : PolicyCall} (hc : c.isSetAlternateDesktop = false) :
    Broker.ignoresDesktopResult (TargetPolicy.invoke c) := by
  intro p p' hpp
  have hlen := TargetPolicy.sameExceptDesktop_length hpp
  have hr : p.respond p.log.length c = p'.respond p'.log.length c := by
    rw [hlen]; exact hpp.1 _ c hc
  refine ⟨by simp only [TargetPolicy.invoke, hr], hpp.1, ?_, hpp.2.2⟩
  simp only [TargetPolicy.invoke, List.map_append, hpp.2.1, hr]

theorem ignoresDesktopResult_invokeVoid (c : PolicyCall) :
    Broker.ignoresDesktopResult (TargetPolicy.invokeVoid c) := by
  intro p p' hpp
  refine ⟨rfl, hpp.1, ?_, hpp.2.2⟩
  simp only [TargetPolicy.invokeVoid, List.map_append, hpp.2.1]

theorem ignoresDesktopResult_GetProcessMitigations :
    Broker.ignoresDesktopResult TargetPolicy.GetProcessMitigations := by
  intro p p' hpp
  exact ⟨by simp only [TargetPolicy.GetProcessMitigations, hpp.2.2], hpp⟩

theorem ignoresDesktopResult_SetProcessMitigations (flags : MitigationFlags) :
    Broker.ignoresDesktopResult (TargetPolicy.SetProcessMitigations flags) := by
  intro p p' hpp
  have hlen := TargetPolicy.sameExceptDesktop_length hpp
  have hr : p.respond p.log.length (PolicyCall.SetProcessMitigations flags)
      = p'.respond p'.log.length (PolicyCall.SetProcessMitigations flags) := by
    rw [hlen]; exact hpp.1 _ _ rfl
  refine ⟨by simp only [TargetPolicy.SetProcessMitigations, hr], hpp.1, ?_, ?_⟩
  · simp only [TargetPolicy.SetProcessMitigations, List.map_append, hpp.2.1, hr]
  · simp only [TargetPolicy.SetProcessMitigations, hr, hpp.2.2]

theorem ignoresDesktopResult_MOZ_RELEASE_ASSERT (c : Bool) :
    Broker.ignoresDesktopResult (MOZ_RELEASE_ASSERT c) := by
  intro p p' hpp
  cases c
  · exact ⟨rfl, hpp⟩
  · exact ⟨rfl, hpp⟩

theorem ignoresDesktopResult_MOZ_ASSERT (h : Host) (c : Bool) :
    Broker.ignoresDesktopResult (MOZ_ASSERT h c) := by
  intro p p' hpp
  unfold MOZ_ASSERT
  split
  · exact ⟨rfl, hpp⟩
  · exact ⟨rfl, hpp⟩

/-- A call of `SetAlternateDesktop` whose result is not used by what follows
it. -/
theorem ignoresDesktopResult_SetAlternateDesktop {β : Type} {alternateWinstation : Bool}
    {rest : Broker β} (hrest : Broker.ignoresDesktopResult rest) :
    Broker.ignoresDesktopResult
      (TargetPolicy.invoke (PolicyCall.SetAlternateDesktop alternateWinstation) >>=
        fun _ => rest) := by
  intro p p' hpp
  rw [Broker.bind_apply, Broker.bind_apply]
  refine hrest _ _ ⟨hpp.1, ?_, hpp.2.2⟩
  simp [List.map_append, hpp.2.1, LoggedCall.withoutDesktopResult,
    PolicyCall.isSetAlternateDesktop]

theorem ignoresDesktopResult_AddCachedDirRule (aAccess : Semantics)
    (aBaseDir : Option nsString) (aRelativePath : nsString) :
    Broker.ignoresDesktopResult (AddCachedDirRule aAccess aBaseDir aRelativePath) := by
  cases aBaseDir with
  | none => exact Broker.ignoresDesktopResult_pure _
  | some baseDir =>
    exact Broker.ignoresDesktopResult_bind (ignoresDesktopResult_invoke rfl)
      (fun _ => Broker.ignoresDesktopResult_pure _)

theorem ignoresDesktopResult_ContentProcessLevels (h : Host) (aSandboxLevel : Int) :
    Broker.ignoresDesktopResult (ContentProcessLevels h aSandboxLevel) := by
  unfold ContentProcessLevels
  repeat' first
    | exact Broker.ignoresDesktopResult_pure _
    | refine Broker.ignoresDesktopResult_ite ?_ ?_
    | exact Broker.ignoresDesktopResult_bind (ignoresDesktopResult_MOZ_ASSERT _ _)
        (fun _ => Broker.ignoresDesktopResult_pure _)

theorem Member.releaseAssertPolicy_sameRun {α : Type} (body : Broker α)
    (hbody : Broker.ignoresDesktopResult body) (p p' : TargetPolicy)
    (hpp : p.sameExceptDesktop p') :
    sameRunExceptDesktop (Member.releaseAssertPolicy body (some p))
      (Member.releaseAssertPolicy body (some p')) :=
  ⟨(hbody p p' hpp).1, (hbody p p' hpp).2⟩

theorem Member.falseWithoutPolicy_sameRun (body : Broker Bool)
    (hbody : Broker.ignoresDesktopResult body) (p p' : TargetPolicy)
    (hpp : p.sameExceptDesktop p') :
    sameRunExceptDesktop (Member.falseWithoutPolicy body (some p))
      (Member.falseWithoutPolicy body (some p')) :=
  ⟨(hbody p p' hpp).1, (hbody p p' hpp).2⟩

theorem content_sameRunExceptDesktop (h : Host) (aSandboxLevel : Int) (aIsFileProcess : Bool)
    (p p' : TargetPolicy) (hpp : p.sameExceptDesktop p') :
    sameRunExceptDesktop
      (SetSecurityLevelForContentProcess h aSandboxLevel aIsFileProcess (some p))
      (SetSecurityLevelForContentProcess h aSandboxLevel aIsFileProcess (some p')) := by
  unfold SetSecurityLevelForContentProcess
  refine Member.releaseAssertPolicy_sameRun _ ?_ p p' hpp
  simp only [SetJobLevel_eq, ite_AddCachedDirRule, AddWin32kLockdownPolicy,
    TargetPolicy.SetTokenLevel, TargetPolicy.SetIntegrityLevel,
    TargetPolicy.SetDelayedIntegrityLevel, TargetPolicy.SetLockdownDefaultDacl,
    TargetPolicy.AddRestrictingRandomSid, TargetPolicy.SetAlternateDesktop,
    TargetPolicy.SetDelayedProcessMitigations, TargetPolicy.AddRule]
  repeat' first
    | with_reducible apply ignoresDesktopResult_SetAlternateDesktop
    | with_reducible refine Broker.ignoresDesktopResult_bind ?_ (fun _ => ?_)
    | with_reducible apply Broker.ignoresDesktopResult_pure
    | with_reducible apply ignoresDesktopResult_ContentProcessLevels
    | (with_reducible apply ignoresDesktopResult_invoke) <;> rfl
    | with_reducible apply ignoresDesktopResult_invokeVoid
    | with_reducible apply ignoresDesktopResult_GetProcessMitigations
    | with_reducible apply ignoresDesktopResult_SetProcessMitigations
    | with_reducible apply ignoresDesktopResult_AddCachedDirRule
    | with_reducible apply ignoresDesktopResult_MOZ_RELEASE_ASSERT
    | with_reducible apply ignoresDesktopResult_MOZ_ASSERT
    | with_reducible refine Broker.ignoresDesktopResult_ite ?_ ?_

theorem rdd_sameRunExceptDesktop (h : Host) (p p' : TargetPolicy)
    (hpp : p.sameExceptDesktop p') :
    sameRunExceptDesktop (SetSecurityLevelForRDDProcess h (some p))
      (SetSecurityLevelForRDDProcess h (some p')) := by
  unfold SetSecurityLevelForRDDProcess
  refine Member.falseWithoutPolicy_sameRun _ ?_ p p' hpp
  simp only [SetJobLevel_eq, ite_AddCachedDirRule, AddWin32kLockdownPolicy,
    TargetPolicy.SetTokenLevel, TargetPolicy.SetIntegrityLevel,
    TargetPolicy.SetDelayedIntegrityLevel, TargetPolicy.SetLockdownDefaultDacl,
    TargetPolicy.AddRestrictingRandomSid, TargetPolicy.SetAlternateDesktop,
    TargetPolicy.SetDelayedProcessMitigations, TargetPolicy.AddRule]
  repeat' first
    | with_reducible apply ignoresDesktopResult_SetAlternateDesktop
    | with_reducible refine Broker.ignoresDesktopResult_bind ?_ (fun _ => ?_)
    | with_reducible apply Broker.ignoresDesktopResult_pure
    | with_reducible apply ignoresDesktopResult_ContentProcessLevels
    | (with_reducible apply ignoresDesktopResult_invoke) <;> rfl
    | with_reducible apply ignoresDesktopResult_invokeVoid
    | with_reducible apply ignoresDesktopResult_GetProcessMitigations
    | with_reducible apply ignoresDesktopResult_SetProcessMitigations
    | with_reducible apply ignoresDesktopResult_AddCachedDirRule
    | with_reducible apply ignoresDesktopResult_MOZ_RELEASE_ASSERT
    | with_reducible apply ignoresDesktopResult_MOZ_ASSERT
    | with_reducible refine Broker.ignoresDesktopResult_ite ?_ ?_

theorem socket_sameRunExceptDesktop (h : Host) (p p' : TargetPolicy)
    (hpp : p.sameExceptDesktop p') :
    sameRunExceptDesktop (SetSecurityLevelForSocketProcess h (some p))
      (SetSecurityLevelForSocketProcess h (some p')) := by
  unfold SetSecurityLevelForSocketProcess
  refine Member.falseWithoutPolicy_sameRun _ ?_ p p' hpp
  simp only [SetJobLevel_eq, ite_AddCachedDirRule, AddWin32kLockdownPolicy,
    TargetPolicy.SetTokenLevel, TargetPolicy.SetIntegrityLevel,
    TargetPolicy.SetDelayedIntegrityLevel, TargetPolicy.SetLockdownDefaultDacl,
    TargetPolicy.AddRestrictingRandomSid, TargetPolicy.SetAlternateDesktop,
    TargetPolicy.SetDelayedProcessMitigations, TargetPolicy.AddRule]
  repeat' first
    | with_reducible apply ignoresDesktopResult_SetAlternateDesktop
    | with_reducible refine Broker.ignoresDesktopResult_bind ?_ (fun _ => ?_)
    | with_reducible apply Broker.ignoresDesktopResult_pure
    | with_reducible apply ignoresDesktopResult_ContentProcessLevels
    | (with_reducible apply ignoresDesktopResult_invoke) <;> rfl
    | with_reducible apply ignoresDesktopResult_invokeVoid
    | with_reducible apply ignoresDesktopResult_GetProcessMitigations
    | with_reducible apply ignoresDesktopResult_SetProcessMitigations
    | with_reducible apply ignoresDesktopResult_AddCachedDirRule
    | with_reducible apply ignoresDesktopResult_MOZ_RELEASE_ASSERT
    | with_reducible apply ignoresDesktopResult_MOZ_ASSERT
    | with_reducible refine Broker.ignoresDesktopResult_ite ?_ ?_

theorem gmp_sameRunExceptDesktop (h : Host) (aLevel : SandboxLevel) (aIsRemoteLaunch : Bool)
    (p p' : TargetPolicy) (hpp : p.sameExceptDesktop p') :
    sameRunExceptDesktop (SetSecurityLevelForGMPlugin h aLevel aIsRemoteLaunch (some p))
      (SetSecurityLevelForGMPlugin h aLevel aIsRemoteLaunch (some p')) := by
  unfold SetSecurityLevelForGMPlugin
  refine Member.falseWithoutPolicy_sameRun _ ?_ p p' hpp
  simp only [SetJobLevel_eq, ite_AddCachedDirRule, AddWin32kLockdownPolicy,
    TargetPolicy.SetTokenLevel, TargetPolicy.SetIntegrityLevel,
    TargetPolicy.SetDelayedIntegrityLevel, TargetPolicy.SetLockdownDefaultDacl,
    TargetPolicy.AddRestrictingRandomSid, TargetPolicy.SetAlternateDesktop,
    TargetPolicy.SetDelayedProcessMitigations, TargetPolicy.AddRule]
  repeat' first
    | with_reducible apply ignoresDesktopResult_SetAlternateDesktop
    | with_reducible refine Broker.ignoresDesktopResult_bind ?_ (fun _ => ?_)
    | with_reducible apply Broker.ignoresDesktopResult_pure
    | with_reducible apply ignoresDesktopResult_ContentProcessLevels
    | (with_reducible apply ignoresDesktopResult_invoke) <;> rfl
    | with_reducible apply ignoresDesktopResult_invokeVoid
    | with_reducible apply ignoresDesktopResult_GetProcessMitigations
    | with_reducible apply ignoresDesktopResult_SetProcessMitigations
    | with_reducible apply ignoresDesktopResult_AddCachedDirRule
    | with_reducible apply ignoresDesktopResult_MOZ_RELEASE_ASSERT
    | with_reducible apply ignoresDesktopResult_MOZ_ASSERT
    | with_reducible refine Broker.ignoresDesktopResult_ite ?_ ?_

/-- C21: in the content procedure (at every level, so also above 4, where it
asks for an alternate desktop) and in the RDD, socket and GMP procedures, what
`SetAlternateDesktop` returns is not used: on two policy objects that differ at
most in what `SetAlternateDesktop` returns, the run ends alike (same return
value, or a fatal assertion in both) and makes the same calls in the same
order with the same results, but for the result of `SetAlternateDesktop`
itself, and leaves the same mitigation word. -/
theorem alternate_desktop_failure_is_only_a_warning (h : Host) (aSandboxLevel : Int)
    (aIsFileProcess : Bool) (aLevel : SandboxLevel) (aIsRemoteLaunch : Bool)
    (p p' : TargetPolicy) (hpp : p.sameExceptDesktop p') :
    sameRunExceptDesktop
      (SetSecurityLevelForContentProcess h aSandboxLevel aIsFileProcess (some p))
      (SetSecurityLevelForContentProcess h aSandboxLevel aIsFileProcess (some p')) ∧
    sameRunExceptDesktop (SetSecurityLevelForRDDProcess h (some p))
      (SetSecurityLevelForRDDProcess h (some p')) ∧
    sameRunExceptDesktop (SetSecurityLevelForSocketProcess h (some p))
      (SetSecurityLevelForSocketProcess h (some p')) ∧
    sameRunExceptDesktop (SetSecurityLevelForGMPlugin h aLevel aIsRemoteLaunch (some p))
      (SetSecurityLevelForGMPlugin h aLevel aIsRemoteLaunch (some p')) :=
  ⟨content_sameRunExceptDesktop h aSandboxLevel aIsFileProcess p p' hpp,
    rdd_sameRunExceptDesktop h p p' hpp, socket_sameRunExceptDesktop h p p' hpp,
    gmp_sameRunExceptDesktop h aLevel aIsRemoteLaunch p p' hpp⟩

theorem acceptingPolicy_sameExceptDesktop :
    acceptingPolicy.sameExceptDesktop (rejectingPolicy PolicyCall.isSetAlternateDesktop) :=
  ⟨fun _ c hc => by simp [acceptingPolicy, rejectingPolicy, hc], rfl, rfl⟩

theorem alternate_desktop_failure_is_only_a_warning_witness :
    acceptingPolicy.sameExceptDesktop (rejectingPolicy PolicyCall.isSetAlternateDesktop) ∧
    sameRunExceptDesktop
      (SetSecurityLevelForContentProcess releaseHost 5 false (some acceptingPolicy))
      (SetSecurityLevelForContentProcess releaseHost 5 false
        (some (rejectingPolicy PolicyCall.isSetAlternateDesktop))) ∧
    sameRunExceptDesktop (SetSecurityLevelForRDDProcess releaseHost (some acceptingPolicy))
      (SetSecurityLevelForRDDProcess releaseHost
        (some (rejectingPolicy PolicyCall.isSetAlternateDesktop))) ∧
    sameRunExceptDesktop (SetSecurityLevelForSocketProcess releaseHost (some acceptingPolicy))
      (SetSecurityLevelForSocketProcess releaseHost
        (some (rejectingPolicy PolicyCall.isSetAlternateDesktop))) ∧
    sameRunExceptDesktop
      (SetSecurityLevelForGMPlugin releaseHost SandboxLevel.LockDown false (some acceptingPolicy))
      (SetSecurityLevelForGMPlugin releaseHost SandboxLevel.LockDown false
        (some (rejectingPolicy PolicyCall.isSetAlternateDesktop))) :=
  ⟨acceptingPolicy_sameExceptDesktop,
    alternate_desktop_failure_is_only_a_warning releaseHost 5 false SandboxLevel.LockDown false
      acceptingPolicy (rejectingPolicy PolicyCall.isSetAlternateDesktop)
      acceptingPolicy_sameExceptDesktop⟩

/-! ## Rules for what a run that returns has asked for -/

theorem allAccepted_append (es es' : List LoggedCall) :
    allAccepted (es ++ es') = (allAccepted es ∧ allAccepted es') := by
  apply propext
  unfold allAccepted
  simp only [List.mem_append]
  constructor
  · intro hall
    exact ⟨fun e he => hall e (Or.inl he), fun e he => hall e (Or.inr he)⟩
  · intro hall e he
    rcases he with he | he
    · exact hall.1 e he
    · exact hall.2 e he

theorem allAccepted_nil : allAccepted [] = True := by
  apply propext
  simp [allAccepted]

theorem allAccepted_singleton (c : PolicyCall) (r : ResultCode) :
    allAccepted [⟨c, r⟩] = (checkedCall c = true → r = SBOX_ALL_OK) := by
  apply propext
  simp [allAccepted]

theorem trackedRules_append (es es' : List LoggedCall) :
    trackedRules (es ++ es') = trackedRules es ++ trackedRules es' := by
  simp [trackedRules, requestedRules, List.filterMap_append, List.filter_append]

theorem Broker.audit_mono {α : Type} {Q R : α → List Rule → Prop → Prop} {x : Broker α}
    (hx : Broker.audit Q x) (hqr : ∀ a rs ok, Q a rs ok → R a rs ok) : Broker.audit R x := by
  intro p
  obtain ⟨es, hlog, hq⟩ := hx p
  exact ⟨es, hlog, fun a ha => hqr _ _ _ (hq a ha)⟩

theorem Broker.audit_bind_i {α β : Type} {Q : β → List Rule → Prop → Prop} {x : Broker α}
    {f : α → Broker β}
    (hx : Broker.audit
      (fun a rs ok => Broker.audit (fun b rs' ok' => Q b (rs ++ rs') (ok ∧ ok')) (f a)) x) :
    Broker.audit Q (x >>= f) := by
  intro p
  obtain ⟨es, hlog, hq⟩ := hx p
  rw [Broker.bind_apply]
  unfold Broker.bind
  rcases hxp : x p with ⟨o, q⟩
  rw [hxp] at hlog hq
  cases o with
  | crashed => exact ⟨es, hlog, fun a ha => by cases ha⟩
  | returned a =>
    obtain ⟨es2, hlog2, hq2⟩ := hq a rfl q
    refine ⟨es ++ es2, ?_, fun b hb => ?_⟩
    · show (f a q).2.log = p.log ++ (es ++ es2)
      rw [hlog2]
      show q.log ++ es2 = _
      rw [show q.log = p.log ++ es from hlog, List.append_assoc]
    · rw [trackedRules_append, allAccepted_append]
      exact hq2 b hb

theorem Broker.audit_pure_i {α : Type} {Q : α → List Rule → Prop → Prop} {a : α}
    (hq : Q a [] True) : Broker.audit Q (pure a) := by
  intro p
  refine ⟨[], by simp, fun b hb => ?_⟩
  cases hb
  rw [allAccepted_nil]
  exact hq

theorem Broker.audit_ite_i {α : Type} {Q : α → List Rule → Prop → Prop} {c : Prop}
    {_ : Decidable c} {x y : Broker α} (hx : c → Broker.audit Q x) (hy : ¬ c → Broker.audit Q y) :
    Broker.audit Q (if c then x else y) := by
  by_cases hc : c
  · rw [if_pos hc]; exact hx hc
  · rw [if_neg hc]; exact hy hc

/-- A conditional statement without a value in the middle of a run, which
asks for no pipe, registry or handle rule and returns only when its checked calls were
accepted: what follows it is met once. -/
theorem Broker.audit_unit_block_i {β : Type} {Q : β → List Rule → Prop → Prop} {c : Prop}
    {_ : Decidable c} {x y : Broker Unit} {f : Unit → Broker β}
    (hx : Broker.audit (fun _ rs ok => rs = [] ∧ ok) (if c then x else y))
    (hf : Broker.audit Q (f ())) :
    Broker.audit Q ((if c then x else y) >>= f) := by
  refine Broker.audit_bind_i (Broker.audit_mono hx ?_)
  rintro ⟨⟩ rs ok ⟨hrs, hok⟩
  subst hrs
  have hok2 : ok = True := propext ⟨fun _ => True.intro, fun _ => hok⟩
  subst hok2
  simpa using hf

/-- A conditional statement that yields a result code in the middle of a run,
which asks for no pipe, registry or handle rule, yields `SBOX_ALL_OK` only when its
checked calls were accepted and yields nothing else in a debug build: what
follows it is met once. -/
theorem Broker.audit_result_block_i {β : Type} {Q : β → List Rule → Prop → Prop} (h : Host)
    {c : Prop} {_ : Decidable c} {x y : Broker ResultCode} {f : ResultCode → Broker β}
    (hx : Broker.audit
      (fun v rs ok => rs = [] ∧ (v = SBOX_ALL_OK → ok) ∧ (h.DEBUG = true → v = SBOX_ALL_OK))
      (if c then x else y))
    (hf : ∀ v ok, (v = SBOX_ALL_OK → ok) → (h.DEBUG = true → v = SBOX_ALL_OK) →
      Broker.audit (fun b rs' ok' => Q b rs' (ok ∧ ok')) (f v)) :
    Broker.audit Q ((if c then x else y) >>= f) := by
  refine Broker.audit_bind_i (Broker.audit_mono hx ?_)
  rintro v rs ok ⟨hrs, hok, hdv⟩
  subst hrs
  simpa using hf v ok hok hdv

/-- The early return of `AddWin32kLockdownPolicy` before Windows 8: what
follows the helper is met on both paths. -/
theorem audit_IsWin8OrLater_i {α β : Type} {Q : β → List Rule → Prop → Prop} {h : Host}
    {x y : Broker α} {f : α → Broker β} (hx : Broker.audit Q (x >>= f))
    (hy : Broker.audit Q (y >>= f)) :
    Broker.audit Q ((if (!h.IsWin8OrLater) = true then x else y) >>= f) := by
  split_ifs
  · exact hx
  · exact hy

theorem Broker.audit_ite_bne_i {α : Type} {Q : α → List Rule → Prop → Prop} {r : ResultCode}
    {x y : Broker α} (hx : r ≠ SBOX_ALL_OK → Broker.audit Q x)
    (hy : r = SBOX_ALL_OK → Broker.audit Q y) :
    Broker.audit Q (if (SBOX_ALL_OK != r) = true then x else y) := by
  apply Broker.audit_ite_i
  · intro hb; exact hx (fun he => by simp [he] at hb)
  · intro hb
    have hb2 : ¬ SBOX_ALL_OK ≠ r := fun hne => hb (by simpa using hne)
    exact hy (not_not.1 hb2).symm

theorem Broker.audit_ite_bne_i' {α : Type} {Q : α → List Rule → Prop → Prop} {r : ResultCode}
    {x y : Broker α} (hx : r ≠ SBOX_ALL_OK → Broker.audit Q x)
    (hy : r = SBOX_ALL_OK → Broker.audit Q y) :
    Broker.audit Q (if (r != SBOX_ALL_OK) = true then x else y) := by
  apply Broker.audit_ite_i
  · intro hb; exact hx (fun he => by simp [he] at hb)
  · intro hb; exact hy (by simpa using hb)

theorem audit_MOZ_RELEASE_ASSERT_i {Q : Unit → List Rule → Prop → Prop} {c : Bool}
    (hq : c = true → Q () [] True) : Broker.audit Q (MOZ_RELEASE_ASSERT c) := by
  intro p
  cases c with
  | true =>
    refine ⟨[], by simp [MOZ_RELEASE_ASSERT], fun _ _ => ?_⟩
    rw [allAccepted_nil]
    exact hq rfl
  | false =>
    exact ⟨[], by simp [MOZ_RELEASE_ASSERT], fun a ha => by simp [MOZ_RELEASE_ASSERT] at ha⟩

theorem audit_MOZ_RELEASE_ASSERT_ok_i {Q : Unit → List Rule → Prop → Prop} {r : ResultCode}
    (hq : r = SBOX_ALL_OK → Q () [] True) :
    Broker.audit Q (MOZ_RELEASE_ASSERT (SBOX_ALL_OK == r)) :=
  audit_MOZ_RELEASE_ASSERT_i (fun hc => hq (eq_of_beq hc).symm)

theorem audit_MOZ_RELEASE_ASSERT_ok_i' {Q : Unit → List Rule → Prop → Prop} {r : ResultCode}
    (hq : r = SBOX_ALL_OK → Q () [] True) :
    Broker.audit Q (MOZ_RELEASE_ASSERT (r == SBOX_ALL_OK)) :=
  audit_MOZ_RELEASE_ASSERT_i (fun hc => hq (eq_of_beq hc))

/-- `MOZ_ASSERT(SBOX_ALL_OK == r)`: in a debug build the run goes on only
when `r` is `SBOX_ALL_OK`. -/
theorem audit_MOZ_ASSERT_ok_i {Q : Unit → List Rule → Prop → Prop} {h : Host} {r : ResultCode}
    (hq : (h.DEBUG = true → r = SBOX_ALL_OK) → Q () [] True) :
    Broker.audit Q (MOZ_ASSERT h (SBOX_ALL_OK == r)) := by
  intro p
  refine ⟨[], ?_, fun _ ha => ?_⟩
  · unfold MOZ_ASSERT; split <;> simp
  · rw [allAccepted_nil]
    refine hq (fun hd => ?_)
    unfold MOZ_ASSERT at ha
    rw [hd] at ha
    by_contra hne
    have hb : (SBOX_ALL_OK == r) = false := by
      simpa using fun he : SBOX_ALL_OK = r => hne he.symm
    simp [hb] at ha

theorem audit_MOZ_ASSERT_i {Q : Unit → List Rule → Prop → Prop} {h : Host} {c : Bool}
    (hq : Q () [] True) : Broker.audit Q (MOZ_ASSERT h c) := by
  intro p
  refine ⟨[], ?_, fun _ _ => ?_⟩
  · unfold MOZ_ASSERT; split <;> simp
  · rw [allAccepted_nil]; exact hq

theorem audit_invoke_i {Q : ResultCode → List Rule → Prop → Prop} {c : PolicyCall}
    (hc : LoggedCall.rule ⟨c, SBOX_ALL_OK⟩ = none)
    (hq : ∀ r, Q r [] (checkedCall c = true → r = SBOX_ALL_OK)) :
    Broker.audit Q (TargetPolicy.invoke c) := by
  intro p
  refine ⟨[⟨c, p.respond p.log.length c⟩], rfl, fun a ha => ?_⟩
  have hrules : trackedRules [⟨c, p.respond p.log.length c⟩] = [] := by
    have hc2 : LoggedCall.rule ⟨c, p.respond p.log.length c⟩ = none := hc
    simp [trackedRules, requestedRules, hc2]
  simp only [TargetPolicy.invoke, Outcome.returned.injEq] at ha
  subst ha
  rw [hrules, allAccepted_singleton]
  exact hq _

theorem audit_AddRule_i {Q : ResultCode → List Rule → Prop → Prop} {s : SubSystem}
    {a : Semantics} {pat : Option nsString} (ht : isTrackedRule (s, a, pat) = true)
    (hq : ∀ r, Q r [(s, a, pat)] (checkedCall (PolicyCall.AddRule s a pat) = true →
      r = SBOX_ALL_OK)) :
    Broker.audit Q (TargetPolicy.invoke (PolicyCall.AddRule s a pat)) := by
  intro p
  refine ⟨[⟨PolicyCall.AddRule s a pat, p.respond p.log.length _⟩], rfl, fun b hb => ?_⟩
  have hrules : trackedRules
      [⟨PolicyCall.AddRule s a pat, p.respond p.log.length (PolicyCall.AddRule s a pat)⟩]
      = [(s, a, pat)] := by
    simp [trackedRules, requestedRules, LoggedCall.rule, ht]
  simp only [TargetPolicy.invoke, Outcome.returned.injEq] at hb
  subst hb
  rw [hrules, allAccepted_singleton]
  exact hq _

theorem audit_AddRule_other_i {Q : ResultCode → List Rule → Prop → Prop} {s : SubSystem}
    {a : Semantics} {pat : Option nsString} (ht : isTrackedRule (s, a, pat) = false)
    (hq : ∀ r, Q r [] (checkedCall (PolicyCall.AddRule s a pat) = true → r = SBOX_ALL_OK)) :
    Broker.audit Q (TargetPolicy.invoke (PolicyCall.AddRule s a pat)) := by
  intro p
  refine ⟨[⟨PolicyCall.AddRule s a pat, p.respond p.log.length _⟩], rfl, fun b hb => ?_⟩
  have hrules : trackedRules
      [⟨PolicyCall.AddRule s a pat, p.respond p.log.length (PolicyCall.AddRule s a pat)⟩]
      = [] := by
    simp [trackedRules, requestedRules, LoggedCall.rule, ht]
  simp only [TargetPolicy.invoke, Outcome.returned.injEq] at hb
  subst hb
  rw [hrules, allAccepted_singleton]
  exact hq _

theorem audit_invokeVoid_i {Q : Unit → List Rule → Prop → Prop} {c : PolicyCall}
    (hc : LoggedCall.rule ⟨c, SBOX_ALL_OK⟩ = none) (hq : Q () [] True) :
    Broker.audit Q (TargetPolicy.invokeVoid c) := by
  intro p
  refine ⟨[⟨c, SBOX_ALL_OK⟩], rfl, fun a _ => ?_⟩
  have hrules : trackedRules [⟨c, SBOX_ALL_OK⟩] = [] := by
    simp [trackedRules, requestedRules, hc]
  have hacc : allAccepted [⟨c, SBOX_ALL_OK⟩] = True := by
    rw [allAccepted_singleton]
    exact propext ⟨fun _ => True.intro, fun _ _ => rfl⟩
  rw [hrules, hacc]
  exact hq

theorem audit_GetProcessMitigations_i {Q : MitigationFlags → List Rule → Prop → Prop}
    (hq : ∀ m, Q m [] True) : Broker.audit Q TargetPolicy.GetProcessMitigations := by
  intro p
  refine ⟨[], by simp [TargetPolicy.GetProcessMitigations], fun a _ => ?_⟩
  rw [allAccepted_nil]
  exact hq a

theorem audit_SetProcessMitigations_i {Q : ResultCode → List Rule → Prop → Prop}
    {flags : MitigationFlags} (hq : ∀ r, Q r [] (r = SBOX_ALL_OK)) :
    Broker.audit Q (TargetPolicy.SetProcessMitigations flags) := by
  intro p
  refine ⟨[⟨PolicyCall.SetProcessMitigations flags, _⟩], rfl, fun a ha => ?_⟩
  have hrules : trackedRules [⟨PolicyCall.SetProcessMitigations flags,
      p.respond p.log.length (PolicyCall.SetProcessMitigations flags)⟩] = [] := by
    simp [trackedRules, requestedRules, LoggedCall.rule]
  simp only [TargetPolicy.SetProcessMitigations, Outcome.returned.injEq] at ha
  subst ha
  rw [hrules, allAccepted_singleton]
  have hk : (checkedCall (PolicyCall.SetProcessMitigations flags) = true →
      p.respond p.log.length (PolicyCall.SetProcessMitigations flags) = SBOX_ALL_OK)
      = (p.respond p.log.length (PolicyCall.SetProcessMitigations flags) = SBOX_ALL_OK) :=
    propext ⟨fun hk => hk rfl, fun hr _ => hr⟩
  rw [hk]
  exact hq _

/-- A rule for a path below a directory is none of the rules with a fixed
pattern, when no fixed file pattern ends as the relative path does. -/
theorem dirRule_not_static (aAccess : Semantics) (baseDir aRelativePath : nsString)
    (hrel : notSuffixOfStatic aRelativePath = true) :
    (SUBSYS_FILES, aAccess, some (baseDir ++ aRelativePath)) ∉ staticRules := by
  intro hmem
  unfold notSuffixOfStatic at hrel
  rw [List.all_eq_true] at hrel
  have hr := hrel _ hmem
  simp only [bne_self_eq_false, Bool.false_or, Bool.not_eq_true', ← Bool.not_eq_true,
    List.isSuffixOf_iff_suffix] at hr
  exact hr (List.suffix_append _ _)

theorem audit_AddCachedDirRule_i {Q : Unit → List Rule → Prop → Prop} {aAccess : Semantics}
    {aBaseDir : Option nsString} {aRelativePath : nsString}
    (hrel : notSuffixOfStatic aRelativePath = true) (hq : Q () [] True) :
    Broker.audit Q (AddCachedDirRule aAccess aBaseDir aRelativePath) := by
  cases aBaseDir with
  | none => exact Broker.audit_pure_i hq
  | some baseDir =>
    have hns := dirRule_not_static aAccess baseDir aRelativePath hrel
    have hchrome : (SUBSYS_FILES, aAccess, some (baseDir ++ aRelativePath)) ≠ chromePipeRule :=
      fun he => hns (he ▸ by decide)
    have hcrash : (SUBSYS_FILES, aAccess, some (baseDir ++ aRelativePath)) ≠ crashPipeRule :=
      fun he => hns (he ▸ by decide)
    have ht : isTrackedRule (SUBSYS_FILES, aAccess, some (baseDir ++ aRelativePath))
        = false := by
      simp [isTrackedRule, hchrome, hcrash]
    have hk : checkedCall (PolicyCall.AddRule SUBSYS_FILES aAccess
        (some (baseDir ++ aRelativePath))) = false := by
      simp [checkedCall, hns]
    refine Broker.audit_bind_i (audit_AddRule_other_i ht (fun r => Broker.audit_pure_i ?_))
    rw [hk]
    simpa using hq

theorem audit_ContentProcessLevels_i {Q : Levels → List Rule → Prop → Prop} {h : Host}
    {aSandboxLevel : Int} (hq : ∀ levels, Q levels [] True) :
    Broker.audit Q (ContentProcessLevels h aSandboxLevel) := by
  unfold ContentProcessLevels
  repeat' first
    | exact Broker.audit_pure_i (hq _)
    | (refine Broker.audit_ite_i (fun _ => ?_) (fun _ => ?_))
    | exact Broker.audit_bind_i (audit_MOZ_ASSERT_i (Broker.audit_pure_i (by simpa using hq _)))

theorem audit_GPUProcessLevels_i {Q : Levels → List Rule → Prop → Prop} {aSandboxLevel : Int}
    (hq : ∀ levels, Q levels [] True) : Broker.audit Q (GPUProcessLevels aSandboxLevel) := by
  unfold GPUProcessLevels
  refine Broker.audit_ite_i (fun _ => Broker.audit_pure_i (hq _))
    (fun _ => Broker.audit_bind_i
      (audit_MOZ_RELEASE_ASSERT_i (fun _ => Broker.audit_pure_i (by simpa using hq _))))

theorem audit_dirRule_i {Q : ResultCode → List Rule → Prop → Prop} {aAccess : Semantics}
    {baseDir aRelativePath : nsString} (hrel : notSuffixOfStatic aRelativePath = true)
    (hq : ∀ r, Q r [] True) :
    Broker.audit Q (TargetPolicy.invoke
      (PolicyCall.AddRule SUBSYS_FILES aAccess (some (baseDir ++ aRelativePath)))) := by
  have hns := dirRule_not_static aAccess baseDir aRelativePath hrel
  have hchrome : (SUBSYS_FILES, aAccess, some (baseDir ++ aRelativePath)) ≠ chromePipeRule :=
    fun he => hns (he ▸ by decide)
  have hcrash : (SUBSYS_FILES, aAccess, some (baseDir ++ aRelativePath)) ≠ crashPipeRule :=
    fun he => hns (he ▸ by decide)
  have ht : isTrackedRule (SUBSYS_FILES, aAccess, some (baseDir ++ aRelativePath))
      = false := by
    simp [isTrackedRule, hchrome, hcrash]
  have hk : checkedCall (PolicyCall.AddRule SUBSYS_FILES aAccess
      (some (baseDir ++ aRelativePath))) = false := by
    simp [checkedCall, hns]
  refine audit_AddRule_other_i ht (fun r => ?_)
  rw [hk]
  simpa using hq r

/-- A statement without a value in the middle of a run, which asks for no
pipe, registry or handle rule and returns only when its checked calls were accepted:
what follows it is met once. -/
theorem Broker.audit_quiet_i {β : Type} {Q : β → List Rule → Prop → Prop} {x : Broker Unit}
    {f : Unit → Broker β} (hx : Broker.audit (fun _ rs ok => rs = [] ∧ ok) x)
    (hf : Broker.audit Q (f ())) : Broker.audit Q (x >>= f) := by
  refine Broker.audit_bind_i (Broker.audit_mono hx ?_)
  rintro ⟨⟩ rs ok ⟨hrs, hok⟩
  subst hrs
  have hok2 : ok = True := propext ⟨fun _ => True.intro, fun _ => hok⟩
  subst hok2
  simpa using hf

theorem Member.releaseAssertPolicy_audit {α : Type} (body : Broker α)
    (Q : α → List Rule → Prop → Prop) (hbody : Broker.audit Q body) (p q : TargetPolicy) (a : α)
    (hrun : Member.releaseAssertPolicy body (some p) = (Outcome.returned a, some q)) :
    Q a (trackedRules (p.callsSince q)) (allAccepted (p.callsSince q)) := by
  obtain ⟨es, hlog, hq⟩ := hbody p
  simp only [Member.releaseAssertPolicy, Prod.mk.injEq, Option.some.injEq] at hrun
  obtain ⟨ho, hq2⟩ := hrun
  subst hq2
  have hes : p.callsSince (body p).2 = es := by simp [TargetPolicy.callsSince, hlog]
  rw [hes]
  exact hq a ho

theorem Member.falseWithoutPolicy_audit (body : Broker Bool)
    (Q : Bool → List Rule → Prop → Prop) (hbody : Broker.audit Q body) (p q : TargetPolicy)
    (a : Bool)
    (hrun : Member.falseWithoutPolicy body (some p) = (Outcome.returned a, some q)) :
    Q a (trackedRules (p.callsSince q)) (allAccepted (p.callsSince q)) := by
  obtain ⟨es, hlog, hq⟩ := hbody p
  simp only [Member.falseWithoutPolicy, Prod.mk.injEq, Option.some.injEq] at hrun
  obtain ⟨ho, hq2⟩ := hrun
  subst hq2
  have hes : p.callsSince (body p).2 = es := by simp [TargetPolicy.callsSince, hlog]
  rw [hes]
  exact hq a ho

/-- A run of `SetSecurityLevelForContentProcess` that returns: every checked
call was accepted, and the pipe, registry and handle rules it asked for are the
chrome pipe rule, the crash pipe rule and then its six handle rules. -/
theorem content_audit (h : Host) (aSandboxLevel : Int) (aIsFileProcess : Bool)
    (p q : TargetPolicy)
    (hrun : SetSecurityLevelForContentProcess h aSandboxLevel aIsFileProcess (some p)
      = (Outcome.returned (), some q)) :
    allAccepted (p.callsSince q) ∧
    trackedRules (p.callsSince q) = contentTrackedRules := by
  unfold SetSecurityLevelForContentProcess at hrun
  refine Member.releaseAssertPolicy_audit _
    (fun _ rs ok => ok ∧ rs = contentTrackedRules) ?_ p q () hrun
  clear hrun
  simp only [SetJobLevel_eq, ite_AddCachedDirRule, AddWin32kLockdownPolicy,
    TargetPolicy.SetTokenLevel, TargetPolicy.SetIntegrityLevel,
    TargetPolicy.SetDelayedIntegrityLevel, TargetPolicy.SetLockdownDefaultDacl,
    TargetPolicy.AddRestrictingRandomSid, TargetPolicy.SetAlternateDesktop,
    TargetPolicy.SetDelayedProcessMitigations, TargetPolicy.AddRule]
  repeat' first
    | with_reducible refine audit_IsWin8OrLater_i ?_ ?_
    | with_reducible refine Broker.audit_unit_block_i ?_ ?_
    | with_reducible refine Broker.audit_result_block_i h ?_ (fun v ok hok hdv => ?_)
    | with_reducible apply Broker.audit_bind_i
    | with_reducible apply Broker.audit_pure_i
    | with_reducible refine audit_ContentProcessLevels_i (fun levels => ?_)
    | with_reducible refine audit_GPUProcessLevels_i (fun levels => ?_)
    | with_reducible refine audit_SetProcessMitigations_i (fun r => ?_)
    | with_reducible refine audit_dirRule_i (by with_unfolding_all rfl) (fun r => ?_)
    | with_reducible refine audit_AddRule_i (by with_unfolding_all rfl) (fun r => ?_)
    | with_reducible refine audit_AddRule_other_i (by with_unfolding_all rfl) (fun r => ?_)
    | with_reducible refine audit_invoke_i (by with_unfolding_all rfl) (fun r => ?_)
    | with_reducible refine audit_invokeVoid_i (by with_unfolding_all rfl) ?_
    | with_reducible refine audit_GetProcessMitigations_i (fun m => ?_)
    | with_reducible refine audit_AddCachedDirRule_i (by with_unfolding_all rfl) ?_
    | (with_reducible refine audit_MOZ_RELEASE_ASSERT_ok_i (fun hr => ?_)) <;> subst hr
    | (with_reducible refine audit_MOZ_RELEASE_ASSERT_ok_i' (fun hr => ?_)) <;> subst hr
    | with_reducible refine audit_MOZ_RELEASE_ASSERT_i (fun _ => ?_)
    | with_reducible refine audit_MOZ_ASSERT_ok_i (fun hd => ?_)
    | with_reducible apply audit_MOZ_ASSERT_i
    | (with_reducible refine Broker.audit_ite_bne_i (fun hr => ?_) (fun hr => ?_)) <;> try subst hr
    | (with_reducible refine Broker.audit_ite_bne_i' (fun hr => ?_) (fun hr => ?_)) <;> try subst hr
    | with_reducible refine Broker.audit_ite_i (fun hc => ?_) (fun hc => ?_)
  all_goals first
    | exact audit_return_false hd hr
    | exact audit_return_false hdv hr
    | (simp [checkedCall, chromePipeRule, crashPipeRule, contentTrackedRules, gpuTrackedRules,
        pluginTrackedRules, rddTrackedRules, socketTrackedRules, gmpTrackedRules]; done)
    | (simp_all [checkedCall, chromePipeRule, crashPipeRule, contentTrackedRules,
        gpuTrackedRules, pluginTrackedRules, rddTrackedRules, socketTrackedRules,
        gmpTrackedRules]; done)

/-- A run of `SetSecurityLevelForGPUProcess` that returns: every checked call
was accepted, and the pipe, registry and handle rules it asked for are the
chrome pipe rule, the crash pipe rule and then its two handle rules. -/
theorem gpu_audit (h : Host) (aSandboxLevel : Int) (aProfileDir : Option (Option nsString))
    (p q : TargetPolicy)
    (hrun : SetSecurityLevelForGPUProcess h aSandboxLevel aProfileDir (some p)
      = (Outcome.returned (), some q)) :
    allAccepted (p.callsSince q) ∧
    trackedRules (p.callsSince q) = gpuTrackedRules := by
  unfold SetSecurityLevelForGPUProcess at hrun
  refine Member.releaseAssertPolicy_audit _
    (fun _ rs ok => ok ∧ rs = gpuTrackedRules) ?_ p q () hrun
  clear hrun
  rcases aProfileDir with _ | _ | path
  all_goals
    simp only [addShaderCacheRules]
    simp only [SetJobLevel_eq, ite_AddCachedDirRule, AddWin32kLockdownPolicy,
      TargetPolicy.SetTokenLevel, TargetPolicy.SetIntegrityLevel,
      TargetPolicy.SetDelayedIntegrityLevel, TargetPolicy.SetLockdownDefaultDacl,
      TargetPolicy.AddRestrictingRandomSid, TargetPolicy.SetAlternateDesktop,
      TargetPolicy.SetDelayedProcessMitigations, TargetPolicy.AddRule]
    repeat' first
      | with_reducible refine audit_IsWin8OrLater_i ?_ ?_
      | with_reducible refine Broker.audit_unit_block_i ?_ ?_
      | with_reducible refine Broker.audit_result_block_i h ?_ (fun v ok hok hdv => ?_)
      | with_reducible apply Broker.audit_bind_i
      | with_reducible apply Broker.audit_pure_i
      | with_reducible refine audit_ContentProcessLevels_i (fun levels => ?_)
      | with_reducible refine audit_GPUProcessLevels_i (fun levels => ?_)
      | with_reducible refine audit_SetProcessMitigations_i (fun r => ?_)
      | with_reducible refine audit_dirRule_i (by with_unfolding_all rfl) (fun r => ?_)
      | with_reducible refine audit_AddRule_i (by with_unfolding_all rfl) (fun r => ?_)
      | with_reducible refine audit_AddRule_other_i (by with_unfolding_all rfl) (fun r => ?_)
      | with_reducible refine audit_invoke_i (by with_unfolding_all rfl) (fun r => ?_)
      | with_reducible refine audit_invokeVoid_i (by with_unfolding_all rfl) ?_
      | with_reducible refine audit_GetProcessMitigations_i (fun m => ?_)
      | with_reducible refine audit_AddCachedDirRule_i (by with_unfolding_all rfl) ?_
      | (with_reducible refine audit_MOZ_RELEASE_ASSERT_ok_i (fun hr => ?_)) <;> subst hr
      | (with_reducible refine audit_MOZ_RELEASE_ASSERT_ok_i' (fun hr => ?_)) <;> subst hr
      | with_reducible refine audit_MOZ_RELEASE_ASSERT_i (fun _ => ?_)
      | with_reducible refine audit_MOZ_ASSERT_ok_i (fun hd => ?_)
      | with_reducible apply audit_MOZ_ASSERT_i
      | (with_reducible refine Broker.audit_ite_bne_i (fun hr => ?_) (fun hr => ?_)) <;> try subst hr
      | (with_reducible refine Broker.audit_ite_bne_i' (fun hr => ?_) (fun hr => ?_)) <;> try subst hr
      | with_reducible refine Broker.audit_ite_i (fun hc => ?_) (fun hc => ?_)
  all_goals first
    | exact audit_return_false hd hr
    | exact audit_return_false hdv hr
    | (simp [checkedCall, chromePipeRule, crashPipeRule, contentTrackedRules, gpuTrackedRules,
        pluginTrackedRules, rddTrackedRules, socketTrackedRules, gmpTrackedRules]; done)
    | (simp_all [checkedCall, chromePipeRule, crashPipeRule, contentTrackedRules,
        gpuTrackedRules, pluginTrackedRules, rddTrackedRules, socketTrackedRules,
        gmpTrackedRules]; done)

/-- The early `return false` of `SANDBOX_ENSURE_SUCCESS`: it is reached only in
a release build. -/
theorem audit_return_false {h : Host} {r : ResultCode} {ok : Prop} {rs rules : List Rule}
    (hd : h.DEBUG = true → r = SBOX_ALL_OK) (hr : r ≠ SBOX_ALL_OK) :
    ((false = true ∨ h.DEBUG = true) → ok) ∧ (h.DEBUG = true → false = true) ∧
      (false = true → rs = rules) := by
  have hD : ¬ h.DEBUG = true := fun hdb => hr (hd hdb)
  refine ⟨fun hor => ?_, fun hdb => (hD hdb).elim, fun hf => by cases hf⟩
  rcases hor with hf | hdb
  · cases hf
  · exact (hD hdb).elim

/-- A run of `SetSecurityLevelForPluginProcess` that returns `b`: if it returns
true, or returns at all in a debug build, every checked call was accepted; in a
debug build it returns true; and if it returns true the pipe, registry and handle rules
it asked for are the two pipe rules, its two handle rules and then its two
registry rules. -/
theorem plugin_audit (h : Host) (aSandboxLevel : Int) (p q : TargetPolicy) (b : Bool)
    (hrun : SetSecurityLevelForPluginProcess h aSandboxLevel (some p)
      = (Outcome.returned b, some q)) :
    ((b = true ∨ h.DEBUG = true) → allAccepted (p.callsSince q)) ∧
    (h.DEBUG = true → b = true) ∧
    (b = true → trackedRules (p.callsSince q) =
      pluginTrackedRules) := by
  unfold SetSecurityLevelForPluginProcess at hrun
  refine Member.falseWithoutPolicy_audit _
    (fun b rs ok => ((b = true ∨ h.DEBUG = true) → ok) ∧ (h.DEBUG = true → b = true) ∧
      (b = true → rs = pluginTrackedRules))
    ?_ p q b hrun
  clear hrun
  simp only [SetJobLevel_eq, ite_AddCachedDirRule, AddWin32kLockdownPolicy,
    TargetPolicy.SetTokenLevel, TargetPolicy.SetIntegrityLevel,
    TargetPolicy.SetDelayedIntegrityLevel, TargetPolicy.SetLockdownDefaultDacl,
    TargetPolicy.AddRestrictingRandomSid, TargetPolicy.SetAlternateDesktop,
    TargetPolicy.SetDelayedProcessMitigations, TargetPolicy.AddRule]
  repeat' first
    | with_reducible refine audit_IsWin8OrLater_i ?_ ?_
    | with_reducible refine Broker.audit_unit_block_i ?_ ?_
    | with_reducible refine Broker.audit_result_block_i h ?_ (fun v ok hok hdv => ?_)
    | with_reducible apply Broker.audit_bind_i
    | with_reducible apply Broker.audit_pure_i
    | with_reducible refine audit_ContentProcessLevels_i (fun levels => ?_)
    | with_reducible refine audit_GPUProcessLevels_i (fun levels => ?_)
    | with_reducible refine audit_SetProcessMitigations_i (fun r => ?_)
    | with_reducible refine audit_dirRule_i (by with_unfolding_all rfl) (fun r => ?_)
    | with_reducible refine audit_AddRule_i (by with_unfolding_all rfl) (fun r => ?_)
    | with_reducible refine audit_AddRule_other_i (by with_unfolding_all rfl) (fun r => ?_)
    | with_reducible refine audit_invoke_i (by with_unfolding_all rfl) (fun r => ?_)
    | with_reducible refine audit_invokeVoid_i (by with_unfolding_all rfl) ?_
    | with_reducible refine audit_GetProcessMitigations_i (fun m => ?_)
    | with_reducible refine audit_AddCachedDirRule_i (by with_unfolding_all rfl) ?_
    | (with_reducible refine audit_MOZ_RELEASE_ASSERT_ok_i (fun hr => ?_)) <;> subst hr
    | (with_reducible refine audit_MOZ_RELEASE_ASSERT_ok_i' (fun hr => ?_)) <;> subst hr
    | with_reducible refine audit_MOZ_RELEASE_ASSERT_i (fun _ => ?_)
    | with_reducible refine audit_MOZ_ASSERT_ok_i (fun hd => ?_)
    | with_reducible apply audit_MOZ_ASSERT_i
    | (with_reducible refine Broker.audit_ite_bne_i (fun hr => ?_) (fun hr => ?_)) <;> try subst hr
    | (with_reducible refine Broker.audit_ite_bne_i' (fun hr => ?_) (fun hr => ?_)) <;> try subst hr
    | with_reducible refine Broker.audit_ite_i (fun hc => ?_) (fun hc => ?_)
  all_goals first
    | exact audit_return_false hd hr
    | exact audit_return_false hdv hr
    | (simp [checkedCall, chromePipeRule, crashPipeRule, contentTrackedRules, gpuTrackedRules,
        pluginTrackedRules, rddTrackedRules, socketTrackedRules, gmpTrackedRules,
        pluginRegistryRules]; done)
    | (simp_all [checkedCall, chromePipeRule, crashPipeRule, contentTrackedRules,
        gpuTrackedRules, pluginTrackedRules, rddTrackedRules, socketTrackedRules,
        gmpTrackedRules,
        pluginRegistryRules]; done)

/-- A run of `SetSecurityLevelForRDDProcess` that returns `b`: if it returns
true, or returns at all in a debug build, every checked call was accepted; in a
debug build it returns true; and if it returns true the pipe, registry and handle rules
it asked for are the two pipe rules and then its two handle rules. -/
theorem rdd_audit (h : Host) (p q : TargetPolicy) (b : Bool)
    (hrun : SetSecurityLevelForRDDProcess h (some p) = (Outcome.returned b, some q)) :
    ((b = true ∨ h.DEBUG = true) → allAccepted (p.callsSince q)) ∧
    (h.DEBUG = true → b = true) ∧
    (b = true → trackedRules (p.callsSince q) = rddTrackedRules) := by
  unfold SetSecurityLevelForRDDProcess at hrun
  refine Member.falseWithoutPolicy_audit _
    (fun b rs ok => ((b = true ∨ h.DEBUG = true) → ok) ∧ (h.DEBUG = true → b = true) ∧
      (b = true → rs = rddTrackedRules))
    ?_ p q b hrun
  clear hrun
  simp only [SetJobLevel_eq, ite_AddCachedDirRule, AddWin32kLockdownPolicy,
    TargetPolicy.SetTokenLevel, TargetPolicy.SetIntegrityLevel,
    TargetPolicy.SetDelayedIntegrityLevel, TargetPolicy.SetLockdownDefaultDacl,
    TargetPolicy.AddRestrictingRandomSid, TargetPolicy.SetAlternateDesktop,
    TargetPolicy.SetDelayedProcessMitigations, TargetPolicy.AddRule]
  repeat' first
    | with_reducible refine audit_IsWin8OrLater_i ?_ ?_
    | with_reducible refine Broker.audit_unit_block_i ?_ ?_
    | with_reducible refine Broker.audit_result_block_i h ?_ (fun v ok hok hdv => ?_)
    | with_reducible apply Broker.audit_bind_i
    | with_reducible apply Broker.audit_pure_i
    | with_reducible refine audit_ContentProcessLevels_i (fun levels => ?_)
    | with_reducible refine audit_GPUProcessLevels_i (fun levels => ?_)
    | with_reducible refine audit_SetProcessMitigations_i (fun r => ?_)
    | with_reducible refine audit_dirRule_i (by with_unfolding_all rfl) (fun r => ?_)
    | with_reducible refine audit_AddRule_i (by with_unfolding_all rfl) (fun r => ?_)
    | with_reducible refine audit_AddRule_other_i (by with_unfolding_all rfl) (fun r => ?_)
    | with_reducible refine audit_invoke_i (by with_unfolding_all rfl) (fun r => ?_)
    | with_reducible refine audit_invokeVoid_i (by with_unfolding_all rfl) ?_
    | with_reducible refine audit_GetProcessMitigations_i (fun m => ?_)
    | with_reducible refine audit_AddCachedDirRule_i (by with_unfolding_all rfl) ?_
    | (with_reducible refine audit_MOZ_RELEASE_ASSERT_ok_i (fun hr => ?_)) <;> subst hr
    | (with_reducible refine audit_MOZ_RELEASE_ASSERT_ok_i' (fun hr => ?_)) <;> subst hr
    | with_reducible refine audit_MOZ_RELEASE_ASSERT_i (fun _ => ?_)
    | with_reducible refine audit_MOZ_ASSERT_ok_i (fun hd => ?_)
    | with_reducible apply audit_MOZ_ASSERT_i
    | (with_reducible refine Broker.audit_ite_bne_i (fun hr => ?_) (fun hr => ?_)) <;> try subst hr
    | (with_reducible refine Broker.audit_ite_bne_i' (fun hr => ?_) (fun hr => ?_)) <;> try subst hr
    | with_reducible refine Broker.audit_ite_i (fun hc => ?_) (fun hc => ?_)
  all_goals first
    | exact audit_return_false hd hr
    | exact audit_return_false hdv hr
    | (simp [checkedCall, chromePipeRule, crashPipeRule, contentTrackedRules, gpuTrackedRules,
        pluginTrackedRules, rddTrackedRules, socketTrackedRules, gmpTrackedRules]; done)
    | (simp_all [checkedCall, chromePipeRule, crashPipeRule, contentTrackedRules,
        gpuTrackedRules, pluginTrackedRules, rddTrackedRules, socketTrackedRules,
        gmpTrackedRules]; done)

/-- A run of `SetSecurityLevelForSocketProcess` that returns `b`: as for the
RDD procedure. -/
theorem socket_audit (h : Host) (p q : TargetPolicy) (b : Bool)
    (hrun : SetSecurityLevelForSocketProcess h (some p) = (Outcome.returned b, some q)) :
    ((b = true ∨ h.DEBUG = true) → allAccepted (p.callsSince q)) ∧
    (h.DEBUG = true → b = true) ∧
    (b = true → trackedRules (p.callsSince q) = socketTrackedRules) := by
  unfold SetSecurityLevelForSocketProcess at hrun
  refine Member.falseWithoutPolicy_audit _
    (fun b rs ok => ((b = true ∨ h.DEBUG = true) → ok) ∧ (h.DEBUG = true → b = true) ∧
      (b = true → rs = socketTrackedRules))
    ?_ p q b hrun
  clear hrun
  simp only [SetJobLevel_eq, ite_AddCachedDirRule, AddWin32kLockdownPolicy,
    TargetPolicy.SetTokenLevel, TargetPolicy.SetIntegrityLevel,
    TargetPolicy.SetDelayedIntegrityLevel, TargetPolicy.SetLockdownDefaultDacl,
    TargetPolicy.AddRestrictingRandomSid, TargetPolicy.SetAlternateDesktop,
    TargetPolicy.SetDelayedProcessMitigations, TargetPolicy.AddRule]
  repeat' first
    | with_reducible refine audit_IsWin8OrLater_i ?_ ?_
    | with_reducible refine Broker.audit_unit_block_i ?_ ?_
    | with_reducible refine Broker.audit_result_block_i h ?_ (fun v ok hok hdv => ?_)
    | with_reducible apply Broker.audit_bind_i
    | with_reducible apply Broker.audit_pure_i
    | with_reducible refine audit_ContentProcessLevels_i (fun levels => ?_)
    | with_reducible refine audit_GPUProcessLevels_i (fun levels => ?_)
    | with_reducible refine audit_SetProcessMitigations_i (fun r => ?_)
    | with_reducible refine audit_dirRule_i (by with_unfolding_all rfl) (fun r => ?_)
    | with_reducible refine audit_AddRule_i (by with_unfolding_all rfl) (fun r => ?_)
    | with_reducible refine audit_AddRule_other_i (by with_unfolding_all rfl) (fun r => ?_)
    | with_reducible refine audit_invoke_i (by with_unfolding_all rfl) (fun r => ?_)
    | with_reducible refine audit_invokeVoid_i (by with_unfolding_all rfl) ?_
    | with_reducible refine audit_GetProcessMitigations_i (fun m => ?_)
    | with_reducible refine audit_AddCachedDirRule_i (by with_unfolding_all rfl) ?_
    | (with_reducible refine audit_MOZ_RELEASE_ASSERT_ok_i (fun hr => ?_)) <;> subst hr
    | (with_reducible refine audit_MOZ_RELEASE_ASSERT_ok_i' (fun hr => ?_)) <;> subst hr
    | with_reducible refine audit_MOZ_RELEASE_ASSERT_i (fun _ => ?_)
    | with_reducible refine audit_MOZ_ASSERT_ok_i (fun hd => ?_)
    | with_reducible apply audit_MOZ_ASSERT_i
    | (with_reducible refine Broker.audit_ite_bne_i (fun hr => ?_) (fun hr => ?_)) <;> try subst hr
    | (with_reducible refine Broker.audit_ite_bne_i' (fun hr => ?_) (fun hr => ?_)) <;> try subst hr
    | with_reducible refine Broker.audit_ite_i (fun hc => ?_) (fun hc => ?_)
  all_goals first
    | exact audit_return_false hd hr
    | exact audit_return_false hdv hr
    | (simp [checkedCall, chromePipeRule, crashPipeRule, contentTrackedRules, gpuTrackedRules,
        pluginTrackedRules, rddTrackedRules, socketTrackedRules, gmpTrackedRules]; done)
    | (simp_all [checkedCall, chromePipeRule, crashPipeRule, contentTrackedRules,
        gpuTrackedRules, pluginTrackedRules, rddTrackedRules, socketTrackedRules,
        gmpTrackedRules]; done)

/-- A run of `SetSecurityLevelForGMPlugin` that returns `b`: if it returns
true, or returns at all in a debug build, every checked call was accepted; in a
debug build it returns true; and if it returns true the pipe, registry and handle rules
it asked for are the two pipe rules, the ten registry rules and then its
handle rule. -/
theorem gmp_audit (h : Host) (aLevel : SandboxLevel) (aIsRemoteLaunch : Bool)
    (p q : TargetPolicy) (b : Bool)
    (hrun : SetSecurityLevelForGMPlugin h aLevel aIsRemoteLaunch (some p)
      = (Outcome.returned b, some q)) :
    ((b = true ∨ h.DEBUG = true) → allAccepted (p.callsSince q)) ∧
    (h.DEBUG = true → b = true) ∧
    (b = true → trackedRules (p.callsSince q) =
      gmpTrackedRules aIsRemoteLaunch) := by
  unfold SetSecurityLevelForGMPlugin at hrun
  refine Member.falseWithoutPolicy_audit _
    (fun b rs ok => ((b = true ∨ h.DEBUG = true) → ok) ∧ (h.DEBUG = true → b = true) ∧
      (b = true → rs = gmpTrackedRules aIsRemoteLaunch))
    ?_ p q b hrun
  clear hrun
  simp only [SetJobLevel_eq, ite_AddCachedDirRule, AddWin32kLockdownPolicy,
    TargetPolicy.SetTokenLevel, TargetPolicy.SetIntegrityLevel,
    TargetPolicy.SetDelayedIntegrityLevel, TargetPolicy.SetLockdownDefaultDacl,
    TargetPolicy.AddRestrictingRandomSid, TargetPolicy.SetAlternateDesktop,
    TargetPolicy.SetDelayedProcessMitigations, TargetPolicy.AddRule]
  repeat' first
    | with_reducible refine audit_IsWin8OrLater_i ?_ ?_
    | with_reducible refine Broker.audit_unit_block_i ?_ ?_
    | with_reducible refine Broker.audit_result_block_i h ?_ (fun v ok hok hdv => ?_)
    | with_reducible apply Broker.audit_bind_i
    | with_reducible apply Broker.audit_pure_i
    | with_reducible refine audit_ContentProcessLevels_i (fun levels => ?_)
    | with_reducible refine audit_GPUProcessLevels_i (fun levels => ?_)
    | with_reducible refine audit_SetProcessMitigations_i (fun r => ?_)
    | with_reducible refine audit_dirRule_i (by with_unfolding_all rfl) (fun r => ?_)
    | with_reducible refine audit_AddRule_i (by with_unfolding_all rfl) (fun r => ?_)
    | with_reducible refine audit_AddRule_other_i (by with_unfolding_all rfl) (fun r => ?_)
    | with_reducible refine audit_invoke_i (by with_unfolding_all rfl) (fun r => ?_)
    | with_reducible refine audit_invokeVoid_i (by with_unfolding_all rfl) ?_
    | with_reducible refine audit_GetProcessMitigations_i (fun m => ?_)
    | with_reducible refine audit_AddCachedDirRule_i (by with_unfolding_all rfl) ?_
    | (with_reducible refine audit_MOZ_RELEASE_ASSERT_ok_i (fun hr => ?_)) <;> subst hr
    | (with_reducible refine audit_MOZ_RELEASE_ASSERT_ok_i' (fun hr => ?_)) <;> subst hr
    | with_reducible refine audit_MOZ_RELEASE_ASSERT_i (fun _ => ?_)
    | with_reducible refine audit_MOZ_ASSERT_ok_i (fun hd => ?_)
    | with_reducible apply audit_MOZ_ASSERT_i
    | (with_reducible refine Broker.audit_ite_bne_i (fun hr => ?_) (fun hr => ?_)) <;> try subst hr
    | (with_reducible refine Broker.audit_ite_bne_i' (fun hr => ?_) (fun hr => ?_)) <;> try subst hr
    | with_reducible refine Broker.audit_ite_i (fun hc => ?_) (fun hc => ?_)
  all_goals first
    | exact audit_return_false hd hr
    | exact audit_return_false hdv hr
    | (simp [checkedCall, chromePipeRule, crashPipeRule, contentTrackedRules, gpuTrackedRules,
        pluginTrackedRules, rddTrackedRules, socketTrackedRules, gmpTrackedRules,
        gmpRegistryPatterns]; done)
    | (simp_all [checkedCall, chromePipeRule, crashPipeRule, contentTrackedRules,
        gpuTrackedRules, pluginTrackedRules, rddTrackedRules, socketTrackedRules,
        gmpTrackedRules,
        gmpRegistryPatterns]; done)

/-! ## Rules for a run on a policy object that accepts every call -/

theorem TargetPolicy.rules_append_call (p : TargetPolicy) (e : LoggedCall) :
    ({ p with log := p.log ++ [e] } : TargetPolicy).rules
      = p.rules ++ (match e.call with
          | PolicyCall.AddRule s a pat => if e.result = SBOX_ALL_OK then [(s, a, pat)] else []
          | _ => []) := by
  unfold TargetPolicy.rules
  simp only [List.filterMap_append, List.filterMap_cons, List.filterMap_nil]
  congr 1
  split <;> split <;> simp_all

theorem Broker.acceptedRun_pure_i {α : Type} (a : α) (m : MitigationFlags) :
    Broker.acceptedRun (pure a) m a [] m := by
  intro p _ hm
  exact ⟨rfl, rfl, by simp, hm⟩

theorem Broker.acceptedRun_bind_i {α β : Type} {x : Broker α} {f : α → Broker β}
    {m m' m'' : MitigationFlags} {v : α} {w : β} {rs rs' : List Rule}
    (hx : Broker.acceptedRun x m v rs m') (hf : Broker.acceptedRun (f v) m' w rs' m'') :
    Broker.acceptedRun (x >>= f) m w (rs ++ rs') m'' := by
  intro p hp hm
  obtain ⟨hv, hresp, hrules, hmit⟩ := hx p hp hm
  rw [Broker.bind_apply]
  unfold Broker.bind
  rcases hxp : x p with ⟨o, q⟩
  rw [hxp] at hv hresp hrules hmit
  simp only at hv hresp hrules hmit
  subst hv
  obtain ⟨hw, hresp2, hrules2, hmit2⟩ := hf q (fun n c => by rw [hresp]; exact hp n c) hmit
  refine ⟨hw, hresp2.trans hresp, ?_, hmit2⟩
  show (f v q).2.rules = _
  rw [hrules2, hrules, List.append_assoc]

theorem Broker.acceptedRun_ite_i {α : Type} {c : Prop} {_ : Decidable c} {x y : Broker α}
    {m m1 m2 : MitigationFlags} {v : α} {rs1 rs2 : List Rule}
    (hx : c → Broker.acceptedRun x m v rs1 m1) (hy : ¬ c → Broker.acceptedRun y m v rs2 m2) :
    Broker.acceptedRun (if c then x else y) m v (if c then rs1 else rs2)
      (if c then m1 else m2) := by
  by_cases hc : c
  · simp only [if_pos hc]; exact hx hc
  · simp only [if_neg hc]; exact hy hc

theorem Broker.acceptedRun_else_i {α : Type} {c : Prop} {_ : Decidable c} {x y : Broker α}
    {m m' : MitigationFlags} {v : α} {rs : List Rule} (hc : ¬ c)
    (hy : Broker.acceptedRun y m v rs m') :
    Broker.acceptedRun (if c then x else y) m v rs m' := by
  rw [if_neg hc]; exact hy

theorem Broker.acceptedRun_then_i {α : Type} {c : Prop} {_ : Decidable c} {x y : Broker α}
    {m m' : MitigationFlags} {v : α} {rs : List Rule} (hc : c)
    (hx : Broker.acceptedRun x m v rs m') :
    Broker.acceptedRun (if c then x else y) m v rs m' := by
  rw [if_pos hc]; exact hx

theorem acceptedRun_invoke_i {c : PolicyCall} (m : MitigationFlags)
    (hc : LoggedCall.rule ⟨c, SBOX_ALL_OK⟩ = none) :
    Broker.acceptedRun (TargetPolicy.invoke c) m SBOX_ALL_OK [] m := by
  intro p hp hm
  refine ⟨by simp [TargetPolicy.invoke, hp], rfl, ?_, hm⟩
  show ({ p with log := p.log ++ [⟨c, p.respond p.log.length c⟩] } : TargetPolicy).rules = _
  rw [TargetPolicy.rules_append_call]
  congr 1
  simp only [LoggedCall.rule] at hc
  split
  · next s a pat heq => simp only at heq; rw [heq] at hc; simp at hc
  · rfl

theorem acceptedRun_AddRule_i (s : SubSystem) (a : Semantics) (pat : Option nsString)
    (m : MitigationFlags) :
    Broker.acceptedRun (TargetPolicy.invoke (PolicyCall.AddRule s a pat)) m SBOX_ALL_OK
      [(s, a, pat)] m := by
  intro p hp hm
  refine ⟨by simp [TargetPolicy.invoke, hp], rfl, ?_, hm⟩
  show ({ p with log := p.log ++ [⟨PolicyCall.AddRule s a pat, p.respond p.log.length _⟩] }
    : TargetPolicy).rules = _
  rw [TargetPolicy.rules_append_call]
  simp [hp]

theorem acceptedRun_invokeVoid_i {c : PolicyCall} (m : MitigationFlags)
    (hc : LoggedCall.rule ⟨c, SBOX_ALL_OK⟩ = none) :
    Broker.acceptedRun (TargetPolicy.invokeVoid c) m () [] m := by
  intro p hp hm
  refine ⟨rfl, rfl, ?_, hm⟩
  show ({ p with log := p.log ++ [⟨c, SBOX_ALL_OK⟩] } : TargetPolicy).rules = _
  rw [TargetPolicy.rules_append_call]
  congr 1
  simp only [LoggedCall.rule] at hc
  split
  · next s a pat heq => simp only at heq; rw [heq] at hc; simp at hc
  · rfl

theorem acceptedRun_GetProcessMitigations_i (m : MitigationFlags) :
    Broker.acceptedRun TargetPolicy.GetProcessMitigations m m [] m := by
  intro p _ hm
  exact ⟨by simp [TargetPolicy.GetProcessMitigations, hm], rfl, by
    simp [TargetPolicy.GetProcessMitigations], hm⟩

theorem acceptedRun_SetProcessMitigations_i (flags m : MitigationFlags) :
    Broker.acceptedRun (TargetPolicy.SetProcessMitigations flags) m SBOX_ALL_OK [] flags := by
  intro p hp _
  refine ⟨by simp [TargetPolicy.SetProcessMitigations, hp], rfl, ?_, by
    simp [TargetPolicy.SetProcessMitigations, hp]⟩
  show ({ p with log := p.log ++ [⟨PolicyCall.SetProcessMitigations flags, _⟩] }
    : TargetPolicy).rules = _
  rw [TargetPolicy.rules_append_call]

theorem acceptedRun_MOZ_RELEASE_ASSERT_i {c : Bool} (m : MitigationFlags) (hc : c = true) :
    Broker.acceptedRun (MOZ_RELEASE_ASSERT c) m () [] m := by
  intro p _ hm
  subst hc
  exact ⟨rfl, rfl, by simp [MOZ_RELEASE_ASSERT], hm⟩

theorem acceptedRun_MOZ_ASSERT_i {h : Host} {c : Bool} (m : MitigationFlags)
    (hc : h.DEBUG = true → c = true) : Broker.acceptedRun (MOZ_ASSERT h c) m () [] m := by
  intro p _ hm
  have hrun : MOZ_ASSERT h c p = (Outcome.returned (), p) := by
    unfold MOZ_ASSERT
    cases hd : h.DEBUG
    · simp
    · simp [hc hd]
  rw [hrun]
  exact ⟨rfl, rfl, by simp, hm⟩

theorem acceptedRun_AddCachedDirRule_i (aAccess : Semantics) (aBaseDir : Option nsString)
    (aRelativePath : nsString) (m : MitigationFlags) :
    Broker.acceptedRun (AddCachedDirRule aAccess aBaseDir aRelativePath) m ()
      (cachedDirRule aAccess aBaseDir aRelativePath) m := by
  cases aBaseDir with
  | none => exact Broker.acceptedRun_pure_i () m
  | some baseDir =>
    exact Broker.acceptedRun_bind_i (acceptedRun_AddRule_i _ _ _ m) (Broker.acceptedRun_pure_i () m)

theorem acceptedRun_ContentProcessLevels_i (h : Host) (aSandboxLevel : Int) (m : MitigationFlags)
    (ht : 1 ≤ aSandboxLevel) :
    Broker.acceptedRun (ContentProcessLevels h aSandboxLevel) m (contentLevelsOf aSandboxLevel)
      [] m := by
  unfold ContentProcessLevels contentLevelsOf
  split_ifs
  · exact Broker.acceptedRun_pure_i _ m
  · exact Broker.acceptedRun_pure_i _ m
  · exact Broker.acceptedRun_pure_i _ m
  · exact Broker.acceptedRun_pure_i _ m
  · exact Broker.acceptedRun_bind_i
      (acceptedRun_MOZ_ASSERT_i m (fun _ => decide_eq_true (by omega)))
      (Broker.acceptedRun_pure_i _ m)

theorem Member.releaseAssertPolicy_accepted {α : Type} (body : Broker α) (p : TargetPolicy)
    (hp : ∀ n c, p.respond n c = SBOX_ALL_OK) {v : α} {rs : List Rule} {m' : MitigationFlags}
    (rules : List Rule) (hbody : Broker.acceptedRun body p.mitigations v rs m')
    (hrules : rs = rules) :
    ∃ q, Member.releaseAssertPolicy body (some p) = (Outcome.returned v, some q) ∧
      q.rules = p.rules ++ rules := by
  obtain ⟨hv, -, hr, -⟩ := hbody p hp rfl
  subst hrules
  exact ⟨(body p).2, by simp [Member.releaseAssertPolicy, hv], hr⟩

theorem Member.falseWithoutPolicy_accepted (body : Broker Bool) (p : TargetPolicy)
    (hp : ∀ n c, p.respond n c = SBOX_ALL_OK) {v : Bool} {rs : List Rule} {m' : MitigationFlags}
    (rules : List Rule) (hbody : Broker.acceptedRun body p.mitigations v rs m')
    (hrules : rs = rules) :
    ∃ q, Member.falseWithoutPolicy body (some p) = (Outcome.returned v, some q) ∧
      q.rules = p.rules ++ rules := by
  obtain ⟨hv, -, hr, -⟩ := hbody p hp rfl
  subst hrules
  exact ⟨(body p).2, by simp [Member.falseWithoutPolicy, hv], hr⟩

theorem cachedDirRule_none (aAccess : Semantics) (aRelativePath : nsString) :
    cachedDirRule aAccess none aRelativePath = [] := rfl

/-- On a policy object that accepts every call, `SetSecurityLevelForContentProcess`
at a level of at least 1 returns and has added the rules of its list, in
order. -/
theorem content_accepted (h : Host) (aSandboxLevel : Int) (aIsFileProcess : Bool)
    (ht : 1 ≤ aSandboxLevel) (p : TargetPolicy) (hp : ∀ n c, p.respond n c = SBOX_ALL_OK) :
    ∃ q, SetSecurityLevelForContentProcess h aSandboxLevel aIsFileProcess (some p)
        = (Outcome.returned (), some q) ∧
      q.rules = p.rules ++ contentRuleList h aSandboxLevel aIsFileProcess := by
  unfold SetSecurityLevelForContentProcess
  apply Member.releaseAssertPolicy_accepted _ p hp
    (contentRuleList h aSandboxLevel aIsFileProcess)
  simp only [SetJobLevel_eq, ite_AddCachedDirRule, AddWin32kLockdownPolicy,
    TargetPolicy.SetTokenLevel, TargetPolicy.SetIntegrityLevel,
    TargetPolicy.SetDelayedIntegrityLevel, TargetPolicy.SetLockdownDefaultDacl,
    TargetPolicy.AddRestrictingRandomSid, TargetPolicy.SetAlternateDesktop,
    TargetPolicy.SetDelayedProcessMitigations, TargetPolicy.AddRule]
  repeat' first
    | with_reducible apply Broker.acceptedRun_bind_i
    | with_reducible apply Broker.acceptedRun_pure_i
    | with_reducible apply acceptedRun_ContentProcessLevels_i
    | with_reducible apply acceptedRun_SetProcessMitigations_i
    | with_reducible apply acceptedRun_AddRule_i
    | with_reducible refine acceptedRun_invoke_i _ (by with_unfolding_all rfl)
    | with_reducible refine acceptedRun_invokeVoid_i _ (by with_unfolding_all rfl)
    | with_reducible apply acceptedRun_GetProcessMitigations_i
    | with_reducible apply acceptedRun_AddCachedDirRule_i
    | with_reducible refine acceptedRun_MOZ_RELEASE_ASSERT_i _ ?_
    | with_reducible refine acceptedRun_MOZ_ASSERT_i _ ?_
    | (with_reducible apply Broker.acceptedRun_else_i; decide)
    | (with_reducible apply Broker.acceptedRun_then_i; decide)
    | (with_reducible apply Broker.acceptedRun_ite_i) <;> try intro hc
  all_goals first
    | rfl
    | exact ht
    | exact decide_eq_true ht
    | exact fun _ => by simp [WIN32K_DISABLE_not_mem_ContentProcessMitigations]
    | (cases hw : h.security_sandbox_content_win32k_disable <;> cases h8 : h.IsWin8OrLater <;>
        cases he : h.ENABLE_SYSTEM_EXTENSION_DIRS <;>
        simp [contentRuleList, win32kRule, cachedDirRule_none, chromePipeRule, crashPipeRule,
          hw, h8, he])

/-- On a policy object that accepts every call, `SetSecurityLevelForPluginProcess`
returns true and has added the rules of its list, in order. -/
theorem plugin_accepted (h : Host) (aSandboxLevel : Int) (p : TargetPolicy)
    (hp : ∀ n c, p.respond n c = SBOX_ALL_OK) :
    ∃ q, SetSecurityLevelForPluginProcess h aSandboxLevel (some p)
        = (Outcome.returned true, some q) ∧
      q.rules = p.rules ++ pluginRuleList h aSandboxLevel := by
  unfold SetSecurityLevelForPluginProcess
  apply Member.falseWithoutPolicy_accepted _ p hp (pluginRuleList h aSandboxLevel)
  simp only [SetJobLevel_eq, ite_AddCachedDirRule, AddWin32kLockdownPolicy,
    TargetPolicy.SetTokenLevel, TargetPolicy.SetIntegrityLevel,
    TargetPolicy.SetDelayedIntegrityLevel, TargetPolicy.SetLockdownDefaultDacl,
    TargetPolicy.AddRestrictingRandomSid, TargetPolicy.SetAlternateDesktop,
    TargetPolicy.SetDelayedProcessMitigations, TargetPolicy.AddRule]
  repeat' first
    | with_reducible apply Broker.acceptedRun_bind_i
    | with_reducible apply Broker.acceptedRun_pure_i
    | with_reducible apply acceptedRun_ContentProcessLevels_i
    | with_reducible apply acceptedRun_SetProcessMitigations_i
    | with_reducible apply acceptedRun_AddRule_i
    | with_reducible refine acceptedRun_invoke_i _ (by with_unfolding_all rfl)
    | with_reducible refine acceptedRun_invokeVoid_i _ (by with_unfolding_all rfl)
    | with_reducible apply acceptedRun_GetProcessMitigations_i
    | with_reducible apply acceptedRun_AddCachedDirRule_i
    | with_reducible refine acceptedRun_MOZ_RELEASE_ASSERT_i _ ?_
    | with_reducible refine acceptedRun_MOZ_ASSERT_i _ ?_
    | (with_reducible apply Broker.acceptedRun_else_i; decide)
    | (with_reducible apply Broker.acceptedRun_then_i; decide)
    | (with_reducible apply Broker.acceptedRun_ite_i) <;> try intro hc
  all_goals first
    | rfl
    | (intro _
       rfl)
    | simp [pluginRuleList, cachedDirRule_none, chromePipeRule, crashPipeRule]


/-- On a policy object that accepts every call, `SetSecurityLevelForRDDProcess`
returns true and has added the rules of its list, in order. -/
theorem rdd_accepted (h : Host) (p : TargetPolicy) (hp : ∀ n c, p.respond n c = SBOX_ALL_OK) :
    ∃ q, SetSecurityLevelForRDDProcess h (some p) = (Outcome.returned true, some q) ∧
      q.rules = p.rules ++ rddRuleList h := by
  unfold SetSecurityLevelForRDDProcess
  apply Member.falseWithoutPolicy_accepted _ p hp (rddRuleList h)
  simp only [SetJobLevel_eq, ite_AddCachedDirRule, AddWin32kLockdownPolicy,
    TargetPolicy.SetTokenLevel, TargetPolicy.SetIntegrityLevel,
    TargetPolicy.SetDelayedIntegrityLevel, TargetPolicy.SetLockdownDefaultDacl,
    TargetPolicy.AddRestrictingRandomSid, TargetPolicy.SetAlternateDesktop,
    TargetPolicy.SetDelayedProcessMitigations, TargetPolicy.AddRule]
  repeat' first
    | with_reducible apply Broker.acceptedRun_bind_i
    | with_reducible apply Broker.acceptedRun_pure_i
    | with_reducible apply acceptedRun_ContentProcessLevels_i
    | with_reducible apply acceptedRun_SetProcessMitigations_i
    | with_reducible apply acceptedRun_AddRule_i
    | with_reducible refine acceptedRun_invoke_i _ (by with_unfolding_all rfl)
    | with_reducible refine acceptedRun_invokeVoid_i _ (by with_unfolding_all rfl)
    | with_reducible apply acceptedRun_GetProcessMitigations_i
    | with_reducible apply acceptedRun_AddCachedDirRule_i
    | with_reducible refine acceptedRun_MOZ_RELEASE_ASSERT_i _ ?_
    | with_reducible refine acceptedRun_MOZ_ASSERT_i _ ?_
    | (with_reducible apply Broker.acceptedRun_else_i; decide)
    | (with_reducible apply Broker.acceptedRun_then_i; decide)
    | (with_reducible apply Broker.acceptedRun_ite_i) <;> try intro hc
  all_goals first
    | rfl
    | (intro _
       rfl)
    | (intro _
       decide)
    | (cases hw : h.security_sandbox_rdd_win32k_disable <;> cases h8 : h.IsWin8OrLater <;>
        simp [rddRuleList, win32kRule, chromePipeRule, crashPipeRule, hw, h8])

/-! ## Unresolved directories -/

theorem withoutAbsent_append (absent : CachedDir → Bool) (l₁ l₂ : List KeyedRule) :
    withoutAbsent absent (l₁ ++ l₂) = withoutAbsent absent l₁ ++ withoutAbsent absent l₂ := by
  simp [withoutAbsent]

theorem withoutAbsent_nil (absent : CachedDir → Bool) : withoutAbsent absent [] = [] := rfl

theorem withoutAbsent_unkeyed (absent : CachedDir → Bool) (rules : List Rule) :
    withoutAbsent absent (unkeyed rules) = rules := by
  induction rules with
  | nil => rfl
  | cons r rs ih =>
    simp only [withoutAbsent, unkeyed, List.map_cons] at ih ⊢
    rw [List.filter_cons_of_pos (by rfl), List.map_cons, ih]

theorem withoutAbsent_keyedDirRule (h : Host) (absent : CachedDir → Bool) (key : CachedDir)
    (aAccess : Semantics) (aRelativePath : nsString) :
    withoutAbsent absent (keyedDirRule h key aAccess aRelativePath)
      = cachedDirRule aAccess ((h.without absent).dir key) aRelativePath := by
  have hdir : (h.without absent).dir key = if absent key then none else h.dir key := by
    cases key <;> rfl
  rw [hdir]
  unfold keyedDirRule withoutAbsent
  cases hd : h.dir key with
  | none => cases absent key <;> rfl
  | some baseDir =>
    cases ha : absent key
    · simp [cachedDirRule, KeyedRule.stays, ha]
    · simp [cachedDirRule, KeyedRule.stays, ha]

theorem keyedDirRule_map_snd (h : Host) (key : CachedDir) (aAccess : Semantics)
    (aRelativePath : nsString) :
    (keyedDirRule h key aAccess aRelativePath).map Prod.snd
      = cachedDirRule aAccess (h.dir key) aRelativePath := by
  simp [keyedDirRule, Function.comp_def]

theorem unkeyed_map_snd (rules : List Rule) : (unkeyed rules).map Prod.snd = rules := by
  simp [unkeyed, Function.comp_def]

/-- The rule list of the content procedure is its keyed list without the
keys. -/
theorem contentRuleList_eq_keyed (h : Host) (aSandboxLevel : Int) (aIsFileProcess : Bool) :
    contentRuleList h aSandboxLevel aIsFileProcess
      = (contentKeyedRuleList h aSandboxLevel aIsFileProcess).map Prod.snd := by
  unfold contentKeyedRuleList
  simp only [List.map_append, apply_ite (List.map Prod.snd), keyedDirRule_map_snd,
    unkeyed_map_snd, List.map_nil]
  rfl

/-- With unresolved directories the rule list of the content procedure is its
keyed list without the rules keyed on them. -/
theorem contentRuleList_without (h : Host) (absent : CachedDir → Bool) (aSandboxLevel : Int)
    (aIsFileProcess : Bool) :
    contentRuleList (h.without absent) aSandboxLevel aIsFileProcess
      = withoutAbsent absent (contentKeyedRuleList h aSandboxLevel aIsFileProcess) := by
  unfold contentKeyedRuleList
  simp only [withoutAbsent_append, apply_ite (withoutAbsent absent), withoutAbsent_keyedDirRule,
    withoutAbsent_unkeyed, withoutAbsent_nil]
  rfl

theorem pluginRuleList_eq_keyed (h : Host) (aSandboxLevel : Int) :
    pluginRuleList h aSandboxLevel = (pluginKeyedRuleList h aSandboxLevel).map Prod.snd := by
  unfold pluginKeyedRuleList
  simp only [List.map_append, apply_ite (List.map Prod.snd), keyedDirRule_map_snd,
    unkeyed_map_snd, List.map_nil]
  rfl

theorem pluginRuleList_without (h : Host) (absent : CachedDir → Bool) (aSandboxLevel : Int) :
    pluginRuleList (h.without absent) aSandboxLevel
      = withoutAbsent absent (pluginKeyedRuleList h aSandboxLevel) := by
  unfold pluginKeyedRuleList
  simp only [withoutAbsent_append, apply_ite (withoutAbsent absent), withoutAbsent_keyedDirRule,
    withoutAbsent_unkeyed, withoutAbsent_nil]
  rfl

/-- C29: on a policy object that accepts every call, for every level (at least
1 for the content procedure), every host and every set `absent` of cached
directories that could not be resolved, `SetSecurityLevelForContentProcess`
returns and `SetSecurityLevelForPluginProcess` returns true, as they do on the
host itself, and the rules added are, in order, the rules added on the host
itself without exactly those keyed on a directory of `absent`. -/
theorem unresolved_directories_remove_only_their_rules (h : Host)
    (absent : CachedDir → Bool) (aSandboxLevel aPluginLevel : Int) (aIsFileProcess : Bool)
    (p : TargetPolicy) (hp : ∀ n c, p.respond n c = SBOX_ALL_OK) (ht : 1 ≤ aSandboxLevel) :
    (∃ q, SetSecurityLevelForContentProcess h aSandboxLevel aIsFileProcess (some p)
        = (Outcome.returned (), some q) ∧
      q.rules = p.rules ++
        (contentKeyedRuleList h aSandboxLevel aIsFileProcess).map Prod.snd) ∧
    (∃ q, SetSecurityLevelForContentProcess (h.without absent) aSandboxLevel aIsFileProcess
          (some p) = (Outcome.returned (), some q) ∧
      q.rules = p.rules ++
        withoutAbsent absent (contentKeyedRuleList h aSandboxLevel aIsFileProcess)) ∧
    (∃ q, SetSecurityLevelForPluginProcess h aPluginLevel (some p)
        = (Outcome.returned true, some q) ∧
      q.rules = p.rules ++ (pluginKeyedRuleList h aPluginLevel).map Prod.snd) ∧
    (∃ q, SetSecurityLevelForPluginProcess (h.without absent) aPluginLevel (some p)
        = (Outcome.returned true, some q) ∧
      q.rules = p.rules ++ withoutAbsent absent (pluginKeyedRuleList h aPluginLevel)) := by
  refine ⟨?_, ?_, ?_, ?_⟩
  · rw [← contentRuleList_eq_keyed]
    exact content_accepted h aSandboxLevel aIsFileProcess ht p hp
  · rw [← contentRuleList_without]
    exact content_accepted (h.without absent) aSandboxLevel aIsFileProcess ht p hp
  · rw [← pluginRuleList_eq_keyed]
    exact plugin_accepted h aPluginLevel p hp
  · rw [← pluginRuleList_without]
    exact plugin_accepted (h.without absent) aPluginLevel p hp

/-- The directories the sample run leaves unresolved: the profile directory and
the content temporary directory. -/
theorem unresolved_directories_remove_only_their_rules_witness :
    (∀ n c, acceptingPolicy.respond n c = SBOX_ALL_OK) ∧ (1 : Int) ≤ 3 ∧
    (∃ q, SetSecurityLevelForContentProcess
          (releaseHost.without fun d => d = CachedDir.Profile || d = CachedDir.ContentTemp) 3
          false (some acceptingPolicy) = (Outcome.returned (), some q) ∧
      q.rules = acceptingPolicy.rules ++
        withoutAbsent (fun d => d = CachedDir.Profile || d = CachedDir.ContentTemp)
          (contentKeyedRuleList releaseHost 3 false)) :=
  ⟨fun _ _ => rfl, by decide,
    (unresolved_directories_remove_only_their_rules releaseHost
      (fun d => d = CachedDir.Profile || d = CachedDir.ContentTemp) 3 2 false acceptingPolicy
      (fun _ _ => rfl) (by decide)).2.1⟩

/-! ## Pipe rules -/

/-- Among the rules a run asked for, a kind of rule that is always tracked can
be read off the tracked rules. -/
theorem filter_requestedRules (es : List LoggedCall) (φ : Rule → Bool)
    (hφ : ∀ r ∈ requestedRules es, φ r = true → isTrackedRule r = true) :
    (requestedRules es).filter φ = (trackedRules es).filter φ := by
  unfold trackedRules
  rw [List.filter_filter]
  apply List.filter_congr
  intro r hr
  cases hp : φ r
  · simp
  · simp [hφ r hr hp]

/-- C22 (amended): a rejected token level, mitigation word, delayed mitigation
word or rule with a fixed pattern.  In the content and GPU procedures it is
fatal in every build: a run that returns had every such call accepted.  In the
plugin, RDD, socket and GMP procedures it is fatal in a debug build only, where
a run that returns has returned true with every such call accepted; in a
release build a run that returns true had every such call accepted, so that a
rejection makes the procedure return false. -/
theorem rejected_step_is_fatal_or_returns_false :
    (∀ h aSandboxLevel aIsFileProcess p q,
      SetSecurityLevelForContentProcess h aSandboxLevel aIsFileProcess (some p)
        = (Outcome.returned (), some q) → allAccepted (p.callsSince q)) ∧
    (∀ h aSandboxLevel aProfileDir p q,
      SetSecurityLevelForGPUProcess h aSandboxLevel aProfileDir (some p)
        = (Outcome.returned (), some q) → allAccepted (p.callsSince q)) ∧
    (∀ h aSandboxLevel p q b,
      SetSecurityLevelForPluginProcess h aSandboxLevel (some p) = (Outcome.returned b, some q) →
      ((b = true ∨ h.DEBUG = true) → allAccepted (p.callsSince q)) ∧
        (h.DEBUG = true → b = true)) ∧
    (∀ h p q b, SetSecurityLevelForRDDProcess h (some p) = (Outcome.returned b, some q) →
      ((b = true ∨ h.DEBUG = true) → allAccepted (p.callsSince q)) ∧
        (h.DEBUG = true → b = true)) ∧
    (∀ h p q b, SetSecurityLevelForSocketProcess h (some p) = (Outcome.returned b, some q) →
      ((b = true ∨ h.DEBUG = true) → allAccepted (p.callsSince q)) ∧
        (h.DEBUG = true → b = true)) ∧
    (∀ h aLevel aIsRemoteLaunch p q b,
      SetSecurityLevelForGMPlugin h aLevel aIsRemoteLaunch (some p)
        = (Outcome.returned b, some q) →
      ((b = true ∨ h.DEBUG = true) → allAccepted (p.callsSince q)) ∧
        (h.DEBUG = true → b = true)) :=
  ⟨fun h t file p q hrun => (content_audit h t file p q hrun).1,
    fun h t dir p q hrun => (gpu_audit h t dir p q hrun).1,
    fun h t p q b hrun =>
      ⟨(plugin_audit h t p q b hrun).1, (plugin_audit h t p q b hrun).2.1⟩,
    fun h p q b hrun => ⟨(rdd_audit h p q b hrun).1, (rdd_audit h p q b hrun).2.1⟩,
    fun h p q b hrun => ⟨(socket_audit h p q b hrun).1, (socket_audit h p q b hrun).2.1⟩,
    fun h aLevel remote p q b hrun =>
      ⟨(gmp_audit h aLevel remote p q b hrun).1, (gmp_audit h aLevel remote p q b hrun).2.1⟩⟩

theorem rddRuleList_no_registry (h : Host) (r : Rule) (hr : r ∈ rddRuleList h) :
    r.1 ≠ SUBSYS_REGISTRY := by
  intro hs
  have hwin : ∀ {a b c}, r ∈ win32kRule a b c → False := fun hm => by
    rw [win32kRule_subsystem hm] at hs; cases hs
  unfold rddRuleList at hr
  simp only [chromePipeRule, crashPipeRule, List.mem_append, List.mem_cons,
    List.mem_singleton, List.not_mem_nil, or_false] at hr
  casesm* _ ∨ _
  all_goals first
    | exact (hwin ‹_›).elim
    | (obtain rfl := ‹r = _›; cases hs)

/-- C24 (amended): `SetSecurityLevelForRDDProcess` adds no `SUBSYS_REGISTRY`
rule.  Every rule it asks for, however the run ends, is in its list (the
win32k lockdown rule when enabled, the two pipe rules and the two `Section`
handle rules) and is no registry rule; when it returns true, the pipe,
registry and handle rules it asked for are the two pipe rules and then the two
handle rules; and on a policy object that accepts every call it returns true
and the rules added are those of its list. -/
theorem rdd_adds_pipe_and_handle_rules_only :
    (∀ h p q, (SetSecurityLevelForRDDProcess h (some p)).2 = some q →
      ∀ e ∈ p.callsSince q, ruleCallIn (rddRuleList h) e ∧
        ∀ a pat, e.call ≠ PolicyCall.AddRule SUBSYS_REGISTRY a pat) ∧
    (∀ h p q, SetSecurityLevelForRDDProcess h (some p) = (Outcome.returned true, some q) →
      trackedRules (p.callsSince q) = rddTrackedRules) ∧
    (∀ h p, (∀ n c, p.respond n c = SBOX_ALL_OK) →
      ∃ q, SetSecurityLevelForRDDProcess h (some p) = (Outcome.returned true, some q) ∧
        q.rules = p.rules ++ rddRuleList h) := by
  refine ⟨fun h p q hq e he => ⟨rdd_every_rule h p q hq e he, fun a pat hcall => ?_⟩,
    fun h p q hrun => (rdd_audit h p q true hrun).2.2 rfl, fun h p hp => rdd_accepted h p hp⟩
  have hin := rdd_every_rule h p q hq e he
  unfold ruleCallIn at hin
  rw [hcall] at hin
  exact rddRuleList_no_registry h _ hin rfl

theorem gmpRuleList_registry (h : Host) (aIsRemoteLaunch : Bool) (r : Rule)
    (hr : r ∈ gmpRuleList h aIsRemoteLaunch) (hs : r.1 = SUBSYS_REGISTRY) :
    r.2.1 = REG_ALLOW_READONLY ∧ ∃ x ∈ gmpRegistryPatterns, r.2.2 = some x := by
  have hwin : ∀ {a b c}, r ∈ win32kRule a b c → False := fun hm => by
    rw [win32kRule_subsystem hm] at hs; cases hs
  have hreg : ∀ {l : List nsString}, (∀ x ∈ l, x ∈ gmpRegistryPatterns) →
      r ∈ l.map (fun pat => (SUBSYS_REGISTRY, REG_ALLOW_READONLY, some pat)) →
      r.2.1 = REG_ALLOW_READONLY ∧ ∃ x ∈ gmpRegistryPatterns, r.2.2 = some x :=
    fun hl hm => by
      obtain ⟨pat, hpat, rfl⟩ := List.mem_map.1 hm
      exact ⟨rfl, pat, hl pat hpat, rfl⟩
  unfold gmpRuleList at hr
  cases aIsRemoteLaunch
  all_goals
    try split_ifs at hr
  all_goals
    simp only [chromePipeRule, crashPipeRule, List.mem_append, List.mem_cons,
      List.mem_singleton, List.not_mem_nil, or_false] at hr
    casesm* _ ∨ _
  all_goals first
    | exact (hwin ‹_›).elim
    | exact hreg (fun x hx => List.mem_of_mem_take hx) ‹_›
    | exact hreg (fun x hx => List.mem_of_mem_drop hx) ‹_›
    | (obtain rfl := ‹r = _›; cases hs)

/-- C30: every `SUBSYS_REGISTRY` rule `SetSecurityLevelForGMPlugin` asks for, on
every host, for every `aLevel` and `aIsRemoteLaunch` and however the run ends,
has access kind `REG_ALLOW_READONLY` and one of the ten fixed patterns; and
when the procedure returns true the registry rules it asked for are the rules
for these ten patterns, in their fixed order, whatever the input. -/
theorem gmp_registry_rules_are_readonly_and_fixed :
    (∀ h aLevel aIsRemoteLaunch p q,
      (SetSecurityLevelForGMPlugin h aLevel aIsRemoteLaunch (some p)).2 = some q →
      ∀ e ∈ p.callsSince q, ∀ a pat, e.call = PolicyCall.AddRule SUBSYS_REGISTRY a pat →
        a = REG_ALLOW_READONLY ∧ ∃ x ∈ gmpRegistryPatterns, pat = some x) ∧
    (∀ h aLevel aIsRemoteLaunch p q,
      SetSecurityLevelForGMPlugin h aLevel aIsRemoteLaunch (some p)
        = (Outcome.returned true, some q) →
      (requestedRules (p.callsSince q)).filter isRegistryRule
        = gmpRegistryPatterns.map fun pat => (SUBSYS_REGISTRY, REG_ALLOW_READONLY, some pat)) := by
  refine ⟨fun h aLevel remote p q hq e he a pat hcall => ?_, fun h aLevel remote p q hrun => ?_⟩
  · have hin := gmp_every_rule h aLevel remote p q hq e he
    unfold ruleCallIn at hin
    rw [hcall] at hin
    exact gmpRuleList_registry h remote _ hin rfl
  · rw [filter_requestedRules _ isRegistryRule, (gmp_audit h aLevel remote p q true hrun).2.2 rfl]
    · cases remote <;> decide
    · intro r _ hreg
      simp only [isRegistryRule, decide_eq_true_eq] at hreg
      simp [isTrackedRule, hreg]

/-! ## Job objects -/

/-- C33: `CanUseJob` returns false exactly when the system is older than
Windows 8, `IsProcessInJob` succeeds and reports a job, `QueryInformationJobObject`
succeeds and the limit flags lack `JOB_OBJECT_LIMIT_BREAKAWAY_OK`; the scalar
`SANDBOX_NO_JOB` is set exactly then, once, to true, under the key `remote` in a
remote session and `local` otherwise; and `SetJobLevel` asks for `JOB_NONE`
exactly then. -/
theorem CanUseJob_false_iff_and_telemetry (os : JobQueries) :
    ((CanUseJob os).1 = false ↔
      os.IsWin8OrLater = false ∧ os.IsProcessInJob = true ∧ os.inJob = true ∧
      os.QueryInformationJobObject = true ∧
      os.LimitFlags &&& JOB_OBJECT_LIMIT_BREAKAWAY_OK = 0) ∧
    ((CanUseJob os).1 = true → (CanUseJob os).2 = []) ∧
    ((CanUseJob os).1 = false →
      (os.SM_REMOTESESSION ≠ 0 → (CanUseJob os).2 = [("remote".toList, true)]) ∧
      (os.SM_REMOTESESSION = 0 → (CanUseJob os).2 = [("local".toList, true)])) ∧
    (∀ (h : Host) (aJobLevel : JobLevel) (aUiExceptions : Nat) (p : TargetPolicy),
      h.sCanUseJob = (CanUseJob os).1 →
      (SetJobLevel h aJobLevel aUiExceptions p).2.log = p.log ++
        [⟨if (CanUseJob os).1 then PolicyCall.SetJobLevel aJobLevel aUiExceptions
            else PolicyCall.SetJobLevel JOB_NONE 0,
          (SetJobLevel h aJobLevel aUiExceptions p).2.respond p.log.length
            (if (CanUseJob os).1 then PolicyCall.SetJobLevel aJobLevel aUiExceptions
             else PolicyCall.SetJobLevel JOB_NONE 0)⟩]) := by
  refine ⟨?_, ?_, ?_, ?_⟩
  · unfold CanUseJob
    cases os.IsWin8OrLater <;> cases os.IsProcessInJob <;> cases os.inJob <;>
      cases os.QueryInformationJobObject <;> simp
    split_ifs <;> simp_all
  · unfold CanUseJob
    split_ifs <;> simp
  · unfold CanUseJob
    split_ifs <;> simp_all
  · intro h j u p hs
    unfold SetJobLevel
    rw [hs]
    cases (CanUseJob os).1 <;> simp [TargetPolicy.invoke]

/-! ## The UNC normalisation -/

theorem Substring_InsertLiteral_UNC (path : nsString)
    (hp : Substring path 0 2 = "\\\\".toList) :
    ∃ t, InsertLiteral path "??\\UNC".toList 1 = '\\' :: '?' :: t := by
  match path, hp with
  | a :: b :: t, hp =>
    simp [Substring] at hp
    obtain ⟨rfl, rfl⟩ := hp
    exact ⟨_, by simp [InsertLiteral]; rfl⟩

theorem Substring_eq_iff_prefix (path : nsString) :
    Substring path 0 2 = "\\\\".toList ↔ "\\\\".toList <+: path := by
  match path with
  | [] => simp [Substring]
  | [a] => simp [Substring]
  | a :: b :: t =>
    simp only [Substring, List.drop_zero, List.take_succ_cons, List.take_zero, String.toList]
    constructor
    · intro h
      simp at h
      obtain ⟨rfl, rfl⟩ := h
      exact ⟨t, rfl⟩
    · rintro ⟨t', ht'⟩
      simp at ht'
      obtain ⟨rfl, rfl, -⟩ := ht'
      rfl

theorem addShaderCacheRules_first_call (path : nsString) (hne : path ≠ []) (p : TargetPolicy) :
    ∃ r rest, (addShaderCacheRules (some path) p).2.log = p.log ++
      ⟨PolicyCall.AddRule SUBSYS_FILES FILES_ALLOW_DIR_ANY
        (some ((if Substring path 0 2 = "\\\\".toList then
            InsertLiteral path "??\\UNC".toList 1 else path) ++ "\\shader-cache".toList)), r⟩
        :: rest := by
  have he : path.isEmpty = false := by cases path <;> simp_all
  simp only [addShaderCacheRules, he, TargetPolicy.AddRule, TargetPolicy.invoke, bind,
    Broker.bind, pure, Bool.false_eq_true, if_false]
  split_ifs <;> simp [Broker.bind, TargetPolicy.invoke]
  all_goals split_ifs <;> simp [Broker.bind]

/-- C38: `CacheDirAndAutoClear` and the shader cache rule of
`SetSecurityLevelForGPUProcess` normalise a path alike: for every path there is
one normalised path `n` that the first stores and from which the second builds
its rule; normalising `n` gives `n` again; and `n` does not begin with two
backslashes. -/
theorem UNC_normalisation_idempotent_and_shared (path : nsString) :
    ∃ n : nsString,
      (∀ cacheVar, CacheDirAndAutoClear (some path) cacheVar = some n) ∧
      (path ≠ [] → ∀ p : TargetPolicy,
        ∃ r rest, (addShaderCacheRules (some path) p).2.log = p.log ++
          ⟨PolicyCall.AddRule SUBSYS_FILES FILES_ALLOW_DIR_ANY
            (some (n ++ "\\shader-cache".toList)), r⟩ :: rest) ∧
      (∀ cacheVar, CacheDirAndAutoClear (some n) cacheVar = some n) ∧
      (n ≠ [] → ∀ p : TargetPolicy,
        ∃ r rest, (addShaderCacheRules (some n) p).2.log = p.log ++
          ⟨PolicyCall.AddRule SUBSYS_FILES FILES_ALLOW_DIR_ANY
            (some (n ++ "\\shader-cache".toList)), r⟩ :: rest) ∧
      ¬ "\\\\".toList <+: n := by
  by_cases hp : Substring path 0 2 = "\\\\".toList
  · obtain ⟨t, ht⟩ := Substring_InsertLiteral_UNC path hp
    have hn : ¬ Substring (InsertLiteral path "??\\UNC".toList 1) 0 2 = "\\\\".toList := by
      rw [ht]; simp [Substring]
    refine ⟨InsertLiteral path "??\\UNC".toList 1, ?_, ?_, ?_, ?_, ?_⟩
    · intro cacheVar; simp [CacheDirAndAutoClear, hp]
    · intro hne p; simpa only [if_pos hp] using addShaderCacheRules_first_call path hne p
    · intro cacheVar; simp only [CacheDirAndAutoClear, if_neg hn]
    · intro hne p; simpa only [if_neg hn] using addShaderCacheRules_first_call _ hne p
    · rw [← Substring_eq_iff_prefix]; exact hn
  · refine ⟨path, ?_, ?_, ?_, ?_, ?_⟩
    · intro cacheVar; simp only [CacheDirAndAutoClear, if_neg hp]
    · intro hne p; simpa only [if_neg hp] using addShaderCacheRules_first_call path hne p
    · intro cacheVar; simp only [CacheDirAndAutoClear, if_neg hp]
    · intro hne p; simpa only [if_neg hp] using addShaderCacheRules_first_call path hne p
    · rw [← Substring_eq_iff_prefix]; exact hp

/-! ## Read-only file rules of the content process -/

theorem filter_readOnly_cachedDirRule (aBaseDir : Option nsString) (aRelativePath : nsString) :
    (cachedDirRule FILES_ALLOW_READONLY aBaseDir aRelativePath).filter isReadOnlyFileRule
      = cachedDirRule FILES_ALLOW_READONLY aBaseDir aRelativePath := by
  cases aBaseDir <;> simp [cachedDirRule, isReadOnlyFileRule]

theorem filter_readOnly_cachedDirRule_any (aBaseDir : Option nsString)
    (aRelativePath : nsString) :
    (cachedDirRule FILES_ALLOW_ANY aBaseDir aRelativePath).filter isReadOnlyFileRule = [] := by
  cases aBaseDir <;> simp [cachedDirRule, isReadOnlyFileRule]

theorem filter_readOnly_win32kRule (h : Host) (enabled aEnableOpm : Bool) :
    (win32kRule h enabled aEnableOpm).filter isReadOnlyFileRule = [] := by
  unfold win32kRule
  split_ifs <;> simp [isReadOnlyFileRule]

theorem filter_readOnly_contentReadOnlyDirRules (h : Host) :
    (contentReadOnlyDirRules h).filter isReadOnlyFileRule = contentReadOnlyDirRules h := by
  unfold contentReadOnlyDirRules
  simp only [List.filter_append, filter_readOnly_cachedDirRule]
  split_ifs <;> simp [filter_readOnly_cachedDirRule]

theorem filter_readOnly_contentRuleList (h : Host) (aSandboxLevel : Int)
    (aIsFileProcess : Bool) :
    (contentRuleList h aSandboxLevel aIsFileProcess).filter isReadOnlyFileRule
      = if aSandboxLevel = 1 ∨ aIsFileProcess = true then [readEverythingRule]
        else contentReadOnlyDirRules h := by
  have htail : List.filter isReadOnlyFileRule
      [chromePipeRule, crashPipeRule,
        (SUBSYS_HANDLES, HANDLES_DUP_BROKER, some "File".toList),
        (SUBSYS_HANDLES, HANDLES_DUP_ANY, some "File".toList),
        (SUBSYS_HANDLES, HANDLES_DUP_BROKER, some "Section".toList),
        (SUBSYS_HANDLES, HANDLES_DUP_ANY, some "Section".toList),
        (SUBSYS_HANDLES, HANDLES_DUP_BROKER, some "Semaphore".toList),
        (SUBSYS_HANDLES, HANDLES_DUP_ANY, some "Semaphore".toList)] = [] := by decide
  unfold contentRuleList
  rw [List.filter_append, List.filter_append, List.filter_append, htail,
    filter_readOnly_win32kRule, filter_readOnly_cachedDirRule_any]
  by_cases hc : aSandboxLevel = 1 ∨ aIsFileProcess = true
  · rw [if_pos hc, if_pos hc]
    simp [isReadOnlyFileRule, readEverythingRule]
  · rw [if_neg hc, if_neg hc]
    show [] ++ [] ++ List.filter isReadOnlyFileRule (contentReadOnlyDirRules h) ++ [] = _
    rw [filter_readOnly_contentReadOnlyDirRules]
    simp

theorem readEverythingRule_not_mem_cachedDirRule (aAccess : Semantics)
    (aBaseDir : Option nsString) (c : Char) (aRelativePath : nsString) :
    readEverythingRule ∉ cachedDirRule aAccess aBaseDir ('\\' :: c :: aRelativePath) := by
  cases aBaseDir with
  | none => simp [cachedDirRule]
  | some baseDir =>
    simp only [cachedDirRule, readEverythingRule, List.mem_singleton, Prod.mk.injEq,
      Option.some.injEq, not_and]
    intro _ _ hpat
    have hlen := congrArg List.length hpat
    simp at hlen
    omega

theorem readEverythingRule_not_mem_contentReadOnlyDirRules (h : Host) :
    readEverythingRule ∉ contentReadOnlyDirRules h := by
  unfold contentReadOnlyDirRules
  simp only [List.mem_append, not_or]
  refine ⟨⟨⟨⟨⟨?_, ?_⟩, ?_⟩, ?_⟩, ?_⟩, ?_⟩
  any_goals exact readEverythingRule_not_mem_cachedDirRule _ _ _ _
  split_ifs
  · exact readEverythingRule_not_mem_cachedDirRule _ _ _ _
  · simp

theorem mem_contentRuleList_readOnly (h : Host) (aSandboxLevel : Int) (aIsFileProcess : Bool)
    (r : Rule) (hr : isReadOnlyFileRule r = true) :
    r ∈ contentRuleList h aSandboxLevel aIsFileProcess ↔
      r ∈ (if aSandboxLevel = 1 ∨ aIsFileProcess = true then [readEverythingRule]
        else contentReadOnlyDirRules h) := by
  rw [← filter_readOnly_contentRuleList, List.mem_filter]
  simp [hr]

/-- C40: in `SetSecurityLevelForContentProcess` at a level of at least 1, on a
policy object that accepts every call the rule that lets the process read every
file is added exactly when `aSandboxLevel == 1 || aIsFileProcess`; it is then
the only read-only file rule added; otherwise the read-only file rules added
are the rules for the cached directories, one for each directory that was
cached; and the rule for the content temporary directory is asked for in both
cases.  Whatever the policy object answers, a read-only file rule that a run
asks for is the first rule in the first case and one of the directory rules in
the second. -/
theorem content_read_rules_follow_level_and_kind (h : Host) (aSandboxLevel : Int)
    (aIsFileProcess : Bool) (ht : 1 ≤ aSandboxLevel) :
    (∀ p : TargetPolicy, (∀ n c, p.respond n c = SBOX_ALL_OK) →
      ∃ q added,
        SetSecurityLevelForContentProcess h aSandboxLevel aIsFileProcess (some p)
          = (Outcome.returned (), some q) ∧
        q.rules = p.rules ++ added ∧
        (readEverythingRule ∈ added ↔ aSandboxLevel = 1 ∨ aIsFileProcess = true) ∧
        (aSandboxLevel = 1 ∨ aIsFileProcess = true →
          added.filter isReadOnlyFileRule = [readEverythingRule]) ∧
        (¬(aSandboxLevel = 1 ∨ aIsFileProcess = true) →
          added.filter isReadOnlyFileRule = contentReadOnlyDirRules h) ∧
        List.Sublist (cachedDirRule FILES_ALLOW_ANY h.sContentTempDir "\\*".toList) added) ∧
    (∀ p q,
      (SetSecurityLevelForContentProcess h aSandboxLevel aIsFileProcess (some p)).2 = some q →
      ∀ e ∈ p.callsSince q, ∀ pat,
        e.call = PolicyCall.AddRule SUBSYS_FILES FILES_ALLOW_READONLY pat →
        (aSandboxLevel = 1 ∨ aIsFileProcess = true → pat = some "*".toList) ∧
        (¬(aSandboxLevel = 1 ∨ aIsFileProcess = true) →
          (SUBSYS_FILES, FILES_ALLOW_READONLY, pat) ∈ contentReadOnlyDirRules h)) := by
  refine ⟨fun p hp => ?_, fun p q hq e he pat hcall => ?_⟩
  · obtain ⟨q, hrun, hrules⟩ := content_accepted h aSandboxLevel aIsFileProcess ht p hp
    refine ⟨q, _, hrun, hrules, ?_, ?_, ?_, ?_⟩
    · rw [mem_contentRuleList_readOnly _ _ _ _ (by decide)]
      by_cases hc : aSandboxLevel = 1 ∨ aIsFileProcess = true
      · simp [hc]
      · simpa [hc] using readEverythingRule_not_mem_contentReadOnlyDirRules h
    · intro hc
      rw [filter_readOnly_contentRuleList, if_pos hc]
    · intro hc
      rw [filter_readOnly_contentRuleList, if_neg hc]
    · unfold contentRuleList
      exact (((List.sublist_append_right _ _).trans (List.sublist_append_left _ _)).trans
        (List.sublist_append_left _ _))
  · have hin := (content_every_call_derived h aSandboxLevel aIsFileProcess p q hq e he).2
    unfold ruleCallIn at hin
    rw [hcall] at hin
    replace hin := (mem_contentRuleList_readOnly h aSandboxLevel aIsFileProcess
      (SUBSYS_FILES, FILES_ALLOW_READONLY, pat) (by simp [isReadOnlyFileRule])).1 hin
    by_cases hc : aSandboxLevel = 1 ∨ aIsFileProcess = true
    · simp only [if_pos hc, List.mem_singleton, readEverythingRule, Prod.mk.injEq, true_and] at hin
      exact ⟨fun _ => hin, fun hn => absurd hc hn⟩
    · rw [if_neg hc] at hin
      exact ⟨fun hn => absurd hn hc, fun _ => hin⟩

theorem content_read_rules_follow_level_and_kind_witness :
    (1 : Int) ≤ 3 ∧
    ∃ q added,
      SetSecurityLevelForContentProcess releaseHost 3 false (some acceptingPolicy)
        = (Outcome.returned (), some q) ∧
      q.rules = acceptingPolicy.rules ++ added ∧
      (readEverythingRule ∈ added ↔ (3 : Int) = 1 ∨ false = true) ∧
      ((3 : Int) = 1 ∨ false = true → added.filter isReadOnlyFileRule = [readEverythingRule]) ∧
      (¬((3 : Int) = 1 ∨ false = true) →
        added.filter isReadOnlyFileRule = contentReadOnlyDirRules releaseHost) ∧
      List.Sublist (cachedDirRule FILES_ALLOW_ANY releaseHost.sContentTempDir "\\*".toList)
        added :=
  ⟨by decide,
    (content_read_rules_follow_level_and_kind releaseHost 3 false (by decide)).1 acceptingPolicy
      (fun _ _ => rfl)⟩

/-! ## The key of a failed launch -/

theorem wstring_find_some (pat : nsString) :
    ∀ (s : nsString) (i : Nat), wstring_find pat s = some i →
      pat <+: s.drop i ∧ i ≤ s.length ∧ ∀ j < i, ¬ pat <+: s.drop j := by
  intro s
  induction s with
  | nil =>
    intro i hi
    simp only [wstring_find] at hi
    split_ifs at hi with hp
    cases hi
    subst hp
    simp
  | cons c s ih =>
    intro i hi
    simp only [wstring_find] at hi
    split_ifs at hi with hp
    · cases hi
      exact ⟨by simpa using List.isPrefixOf_iff_prefix.1 hp, by simp, by simp⟩
    · obtain ⟨k, hk, rfl⟩ := Option.map_eq_some'.1 hi
      obtain ⟨h1, h2, h3⟩ := ih k hk
      refine ⟨by simpa using h1, by simpa using h2, fun j hj => ?_⟩
      cases j with
      | zero => simpa using fun hpre => hp (List.isPrefixOf_iff_prefix.2 hpre)
      | succ j => simpa using h3 j (by omega)

theorem wstring_find_none (pat : nsString) :
    ∀ (s : nsString), wstring_find pat s = none → ∀ j, ¬ pat <+: s.drop j := by
  intro s
  induction s with
  | nil =>
    intro hi j
    simp only [wstring_find] at hi
    split_ifs at hi with hp
    simpa using hp
  | cons c s ih =>
    intro hi j
    simp only [wstring_find] at hi
    split_ifs at hi with hp
    have hk : wstring_find pat s = none := by simpa using hi
    cases j with
    | zero => simpa using fun hpre => hp (List.isPrefixOf_iff_prefix.2 hpre)
    | succ j => simpa using ih hk j

theorem wstring_find_last_of_none (chars : nsString) :
    ∀ (s : nsString), wstring_find_last_of chars s = none → ∀ c ∈ s, c ∉ chars := by
  intro s
  induction s with
  | nil => simp
  | cons c s ih =>
    intro hi
    simp only [wstring_find_last_of] at hi
    split at hi
    · cases hi
    · rename_i hrest
      split_ifs at hi with hc
      intro d hd
      rcases List.mem_cons.1 hd with rfl | hd
      · exact hc
      · exact ih hrest d hd

theorem wstring_find_last_of_some (chars : nsString) :
    ∀ (s : nsString) (i : Nat), wstring_find_last_of chars s = some i →
      (∃ c, s[i]? = some c ∧ c ∈ chars) ∧ ∀ j, i < j → ∀ c, s[j]? = some c → c ∉ chars := by
  intro s
  induction s with
  | nil => intro i hi; simp [wstring_find_last_of] at hi
  | cons c s ih =>
    intro i hi
    simp only [wstring_find_last_of] at hi
    split at hi
    · rename_i k hrest
      cases hi
      obtain ⟨h1, h2⟩ := ih k hrest
      refine ⟨by simpa using h1, fun j hj d hd => ?_⟩
      cases j with
      | zero => omega
      | succ j => exact h2 j (by omega) d (by simpa using hd)
    · rename_i hrest
      split_ifs at hi with hc
      cases hi
      refine ⟨⟨c, by simp, hc⟩, fun j hj d hd => ?_⟩
      cases j with
      | zero => omega
      | succ j =>
        have hd' : s[j]? = some d := by simpa using hd
        exact wstring_find_last_of_none chars s hrest d (List.mem_iff_getElem?.2 ⟨j, hd'⟩)

theorem AddMozLogRulesToPolicy_eq (h : LaunchHost) (aEnvironment : List (nsString × nsString))
    (getenv_MOZ_LOG : Option nsString) :
    AddMozLogRulesToPolicy h aEnvironment getenv_MOZ_LOG =
      match (aEnvironment.lookup "MOZ_LOG_FILE".toList).orElse
          (fun _ => aEnvironment.lookup "NSPR_LOG_FILE".toList), getenv_MOZ_LOG with
      | some second, some logFileModules => do
        let _ ← TargetPolicy.AddRule SUBSYS_FILES FILES_ALLOW_ANY
          (mozLogPattern h second logFileModules)
        pure ()
      | _, _ => pure () := by
  unfold AddMozLogRulesToPolicy
  split
  · rename_i second logFileModules hfile
    simp only [mozLogPattern, mozLogFileName, mozLogRotate]
  · rfl

theorem mozLogPattern_cases (h : LaunchHost) (second logFileModules : nsString) :
    (∃ pid,
      (h.MOZ_LOG_PID_TOKEN <+: (mozLogFileName h second logFileModules).drop pid ∧
        pid ≤ (mozLogFileName h second logFileModules).length ∧
        ∀ j < pid, ¬ h.MOZ_LOG_PID_TOKEN <+: (mozLogFileName h second logFileModules).drop j) ∧
      ((∀ i, pid ≤ i → ∀ c, (mozLogFileName h second logFileModules)[i]? = some c →
          c ≠ '/' ∧ c ≠ '\\') →
        mozLogPattern h second logFileModules =
          (mozLogFileName h second logFileModules).take pid ++ "*".toList ++
            (mozLogFileName h second logFileModules).drop (pid + h.MOZ_LOG_PID_TOKEN.length)) ∧
      (¬ (∀ i, pid ≤ i → ∀ c, (mozLogFileName h second logFileModules)[i]? = some c →
          c ≠ '/' ∧ c ≠ '\\') →
        mozLogPattern h second logFileModules = mozLogFileName h second logFileModules)) ∨
    ((∀ j, ¬ h.MOZ_LOG_PID_TOKEN <+: (mozLogFileName h second logFileModules).drop j) ∧
      mozLogPattern h second logFileModules = mozLogFileName h second logFileModules) := by
  generalize hname : mozLogFileName h second logFileModules = name
  cases hf : wstring_find h.MOZ_LOG_PID_TOKEN name with
  | none =>
    right
    exact ⟨wstring_find_none _ _ hf, by simp only [mozLogPattern, hname, hf]⟩
  | some pid =>
    left
    refine ⟨pid, wstring_find_some _ _ _ hf, ?_⟩
    cases hl : wstring_find_last_of "/\\".toList name with
    | none =>
      have hno := wstring_find_last_of_none _ _ hl
      refine ⟨fun _ => by simp only [mozLogPattern, hname, hf, hl, wstring_replace], fun hn => ?_⟩
      exfalso
      apply hn
      intro i _ c hc
      have := hno c (List.mem_iff_getElem?.2 ⟨i, hc⟩)
      simpa using this
    | some slash =>
      obtain ⟨⟨d, hd, hdsep⟩, hafter⟩ := wstring_find_last_of_some _ _ _ hl
      by_cases hlt : slash < pid
      · refine ⟨fun _ => by simp only [mozLogPattern, hname, hf, hl, hlt, wstring_replace, if_true],
          fun hn => ?_⟩
        exfalso
        apply hn
        intro i hi c hc
        have := hafter i (by omega) c hc
        simpa using this
      · refine ⟨fun hall => ?_, fun _ => by simp only [mozLogPattern, hname, hf, hl, hlt, if_false]⟩
        exfalso
        have := hall slash (by omega) d hd
        simp at hdsep
        tauto

theorem mozLogPattern_keeps_directory (h : LaunchHost) (second logFileModules : nsString)
    (slash : Nat) (c : Char)
    (hc : (mozLogFileName h second logFileModules)[slash]? = some c)
    (hsep : c = '/' ∨ c = '\\') :
    (mozLogPattern h second logFileModules).take (slash + 1)
      = (mozLogFileName h second logFileModules).take (slash + 1) := by
  generalize hname : mozLogFileName h second logFileModules = name at hc ⊢
  have hkeep : ∀ pid, slash < pid →
      (wstring_replace name pid h.MOZ_LOG_PID_TOKEN.length "*".toList).take (slash + 1)
        = name.take (slash + 1) := by
    intro pid hlt
    have hlen : slash < name.length := by
      by_contra hge
      rw [List.getElem?_eq_none (by omega)] at hc
      cases hc
    unfold wstring_replace
    rw [List.append_assoc, List.take_append_of_le_length (by simp; omega), List.take_take]
    congr 1
    omega
  cases hf : wstring_find h.MOZ_LOG_PID_TOKEN name with
  | none => simp only [mozLogPattern, hname, hf]
  | some pid =>
    cases hl : wstring_find_last_of "/\\".toList name with
    | none =>
      exfalso
      have := wstring_find_last_of_none _ _ hl c (List.mem_iff_getElem?.2 ⟨slash, hc⟩)
      simp at this
      tauto
    | some last =>
      obtain ⟨-, hafter⟩ := wstring_find_last_of_some _ _ _ hl
      have hle : slash ≤ last := by
        by_contra hgt
        have := hafter slash (by omega) c hc
        simp at this
        tauto
      by_cases hlt : last < pid
      · simp only [mozLogPattern, hname, hf, hl, hlt, if_true]
        exact hkeep pid (by omega)
      · simp only [mozLogPattern, hname, hf, hl, hlt, if_false]

/-- C39: `AddMozLogRulesToPolicy` returns; it makes no call when the launch
environment holds neither `MOZ_LOG_FILE` nor `NSPR_LOG_FILE` or when `MOZ_LOG`
is not set; otherwise it makes exactly one call, `AddRule` for `SUBSYS_FILES`
with `FILES_ALLOW_ANY`, on the value of `MOZ_LOG_FILE` if there is one and of
`NSPR_LOG_FILE` if not.  The pattern starts from that value with the log
extension and, when rotation is on, `.?` appended; the first occurrence of the
PID token in it is replaced by `*` exactly when no separator stands at or
after the position where it starts; nothing else is replaced; and the text up
to the last separator is kept. -/
theorem AddMozLogRulesToPolicy_adds_one_log_rule (h : LaunchHost)
    (aEnvironment : List (nsString × nsString)) (getenv_MOZ_LOG : Option nsString)
    (p : TargetPolicy) :
    (AddMozLogRulesToPolicy h aEnvironment getenv_MOZ_LOG p).1 = Outcome.returned () ∧
    ((aEnvironment.lookup "MOZ_LOG_FILE".toList = none ∧
        aEnvironment.lookup "NSPR_LOG_FILE".toList = none) ∨ getenv_MOZ_LOG = none →
      (AddMozLogRulesToPolicy h aEnvironment getenv_MOZ_LOG p).2 = p) ∧
    (∀ second logFileModules,
      (aEnvironment.lookup "MOZ_LOG_FILE".toList = some second ∨
        (aEnvironment.lookup "MOZ_LOG_FILE".toList = none ∧
          aEnvironment.lookup "NSPR_LOG_FILE".toList = some second)) →
      getenv_MOZ_LOG = some logFileModules →
      (∃ r, (AddMozLogRulesToPolicy h aEnvironment getenv_MOZ_LOG p).2.log = p.log ++
        [⟨PolicyCall.AddRule SUBSYS_FILES FILES_ALLOW_ANY
          (some (mozLogPattern h second logFileModules)), r⟩]) ∧
      mozLogFileName h second logFileModules =
        second ++ h.MOZ_LOG_FILE_EXTENSION ++
          (if mozLogRotate h logFileModules then ".?".toList else []) ∧
      ((∃ pid,
        (h.MOZ_LOG_PID_TOKEN <+: (mozLogFileName h second logFileModules).drop pid ∧
          pid ≤ (mozLogFileName h second logFileModules).length ∧
          ∀ j < pid,
            ¬ h.MOZ_LOG_PID_TOKEN <+: (mozLogFileName h second logFileModules).drop j) ∧
        ((∀ i, pid ≤ i → ∀ c, (mozLogFileName h second logFileModules)[i]? = some c →
            c ≠ '/' ∧ c ≠ '\\') →
          mozLogPattern h second logFileModules =
            (mozLogFileName h second logFileModules).take pid ++ "*".toList ++
              (mozLogFileName h second logFileModules).drop
                (pid + h.MOZ_LOG_PID_TOKEN.length)) ∧
        (¬ (∀ i, pid ≤ i → ∀ c, (mozLogFileName h second logFileModules)[i]? = some c →
            c ≠ '/' ∧ c ≠ '\\') →
          mozLogPattern h second logFileModules = mozLogFileName h second logFileModules)) ∨
      ((∀ j, ¬ h.MOZ_LOG_PID_TOKEN <+: (mozLogFileName h second logFileModules).drop j) ∧
        mozLogPattern h second logFileModules = mozLogFileName h second logFileModules)) ∧
      (∀ slash c, (mozLogFileName h second logFileModules)[slash]? = some c →
        (c = '/' ∨ c = '\\') →
        (mozLogPattern h second logFileModules).take (slash + 1)
          = (mozLogFileName h second logFileModules).take (slash + 1))) := by
  refine ⟨(AddMozLogRulesToPolicy_returns h aEnvironment getenv_MOZ_LOG p).choose_spec, ?_, ?_⟩
  · rintro (⟨h1, h2⟩ | h3)
    · rw [AddMozLogRulesToPolicy_eq, h1, h2]
      rfl
    · rw [AddMozLogRulesToPolicy_eq, h3]
      generalize (List.lookup _ aEnvironment).orElse _ = it
      cases it <;> rfl
  · intro second logFileModules hfile hmod
    refine ⟨?_, ?_, mozLogPattern_cases h second logFileModules,
      mozLogPattern_keeps_directory h second logFileModules⟩
    · rw [AddMozLogRulesToPolicy_eq]
      have hl : (aEnvironment.lookup "MOZ_LOG_FILE".toList).orElse
          (fun _ => aEnvironment.lookup "NSPR_LOG_FILE".toList) = some second := by
        rcases hfile with h1 | ⟨h1, h2⟩
        · rw [h1]; rfl
        · rw [h1, h2]; rfl
      rw [hl, hmod]
      exact ⟨_, rfl⟩
    · unfold mozLogFileName
      split_ifs <;> simp

/-- A sample: with `MOZ_LOG_FILE` set to `C:\logs\child-%PID` and `MOZ_LOG` set,
the rule is for `C:\logs\child-*.moz_log`; with the token in the directory part
the name is kept. -/
theorem AddMozLogRulesToPolicy_sample :
    (AddMozLogRulesToPolicy sampleLaunchHost
      [("NSPR_LOG_FILE".toList, "other".toList),
       ("MOZ_LOG_FILE".toList, "C:\\logs\\child-%PID".toList)]
      (some "all:5".toList) acceptingPolicy).2.log
      = [⟨PolicyCall.AddRule SUBSYS_FILES FILES_ALLOW_ANY
          (some "C:\\logs\\child-*.moz_log".toList), SBOX_ALL_OK⟩] ∧
    (AddMozLogRulesToPolicy sampleLaunchHost
      [("MOZ_LOG_FILE".toList, "C:\\%PID\\child".toList)]
      (some "all:5".toList) acceptingPolicy).2.log
      = [⟨PolicyCall.AddRule SUBSYS_FILES FILES_ALLOW_ANY
          (some "C:\\%PID\\child.moz_log".toList), SBOX_ALL_OK⟩] := by
  decide

/-! ## Rules for reading a procedure as a script -/

theorem runScript_nil (h : Host) (p : TargetPolicy) :
    runScript h [] p = (Outcome.returned true, p) := rfl

theorem runScript_cons (h : Host) (s : Step) (rest : List Step) (p : TargetPolicy) :
    runScript h (s :: rest) p =
      match s.run h p with
      | (Outcome.returned true, q) => runScript h rest q
      | (Outcome.returned false, q) => (Outcome.returned false, q)
      | (Outcome.crashed, q) => (Outcome.crashed, q) := by
  show Broker.bind (s.run h) _ p = _
  unfold Broker.bind
  rcases s.run h p with ⟨o, q⟩
  cases o with
  | returned a => cases a <;> rfl
  | crashed => rfl

theorem Broker.follows_pure {α : Type} (h : Host) (a : α) (ret : α → Bool) (m : MitigationFlags)
    (ha : ret a = true) : Broker.follows h (pure a) ret m [] := by
  intro p _
  simp [Outcome.map, ha, runScript_nil]

theorem follows_void_i {α : Type} {h : Host} {c : PolicyCall} {K : Broker α} {ret : α → Bool}
    {m : MitigationFlags} {s : List Step} (hK : Broker.follows h K ret m s) :
    Broker.follows h (TargetPolicy.invokeVoid c >>= fun _ => K) ret m
      (Step.call c Check.void :: s) := by
  intro p hp
  rw [runScript_cons]
  exact hK _ hp

theorem follows_unchecked_i {α : Type} {h : Host} {c : PolicyCall} {K : Broker α}
    {ret : α → Bool} {m : MitigationFlags} {s : List Step}
    (hc : perform c = TargetPolicy.invoke c) (hK : Broker.follows h K ret m s) :
    Broker.follows h (TargetPolicy.invoke c >>= fun _ => K) ret m
      (Step.call c Check.unchecked :: s) := by
  intro p hp
  rw [runScript_cons]
  simp only [Step.run, hc]
  exact hK _ hp

theorem TargetPolicy.invoke_bind {β : Type} (c : PolicyCall) (f : ResultCode → Broker β)
    (p : TargetPolicy) :
    (TargetPolicy.invoke c >>= f) p =
      f (p.respond p.log.length c)
        { p with log := p.log ++ [⟨c, p.respond p.log.length c⟩] } := rfl

theorem TargetPolicy.SetProcessMitigations_bind {β : Type} (flags : MitigationFlags)
    (f : ResultCode → Broker β) (p : TargetPolicy) :
    (TargetPolicy.SetProcessMitigations flags >>= f) p =
      f (p.respond p.log.length (PolicyCall.SetProcessMitigations flags))
        { p with
          log := p.log ++ [⟨PolicyCall.SetProcessMitigations flags,
            p.respond p.log.length (PolicyCall.SetProcessMitigations flags)⟩],
          mitigations :=
            if p.respond p.log.length (PolicyCall.SetProcessMitigations flags) = SBOX_ALL_OK
            then flags else p.mitigations } := rfl

theorem MOZ_RELEASE_ASSERT_bind {β : Type} (b : Bool) (f : Unit → Broker β) (p : TargetPolicy) :
    (MOZ_RELEASE_ASSERT b >>= f) p = if b then f () p else (Outcome.crashed, p) := by
  cases b <;> rfl

theorem MOZ_ASSERT_bind {β : Type} (h : Host) (b : Bool) (f : Unit → Broker β)
    (p : TargetPolicy) :
    (MOZ_ASSERT h b >>= f) p = if h.DEBUG && !b then (Outcome.crashed, p) else f () p := by
  show Broker.bind (MOZ_ASSERT h b) f p = _
  unfold Broker.bind MOZ_ASSERT
  cases h.DEBUG <;> cases b <;> rfl

theorem Broker.pure_bind {α β : Type} (a : α) (f : α → Broker β) (p : TargetPolicy) :
    (pure a >>= f) p = f a p := rfl

theorem Broker.ite_apply {α : Type} (c : Prop) [Decidable c] (x y : Broker α)
    (p : TargetPolicy) : (if c then x else y) p = if c then x p else y p := by
  split_ifs <;> rfl

theorem follows_release_i {α : Type} {h : Host} {c : PolicyCall} {K : Broker α}
    {ret : α → Bool} {m : MitigationFlags} {s : List Step}
    (hc : perform c = TargetPolicy.invoke c) (hK : Broker.follows h K ret m s) :
    Broker.follows h
      (TargetPolicy.invoke c >>= fun result =>
        MOZ_RELEASE_ASSERT (SBOX_ALL_OK == result) >>= fun _ => K) ret m
      (Step.call c Check.releaseAssert :: s) := by
  intro p hp
  rw [runScript_cons]
  simp only [Step.run, hc, TargetPolicy.invoke_bind, MOZ_RELEASE_ASSERT_bind, Broker.pure_apply]
  split_ifs
  · exact hK _ hp
  · rfl

theorem follows_release_last_i {h : Host} {c : PolicyCall} {ret : Unit → Bool}
    {m : MitigationFlags} (hc : perform c = TargetPolicy.invoke c) (hret : ret () = true) :
    Broker.follows h
      (TargetPolicy.invoke c >>= fun result => MOZ_RELEASE_ASSERT (SBOX_ALL_OK == result))
      ret m [Step.call c Check.releaseAssert] := by
  intro p hp
  rw [runScript_cons]
  simp only [Step.run, hc, TargetPolicy.invoke_bind, MOZ_RELEASE_ASSERT_bind, Broker.pure_apply,
    MOZ_RELEASE_ASSERT]
  split_ifs
  · simp [Outcome.map, hret, runScript_nil]
  · rfl

theorem follows_mitigations_release_i {α : Type} {h : Host} {flags : MitigationFlags}
    {K : Broker α} {ret : α → Bool} {m : MitigationFlags} {s : List Step}
    (hK : Broker.follows h K ret flags s) :
    Broker.follows h
      (TargetPolicy.SetProcessMitigations flags >>= fun result =>
        MOZ_RELEASE_ASSERT (SBOX_ALL_OK == result) >>= fun _ => K) ret m
      (Step.call (PolicyCall.SetProcessMitigations flags) Check.releaseAssert :: s) := by
  intro p hp
  rw [runScript_cons]
  simp only [Step.run, perform, TargetPolicy.SetProcessMitigations_bind, MOZ_RELEASE_ASSERT_bind,
    Broker.pure_apply]
  by_cases hr : p.respond p.log.length (PolicyCall.SetProcessMitigations flags) = SBOX_ALL_OK
  · simp only [hr, if_true, beq_self_eq_true]
    exact hK _ rfl
  · have hb : (SBOX_ALL_OK == p.respond p.log.length (PolicyCall.SetProcessMitigations flags))
        = false := by simpa using fun he => hr he.symm
    simp only [hb, if_neg hr]
    rfl

theorem follows_ensure_i {h : Host} {c : PolicyCall} {K : Broker Bool}
    {m : MitigationFlags} {s : List Step}
    (hc : perform c = TargetPolicy.invoke c) (hK : Broker.follows h K id m s) :
    Broker.follows h
      (TargetPolicy.invoke c >>= fun result =>
        MOZ_ASSERT h (SBOX_ALL_OK == result) >>= fun _ =>
          if (SBOX_ALL_OK != result) = true then pure false
          else (pure PUnit.unit >>= fun _ => K)) id m
      (Step.call c Check.ensureSuccess :: s) := by
  intro p hp
  rw [runScript_cons]
  simp only [Step.run, hc, TargetPolicy.invoke_bind, MOZ_ASSERT_bind, Broker.pure_apply,
    Broker.ite_apply, Broker.pure_bind]
  split_ifs
  · rfl
  · rfl
  · exact hK _ hp

theorem follows_mitigations_ensure_i {h : Host} {flags : MitigationFlags} {K : Broker Bool}
    {m : MitigationFlags} {s : List Step} (hK : Broker.follows h K id flags s) :
    Broker.follows h
      (TargetPolicy.SetProcessMitigations flags >>= fun result =>
        MOZ_ASSERT h (SBOX_ALL_OK == result) >>= fun _ =>
          if (SBOX_ALL_OK != result) = true then pure false
          else (pure PUnit.unit >>= fun _ => K)) id m
      (Step.call (PolicyCall.SetProcessMitigations flags) Check.ensureSuccess :: s) := by
  intro p hp
  rw [runScript_cons]
  simp only [Step.run, perform, TargetPolicy.SetProcessMitigations_bind, MOZ_ASSERT_bind,
    Broker.pure_apply, Broker.ite_apply, Broker.pure_bind]
  by_cases hr : p.respond p.log.length (PolicyCall.SetProcessMitigations flags) = SBOX_ALL_OK
  · simp only [hr, if_true, beq_self_eq_true, Bool.not_true, Bool.and_false, bne_self_eq_false]
    exact hK _ rfl
  · have hb : (SBOX_ALL_OK == p.respond p.log.length (PolicyCall.SetProcessMitigations flags))
        = false := by simpa using fun he => hr he.symm
    have hn : (SBOX_ALL_OK != p.respond p.log.length (PolicyCall.SetProcessMitigations flags))
        = true := by simp [bne, hb]
    simp only [hb, hn, if_neg hr, Bool.not_false, Bool.and_true, if_true]
    split_ifs <;> rfl

theorem follows_assertOnly_i {α : Type} {h : Host} {c : PolicyCall} {K : Broker α}
    {ret : α → Bool} {m : MitigationFlags} {s : List Step}
    (hc : perform c = TargetPolicy.invoke c) (hK : Broker.follows h K ret m s) :
    Broker.follows h
      (TargetPolicy.invoke c >>= fun result =>
        MOZ_ASSERT h (SBOX_ALL_OK == result) >>= fun _ => K) ret m
      (Step.call c Check.assertOnly :: s) := by
  intro p hp
  rw [runScript_cons]
  simp only [Step.run, hc, TargetPolicy.invoke_bind, MOZ_ASSERT_bind, Broker.pure_apply]
  split_ifs
  · rfl
  · exact hK _ hp

theorem follows_dirRule_i {α : Type} {h : Host} {aAccess : Semantics}
    {aBaseDir : Option nsString} {aRelativePath : nsString} {K : Broker α}
    {ret : α → Bool} {m : MitigationFlags} {s : List Step}
    (hK : Broker.follows h K ret m s) :
    Broker.follows h (AddCachedDirRule aAccess aBaseDir aRelativePath >>= fun _ => K) ret m
      (dirRuleSteps aAccess aBaseDir aRelativePath ++ s) := by
  cases aBaseDir with
  | none => exact hK
  | some baseDir =>
    intro p hp
    show _ = runScript h (_ :: s) p
    rw [runScript_cons]
    exact hK _ hp

theorem Broker.follows_assoc_i {α β γ : Type} {h : Host} {x : Broker β} {f : β → Broker γ}
    {g : γ → Broker α} {ret : α → Bool} {m : MitigationFlags} {s : List Step}
    (hx : Broker.follows h (x >>= fun b => f b >>= g) ret m s) :
    Broker.follows h ((x >>= f) >>= g) ret m s := by
  intro p hp
  have := hx p hp
  show ((Outcome.map ret (Broker.bind (Broker.bind x f) g p).1,
    (Broker.bind (Broker.bind x f) g p).2) : Outcome Bool × TargetPolicy) = _
  rw [← this]
  show _ = ((Outcome.map ret (Broker.bind x (fun b => Broker.bind (f b) g) p).1,
    (Broker.bind x (fun b => Broker.bind (f b) g) p).2) : Outcome Bool × TargetPolicy)
  unfold Broker.bind
  rcases x p with ⟨o, q⟩
  cases o <;> rfl

theorem Broker.follows_pure_bind_i {α β : Type} {h : Host} {b : β} {K : β → Broker α}
    {ret : α → Bool} {m : MitigationFlags} {s : List Step}
    (hK : Broker.follows h (K b) ret m s) :
    Broker.follows h (pure b >>= K) ret m s := hK

theorem Broker.follows_block_i {α : Type} {h : Host} {c : Prop} {_ : Decidable c}
    {X Y : Broker Unit} {K : Broker α} {ret : α → Bool} {m : MitigationFlags}
    {sx sy s : List Step}
    (hX : ∀ (K' : Broker α) (s' : List Step), Broker.follows h K' ret m s' →
      Broker.follows h (X >>= fun _ => K') ret m (sx ++ s'))
    (hY : ∀ (K' : Broker α) (s' : List Step), Broker.follows h K' ret m s' →
      Broker.follows h (Y >>= fun _ => K') ret m (sy ++ s'))
    (hK : Broker.follows h K ret m s) :
    Broker.follows h ((if c then X else Y) >>= fun _ => K) ret m
      ((if c then sx else sy) ++ s) := by
  split_ifs
  · exact hX K s hK
  · exact hY K s hK

theorem Broker.follows_nil_append_i {α : Type} {h : Host} {x : Broker α} {ret : α → Bool}
    {m : MitigationFlags} {s : List Step} (hx : Broker.follows h x ret m s) :
    Broker.follows h x ret m ([] ++ s) := hx

theorem Broker.follows_cons_append_i {α : Type} {h : Host} {x : Broker α} {ret : α → Bool}
    {m : MitigationFlags} {a : Step} {s t : List Step}
    (hx : Broker.follows h x ret m (a :: (s ++ t))) :
    Broker.follows h x ret m ((a :: s) ++ t) := hx

theorem TargetPolicy.GetProcessMitigations_bind {β : Type} (f : MitigationFlags → Broker β)
    (p : TargetPolicy) : (TargetPolicy.GetProcessMitigations >>= f) p = f p.mitigations p := rfl

theorem TargetPolicy.invokeVoid_bind {β : Type} (c : PolicyCall) (f : Unit → Broker β)
    (p : TargetPolicy) :
    (TargetPolicy.invokeVoid c >>= f) p = f () { p with log := p.log ++ [⟨c, SBOX_ALL_OK⟩] } :=
  rfl

theorem Broker.bind_assoc_apply {α β γ : Type} (x : Broker α) (f : α → Broker β)
    (g : β → Broker γ) (p : TargetPolicy) :
    ((x >>= f) >>= g) p = (x >>= fun a => f a >>= g) p := by
  show Broker.bind (Broker.bind x f) g p = Broker.bind x (fun a => Broker.bind (f a) g) p
  unfold Broker.bind
  rcases x p with ⟨o, q⟩
  cases o <;> rfl

theorem Broker.bind_assoc {α β γ : Type} (x : Broker α) (f : α → Broker β)
    (g : β → Broker γ) : (x >>= f) >>= g = x >>= fun a => f a >>= g :=
  funext (Broker.bind_assoc_apply x f g)

theorem Broker.pure_bind_eq {α β : Type} (a : α) (f : α → Broker β) : pure a >>= f = f a := rfl

theorem Broker.ite_bind {α β : Type} (c : Prop) [Decidable c] (x y : Broker α)
    (k : α → Broker β) : (if c then x else y) >>= k = if c then x >>= k else y >>= k := by
  split_ifs <;> rfl

theorem ite_bne_OK {α : Type} (r : ResultCode) (x y : α) :
    (if (r != SBOX_ALL_OK) = true then x else y) = if r = SBOX_ALL_OK then y else x := by
  by_cases hr : r = SBOX_ALL_OK <;> simp [hr]

/-- What `AddWin32kLockdownPolicy` followed by `k` does on a policy object whose
word does not hold `MITIGATION_WIN32K_DISABLE`. -/
theorem AddWin32kLockdownPolicy_bind {β : Type} (h : Host) (aEnableOpm : Bool)
    (k : ResultCode → Broker β) (p : TargetPolicy)
    (hp : MITIGATION_WIN32K_DISABLE ∉ p.mitigations) :
    (AddWin32kLockdownPolicy h aEnableOpm >>= k) p =
      if h.IsWin8OrLater then
        (TargetPolicy.SetProcessMitigations (p.mitigations ∪ {MITIGATION_WIN32K_DISABLE})
          >>= fun r1 =>
            if r1 = SBOX_ALL_OK then
              TargetPolicy.invoke (PolicyCall.AddRule SUBSYS_WIN32K_LOCKDOWN
                (if aEnableOpm then IMPLEMENT_OPM_APIS else FAKE_USER_GDI_INIT) none)
              >>= fun r2 =>
                if r2 = SBOX_ALL_OK then
                  (if aEnableOpm then
                    TargetPolicy.invokeVoid PolicyCall.SetEnableOPMRedirection
                   else pure ()) >>= fun _ => k r2
                else k r2
            else k r1) p
      else k SBOX_ALL_OK p := by
  unfold AddWin32kLockdownPolicy
  cases hw : h.IsWin8OrLater
  · rfl
  · simp only [Bool.not_true, Bool.false_eq_true, if_false, if_true, Broker.bind_assoc,
      Broker.pure_bind_eq, Broker.ite_bind]
    rw [TargetPolicy.GetProcessMitigations_bind, MOZ_ASSERT_bind]
    have hm : decide (MITIGATION_WIN32K_DISABLE ∈ p.mitigations) = false := by simpa using hp
    simp only [hm, Bool.not_false, Bool.not_true, Bool.and_false, Bool.false_eq_true, if_false]
    simp only [ite_bne_OK]

/-! ## Steps and scripts, run on a policy object -/

theorem perform_apply (c : PolicyCall) (p : TargetPolicy) :
    perform c p = (Outcome.returned (p.respond p.log.length c),
      p.extended [⟨c, p.respond p.log.length c⟩] (wordAfter p.mitigations
        [⟨c, p.respond p.log.length c⟩])) := by
  cases c <;> rfl

theorem perform_bind {β : Type} (c : PolicyCall) (f : ResultCode → Broker β)
    (p : TargetPolicy) :
    (perform c >>= f) p = f (p.respond p.log.length c)
      (p.extended [⟨c, p.respond p.log.length c⟩] (wordAfter p.mitigations
        [⟨c, p.respond p.log.length c⟩])) := by
  show Broker.bind (perform c) f p = _
  unfold Broker.bind
  rw [perform_apply]

theorem Step.run_call (h : Host) (c : PolicyCall) (check : Check) (p : TargetPolicy) :
    (Step.call c check).run h p =
      (if check.passes h (p.respond p.log.length c) then Outcome.returned true
        else check.stops h,
       if check = Check.void then p.extended [⟨c, SBOX_ALL_OK⟩] p.mitigations
       else (perform c p).2) := by
  cases check
  · rfl
  all_goals
    simp only [Step.run, perform_bind, Broker.pure_apply, Check.passes, Check.logged,
      MOZ_RELEASE_ASSERT_bind, MOZ_ASSERT_bind, Check.stops, Broker.ite_apply, Broker.pure_bind,
      perform_apply]
    by_cases hr : p.respond p.log.length c = SBOX_ALL_OK
    · simp [hr]
    · have : ¬ SBOX_ALL_OK = p.respond p.log.length c := fun he => hr he.symm
      cases h.DEBUG <;> simp [hr, this]

theorem Step.run_call_log (h : Host) (c : PolicyCall) (check : Check) (p : TargetPolicy) :
    ∃ m, (Step.call c check).run h p =
      (if check.passes h (p.respond p.log.length c) then Outcome.returned true
        else check.stops h,
       p.extended [⟨c, check.logged (p.respond p.log.length c)⟩] m) := by
  rw [Step.run_call]
  cases check
  · exact ⟨_, rfl⟩
  all_goals exact ⟨_, by rw [perform_apply]; rfl⟩

theorem Step.run_pair (h : Host) (first second : PolicyCall) (p : TargetPolicy) :
    ∃ m, (Step.pair first second).run h p =
      (Outcome.returned true,
       p.extended
        (if p.respond p.log.length first = SBOX_ALL_OK then
          [⟨first, p.respond p.log.length first⟩,
           ⟨second, p.respond (p.log.length + 1) second⟩]
         else [⟨first, p.respond p.log.length first⟩]) m) := by
  by_cases hr : p.respond p.log.length first = SBOX_ALL_OK
  · refine ⟨wordAfter (wordAfter p.mitigations [⟨first, p.respond p.log.length first⟩])
      [⟨second, p.respond (p.log.length + 1) second⟩], ?_⟩
    simp only [Step.run, perform_bind, Broker.pure_apply, Broker.ite_apply, Broker.pure_bind,
      ite_bne_OK, hr, if_true]
    simp [TargetPolicy.extended, hr]
  · refine ⟨wordAfter p.mitigations [⟨first, p.respond p.log.length first⟩], ?_⟩
    simp only [Step.run, perform_bind, Broker.pure_apply, Broker.ite_apply, Broker.pure_bind,
      ite_bne_OK, hr, if_false]

/-- A run of a script: how it ends, what it logs, and that the policy object
goes on answering as before. -/
theorem runScript_eq (h : Host) (script : List Step) :
    ∀ p : TargetPolicy,
      (runScript h script p).1 = scriptOutcome h p.respond script p.log.length ∧
      (runScript h script p).2.log = p.log ++ scriptLog h p.respond script p.log.length ∧
      (runScript h script p).2.respond = p.respond := by
  induction script with
  | nil => intro p; simp [runScript_nil, scriptOutcome, scriptLog]
  | cons s rest ih =>
    intro p
    rw [runScript_cons]
    cases s with
    | call c check =>
      obtain ⟨m, hrun⟩ := Step.run_call_log h c check p
      rw [hrun]
      by_cases hpass : check.passes h (p.respond p.log.length c) = true
      · simp only [hpass, if_true, scriptOutcome, scriptLog]
        have := ih (p.extended [⟨c, check.logged (p.respond p.log.length c)⟩] m)
        simpa [TargetPolicy.extended] using this
      · simp only [hpass, if_false, scriptOutcome, scriptLog, Bool.false_eq_true]
        cases check <;> simp [Check.passes] at hpass <;>
          cases hd : h.DEBUG <;> simp_all [Check.stops, Check.passes, TargetPolicy.extended]
    | pair first second =>
      obtain ⟨m, hrun⟩ := Step.run_pair h first second p
      rw [hrun]
      by_cases hr : p.respond p.log.length first = SBOX_ALL_OK
      · simp only [hr, if_true, scriptOutcome, scriptLog]
        have := ih (p.extended [⟨first, SBOX_ALL_OK⟩,
           ⟨second, p.respond (p.log.length + 1) second⟩] m)
        simpa [TargetPolicy.extended] using this
      · simp only [hr, if_false, scriptOutcome, scriptLog]
        have := ih (p.extended [⟨first, p.respond p.log.length first⟩] m)
        simpa [TargetPolicy.extended] using this

/-- A call of `AddWin32kLockdownPolicy` on a policy object whose word `flags`
does not hold `MITIGATION_WIN32K_DISABLE`, with what follows it: when what
follows ends the run as `check` does after a result other than `SBOX_ALL_OK`,
the whole does what the steps of the helper under `check` do. -/
theorem follows_win32k_i {α : Type} {h : Host} {flags : MitigationFlags} {aEnableOpm : Bool}
    {check : Check} {k : ResultCode → Broker α} {ret : α → Bool} {s : List Step}
    (hcheck : check = Check.releaseAssert ∨ check = Check.ensureSuccess)
    (hflags : MITIGATION_WIN32K_DISABLE ∉ flags)
    (hbad : ∀ r, r ≠ SBOX_ALL_OK → ∀ q : TargetPolicy,
      (((k r q).1.map ret, (k r q).2) : Outcome Bool × TargetPolicy) = (check.stops h, q))
    (hok : Broker.follows h (k SBOX_ALL_OK) ret
      (if h.IsWin8OrLater then flags ∪ {MITIGATION_WIN32K_DISABLE} else flags) s) :
    Broker.follows h (AddWin32kLockdownPolicy h aEnableOpm >>= k) ret flags
      (win32kSteps h flags aEnableOpm check ++ s) := by
  intro p hp
  rw [AddWin32kLockdownPolicy_bind h aEnableOpm k p (hp ▸ hflags)]
  unfold win32kSteps
  cases hw : h.IsWin8OrLater
  · simp only [Bool.false_eq_true, if_false, List.nil_append]
    exact hok p (by simp [hw, hp])
  · simp only [if_true, List.cons_append, List.nil_append, List.append_assoc]
    have hpass : check.passes h SBOX_ALL_OK = true := by
      rcases hcheck with rfl | rfl <;> rfl
    have hstop : ∀ r, r ≠ SBOX_ALL_OK → check.passes h r = false := by
      intro r hr
      rcases hcheck with rfl | rfl <;> simpa [Check.passes] using hr
    have hvoid : check ≠ Check.void := by rcases hcheck with rfl | rfl <;> decide
    rw [hp, TargetPolicy.SetProcessMitigations_bind, runScript_cons, Step.run_call, if_neg hvoid]
    by_cases hr1 : p.respond p.log.length
        (PolicyCall.SetProcessMitigations (flags ∪ {MITIGATION_WIN32K_DISABLE})) = SBOX_ALL_OK
    · simp only [hr1, if_true, hpass, perform_apply, wordAfter, TargetPolicy.extended]
      rw [TargetPolicy.invoke_bind, runScript_cons, Step.run_call, if_neg hvoid]
      simp only [List.length_append, List.length_singleton]
      by_cases hr2 : p.respond (p.log.length + 1)
          (PolicyCall.AddRule SUBSYS_WIN32K_LOCKDOWN
            (if aEnableOpm = true then IMPLEMENT_OPM_APIS else FAKE_USER_GDI_INIT) none)
            = SBOX_ALL_OK
      · simp only [hr2, if_true, hpass, perform_apply, wordAfter, TargetPolicy.extended,
          List.length_append, List.length_singleton]
        cases aEnableOpm
        · simp only [Bool.false_eq_true, if_false, List.nil_append, Broker.pure_bind]
          refine hok _ ?_
          simp [hw]
        · simp only [if_true, List.cons_append, List.nil_append,
            TargetPolicy.invokeVoid_bind]
          rw [runScript_cons, Step.run_call]
          simp only [Check.passes, if_true, TargetPolicy.extended]
          refine hok _ ?_
          simp [hw]
      · simp only [hr2, if_false, hstop _ hr2, Bool.false_eq_true]
        rw [hbad _ hr2]
        rcases hcheck with rfl | rfl
        · simp [Check.stops, perform_apply, TargetPolicy.extended, wordAfter, hr1]
        · simp [Check.stops, perform_apply, TargetPolicy.extended, wordAfter, hr1]
          split_ifs
          all_goals simp
    · simp only [hr1, if_false, hstop _ hr1, Bool.false_eq_true]
      rw [hbad _ hr1]
      rcases hcheck with rfl | rfl
      · simp [Check.stops, perform_apply, TargetPolicy.extended, wordAfter, hr1]
      · simp [Check.stops, perform_apply, TargetPolicy.extended, wordAfter, hr1]
        split_ifs
        all_goals simp

theorem follows_pure_true_i {h : Host} {m : MitigationFlags} :
    Broker.follows h (pure true) id m [] := Broker.follows_pure h true id m rfl

/-- The win32k block of the RDD, socket and GMP procedures, whose result is
under `SANDBOX_ENSURE_SUCCESS`. -/
theorem follows_win32k_ensure_i {h : Host} {pref aEnableOpm : Bool} {flags : MitigationFlags}
    {K : Broker Bool} {s : List Step}
    (hflags : MITIGATION_WIN32K_DISABLE ∉ flags)
    (hK : ∀ m, Broker.follows h K id m s) :
    Broker.follows h
      ((if pref = true then
          (AddWin32kLockdownPolicy h aEnableOpm >>= fun result =>
            MOZ_ASSERT h (SBOX_ALL_OK == result) >>= fun _ => pure result)
        else pure SBOX_ALL_OK) >>= fun win32k =>
        if (SBOX_ALL_OK != win32k) = true then pure false
        else (pure PUnit.unit >>= fun _ => K)) id flags
      ((if pref = true then win32kSteps h flags aEnableOpm Check.ensureSuccess else []) ++ s) := by
  cases pref
  · exact hK flags
  · simp only [if_true]
    apply Broker.follows_assoc_i
    refine follows_win32k_i (Or.inr rfl) hflags ?_ ?_
    · intro r hr q
      have hb : (SBOX_ALL_OK == r) = false := by simpa using fun he => hr he.symm
      have hn : (SBOX_ALL_OK != r) = true := by simp [bne, hb]
      simp only [Broker.bind_assoc_apply, MOZ_ASSERT_bind, hb, hn, Bool.not_false,
        Bool.and_true, Check.stops, Broker.pure_bind, if_true]
      cases h.DEBUG <;> rfl
    · intro p hp
      rw [← hK _ p hp]
      simp only [Broker.bind_assoc_apply, MOZ_ASSERT_bind, beq_self_eq_true, Bool.not_true,
        Bool.and_false, Bool.false_eq_true, if_false, Broker.pure_bind, bne_self_eq_false]

/-- The win32k block of the content procedure, whose result is under
`MOZ_RELEASE_ASSERT`. -/
theorem follows_win32k_release_i {α : Type} {h : Host} {pref aEnableOpm : Bool}
    {flags : MitigationFlags} {K : Broker α} {ret : α → Bool} {s : List Step}
    (hflags : MITIGATION_WIN32K_DISABLE ∉ flags)
    (hK : ∀ m, Broker.follows h K ret m s) :
    Broker.follows h
      ((if pref = true then
          (AddWin32kLockdownPolicy h aEnableOpm >>= fun result =>
            MOZ_RELEASE_ASSERT (result == SBOX_ALL_OK))
        else pure PUnit.unit) >>= fun _ => K) ret flags
      ((if pref = true then win32kSteps h flags aEnableOpm Check.releaseAssert else []) ++ s) := by
  cases pref
  · exact hK flags
  · simp only [if_true]
    apply Broker.follows_assoc_i
    refine follows_win32k_i (Or.inl rfl) hflags ?_ ?_
    · intro r hr q
      have hb : (r == SBOX_ALL_OK) = false := by simpa using hr
      simp only [Broker.bind_assoc_apply, MOZ_RELEASE_ASSERT_bind, hb, Check.stops,
        Bool.false_eq_true, if_false]
      rfl
    · intro p hp
      rw [← hK _ p hp]
      simp only [Broker.bind_assoc_apply, MOZ_RELEASE_ASSERT_bind, beq_self_eq_true, if_true]

/-- The rule of the `#ifdef DEBUG` block of the GMP procedure. -/
theorem follows_debug_rule_i {h : Host} {c : PolicyCall} {K : Broker Bool}
    {m : MitigationFlags} {s : List Step}
    (hc : perform c = TargetPolicy.invoke c) (hK : Broker.follows h K id m s) :
    Broker.follows h
      ((if h.DEBUG = true then
          (TargetPolicy.invoke c >>= fun result =>
            MOZ_ASSERT h (SBOX_ALL_OK == result) >>= fun _ => pure result)
        else pure SBOX_ALL_OK) >>= fun debugRule =>
        if (SBOX_ALL_OK != debugRule) = true then pure false
        else (pure PUnit.unit >>= fun _ => K)) id m
      ((if h.DEBUG = true then [Step.call c Check.ensureSuccess] else []) ++ s) := by
  cases hd : h.DEBUG
  · exact hK
  · simp only [if_true, List.cons_append, List.nil_append]
    apply Broker.follows_assoc_i
    intro p hp
    rw [runScript_cons]
    simp only [Step.run, hc, TargetPolicy.invoke_bind, MOZ_ASSERT_bind, Broker.pure_apply,
      Broker.ite_apply, Broker.pure_bind, Broker.bind_assoc_apply]
    split_ifs
    · rfl
    · rfl
    · exact hK _ hp

theorem Member.falseWithoutPolicy_follows {h : Host} {body : Broker Bool}
    {script : List Step} (hbody : ∀ m, Broker.follows h body id m script)
    (p : TargetPolicy) :
    Member.falseWithoutPolicy body (some p) =
      ((runScript h script p).1, some (runScript h script p).2) := by
  have := hbody p.mitigations p rfl
  rw [← this]
  show ((body p).1, some (body p).2) = _
  cases (body p).1 <;> rfl

theorem rdd_follows (h : Host) (p : TargetPolicy) :
    SetSecurityLevelForRDDProcess h (some p) =
      ((runScript h (rddScript h) p).1, some (runScript h (rddScript h) p).2) := by
  unfold SetSecurityLevelForRDDProcess
  refine Member.falseWithoutPolicy_follows (fun m => ?_) p
  simp only [SetJobLevel_eq,
      TargetPolicy.SetTokenLevel, TargetPolicy.SetIntegrityLevel,
      TargetPolicy.SetDelayedIntegrityLevel, TargetPolicy.SetLockdownDefaultDacl,
      TargetPolicy.AddRestrictingRandomSid, TargetPolicy.SetAlternateDesktop,
      TargetPolicy.SetDelayedProcessMitigations, TargetPolicy.AddRule,
      rddScript, rddStepsBeforeWin32k, rddStepsAfterWin32k, rddMitigations, ruleStep,
      jobLevelCall, List.cons_append, List.nil_append, List.append_assoc]
  repeat' first
    | with_reducible apply follows_pure_true_i
    | (with_reducible apply follows_ensure_i) <;> [rfl; skip]
    | with_reducible apply follows_mitigations_ensure_i
    | with_reducible apply follows_void_i
    | (with_reducible apply follows_unchecked_i) <;> [rfl; skip]
    | (with_reducible apply follows_win32k_ensure_i) <;> [decide; intro m]

theorem Member.releaseAssertPolicy_follows {h : Host} {body : Broker Unit}
    {script : List Step} (hbody : ∀ m, Broker.follows h body (fun _ => true) m script)
    (p : TargetPolicy) :
    (((Member.releaseAssertPolicy body (some p)).1.map (fun _ => true),
        (Member.releaseAssertPolicy body (some p)).2) : Outcome Bool × Option TargetPolicy) =
      ((runScript h script p).1, some (runScript h script p).2) := by
  have := hbody p.mitigations p rfl
  rw [← this]
  rfl

theorem ContentProcessLevels_eq_pure (h : Host) (aSandboxLevel : Int)
    (ht : 1 ≤ aSandboxLevel) :
    ContentProcessLevels h aSandboxLevel = pure (contentLevelsOf aSandboxLevel) := by
  unfold ContentProcessLevels contentLevelsOf
  split_ifs
  · rfl
  · rfl
  · rfl
  · rfl
  · have h1 : decide (aSandboxLevel = 1) = true := decide_eq_true (by omega)
    funext p
    rw [MOZ_ASSERT_bind, h1]
    simp

theorem GPUProcessLevels_eq_pure (aSandboxLevel : Int) (ht : 1 ≤ aSandboxLevel) :
    GPUProcessLevels aSandboxLevel = pure (gpuLevelsOf aSandboxLevel) := by
  unfold GPUProcessLevels gpuLevelsOf
  split_ifs
  · rfl
  · have h1 : decide (aSandboxLevel ≥ 1) = true := decide_eq_true ht
    funext p
    rw [MOZ_RELEASE_ASSERT_bind, h1]
    rfl

theorem follows_ContentProcessLevels_i {α : Type} {h : Host} {aSandboxLevel : Int}
    {K : Levels → Broker α} {ret : α → Bool} {m : MitigationFlags} {s : List Step}
    (ht : 1 ≤ aSandboxLevel)
    (hK : Broker.follows h (K (contentLevelsOf aSandboxLevel)) ret m s) :
    Broker.follows h (ContentProcessLevels h aSandboxLevel >>= K) ret m s := by
  rw [ContentProcessLevels_eq_pure h aSandboxLevel ht]
  exact hK

theorem follows_GPUProcessLevels_i {α : Type} {h : Host} {aSandboxLevel : Int}
    {K : Levels → Broker α} {ret : α → Bool} {m : MitigationFlags} {s : List Step}
    (ht : 1 ≤ aSandboxLevel)
    (hK : Broker.follows h (K (gpuLevelsOf aSandboxLevel)) ret m s) :
    Broker.follows h (GPUProcessLevels aSandboxLevel >>= K) ret m s := by
  rw [GPUProcessLevels_eq_pure aSandboxLevel ht]
  exact hK

theorem follows_level_assert_i {α : Type} {h : Host} {aSandboxLevel : Int}
    {K : Broker α} {ret : α → Bool} {m : MitigationFlags} {s : List Step}
    (ht : 1 ≤ aSandboxLevel) (hK : Broker.follows h K ret m s) :
    Broker.follows h (MOZ_RELEASE_ASSERT (decide (aSandboxLevel ≥ 1)) >>= fun _ => K)
      ret m s := by
  have h1 : decide (aSandboxLevel ≥ 1) = true := decide_eq_true ht
  rw [h1]
  exact hK

theorem Broker.follows_append_assoc_i {α : Type} {h : Host} {x : Broker α} {ret : α → Bool}
    {m : MitigationFlags} {a b c : List Step}
    (hx : Broker.follows h x ret m (a ++ (b ++ c))) :
    Broker.follows h x ret m ((a ++ b) ++ c) := by
  rw [List.append_assoc]
  exact hx

/-- The lambda that adds the two shader cache rules, of which the caller drops
the result. -/
theorem follows_addShaderCacheRules_i {α : Type} {h : Host} {getPath : Option nsString}
    {K : Broker α} {ret : α → Bool} {m : MitigationFlags} {s : List Step}
    (hK : ∀ m, Broker.follows h K ret m s) :
    Broker.follows h
      ((addShaderCacheRules getPath >>= fun _ => pure PUnit.unit) >>= fun _ => K) ret m
      (shaderCacheSteps (some getPath) ++ s) := by
  cases getPath with
  | none => exact hK m
  | some path =>
    unfold addShaderCacheRules shaderCacheSteps
    by_cases he : path.isEmpty = true
    · simp only [he, if_true]
      exact hK m
    · intro p hp
      simp only [he, Bool.false_eq_true, if_false, List.cons_append, List.nil_append,
        TargetPolicy.AddRule, shaderCacheBase]
      rw [runScript_cons]
      simp only [Step.run, perform, Broker.bind_assoc_apply, TargetPolicy.invoke_bind,
        Broker.ite_apply, Broker.pure_bind, ite_bne_OK, Broker.ite_bind, List.append_assoc]
      repeat' first
        | exact hK _ _ rfl
        | split_ifs
        | simp only [TargetPolicy.invoke_bind, Broker.pure_bind, Broker.ite_apply, ite_bne_OK]

theorem socket_follows (h : Host) (p : TargetPolicy) :
    SetSecurityLevelForSocketProcess h (some p) =
      ((runScript h (socketScript h) p).1, some (runScript h (socketScript h) p).2) := by
  unfold SetSecurityLevelForSocketProcess
  refine Member.falseWithoutPolicy_follows (fun m => ?_) p
  simp only [SetJobLevel_eq,
      TargetPolicy.SetTokenLevel, TargetPolicy.SetIntegrityLevel,
      TargetPolicy.SetDelayedIntegrityLevel, TargetPolicy.SetLockdownDefaultDacl,
      TargetPolicy.AddRestrictingRandomSid, TargetPolicy.SetAlternateDesktop,
      TargetPolicy.SetDelayedProcessMitigations, TargetPolicy.AddRule,
      socketScript, socketStepsBeforeWin32k, socketStepsAfterWin32k, rddMitigations, ruleStep,
      jobLevelCall, List.cons_append, List.nil_append, List.append_assoc]
  repeat' first
    | with_reducible apply follows_pure_true_i
    | (with_reducible apply follows_ensure_i) <;> [rfl; skip]
    | with_reducible apply follows_mitigations_ensure_i
    | with_reducible apply follows_void_i
    | (with_reducible apply follows_unchecked_i) <;> [rfl; skip]
    | (with_reducible apply follows_win32k_ensure_i) <;> [decide; intro m]

theorem gmp_follows (h : Host) (aLevel : SandboxLevel) (aIsRemoteLaunch : Bool)
    (p : TargetPolicy) :
    SetSecurityLevelForGMPlugin h aLevel aIsRemoteLaunch (some p) =
      ((runScript h (gmpScript h aLevel aIsRemoteLaunch) p).1,
        some (runScript h (gmpScript h aLevel aIsRemoteLaunch) p).2) := by
  unfold SetSecurityLevelForGMPlugin
  refine Member.falseWithoutPolicy_follows (fun m => ?_) p
  simp only [SetJobLevel_eq,
      TargetPolicy.SetTokenLevel, TargetPolicy.SetIntegrityLevel,
      TargetPolicy.SetDelayedIntegrityLevel, TargetPolicy.SetLockdownDefaultDacl,
      TargetPolicy.AddRestrictingRandomSid, TargetPolicy.SetAlternateDesktop,
      TargetPolicy.SetDelayedProcessMitigations, TargetPolicy.AddRule,
      gmpScript, gmpStepsBeforeWin32k, gmpStepsAfterWin32k, gmpHandleStep, gmpMitigations, ruleStep,
      jobLevelCall, List.cons_append, List.nil_append, List.append_assoc]
  repeat' first
    | with_reducible apply follows_pure_true_i
    | (with_reducible apply follows_ensure_i) <;> [rfl; skip]
    | with_reducible apply follows_mitigations_ensure_i
    | (with_reducible apply follows_assertOnly_i) <;> [rfl; skip]
    | with_reducible apply follows_void_i
    | (with_reducible apply follows_unchecked_i) <;> [rfl; skip]
    | (with_reducible apply follows_win32k_ensure_i) <;> [decide; intro m]
    | (with_reducible apply follows_debug_rule_i) <;> [rfl; skip]

theorem plugin_follows (h : Host) (aSandboxLevel : Int) (p : TargetPolicy) :
    SetSecurityLevelForPluginProcess h aSandboxLevel (some p) =
      ((runScript h (pluginScript h aSandboxLevel) p).1,
        some (runScript h (pluginScript h aSandboxLevel) p).2) := by
  unfold SetSecurityLevelForPluginProcess
  refine Member.falseWithoutPolicy_follows (fun m => ?_) p
  simp only [SetJobLevel_eq,
      TargetPolicy.SetTokenLevel, TargetPolicy.SetIntegrityLevel,
      TargetPolicy.SetDelayedIntegrityLevel, TargetPolicy.SetLockdownDefaultDacl,
      TargetPolicy.AddRestrictingRandomSid, TargetPolicy.SetAlternateDesktop,
      TargetPolicy.SetDelayedProcessMitigations, TargetPolicy.AddRule,
      pluginScript, ruleStep,
      jobLevelCall, List.cons_append, List.nil_append, List.append_assoc]
  repeat' first
    | assumption
    | with_reducible apply follows_pure_true_i
    | (with_reducible apply follows_ensure_i) <;> [rfl; skip]
    | with_reducible apply follows_mitigations_ensure_i
    | with_reducible apply follows_void_i
    | (with_reducible apply follows_unchecked_i) <;> [rfl; skip]
    | with_reducible apply follows_dirRule_i
    | (with_reducible apply Broker.follows_block_i) <;>
        [(intro K' s' hK'); (intro K' s' hK'); skip]
    | with_reducible apply Broker.follows_nil_append_i
    | with_reducible apply Broker.follows_cons_append_i
    | with_reducible apply Broker.follows_append_assoc_i
    | with_reducible apply Broker.follows_pure_bind_i
    | with_reducible apply Broker.follows_assoc_i

theorem content_follows (h : Host) (aSandboxLevel : Int) (aIsFileProcess : Bool)
    (ht : 1 ≤ aSandboxLevel) (p : TargetPolicy) :
    (((SetSecurityLevelForContentProcess h aSandboxLevel aIsFileProcess (some p)).1.map
        (fun _ => true),
      (SetSecurityLevelForContentProcess h aSandboxLevel aIsFileProcess (some p)).2) :
        Outcome Bool × Option TargetPolicy) =
      ((runScript h (contentScript h aSandboxLevel aIsFileProcess) p).1,
        some (runScript h (contentScript h aSandboxLevel aIsFileProcess) p).2) := by
  unfold SetSecurityLevelForContentProcess
  refine Member.releaseAssertPolicy_follows (fun m => ?_) p
  simp only [SetJobLevel_eq,
      TargetPolicy.SetTokenLevel, TargetPolicy.SetIntegrityLevel,
      TargetPolicy.SetDelayedIntegrityLevel, TargetPolicy.SetLockdownDefaultDacl,
      TargetPolicy.AddRestrictingRandomSid, TargetPolicy.SetAlternateDesktop,
      TargetPolicy.SetDelayedProcessMitigations, TargetPolicy.AddRule,
      contentScript, contentStepsBeforeWin32k, contentStepsAfterWin32k, contentClamped,
      ruleStep, jobLevelCall, List.cons_append, List.nil_append, List.append_assoc]
  repeat' first
    | assumption
    | (with_reducible apply follows_level_assert_i) <;> [exact ht; skip]
    | (with_reducible apply follows_ContentProcessLevels_i) <;> [exact ht; skip]
    | (with_reducible apply follows_release_last_i) <;> [rfl; rfl]
    | (with_reducible apply follows_release_i) <;> [rfl; skip]
    | with_reducible apply follows_mitigations_release_i
    | with_reducible apply follows_void_i
    | (with_reducible apply follows_unchecked_i) <;> [rfl; skip]
    | with_reducible apply follows_dirRule_i
    | (with_reducible apply follows_win32k_release_i) <;>
        [exact WIN32K_DISABLE_not_mem_ContentProcessMitigations _ _; intro m]
    | (with_reducible apply Broker.follows_block_i) <;>
        [(intro K' s' hK'); (intro K' s' hK'); skip]
    | with_reducible apply Broker.follows_nil_append_i
    | with_reducible apply Broker.follows_cons_append_i
    | with_reducible apply Broker.follows_append_assoc_i
    | with_reducible apply Broker.follows_pure_bind_i
    | with_reducible apply Broker.follows_assoc_i

theorem gpu_follows (h : Host) (aSandboxLevel : Int) (aProfileDir : Option (Option nsString))
    (ht : 1 ≤ aSandboxLevel) (p : TargetPolicy) :
    (((SetSecurityLevelForGPUProcess h aSandboxLevel aProfileDir (some p)).1.map
        (fun _ => true),
      (SetSecurityLevelForGPUProcess h aSandboxLevel aProfileDir (some p)).2) :
        Outcome Bool × Option TargetPolicy) =
      ((runScript h (gpuScript h aSandboxLevel aProfileDir) p).1,
        some (runScript h (gpuScript h aSandboxLevel aProfileDir) p).2) := by
  unfold SetSecurityLevelForGPUProcess
  refine Member.releaseAssertPolicy_follows (fun m => ?_) p
  cases aProfileDir with
  | none =>
    simp only [SetJobLevel_eq,
      TargetPolicy.SetTokenLevel, TargetPolicy.SetIntegrityLevel,
      TargetPolicy.SetDelayedIntegrityLevel, TargetPolicy.SetLockdownDefaultDacl,
      TargetPolicy.AddRestrictingRandomSid, TargetPolicy.SetAlternateDesktop,
      TargetPolicy.SetDelayedProcessMitigations, TargetPolicy.AddRule,
      gpuScript, gpuStepsBeforeShaderCache, gpuSectionSteps, shaderCacheSteps,
      ruleStep, jobLevelCall, List.cons_append, List.nil_append, List.append_assoc]
    repeat' first
      | (with_reducible apply follows_GPUProcessLevels_i) <;> [exact ht; skip]
      | (with_reducible apply follows_release_last_i) <;> [rfl; rfl]
      | (with_reducible apply follows_release_i) <;> [rfl; skip]
      | with_reducible apply follows_mitigations_release_i
      | with_reducible apply follows_void_i
      | with_reducible apply Broker.follows_pure_bind_i
  | some getPath =>
    simp only [SetJobLevel_eq,
      TargetPolicy.SetTokenLevel, TargetPolicy.SetIntegrityLevel,
      TargetPolicy.SetDelayedIntegrityLevel, TargetPolicy.SetLockdownDefaultDacl,
      TargetPolicy.AddRestrictingRandomSid, TargetPolicy.SetAlternateDesktop,
      TargetPolicy.SetDelayedProcessMitigations, TargetPolicy.AddRule,
      gpuScript, gpuStepsBeforeShaderCache, gpuSectionSteps,
      ruleStep, jobLevelCall, List.cons_append, List.nil_append, List.append_assoc]
    repeat' first
      | (with_reducible apply follows_GPUProcessLevels_i) <;> [exact ht; skip]
      | (with_reducible apply follows_release_last_i) <;> [rfl; rfl]
      | (with_reducible apply follows_release_i) <;> [rfl; skip]
      | with_reducible apply follows_mitigations_release_i
      | with_reducible apply follows_void_i
      | (with_reducible apply follows_addShaderCacheRules_i) <;> [intro m]
      | with_reducible apply Broker.follows_pure_bind_i

/-! ## What the run of a script logs -/

theorem Check.stops_ne_true (h : Host) (check : Check) :
    check.stops h ≠ Outcome.returned true := by
  cases check <;> simp [Check.stops]
  split_ifs <;> simp

theorem Check.passes_OK (h : Host) (check : Check) : check.passes h SBOX_ALL_OK = true := by
  cases check <;> simp [Check.passes]

theorem Check.not_passes (h : Host) (check : Check) (r : ResultCode)
    (hr : check.passes h r = false) : check.logged r = r ∧ r ≠ SBOX_ALL_OK := by
  cases check <;> simp_all [Check.passes, Check.logged]

theorem scriptLog_scriptOutcome_append (h : Host) (respond : Nat → PolicyCall → ResultCode)
    (A B : List Step) : ∀ n,
    scriptLog h respond (A ++ B) n = scriptLog h respond A n ++
      (if scriptOutcome h respond A n = Outcome.returned true then
        scriptLog h respond B (n + (scriptLog h respond A n).length) else []) ∧
    scriptOutcome h respond (A ++ B) n =
      (if scriptOutcome h respond A n = Outcome.returned true then
        scriptOutcome h respond B (n + (scriptLog h respond A n).length)
       else scriptOutcome h respond A n) := by
  induction A with
  | nil => intro n; simp [scriptLog, scriptOutcome]
  | cons s A ih =>
    intro n
    have e : (s :: A) ++ B = s :: (A ++ B) := rfl
    rw [e]
    cases s with
    | call c check =>
      by_cases hp : check.passes h (respond n c) = true
      · obtain ⟨h1, h2⟩ := ih (n + 1)
        have : n + 1 + (scriptLog h respond A (n + 1)).length
            = n + ((scriptLog h respond A (n + 1)).length + 1) := by omega
        simp only [scriptLog, scriptOutcome, hp, if_true, List.length_cons]
        rw [h1, h2, this]
        constructor <;> first | rfl | trivial
      · simp only [scriptLog, scriptOutcome, hp, Bool.false_eq_true, if_false,
          Check.stops_ne_true]
        constructor <;> first | rfl | trivial
    | pair first second =>
      by_cases hr : respond n first = SBOX_ALL_OK
      · obtain ⟨h1, h2⟩ := ih (n + 2)
        have : n + 2 + (scriptLog h respond A (n + 2)).length
            = n + ((scriptLog h respond A (n + 2)).length + 1 + 1) := by omega
        simp only [scriptLog, scriptOutcome, hr, if_true, List.length_cons]
        rw [h1, h2, this]
        constructor <;> first | rfl | trivial
      · obtain ⟨h1, h2⟩ := ih (n + 1)
        have : n + 1 + (scriptLog h respond A (n + 1)).length
            = n + ((scriptLog h respond A (n + 1)).length + 1) := by omega
        simp only [scriptLog, scriptOutcome, hr, if_false, List.length_cons]
        rw [h1, h2, this]
        constructor <;> first | rfl | trivial

theorem scriptCalls_cons (s : Step) (S : List Step) :
    scriptCalls (s :: S) = s.calls ++ scriptCalls S := by
  simp [scriptCalls]

theorem scriptCalls_append (A B : List Step) :
    scriptCalls (A ++ B) = scriptCalls A ++ scriptCalls B := by
  simp [scriptCalls]

theorem mem_scriptLog_call (h : Host) (respond : Nat → PolicyCall → ResultCode)
    (S : List Step) : ∀ n, ∀ e ∈ scriptLog h respond S n, e.call ∈ scriptCalls S := by
  induction S with
  | nil => intro n e he; simp [scriptLog] at he
  | cons s S ih =>
    intro n e he
    rw [scriptCalls_cons]
    cases s with
    | call c check =>
      simp only [scriptLog, List.mem_cons] at he
      rcases he with rfl | he
      · simp [Step.calls]
      · split_ifs at he
        · exact List.mem_append_right _ (ih _ e he)
        · simp at he
    | pair first second =>
      simp only [scriptLog] at he
      split_ifs at he
      · simp only [List.mem_cons] at he
        rcases he with rfl | rfl | he
        · simp [Step.calls]
        · simp [Step.calls]
        · exact List.mem_append_right _ (ih _ e he)
      · simp only [List.mem_cons] at he
        rcases he with rfl | he
        · simp [Step.calls]
        · exact List.mem_append_right _ (ih _ e he)

theorem mem_scriptCalls_avoids (f : PolicyCall → Bool) (S : List Step)
    (hS : S.all (Step.avoids f) = true) (c : PolicyCall) (hc : c ∈ scriptCalls S) :
    f c = false := by
  simp only [scriptCalls, List.mem_flatMap] at hc
  obtain ⟨s, hs, hcs⟩ := hc
  have := List.all_eq_true.1 hS s hs
  simp only [Step.avoids, List.all_eq_true] at this
  simpa using this c hcs

theorem filter_scriptLog_avoids (h : Host) (respond : Nat → PolicyCall → ResultCode)
    (f : PolicyCall → Bool) (S : List Step) (hS : S.all (Step.avoids f) = true) (n : Nat) :
    (scriptLog h respond S n).filter (fun e => f e.call) = [] := by
  rw [List.filter_eq_nil_iff]
  intro e he
  simp [mem_scriptCalls_avoids f S hS _ (mem_scriptLog_call h respond S n e he)]

/-- A script of single calls: the calls made are the first calls of the
script, and all of them when the run goes through every step. -/
theorem scriptLog_calls_initial (h : Host) (respond : Nat → PolicyCall → ResultCode)
    (S : List Step) (hS : S.all Step.isCall = true) : ∀ n,
    (scriptLog h respond S n).map LoggedCall.call <+: scriptCalls S ∧
    (scriptOutcome h respond S n = Outcome.returned true →
      (scriptLog h respond S n).map LoggedCall.call = scriptCalls S) := by
  induction S with
  | nil => intro n; simp [scriptLog, scriptCalls]
  | cons s S ih =>
    intro n
    simp only [List.all_cons, Bool.and_eq_true] at hS
    cases s with
    | pair first second => simp [Step.isCall, Step.checkIn] at hS
    | call c check =>
      obtain ⟨h1, h2⟩ := ih hS.2 (n + 1)
      rw [scriptCalls_cons]
      simp only [scriptLog, scriptOutcome, Step.calls, List.map_cons, List.singleton_append]
      by_cases hp : check.passes h (respond n c) = true
      · simp only [hp, if_true]
        exact ⟨(List.prefix_cons_inj c).2 h1, fun ho => by rw [h2 ho]⟩
      · simp only [hp, Bool.false_eq_true, if_false, List.map_nil]
        exact ⟨(List.prefix_cons_inj c).2 <| List.nil_prefix, fun ho =>
          absurd ho (Check.stops_ne_true h check)⟩

/-- A run that does not go through every step of its script ends right after a
call that returned a code other than `SBOX_ALL_OK`; it ends as the check of
that call says. -/
theorem scriptOutcome_stopped (h : Host) (respond : Nat → PolicyCall → ResultCode)
    (S : List Step) : ∀ n, scriptOutcome h respond S n ≠ Outcome.returned true →
    ∃ es c r, scriptLog h respond S n = es ++ [⟨c, r⟩] ∧ r ≠ SBOX_ALL_OK := by
  induction S with
  | nil => intro n hn; simp [scriptOutcome] at hn
  | cons s S ih =>
    intro n hn
    cases s with
    | call c check =>
      simp only [scriptLog, scriptOutcome] at hn ⊢
      by_cases hp : check.passes h (respond n c) = true
      · simp only [hp, if_true] at hn ⊢
        obtain ⟨es, c', r, hes, hr⟩ := ih (n + 1) hn
        exact ⟨_ :: es, c', r, by rw [hes]; rfl, hr⟩
      · simp only [hp, Bool.false_eq_true, if_false]
        have := Check.not_passes h check _ (by simpa using hp)
        exact ⟨[], c, respond n c, by rw [this.1]; rfl, this.2⟩
    | pair first second =>
      simp only [scriptLog, scriptOutcome] at hn ⊢
      by_cases hr : respond n first = SBOX_ALL_OK
      · simp only [hr, if_true] at hn ⊢
        obtain ⟨es, c', r, hes, hr'⟩ := ih (n + 2) hn
        exact ⟨_ :: _ :: es, c', r, by rw [hes]; rfl, hr'⟩
      · simp only [hr, if_false] at hn ⊢
        obtain ⟨es, c', r, hes, hr'⟩ := ih (n + 1) hn
        exact ⟨_ :: es, c', r, by rw [hes]; rfl, hr'⟩

/-- When the policy object accepts every call of the script, the run goes
through every step and logs every call of the script as accepted. -/
theorem scriptLog_accepting (h : Host) (respond : Nat → PolicyCall → ResultCode)
    (S : List Step) (hacc : ∀ n, ∀ c ∈ scriptCalls S, respond n c = SBOX_ALL_OK) : ∀ n,
    scriptOutcome h respond S n = Outcome.returned true ∧
    scriptLog h respond S n = (scriptCalls S).map fun c => ⟨c, SBOX_ALL_OK⟩ := by
  induction S with
  | nil => intro n; simp [scriptLog, scriptOutcome, scriptCalls]
  | cons s S ih =>
    intro n
    rw [scriptCalls_cons] at hacc ⊢
    have ih' := ih (fun n c hc => hacc n c (List.mem_append_right _ hc))
    cases s with
    | call c check =>
      have hc : respond n c = SBOX_ALL_OK := hacc n c (by simp [Step.calls])
      have hl : check.logged SBOX_ALL_OK = SBOX_ALL_OK := by
        cases check <;> simp [Check.logged]
      simp only [scriptLog, scriptOutcome, hc, Check.passes_OK, if_true, (ih' _).1, (ih' _).2,
        Step.calls, List.singleton_append, List.map_cons, hl]
      constructor <;> first | rfl | trivial
    | pair first second =>
      have h1 : respond n first = SBOX_ALL_OK := hacc n first (by simp [Step.calls])
      have h2 : respond (n + 1) second = SBOX_ALL_OK := hacc _ second (by simp [Step.calls])
      simp only [scriptLog, scriptOutcome, h1, h2, if_true, (ih' _).1, (ih' _).2,
        Step.calls, List.cons_append, List.nil_append, List.map_cons]
      constructor <;> first | rfl | trivial

theorem Outcome.map_id {α : Type} (o : Outcome α) : o.map id = o := by
  cases o <;> rfl

/-- What a member function that runs a script leaves behind on the policy
object `p`: how it ends and what it logs are those of the script, read off the
answers of the policy object. -/
theorem Member.runsScript_eq {α : Type} {h : Host} {x : Member α} {ret : α → Bool}
    {script : List Step} (hx : Member.runsScript h x ret script) (p : TargetPolicy) :
    (x (some p)).1.map ret = scriptOutcome h p.respond script p.log.length ∧
    loggedCalls (x (some p)) = p.log ++ scriptLog h p.respond script p.log.length ∧
    ∃ q, (x (some p)).2 = some q ∧ q.respond = p.respond := by
  have hrun := hx p
  obtain ⟨h1, h2, h3⟩ := runScript_eq h script p
  have ha : (x (some p)).1.map ret = (runScript h script p).1 := congrArg Prod.fst hrun
  have hb : (x (some p)).2 = some (runScript h script p).2 := congrArg Prod.snd hrun
  refine ⟨ha.trans h1, ?_, _, hb, h3⟩
  simp only [loggedCalls, hb]
  exact h2

theorem rdd_runsScript (h : Host) :
    Member.runsScript h (SetSecurityLevelForRDDProcess h) id (rddScript h) := by
  intro p
  rw [rdd_follows, Outcome.map_id]

theorem socket_runsScript (h : Host) :
    Member.runsScript h (SetSecurityLevelForSocketProcess h) id (socketScript h) := by
  intro p
  rw [socket_follows, Outcome.map_id]

theorem gmp_runsScript (h : Host) (aLevel : SandboxLevel) (aIsRemoteLaunch : Bool) :
    Member.runsScript h (SetSecurityLevelForGMPlugin h aLevel aIsRemoteLaunch) id
      (gmpScript h aLevel aIsRemoteLaunch) := by
  intro p
  rw [gmp_follows, Outcome.map_id]

theorem plugin_runsScript (h : Host) (aSandboxLevel : Int) :
    Member.runsScript h (SetSecurityLevelForPluginProcess h aSandboxLevel) id
      (pluginScript h aSandboxLevel) := by
  intro p
  rw [plugin_follows, Outcome.map_id]

theorem content_runsScript (h : Host) (aSandboxLevel : Int) (aIsFileProcess : Bool)
    (ht : 1 ≤ aSandboxLevel) :
    Member.runsScript h (SetSecurityLevelForContentProcess h aSandboxLevel aIsFileProcess)
      (fun _ => true) (contentScript h aSandboxLevel aIsFileProcess) :=
  fun p => content_follows h aSandboxLevel aIsFileProcess ht p

theorem gpu_runsScript (h : Host) (aSandboxLevel : Int)
    (aProfileDir : Option (Option nsString)) (ht : 1 ≤ aSandboxLevel) :
    Member.runsScript h (SetSecurityLevelForGPUProcess h aSandboxLevel aProfileDir)
      (fun _ => true) (gpuScript h aSandboxLevel aProfileDir) :=
  fun p => gpu_follows h aSandboxLevel aProfileDir ht p

theorem runScript_append (h : Host) (A B : List Step) : ∀ p : TargetPolicy,
    runScript h (A ++ B) p =
      match runScript h A p with
      | (Outcome.returned true, q) => runScript h B q
      | (Outcome.returned false, q) => (Outcome.returned false, q)
      | (Outcome.crashed, q) => (Outcome.crashed, q) := by
  induction A with
  | nil => intro p; rfl
  | cons s A ih =>
    intro p
    have e : (s :: A) ++ B = s :: (A ++ B) := rfl
    rw [e, runScript_cons, runScript_cons]
    rcases s.run h p with ⟨o, q⟩
    cases o with
    | returned a => cases a <;> simp [ih]
    | crashed => rfl

/-- After a script that ends with a checked `SetProcessMitigations(flags)` went
through every step, the policy object holds the word `flags`. -/
theorem runScript_mitigations (h : Host) (A : List Step) (flags : MitigationFlags)
    (check : Check) (hcheck : check = Check.releaseAssert ∨ check = Check.ensureSuccess)
    (p q : TargetPolicy)
    (hrun : runScript h (A ++ [Step.call (PolicyCall.SetProcessMitigations flags) check]) p
      = (Outcome.returned true, q)) :
    q.mitigations = flags := by
  rw [runScript_append] at hrun
  rcases hA : runScript h A p with ⟨o, q'⟩
  rw [hA] at hrun
  cases o with
  | crashed => simp at hrun
  | returned a =>
    cases a
    · simp at hrun
    · simp only [runScript_cons, Step.run_call, runScript_nil] at hrun
      have hvoid : check ≠ Check.void := by rcases hcheck with rfl | rfl <;> decide
      rw [if_neg hvoid] at hrun
      by_cases hr : q'.respond q'.log.length (PolicyCall.SetProcessMitigations flags)
          = SBOX_ALL_OK
      · have hpass : check.passes h SBOX_ALL_OK = true := Check.passes_OK h check
        simp only [hr, hpass, if_true, perform_apply, wordAfter] at hrun
        have := congrArg Prod.snd hrun
        simp only [TargetPolicy.extended] at this
        rw [← this]
      · have hstop : check.passes h
            (q'.respond q'.log.length (PolicyCall.SetProcessMitigations flags)) = false := by
          rcases hcheck with rfl | rfl <;> simpa [Check.passes] using hr
        simp only [hstop, Bool.false_eq_true, if_false] at hrun
        have := congrArg Prod.fst hrun
        rcases hcheck with rfl | rfl
        · simp [Check.stops] at this
        · simp only [Check.stops] at this
          split_ifs at this
          simp at this

/-- Entered on a policy object whose word does not hold the flag,
`AddWin32kLockdownPolicy` returns a result code: its assertion holds. -/
theorem AddWin32kLockdownPolicy_returns (h : Host) (aEnableOpm : Bool) (q : TargetPolicy)
    (hq : MITIGATION_WIN32K_DISABLE ∉ q.mitigations) :
    ∃ r q', AddWin32kLockdownPolicy h aEnableOpm q = (Outcome.returned r, q') := by
  have := AddWin32kLockdownPolicy_bind h aEnableOpm pure q hq
  have e : AddWin32kLockdownPolicy h aEnableOpm q
      = (AddWin32kLockdownPolicy h aEnableOpm >>= pure) q := by
    show _ = Broker.bind _ _ q
    unfold Broker.bind
    rcases AddWin32kLockdownPolicy h aEnableOpm q with ⟨o, q'⟩
    cases o <;> rfl
  rw [e, this]
  cases aEnableOpm <;>
  repeat' first
    | exact ⟨_, _, rfl⟩
    | split_ifs
    | simp only [TargetPolicy.SetProcessMitigations_bind, TargetPolicy.invoke_bind,
        TargetPolicy.invokeVoid_bind, Broker.pure_bind, Bool.false_eq_true, if_false, if_true]

/-! ## Runs of the member functions, read off their scripts -/

theorem Member.runsScript_crashed {α : Type} {h : Host} {x : Member α} {ret : α → Bool}
    {script : List Step} (hx : Member.runsScript h x ret script) (p : TargetPolicy)
    (hc : (x (some p)).1 = Outcome.crashed) :
    ∃ es c r, loggedCalls (x (some p)) = p.log ++ es ++ [⟨c, r⟩] ∧ r ≠ SBOX_ALL_OK := by
  obtain ⟨h1, h2, -⟩ := Member.runsScript_eq hx p
  rw [hc] at h1
  obtain ⟨es, c, r, hes, hr⟩ := scriptOutcome_stopped h p.respond script p.log.length
    (by rw [← h1]; simp [Outcome.map])
  exact ⟨es, c, r, by rw [h2, hes, List.append_assoc], hr⟩

theorem Member.runsScript_accepting {α : Type} {h : Host} {x : Member α} {ret : α → Bool}
    {script : List Step} (hx : Member.runsScript h x ret script) (p : TargetPolicy)
    (hacc : ∀ n, ∀ c ∈ scriptCalls script, p.respond n c = SBOX_ALL_OK) :
    ∃ v q, x (some p) = (Outcome.returned v, some q) ∧ ret v = true ∧
      q.respond = p.respond ∧
      q.log = p.log ++ (scriptCalls script).map fun c => ⟨c, SBOX_ALL_OK⟩ := by
  obtain ⟨h1, h2, q, hq, hresp⟩ := Member.runsScript_eq hx p
  obtain ⟨ho, hl⟩ := scriptLog_accepting h p.respond script hacc p.log.length
  rw [ho] at h1
  rw [hl] at h2
  simp only [loggedCalls, hq] at h2
  rcases hv : (x (some p)).1 with v | _
  · rw [hv] at h1
    simp only [Outcome.map, Outcome.returned.injEq] at h1
    exact ⟨v, q, Prod.ext hv hq, h1, hresp, h2⟩
  · rw [hv] at h1
    simp [Outcome.map] at h1

/-! ## The call sites of the win32k lockdown helper -/

theorem content_below_level1_run (h : Host) (aSandboxLevel : Int) (aIsFileProcess : Bool)
    (p : TargetPolicy) (hlevel : aSandboxLevel < 1) :
    SetSecurityLevelForContentProcess h aSandboxLevel aIsFileProcess (some p)
      = (Outcome.crashed, some p) := by
  have hd : decide (aSandboxLevel ≥ 1) = false := by simp; omega
  simp only [SetSecurityLevelForContentProcess, Member.releaseAssertPolicy, hd,
    Broker.bind_apply, Broker.bind, MOZ_RELEASE_ASSERT]
  rfl

theorem win32kCallSite_of_runsScript {α : Type} {h : Host} {x : Member α} {ret : α → Bool}
    {A before after : List Step} {flags : MitigationFlags} {enabled aEnableOpm : Bool}
    {check first : Check}
    (hx : Member.runsScript h x ret
      (before ++ (if enabled then win32kSteps h flags aEnableOpm check else []) ++ after))
    (hbefore : before = A ++ [Step.call (PolicyCall.SetProcessMitigations flags) first])
    (hfirst : first = Check.releaseAssert ∨ first = Check.ensureSuccess)
    (hflags : MITIGATION_WIN32K_DISABLE ∉ flags) :
    Win32kCallSite h x ret before flags enabled aEnableOpm check after := by
  refine ⟨hx, ?_, Member.runsScript_crashed hx, ?_⟩
  · intro p q hrun
    rw [hbefore] at hrun
    have hm := runScript_mitigations h A flags first hfirst p q hrun
    have hq : MITIGATION_WIN32K_DISABLE ∉ q.mitigations := by rw [hm]; exact hflags
    exact ⟨hm, hq, AddWin32kLockdownPolicy_returns h aEnableOpm q hq⟩
  · intro p hacc
    obtain ⟨v, q, hv, -, hresp, -⟩ := Member.runsScript_accepting hx p (fun n c _ => hacc n c)
    obtain ⟨v', q', hv', -⟩ := Member.runsScript_accepting hx q
      (fun n c _ => by rw [hresp]; exact hacc n c)
    exact ⟨v, q, hv, v', q', hv'⟩

/-- C35: at each of the four call sites of `AddWin32kLockdownPolicy` (the
content procedure at a level of at least 1, the RDD, the socket and the GMP
procedure), on every host, for every argument and every policy object the
procedure is run on, whatever it held and logged before and however it
answers: the procedure does what its script does, in which the steps of the
helper directly follow the checked `SetProcessMitigations` of the procedure;
whenever the steps before the helper went through, the policy object holds
that word, `MITIGATION_WIN32K_DISABLE` is not in it, and the helper entered
there returns a result code instead of stopping at its assertion; a run stops
at a fatal assertion only right after a rejected call; and on a policy object
that accepts every call the procedure returns, also when it is run a second
time on the policy object it left.  Below level 1 the content procedure stops
at its first assertion and leaves the policy object as it was, so that the
helper is not entered. -/
theorem win32k_lockdown_entered_without_its_flag (h : Host) (aSandboxLevel : Int)
    (aIsFileProcess : Bool) (aLevel : SandboxLevel) (aIsRemoteLaunch : Bool)
    (ht : 1 ≤ aSandboxLevel) :
    Win32kCallSite h (SetSecurityLevelForContentProcess h aSandboxLevel aIsFileProcess)
      (fun _ => true) (contentStepsBeforeWin32k h aSandboxLevel aIsFileProcess)
      (ContentProcessMitigations h aSandboxLevel) h.security_sandbox_content_win32k_disable
      false Check.releaseAssert (contentStepsAfterWin32k h aSandboxLevel aIsFileProcess) ∧
    Win32kCallSite h (SetSecurityLevelForRDDProcess h) id (rddStepsBeforeWin32k h)
      rddMitigations h.security_sandbox_rdd_win32k_disable false Check.ensureSuccess
      rddStepsAfterWin32k ∧
    Win32kCallSite h (SetSecurityLevelForSocketProcess h) id (socketStepsBeforeWin32k h)
      rddMitigations h.security_sandbox_socket_win32k_disable false Check.ensureSuccess
      socketStepsAfterWin32k ∧
    Win32kCallSite h (SetSecurityLevelForGMPlugin h aLevel aIsRemoteLaunch) id
      (gmpStepsBeforeWin32k h aLevel) gmpMitigations
      (h.security_sandbox_gmp_win32k_disable && h.IsWin10OrLater) true Check.ensureSuccess
      (gmpStepsAfterWin32k h ++ [gmpHandleStep aIsRemoteLaunch]) ∧
    (∀ (level : Int) (p : TargetPolicy), level < 1 →
      SetSecurityLevelForContentProcess h level aIsFileProcess (some p)
        = (Outcome.crashed, some p)) := by
  refine ⟨?_, ?_, ?_, ?_, fun level p hlevel =>
    content_below_level1_run h level aIsFileProcess p hlevel⟩
  · exact win32kCallSite_of_runsScript
      (content_runsScript h aSandboxLevel aIsFileProcess ht) rfl (Or.inl rfl)
      (WIN32K_DISABLE_not_mem_ContentProcessMitigations h aSandboxLevel)
  · exact win32kCallSite_of_runsScript (A := (rddStepsBeforeWin32k h).take 7)
      (rdd_runsScript h) rfl (Or.inr rfl) (by decide)
  · exact win32kCallSite_of_runsScript (A := (socketStepsBeforeWin32k h).take 7)
      (socket_runsScript h) rfl (Or.inr rfl) (by decide)
  · refine win32kCallSite_of_runsScript (A := (gmpStepsBeforeWin32k h aLevel).take 7)
      ?_ rfl (Or.inr rfl) (by decide)
    have := gmp_runsScript h aLevel aIsRemoteLaunch
    rw [gmpScript, List.append_assoc (gmpStepsBeforeWin32k h aLevel ++ _)] at this
    exact this

/-- On the sample debug host with the win32k preferences on, the content
procedure at level 3 returns on the policy object that already holds
`MITIGATION_WIN32K_DISABLE`, and returns again on the policy object it
left. -/
theorem win32k_lockdown_entered_without_its_flag_witness :
    (1 : Int) ≤ 3 ∧
    ∃ v q, SetSecurityLevelForContentProcess win32kDebugHost 3 false (some lockedDownPolicy)
        = (Outcome.returned v, some q) ∧
      ∃ v' q', SetSecurityLevelForContentProcess win32kDebugHost 3 false (some q)
        = (Outcome.returned v', some q') :=
  ⟨by decide,
    (win32k_lockdown_entered_without_its_flag win32kDebugHost 3 false SandboxLevel.LockDown
      false (by decide)).1.2.2.2 lockedDownPolicy (fun _ _ => rfl)⟩

/-! ## Scripts whose checked calls are under `SANDBOX_ENSURE_SUCCESS` -/

/-- A script whose checked calls are all under `SANDBOX_ENSURE_SUCCESS` or
`MOZ_ASSERT`, with assertions compiled out: the run does not stop at a fatal
assertion, and it returns false exactly when a call under
`SANDBOX_ENSURE_SUCCESS` returned a code other than `SBOX_ALL_OK`, which is
then the last call made, after one call for each step before it. -/
theorem scriptOutcome_ensure (h : Host) (hd : h.DEBUG = false)
    (respond : Nat → PolicyCall → ResultCode) (S : List Step)
    (hS : S.all Step.isEnsureStep = true) : ∀ n,
    scriptOutcome h respond S n ≠ Outcome.crashed ∧
    (scriptOutcome h respond S n = Outcome.returned false ↔
      ∃ pre c rest es r, S = pre ++ Step.call c Check.ensureSuccess :: rest ∧
        scriptLog h respond S n = es ++ [⟨c, r⟩] ∧ es.length = pre.length ∧
        r ≠ SBOX_ALL_OK) := by
  induction S with
  | nil => intro n; simp [scriptOutcome]
  | cons s S ih =>
    intro n
    simp only [List.all_cons, Bool.and_eq_true] at hS
    cases s with
    | pair first second => simp [Step.isEnsureStep, Step.checkIn] at hS
    | call c0 chk =>
      obtain ⟨ih1, ih2⟩ := ih hS.2 (n + 1)
      simp only [scriptOutcome, scriptLog]
      by_cases hp : chk.passes h (respond n c0) = true
      · simp only [hp, if_true]
        refine ⟨ih1, ?_⟩
        rw [ih2]
        constructor
        · rintro ⟨pre, c, rest, es, r, hS', hlog, hlen, hr⟩
          exact ⟨Step.call c0 chk :: pre, c, rest, ⟨c0, chk.logged (respond n c0)⟩ :: es, r,
            by rw [hS']; rfl, by rw [hlog]; rfl, by simp [hlen], hr⟩
        · rintro ⟨pre, c, rest, es, r, hS', hlog, hlen, hr⟩
          cases pre with
          | nil =>
            exfalso
            have hes : es = [] := List.length_eq_zero.1 hlen
            subst hes
            simp only [List.nil_append, List.cons.injEq, Step.call.injEq] at hS' hlog
            obtain ⟨⟨rfl, rfl⟩, -⟩ := hS'
            have hres := congrArg LoggedCall.result hlog.1
            simp only [Check.logged] at hres
            simp [Check.passes] at hp
            simp [hp] at hres
            exact hr hres.symm
          | cons s' pre' =>
            cases es with
            | nil => simp at hlen
            | cons e es' =>
              simp only [List.cons_append, List.cons.injEq] at hS' hlog
              exact ⟨pre', c, rest, es', r, hS'.2, hlog.2, by simpa using hlen, hr⟩
      · simp only [hp, Bool.false_eq_true, if_false]
        have hchk : chk = Check.ensureSuccess := by
          cases chk <;> simp_all [Check.passes, Step.isEnsureStep, Step.checkIn]
        subst hchk
        have hr : respond n c0 ≠ SBOX_ALL_OK := by simpa [Check.passes] using hp
        simp only [Check.stops, hd, Bool.false_eq_true, if_false, Check.logged]
        refine ⟨by simp, ?_⟩
        simp only [true_iff]
        exact ⟨[], c0, S, [], respond n c0, rfl, by simp, rfl, hr⟩

/-! ## What the steps of the scripts are -/

theorem all_ite_steps {g : Step → Bool} {c : Prop} {_ : Decidable c} {a b : List Step}
    (ha : a.all g = true) (hb : b.all g = true) : (if c then a else b).all g = true := by
  split_ifs
  · exact ha
  · exact hb

theorem all_append_steps {g : Step → Bool} {a b : List Step}
    (ha : a.all g = true) (hb : b.all g = true) : (a ++ b).all g = true := by
  simp [ha, hb]

theorem all_cons_steps {g : Step → Bool} {s : Step} {a : List Step}
    (hs : g s = true) (ha : a.all g = true) : (s :: a).all g = true := by
  simp [hs, ha]

theorem all_dirRuleSteps {g : Step → Bool} {aAccess : Semantics} {aBaseDir : Option nsString}
    {aRelativePath : nsString}
    (hg : ∀ pat, g (Step.call (PolicyCall.AddRule SUBSYS_FILES aAccess pat) Check.unchecked)
      = true) :
    (dirRuleSteps aAccess aBaseDir aRelativePath).all g = true := by
  cases aBaseDir <;> simp [dirRuleSteps, hg]

theorem all_win32kSteps {g : Step → Bool} {h : Host} {flags : MitigationFlags}
    {aEnableOpm : Bool} {check : Check}
    (hg1 : ∀ word, g (Step.call (PolicyCall.SetProcessMitigations word) check) = true)
    (hg2 : ∀ a, g (Step.call (PolicyCall.AddRule SUBSYS_WIN32K_LOCKDOWN a none) check) = true)
    (hg3 : g (Step.call PolicyCall.SetEnableOPMRedirection Check.void) = true) :
    (win32kSteps h flags aEnableOpm check).all g = true := by
  unfold win32kSteps
  cases h.IsWin8OrLater <;> cases aEnableOpm <;> simp [hg1, hg2, hg3]

theorem all_isCall_of_isEnsureStep {S : List Step} (hS : S.all Step.isEnsureStep = true) :
    S.all Step.isCall = true := by
  rw [List.all_eq_true] at hS ⊢
  intro s hs
  have := hS s hs
  cases s <;> simp_all [Step.isEnsureStep, Step.isCall, Step.checkIn]

theorem rddScript_isEnsureStep (h : Host) : (rddScript h).all Step.isEnsureStep = true := by
  simp only [rddScript, rddStepsBeforeWin32k, rddStepsAfterWin32k, ruleStep, List.all_append,
    List.all_cons, List.all_nil, Bool.and_eq_true, Bool.and_true]
  repeat' first
    | apply And.intro
    | apply all_ite_steps
    | apply all_append_steps
    | apply all_cons_steps
    | apply all_dirRuleSteps
    | apply all_win32kSteps
    | intro _
    | rfl

theorem socketScript_isEnsureStep (h : Host) :
    (socketScript h).all Step.isEnsureStep = true := by
  simp only [socketScript, socketStepsBeforeWin32k, socketStepsAfterWin32k, ruleStep,
    List.all_append, List.all_cons, List.all_nil, Bool.and_eq_true, Bool.and_true]
  repeat' first
    | apply And.intro
    | apply all_ite_steps
    | apply all_append_steps
    | apply all_cons_steps
    | apply all_dirRuleSteps
    | apply all_win32kSteps
    | intro _
    | rfl

theorem gmpScript_isEnsureStep (h : Host) (aLevel : SandboxLevel) (aIsRemoteLaunch : Bool) :
    (gmpScript h aLevel aIsRemoteLaunch).all Step.isEnsureStep = true := by
  simp only [gmpScript, gmpStepsBeforeWin32k, gmpStepsAfterWin32k, gmpHandleStep, ruleStep,
    List.all_append, List.all_cons, List.all_nil, Bool.and_eq_true, Bool.and_true]
  repeat' first
    | apply And.intro
    | apply all_ite_steps
    | apply all_append_steps
    | apply all_cons_steps
    | apply all_dirRuleSteps
    | apply all_win32kSteps
    | intro _
    | rfl

theorem pluginScript_isEnsureStep (h : Host) (aSandboxLevel : Int) :
    (pluginScript h aSandboxLevel).all Step.isEnsureStep = true := by
  simp only [pluginScript, ruleStep,
    List.all_append, List.all_cons, List.all_nil, Bool.and_eq_true, Bool.and_true]
  repeat' first
    | apply And.intro
    | apply all_ite_steps
    | apply all_append_steps
    | apply all_cons_steps
    | apply all_dirRuleSteps
    | apply all_win32kSteps
    | intro _
    | rfl

/-! ## Procedures guarded by `SANDBOX_ENSURE_SUCCESS` -/

theorem ensureSuccessGuarded_of_runsScript {h : Host} {x : Member Bool} {script : List Step}
    (hd : h.DEBUG = false) (hx : Member.runsScript h x id script)
    (hnone : x none = (Outcome.returned false, none))
    (hS : script.all Step.isEnsureStep = true) : EnsureSuccessGuarded h x script := by
  refine ⟨hx, hnone, fun p => ?_⟩
  obtain ⟨h1, h2, -⟩ := Member.runsScript_eq hx p
  rw [Outcome.map_id] at h1
  obtain ⟨hc, hiff⟩ := scriptOutcome_ensure h hd p.respond script hS p.log.length
  obtain ⟨hpre, hall⟩ := scriptLog_calls_initial h p.respond script
    (all_isCall_of_isEnsureStep hS) p.log.length
  exact ⟨_, h2, by rw [h1]; exact hc, by rw [h1]; exact hiff, hpre, by rw [h1]; exact hall⟩

/-- C36: with assertions compiled out, each of the four procedures guarded by
`SANDBOX_ENSURE_SUCCESS` (RDD, socket, plugin, GMP) returns false without a
policy object, and on a policy object it never stops at a fatal assertion and
returns false exactly when a step under `SANDBOX_ENSURE_SUCCESS` returned a
code other than `SBOX_ALL_OK`; that call is then the last one made, after one
call for each step before it in program order; the calls of every run are the
first calls of the script, and all of them when the run returns true. -/
theorem ensure_success_procedures_stop_at_first_rejection (h : Host) (hd : h.DEBUG = false)
    (aSandboxLevel : Int) (aLevel : SandboxLevel) (aIsRemoteLaunch : Bool) :
    EnsureSuccessGuarded h (SetSecurityLevelForRDDProcess h) (rddScript h) ∧
    EnsureSuccessGuarded h (SetSecurityLevelForSocketProcess h) (socketScript h) ∧
    EnsureSuccessGuarded h (SetSecurityLevelForPluginProcess h aSandboxLevel)
      (pluginScript h aSandboxLevel) ∧
    EnsureSuccessGuarded h (SetSecurityLevelForGMPlugin h aLevel aIsRemoteLaunch)
      (gmpScript h aLevel aIsRemoteLaunch) :=
  ⟨ensureSuccessGuarded_of_runsScript hd (rdd_runsScript h) rfl (rddScript_isEnsureStep h),
   ensureSuccessGuarded_of_runsScript hd (socket_runsScript h) rfl
    (socketScript_isEnsureStep h),
   ensureSuccessGuarded_of_runsScript hd (plugin_runsScript h aSandboxLevel) rfl
    (pluginScript_isEnsureStep h aSandboxLevel),
   ensureSuccessGuarded_of_runsScript hd (gmp_runsScript h aLevel aIsRemoteLaunch) rfl
    (gmpScript_isEnsureStep h aLevel aIsRemoteLaunch)⟩

/-- On the sample release host the four procedures are guarded in this way,
the plugin procedure at level 2 and the GMP procedure for a restricted remote
launch. -/
theorem ensure_success_procedures_stop_at_first_rejection_witness :
    releaseHost.DEBUG = false ∧
    EnsureSuccessGuarded releaseHost (SetSecurityLevelForRDDProcess releaseHost)
      (rddScript releaseHost) ∧
    EnsureSuccessGuarded releaseHost (SetSecurityLevelForSocketProcess releaseHost)
      (socketScript releaseHost) ∧
    EnsureSuccessGuarded releaseHost (SetSecurityLevelForPluginProcess releaseHost 2)
      (pluginScript releaseHost 2) ∧
    EnsureSuccessGuarded releaseHost
      (SetSecurityLevelForGMPlugin releaseHost SandboxLevel.Restricted true)
      (gmpScript releaseHost SandboxLevel.Restricted true) :=
  ⟨rfl, ensure_success_procedures_stop_at_first_rejection releaseHost rfl 2
    SandboxLevel.Restricted true⟩

/-! ## DACL lockdown and random restricting SID -/

theorem scriptLog_append (h : Host) (respond : Nat → PolicyCall → ResultCode)
    (A B : List Step) (n : Nat) :
    scriptLog h respond (A ++ B) n = scriptLog h respond A n ++
      (if scriptOutcome h respond A n = Outcome.returned true then
        scriptLog h respond B (n + (scriptLog h respond A n).length) else []) :=
  (scriptLog_scriptOutcome_append h respond A B n).1

theorem scriptOutcome_append (h : Host) (respond : Nat → PolicyCall → ResultCode)
    (A B : List Step) (n : Nat) :
    scriptOutcome h respond (A ++ B) n =
      (if scriptOutcome h respond A n = Outcome.returned true then
        scriptOutcome h respond B (n + (scriptLog h respond A n).length)
       else scriptOutcome h respond A n) :=
  (scriptLog_scriptOutcome_append h respond A B n).2

theorem Check.passes_iff (h : Host) (check : Check)
    (hcheck : check = Check.releaseAssert ∨ check = Check.ensureSuccess) (r : ResultCode) :
    check.passes h r = true ↔ r = SBOX_ALL_OK := by
  rcases hcheck with rfl | rfl <;> simp [Check.passes]

theorem Check.logged_eq (check : Check)
    (hcheck : check = Check.releaseAssert ∨ check = Check.ensureSuccess) (r : ResultCode) :
    check.logged r = r := by
  rcases hcheck with rfl | rfl <;> simp [Check.logged]

/-- A script with one checked call of the kind `f` picks: the calls of that
kind a run logs are that call, when the steps before it went through, and it
is logged as accepted when the run goes through every step. -/
theorem filter_scriptLog_unique (h : Host) (respond : Nat → PolicyCall → ResultCode)
    (f : PolicyCall → Bool) (A B : List Step) (c : PolicyCall) (check : Check)
    (hA : A.all (Step.avoids f) = true) (hB : B.all (Step.avoids f) = true)
    (hc : f c = true)
    (hcheck : check = Check.releaseAssert ∨ check = Check.ensureSuccess) (n : Nat) :
    (scriptLog h respond (A ++ Step.call c check :: B) n).filter (fun e => f e.call) =
      (if scriptOutcome h respond A n = Outcome.returned true then
        [⟨c, respond (n + (scriptLog h respond A n).length) c⟩] else []) ∧
    (scriptOutcome h respond (A ++ Step.call c check :: B) n = Outcome.returned true →
      scriptOutcome h respond A n = Outcome.returned true ∧
      respond (n + (scriptLog h respond A n).length) c = SBOX_ALL_OK) := by
  rw [scriptLog_append, scriptOutcome_append, List.filter_append,
    filter_scriptLog_avoids h respond f A hA]
  by_cases hok : scriptOutcome h respond A n = Outcome.returned true
  · simp only [hok, if_true, List.nil_append, scriptLog, scriptOutcome,
      Check.logged_eq check hcheck]
    constructor
    · rw [List.filter_cons]
      simp only [hc, if_true]
      congr 1
      split_ifs
      · exact filter_scriptLog_avoids h respond f B hB _
      · rfl
    · intro ho
      refine ⟨trivial, ?_⟩
      by_cases hp : check.passes h (respond (n + (scriptLog h respond A n).length) c) = true
      · exact (Check.passes_iff h check hcheck _).1 hp
      · simp only [hp, Bool.false_eq_true, if_false] at ho
        exact absurd ho (Check.stops_ne_true h check)
  · simp only [hok, if_false, List.filter_nil, List.append_nil]
    refine ⟨trivial, fun ho => ?_⟩
    first
      | exact ho.elim
      | exact absurd ho hok

theorem ite_singleton_cases {α : Type} {c : Prop} {_ : Decidable c} {a : α} {l : List α}
    (hl : l = if c then [a] else []) : l = [] ∨ l = [a] := by
  by_cases hc : c <;> simp [hc, hl]

/-- C34: in every run of `SetSecurityLevelForGMPlugin` the `SUBSYS_HANDLES`
rules asked for are at most one, the rule for "Section" whose access kind is
`HANDLES_DUP_ANY` when `aIsRemoteLaunch` holds and `HANDLES_DUP_BROKER`
otherwise, and the `SetTokenLevel` calls are at most one, with the delayed
level `USER_RESTRICTED` when `aLevel` is `Restricted` and `USER_LOCKDOWN`
otherwise; a run that returns true has made each of the two exactly once and
had it accepted, and on a policy object that accepts every call the run
returns true. -/
theorem gmp_one_section_handle_rule_and_token_level (h : Host) (aLevel : SandboxLevel)
    (aIsRemoteLaunch : Bool) (p : TargetPolicy) :
    ∃ es,
      loggedCalls (SetSecurityLevelForGMPlugin h aLevel aIsRemoteLaunch (some p))
        = p.log ++ es ∧
      (es.filter (fun e => e.call.isHandleRule) = [] ∨
        ∃ r, es.filter (fun e => e.call.isHandleRule) =
          [⟨PolicyCall.AddRule SUBSYS_HANDLES
            (if aIsRemoteLaunch then HANDLES_DUP_ANY else HANDLES_DUP_BROKER)
            (some "Section".toList), r⟩]) ∧
      (es.filter (fun e => e.call.isSetTokenLevel) = [] ∨
        ∃ r, es.filter (fun e => e.call.isSetTokenLevel) =
          [⟨PolicyCall.SetTokenLevel USER_RESTRICTED_SAME_ACCESS
            (if aLevel = SandboxLevel.Restricted then USER_RESTRICTED else USER_LOCKDOWN),
            r⟩]) ∧
      ((SetSecurityLevelForGMPlugin h aLevel aIsRemoteLaunch (some p)).1
          = Outcome.returned true →
        es.filter (fun e => e.call.isHandleRule) =
          [⟨PolicyCall.AddRule SUBSYS_HANDLES
            (if aIsRemoteLaunch then HANDLES_DUP_ANY else HANDLES_DUP_BROKER)
            (some "Section".toList), SBOX_ALL_OK⟩] ∧
        es.filter (fun e => e.call.isSetTokenLevel) =
          [⟨PolicyCall.SetTokenLevel USER_RESTRICTED_SAME_ACCESS
            (if aLevel = SandboxLevel.Restricted then USER_RESTRICTED else USER_LOCKDOWN),
            SBOX_ALL_OK⟩]) ∧
      ((∀ n c, p.respond n c = SBOX_ALL_OK) →
        (SetSecurityLevelForGMPlugin h aLevel aIsRemoteLaunch (some p)).1
          = Outcome.returned true) ∧
      ((if aIsRemoteLaunch then HANDLES_DUP_ANY else HANDLES_DUP_BROKER) = HANDLES_DUP_ANY ↔
        aIsRemoteLaunch = true) ∧
      ((if aLevel = SandboxLevel.Restricted then USER_RESTRICTED else USER_LOCKDOWN)
        = USER_RESTRICTED ↔ aLevel = SandboxLevel.Restricted) := by
  obtain ⟨h1, h2, -⟩ := Member.runsScript_eq (gmp_runsScript h aLevel aIsRemoteLaunch) p
  rw [Outcome.map_id] at h1
  have hSH : gmpScript h aLevel aIsRemoteLaunch =
      (gmpStepsBeforeWin32k h aLevel
        ++ (if h.security_sandbox_gmp_win32k_disable && h.IsWin10OrLater then
              win32kSteps h gmpMitigations true Check.ensureSuccess
            else [])
        ++ gmpStepsAfterWin32k h) ++
      Step.call (PolicyCall.AddRule SUBSYS_HANDLES
        (if aIsRemoteLaunch then HANDLES_DUP_ANY else HANDLES_DUP_BROKER)
        (some "Section".toList)) Check.ensureSuccess :: [] := rfl
  have hST : gmpScript h aLevel aIsRemoteLaunch =
      (gmpScript h aLevel aIsRemoteLaunch).take 1 ++
      Step.call (PolicyCall.SetTokenLevel USER_RESTRICTED_SAME_ACCESS
        (if aLevel = SandboxLevel.Restricted then USER_RESTRICTED else USER_LOCKDOWN))
        Check.ensureSuccess :: (gmpScript h aLevel aIsRemoteLaunch).drop 2 := rfl
  have hAH : (gmpStepsBeforeWin32k h aLevel
        ++ (if h.security_sandbox_gmp_win32k_disable && h.IsWin10OrLater then
              win32kSteps h gmpMitigations true Check.ensureSuccess
            else [])
        ++ gmpStepsAfterWin32k h).all (Step.avoids PolicyCall.isHandleRule) = true := by
    simp only [gmpStepsBeforeWin32k, gmpStepsAfterWin32k, ruleStep]
    repeat' first
      | apply all_ite_steps
      | apply all_append_steps
      | apply all_cons_steps
      | apply all_win32kSteps
      | intro _
      | rfl
  have hBT : ((gmpScript h aLevel aIsRemoteLaunch).drop 2).all
      (Step.avoids PolicyCall.isSetTokenLevel) = true := by
    simp only [gmpScript, gmpStepsBeforeWin32k, gmpStepsAfterWin32k, gmpHandleStep, ruleStep,
      List.cons_append, List.nil_append, List.drop_succ_cons, List.drop_zero]
    repeat' first
      | apply all_ite_steps
      | apply all_append_steps
      | apply all_cons_steps
      | apply all_win32kSteps
      | intro _
      | rfl
  obtain ⟨hH1, hH2⟩ := filter_scriptLog_unique h p.respond PolicyCall.isHandleRule _ []
    (PolicyCall.AddRule SUBSYS_HANDLES
      (if aIsRemoteLaunch then HANDLES_DUP_ANY else HANDLES_DUP_BROKER)
      (some "Section".toList)) Check.ensureSuccess hAH rfl rfl (Or.inr rfl) p.log.length
  obtain ⟨hT1, hT2⟩ := filter_scriptLog_unique h p.respond PolicyCall.isSetTokenLevel
    ((gmpScript h aLevel aIsRemoteLaunch).take 1) ((gmpScript h aLevel aIsRemoteLaunch).drop 2)
    (PolicyCall.SetTokenLevel USER_RESTRICTED_SAME_ACCESS
      (if aLevel = SandboxLevel.Restricted then USER_RESTRICTED else USER_LOCKDOWN))
    Check.ensureSuccess rfl hBT rfl (Or.inr rfl) p.log.length
  rw [← hSH] at hH1 hH2
  rw [← hST] at hT1 hT2
  refine ⟨_, h2, ?_, ?_, ?_, ?_, ?_, ?_⟩
  · rcases ite_singleton_cases hH1 with e | e
    · exact Or.inl e
    · exact Or.inr ⟨_, e⟩
  · rcases ite_singleton_cases hT1 with e | e
    · exact Or.inl e
    · exact Or.inr ⟨_, e⟩
  · intro hret
    rw [h1] at hret
    obtain ⟨ha, hr⟩ := hH2 hret
    obtain ⟨ha', hr'⟩ := hT2 hret
    rw [hH1, hT1, if_pos ha, if_pos ha', hr, hr']
    exact ⟨rfl, rfl⟩
  · intro hacc
    rw [h1]
    exact (scriptLog_accepting h p.respond _ (fun n c _ => hacc n c) _).1
  · cases aIsRemoteLaunch <;> simp
  · cases aLevel <;> simp

/-! ## Shader cache rules of the GPU procedure -/

theorem scriptOutcome_shaderCacheSteps (h : Host) (respond : Nat → PolicyCall → ResultCode)
    (aProfileDir : Option (Option nsString)) (n : Nat) :
    scriptOutcome h respond (shaderCacheSteps aProfileDir) n = Outcome.returned true := by
  unfold shaderCacheSteps
  split
  · split_ifs
    · rfl
    · simp only [scriptOutcome]
      split_ifs <;> rfl
  · rfl

theorem scriptLog_shaderCacheSteps (h : Host) (respond : Nat → PolicyCall → ResultCode)
    (path : nsString) (hpath : path ≠ []) (n : Nat) :
    scriptLog h respond (shaderCacheSteps (some (some path))) n =
      if respond n (PolicyCall.AddRule SUBSYS_FILES FILES_ALLOW_DIR_ANY
          (some (shaderCacheBase path))) = SBOX_ALL_OK then
        [⟨PolicyCall.AddRule SUBSYS_FILES FILES_ALLOW_DIR_ANY (some (shaderCacheBase path)),
            SBOX_ALL_OK⟩,
          ⟨PolicyCall.AddRule SUBSYS_FILES FILES_ALLOW_ANY
            (some (shaderCacheBase path ++ "\\*".toList)),
            respond (n + 1) (PolicyCall.AddRule SUBSYS_FILES FILES_ALLOW_ANY
              (some (shaderCacheBase path ++ "\\*".toList)))⟩]
      else
        [⟨PolicyCall.AddRule SUBSYS_FILES FILES_ALLOW_DIR_ANY (some (shaderCacheBase path)),
            respond n (PolicyCall.AddRule SUBSYS_FILES FILES_ALLOW_DIR_ANY
              (some (shaderCacheBase path)))⟩] := by
  have he : path.isEmpty = false := by
    cases path with
    | nil => exact absurd rfl hpath
    | cons a l => rfl
  simp only [shaderCacheSteps, he, Bool.false_eq_true, if_false, scriptLog]
  by_cases hr : respond n (PolicyCall.AddRule SUBSYS_FILES FILES_ALLOW_DIR_ANY
      (some (shaderCacheBase path))) = SBOX_ALL_OK
  · simp only [hr, if_true]
  · simp only [hr, if_false]

theorem scriptLog_shaderCacheSteps_none (h : Host) (respond : Nat → PolicyCall → ResultCode)
    (aProfileDir : Option (Option nsString))
    (hdir : aProfileDir = none ∨ aProfileDir = some none ∨ aProfileDir = some (some []))
    (n : Nat) : scriptLog h respond (shaderCacheSteps aProfileDir) n = [] := by
  rcases hdir with rfl | rfl | rfl <;> rfl

/-- C32: at a level of at least 1 and on a policy object that accepts the
calls of the other steps, `SetSecurityLevelForGPUProcess` returns, and what it
logs is: the calls of its steps before the shader cache rules, all accepted;
then, for a profile directory with a non-empty path, the rule
`(SUBSYS_FILES, FILES_ALLOW_DIR_ANY, n(path) ++ "\shader-cache")` and, only
when that rule was accepted, after it the rule
`(SUBSYS_FILES, FILES_ALLOW_ANY, n(path) ++ "\shader-cache\*")`, each with
whatever result the policy object gave, and no call when the profile
directory is absent, its path is unavailable or its path is empty; then the
two handle rules for "Section", accepted. -/
theorem gpu_shader_cache_rules_are_best_effort (h : Host) (aSandboxLevel : Int)
    (aProfileDir : Option (Option nsString)) (p : TargetPolicy) (ht : 1 ≤ aSandboxLevel)
    (hacc : ∀ n, ∀ c ∈ scriptCalls (gpuStepsBeforeShaderCache h aSandboxLevel
      ++ gpuSectionSteps), p.respond n c = SBOX_ALL_OK) :
    ∃ q shader,
      SetSecurityLevelForGPUProcess h aSandboxLevel aProfileDir (some p)
        = (Outcome.returned (), some q) ∧
      q.log = p.log
        ++ (scriptCalls (gpuStepsBeforeShaderCache h aSandboxLevel)).map
            (fun c => ⟨c, SBOX_ALL_OK⟩)
        ++ shader
        ++ [⟨PolicyCall.AddRule SUBSYS_HANDLES HANDLES_DUP_BROKER (some "Section".toList),
              SBOX_ALL_OK⟩,
            ⟨PolicyCall.AddRule SUBSYS_HANDLES HANDLES_DUP_ANY (some "Section".toList),
              SBOX_ALL_OK⟩] ∧
      (∀ path, aProfileDir = some (some path) → path ≠ [] →
        shader =
          if p.respond (p.log.length + 10) (PolicyCall.AddRule SUBSYS_FILES
              FILES_ALLOW_DIR_ANY (some (shaderCacheBase path))) = SBOX_ALL_OK then
            [⟨PolicyCall.AddRule SUBSYS_FILES FILES_ALLOW_DIR_ANY
                (some (shaderCacheBase path)), SBOX_ALL_OK⟩,
              ⟨PolicyCall.AddRule SUBSYS_FILES FILES_ALLOW_ANY
                (some (shaderCacheBase path ++ "\\*".toList)),
                p.respond (p.log.length + 11) (PolicyCall.AddRule SUBSYS_FILES FILES_ALLOW_ANY
                  (some (shaderCacheBase path ++ "\\*".toList)))⟩]
          else
            [⟨PolicyCall.AddRule SUBSYS_FILES FILES_ALLOW_DIR_ANY
                (some (shaderCacheBase path)),
                p.respond (p.log.length + 10) (PolicyCall.AddRule SUBSYS_FILES
                  FILES_ALLOW_DIR_ANY (some (shaderCacheBase path)))⟩]) ∧
      (aProfileDir = none ∨ aProfileDir = some none ∨ aProfileDir = some (some []) →
        shader = []) := by
  obtain ⟨h1, h2, q, hq, -⟩ :=
    Member.runsScript_eq (gpu_runsScript h aSandboxLevel aProfileDir ht) p
  have hfront := scriptLog_accepting h p.respond (gpuStepsBeforeShaderCache h aSandboxLevel)
    (fun n c hc => hacc n c (by rw [scriptCalls_append]; exact List.mem_append_left _ hc))
    p.log.length
  have htail : ∀ n, scriptOutcome h p.respond gpuSectionSteps n = Outcome.returned true ∧
      scriptLog h p.respond gpuSectionSteps n =
        (scriptCalls gpuSectionSteps).map fun c => ⟨c, SBOX_ALL_OK⟩ :=
    scriptLog_accepting h p.respond gpuSectionSteps
      (fun n c hc => hacc n c (by rw [scriptCalls_append]; exact List.mem_append_right _ hc))
  have hlen : (scriptLog h p.respond (gpuStepsBeforeShaderCache h aSandboxLevel)
      p.log.length).length = 10 := by
    rw [hfront.2]
    rfl
  have ho : scriptOutcome h p.respond (gpuScript h aSandboxLevel aProfileDir) p.log.length
      = Outcome.returned true := by
    rw [gpuScript, scriptOutcome_append, scriptOutcome_append, hfront.1]
    simp only [if_true, scriptOutcome_shaderCacheSteps, (htail _).1]
  have hl : scriptLog h p.respond (gpuScript h aSandboxLevel aProfileDir) p.log.length =
      (scriptCalls (gpuStepsBeforeShaderCache h aSandboxLevel)).map
          (fun c => ⟨c, SBOX_ALL_OK⟩)
        ++ scriptLog h p.respond (shaderCacheSteps aProfileDir) (p.log.length + 10)
        ++ [⟨PolicyCall.AddRule SUBSYS_HANDLES HANDLES_DUP_BROKER (some "Section".toList),
              SBOX_ALL_OK⟩,
            ⟨PolicyCall.AddRule SUBSYS_HANDLES HANDLES_DUP_ANY (some "Section".toList),
              SBOX_ALL_OK⟩] := by
    rw [gpuScript, scriptLog_append, scriptOutcome_append, scriptLog_append, hfront.1]
    simp only [if_true, scriptOutcome_shaderCacheSteps, (htail _).2, hlen]
    rw [hfront.2]
    rfl
  rw [ho] at h1
  rw [hl] at h2
  simp only [loggedCalls, hq] at h2
  refine ⟨q, scriptLog h p.respond (shaderCacheSteps aProfileDir) (p.log.length + 10),
    ?_, ?_, ?_, ?_⟩
  · refine Prod.ext ?_ hq
    rcases hv : (SetSecurityLevelForGPUProcess h aSandboxLevel aProfileDir (some p)).1 with v | _
    · rfl
    · rw [hv] at h1
      simp [Outcome.map] at h1
  · rw [h2]
    simp only [List.append_assoc]
  · rintro path rfl hpath
    exact scriptLog_shaderCacheSteps h p.respond path hpath _
  · intro hdir
    exact scriptLog_shaderCacheSteps_none h p.respond aProfileDir hdir _

/-- On the sample release host at level 1, with the accepting policy and the
profile directory `\\srv\p`, the two shader cache rules are added in order,
on the normalised path. -/
theorem gpu_shader_cache_rules_are_best_effort_witness :
    (1 : Int) ≤ 1 ∧
    ∃ q, SetSecurityLevelForGPUProcess releaseHost 1 (some (some "\\\\srv\\p".toList))
        (some acceptingPolicy) = (Outcome.returned (), some q) ∧
      q.log.drop 10 =
        [⟨PolicyCall.AddRule SUBSYS_FILES FILES_ALLOW_DIR_ANY
            (some "\\??\\UNC\\srv\\p\\shader-cache".toList), SBOX_ALL_OK⟩,
          ⟨PolicyCall.AddRule SUBSYS_FILES FILES_ALLOW_ANY
            (some "\\??\\UNC\\srv\\p\\shader-cache\\*".toList), SBOX_ALL_OK⟩,
          ⟨PolicyCall.AddRule SUBSYS_HANDLES HANDLES_DUP_BROKER (some "Section".toList),
            SBOX_ALL_OK⟩,
          ⟨PolicyCall.AddRule SUBSYS_HANDLES HANDLES_DUP_ANY (some "Section".toList),
            SBOX_ALL_OK⟩] := by
  refine ⟨by decide, ?_⟩
  obtain ⟨q, shader, hrun, hlog, hshader, -⟩ :=
    gpu_shader_cache_rules_are_best_effort releaseHost 1 (some (some "\\\\srv\\p".toList))
      acceptingPolicy (by decide) (fun _ _ _ => rfl)
  refine ⟨q, hrun, ?_⟩
  rw [hlog, hshader _ rfl (by decide)]
  rfl

end mozilla
